import Mathlib

/-!
The panda front-end: recursive-descent parser (`lang/parse.c`).

A shallow embedding of the parser of `lang/parse.c` together with the pieces of
its environment that the parser drives: the token stream of the lexer
(`lang/lex.h`), the AST node pool, and the parse-event sink.
The value encoding of `lang/val.h` (tags, predicates, constructors, truthiness)
is embedded after the parser's definitions.

The C functions take `(lex, cb, ud)`; here the lexer, the sink and the node pool
are gathered in one explicit state `pstate` that every function receives and
returns.  A C pointer that may be `NULL` is a value of `expr_t` / `stmt_t` whose
constructor `NULL` stands for the null pointer.  The mutually recursive
functions carry a fuel argument bounding the depth of calls; `none` means the
fuel ran out, and is distinct from the C function returning `NULL`.
-/

set_option maxRecDepth 8000
set_option maxHeartbeats 1600000
set_option linter.unusedTactic false
set_option linter.unreachableTactic false
set_option linter.unusedVariables false

/-! ## Tokens (`lang/lex.h`) -/

@[simp] def TOK_EOF : Int := 0
@[simp] def TOK_ID : Int := 256
@[simp] def TOK_NUM : Int := 257
@[simp] def TOK_STR : Int := 258
@[simp] def TOK_EQ : Int := 259
@[simp] def TOK_NE : Int := 260
@[simp] def TOK_GE : Int := 261
@[simp] def TOK_LE : Int := 262
@[simp] def TOK_ADDASSIGN : Int := 263
@[simp] def TOK_SUBASSIGN : Int := 264
@[simp] def TOK_MULASSIGN : Int := 265
@[simp] def TOK_DIVASSIGN : Int := 266
@[simp] def TOK_MODASSIGN : Int := 267
@[simp] def TOK_ANDASSIGN : Int := 268
@[simp] def TOK_ORASSIGN : Int := 269
@[simp] def TOK_XORASSIGN : Int := 270
@[simp] def TOK_NOTASSIGN : Int := 271
@[simp] def TOK_LSHIFTASSIGN : Int := 272
@[simp] def TOK_RSHIFTASSIGN : Int := 273
@[simp] def TOK_LSHIFT : Int := 274
@[simp] def TOK_RSHIFT : Int := 275
@[simp] def TOK_LOGICAND : Int := 276
@[simp] def TOK_LOGICOR : Int := 277
@[simp] def TOK_UND : Int := 278
@[simp] def TOK_NAN : Int := 279
@[simp] def TOK_NULL : Int := 280
@[simp] def TOK_TRUE : Int := 281
@[simp] def TOK_FALSE : Int := 282
@[simp] def TOK_IN : Int := 283
@[simp] def TOK_IF : Int := 284
@[simp] def TOK_VAR : Int := 285
@[simp] def TOK_DEF : Int := 286
@[simp] def TOK_RET : Int := 287
@[simp] def TOK_ELSE : Int := 288
@[simp] def TOK_ELIF : Int := 289
@[simp] def TOK_WHILE : Int := 290
@[simp] def TOK_BREAK : Int := 291
@[simp] def TOK_CONTINUE : Int := 292

/-! Single-character tokens: the token type is the byte value of the character. -/

/-- The token type of `!`. -/
@[simp] def CH_BANG : Int := 33
/-- The token type of `%`. -/
@[simp] def CH_PERCENT : Int := 37
/-- The token type of `&`. -/
@[simp] def CH_AMP : Int := 38
/-- The token type of `(`. -/
@[simp] def CH_LPAREN : Int := 40
/-- The token type of `)`. -/
@[simp] def CH_RPAREN : Int := 41
/-- The token type of `*`. -/
@[simp] def CH_STAR : Int := 42
/-- The token type of `+`. -/
@[simp] def CH_PLUS : Int := 43
/-- The token type of `,`. -/
@[simp] def CH_COMMA : Int := 44
/-- The token type of `-`. -/
@[simp] def CH_MINUS : Int := 45
/-- The token type of `.`. -/
@[simp] def CH_DOT : Int := 46
/-- The token type of `/`. -/
@[simp] def CH_SLASH : Int := 47
/-- The token type of `:`. -/
@[simp] def CH_COLON : Int := 58
/-- The token type of `;`. -/
@[simp] def CH_SEMI : Int := 59
/-- The token type of `<`. -/
@[simp] def CH_LT : Int := 60
/-- The token type of `=`. -/
@[simp] def CH_ASSIGN : Int := 61
/-- The token type of `>`. -/
@[simp] def CH_GT : Int := 62
/-- The token type of `?`. -/
@[simp] def CH_QUEST : Int := 63
/-- The token type of `[`. -/
@[simp] def CH_LBRACKET : Int := 91
/-- The token type of `]`. -/
@[simp] def CH_RBRACKET : Int := 93
/-- The token type of `^`. -/
@[simp] def CH_CARET : Int := 94
/-- The token type of the opening brace. -/
@[simp] def CH_LBRACE : Int := 123
/-- The token type of `|`. -/
@[simp] def CH_BAR : Int := 124
/-- The token type of the closing brace. -/
@[simp] def CH_RBRACE : Int := 125
/-- The token type of `~`. -/
@[simp] def CH_TILDE : Int := 126

/-- A token as filled in by `lex_token`: `struct token_t` of `lang/lex.h`. -/
structure token_t where
  type : Int
  line : Nat
  col : Nat
  value : Int
  text : String
deriving DecidableEq, Repr

/-! ## Error codes, events, AST variants

`err.h`, `parse.h` and `ast.h` are not part of the sources at hand; the
enumerations below list the names the parser uses. -/

/-- Modelled from the spec: the error kinds of `err.h` that `parse_fail`
is called with (`InvalidSyntax`, `InvalidToken`, `InvalidLeftValue`,
`NotEnoughMemory`). -/
inductive ERR_CODE where
  | ERR_InvalidSyntax
  | ERR_InvalidToken
  | ERR_InvalidLeftValue
  | ERR_NotEnoughMemory
deriving DecidableEq, Repr

/-- Modelled from the spec: the parse event of `parse.h` handed to the sink,
`FAIL { code, line, col }` or `EOF`. -/
inductive parse_event_t where
  | PARSE_FAIL (code : ERR_CODE) (line col : Nat)
  | PARSE_EOF
deriving DecidableEq, Repr

/-- Modelled from the spec: the expression variants of `ast.h`. -/
inductive EXPR_TYPE where
  | EXPR_ID | EXPR_NUM | EXPR_STRING | EXPR_UND | EXPR_NAN | EXPR_NULL
  | EXPR_TRUE | EXPR_FALSE | EXPR_NEG | EXPR_NOT | EXPR_LOGIC_NOT
  | EXPR_MUL | EXPR_DIV | EXPR_MOD | EXPR_ADD | EXPR_SUB
  | EXPR_LSHIFT | EXPR_RSHIFT | EXPR_AND | EXPR_OR | EXPR_XOR
  | EXPR_TGT | EXPR_TLT | EXPR_TEQ | EXPR_TNE | EXPR_TGE | EXPR_TLE | EXPR_TIN
  | EXPR_LOGIC_AND | EXPR_LOGIC_OR | EXPR_TERNARY | EXPR_ASSIGN | EXPR_PAIR
  | EXPR_COMMA | EXPR_ATTR | EXPR_ELEM | EXPR_CALL | EXPR_ARRAY | EXPR_DICT
  | EXPR_FUNCHEAD | EXPR_FUNCDEF | EXPR_PROC
deriving DecidableEq, Repr

/-- Modelled from the spec: the statement variants of `ast.h`. -/
inductive STMT_TYPE where
  | STMT_PASS | STMT_EXPR | STMT_VAR | STMT_IF | STMT_WHILE
  | STMT_BREAK | STMT_CONTINUE | STMT_RET
deriving DecidableEq, Repr

open ERR_CODE parse_event_t EXPR_TYPE STMT_TYPE

mutual
/-- Modelled from the spec: an `expr_t *` of `ast.h`.  `NULL` is the null
pointer; a node has a variant, the copied text of a leaf (`ID`, `STRING`, the
literal of `NUM`), up to two ordered children and, for `PROC`, the wrapped
statement block. -/
inductive expr_t where
  | NULL : expr_t
  | node (type : EXPR_TYPE) (text : String) (lft rht : expr_t) (proc : stmt_t) : expr_t
/-- Modelled from the spec: a `stmt_t *` of `ast.h`.  A statement holds up to
three child slots (an expression, a block, an alternative block) and the
`next` pointer of the singly linked block list. -/
inductive stmt_t where
  | NULL : stmt_t
  | node (type : STMT_TYPE) (expr : expr_t) (block other next : stmt_t) : stmt_t
end

namespace expr_t

/-- The C test `!expr`. -/
def is_null : expr_t → Bool
  | NULL => true
  | node _ _ _ _ _ => false

/-- The C test `expr->type == t`, read only under the guard `expr != NULL`. -/
def is_type : expr_t → EXPR_TYPE → Bool
  | NULL, _ => false
  | node ty _ _ _ _, t => decide (ty = t)

end expr_t

namespace stmt_t

/-- The C test `!s`. -/
def is_null : stmt_t → Bool
  | NULL => true
  | node _ _ _ _ _ => false

end stmt_t

mutual
/-- The number of pool nodes of the subtree rooted at an expression pointer. -/
def ast_expr_nodes : expr_t → Nat
  | expr_t.NULL => 0
  | expr_t.node _ _ lft rht proc => 1 + ast_expr_nodes lft + ast_expr_nodes rht + ast_stmt_nodes proc
/-- The number of pool nodes of a statement, its children and its sibling chain. -/
def ast_stmt_nodes : stmt_t → Nat
  | stmt_t.NULL => 0
  | stmt_t.node _ expr block other next =>
    1 + ast_expr_nodes expr + ast_stmt_nodes block + ast_stmt_nodes other + ast_stmt_nodes next
end

/-! ## The state the parser works on -/

/-- The lexer handle, the sink and the node pool a parse call works on.

* `toks`: the tokens not yet consumed; the head is the current token and an
  empty list is the end of the stream, where the lexer yields `TOK_EOF`;
  `eof_line`, `eof_col`: the position the lexer reports there.
* `cb`: whether the caller passed a sink (`cb != NULL`); `events`: what the sink
  has received so far, oldest first.
* `heap`: the outcome of the coming node allocations, `true` for success; when
  the script is used up every allocation succeeds.  `allocated` and `released`
  count the nodes handed out and given back. -/
structure pstate where
  toks : List token_t
  eof_line : Nat
  eof_col : Nat
  cb : Bool
  events : List parse_event_t
  heap : List Bool
  allocated : Nat
  released : Nat
deriving DecidableEq, Repr

/-! ## Lexer interface (`lex_token`, `lex_match`, `lex_position`) -/

/-- Modelled from the spec: `lex_token(lex, NULL)` of `lex.c`, the peek at the
current token's type; it does not advance. -/
def lex_token (s : pstate) : Int :=
  match s.toks with
  | [] => TOK_EOF
  | t :: _ => t.type

/-- Modelled from the spec: the `text` that `lex_token(lex, &token)` of `lex.c`
fills in for the current token. -/
def lex_token_text (s : pstate) : String :=
  match s.toks with
  | [] => ""
  | t :: _ => t.text

/-- Modelled from the spec: `lex_match(lex, tok)` of `lex.c`: if the current
token equals `tok`, advance and return true, else return false. -/
def lex_match (s : pstate) (tok : Int) : Bool × pstate :=
  if lex_token s = tok then (true, { s with toks := s.toks.tail }) else (false, s)

/-- Modelled from the spec: `lex_position(lex, &line, &col)` of `lex.c`, the
position of the current, not consumed, token. -/
def lex_position (s : pstate) : Nat × Nat :=
  match s.toks with
  | [] => (s.eof_line, s.eof_col)
  | t :: _ => (t.line, t.col)

/-- The loop `while (lex_match(lex, ';'));` of `parse_stmt_list`, as a
recursion over the remaining tokens. -/
def lex_match_semicolons : List token_t → List token_t
  | [] => []
  | t :: ts => if t.type = CH_SEMI then lex_match_semicolons ts else t :: ts

/-! ## Sink -/

/-- `parse_fail` (parse.c:21-30). -/
def parse_fail (s : pstate) (err : ERR_CODE) : pstate :=
  if s.cb then
    { s with events := s.events ++ [PARSE_FAIL err (lex_position s).1 (lex_position s).2] }
  else s

/-- `parse_eof` (parse.c:32-38). -/
def parse_eof (s : pstate) : pstate :=
  if s.cb then { s with events := s.events ++ [PARSE_EOF] } else s

/-! ## AST node pool -/

/-- Modelled from the spec: one allocation request to the heap handle behind the
AST pool, `alloc(n) → ptr | null`. -/
def heap_alloc (s : pstate) : Bool × pstate :=
  match s.heap with
  | [] => (true, { s with allocated := s.allocated + 1 })
  | true :: h => (true, { s with heap := h, allocated := s.allocated + 1 })
  | false :: h => (false, { s with heap := h })

/-- Modelled from the spec: `ast_expr_alloc_type(type)` of the AST pool, a node
of the given variant without children, or `NULL`. -/
def ast_expr_alloc_type (type : EXPR_TYPE) (s : pstate) : expr_t × pstate :=
  if (heap_alloc s).1 then (expr_t.node type "" expr_t.NULL expr_t.NULL stmt_t.NULL, (heap_alloc s).2)
  else (expr_t.NULL, (heap_alloc s).2)

/-- Modelled from the spec: `ast_expr_alloc_str(type, text)` of the AST pool, a
leaf holding a copy of the text, or `NULL`. -/
def ast_expr_alloc_str (type : EXPR_TYPE) (text : String) (s : pstate) : expr_t × pstate :=
  if (heap_alloc s).1 then (expr_t.node type text expr_t.NULL expr_t.NULL stmt_t.NULL, (heap_alloc s).2)
  else (expr_t.NULL, (heap_alloc s).2)

/-- Modelled from the spec: `ast_expr_alloc_num(type, text)` of the AST pool, a
leaf holding the numeric literal, or `NULL`. -/
def ast_expr_alloc_num (type : EXPR_TYPE) (text : String) (s : pstate) : expr_t × pstate :=
  if (heap_alloc s).1 then (expr_t.node type text expr_t.NULL expr_t.NULL stmt_t.NULL, (heap_alloc s).2)
  else (expr_t.NULL, (heap_alloc s).2)

/-- Modelled from the spec: `ast_expr_alloc_proc(block)` of the AST pool, a
`PROC` node wrapping a statement block, or `NULL`. -/
def ast_expr_alloc_proc (block : stmt_t) (s : pstate) : expr_t × pstate :=
  if (heap_alloc s).1 then (expr_t.node EXPR_PROC "" expr_t.NULL expr_t.NULL block, (heap_alloc s).2)
  else (expr_t.NULL, (heap_alloc s).2)

/-- Modelled from the spec: `ast_expr_set_lft(expr, lft)` of the AST pool. -/
def ast_expr_set_lft : expr_t → expr_t → expr_t
  | expr_t.NULL, _ => expr_t.NULL
  | expr_t.node ty tx _ rht proc, lft => expr_t.node ty tx lft rht proc

/-- Modelled from the spec: `ast_expr_set_rht(expr, rht)` of the AST pool. -/
def ast_expr_set_rht : expr_t → expr_t → expr_t
  | expr_t.NULL, _ => expr_t.NULL
  | expr_t.node ty tx lft _ proc, rht => expr_t.node ty tx lft rht proc

/-- Modelled from the spec: `ast_expr_release(expr)` of the AST pool, the
recursive release of a subtree; releasing `NULL` does nothing. -/
def ast_expr_release (expr : expr_t) (s : pstate) : pstate :=
  { s with released := s.released + ast_expr_nodes expr }

/-- Modelled from the spec: `ast_stmt_release(s)` of the AST pool, the recursive
release of a statement, its children and its sibling chain. -/
def ast_stmt_release (stmt : stmt_t) (s : pstate) : pstate :=
  { s with released := s.released + ast_stmt_nodes stmt }

/-- Modelled from the spec: `ast_stmt_alloc_0(type)` of the AST pool. -/
def ast_stmt_alloc_0 (type : STMT_TYPE) (s : pstate) : stmt_t × pstate :=
  if (heap_alloc s).1 then
    (stmt_t.node type expr_t.NULL stmt_t.NULL stmt_t.NULL stmt_t.NULL, (heap_alloc s).2)
  else (stmt_t.NULL, (heap_alloc s).2)

/-- Modelled from the spec: `ast_stmt_alloc_1(type, expr)` of the AST pool. -/
def ast_stmt_alloc_1 (type : STMT_TYPE) (expr : expr_t) (s : pstate) : stmt_t × pstate :=
  if (heap_alloc s).1 then
    (stmt_t.node type expr stmt_t.NULL stmt_t.NULL stmt_t.NULL, (heap_alloc s).2)
  else (stmt_t.NULL, (heap_alloc s).2)

/-- Modelled from the spec: `ast_stmt_alloc_2(type, expr, block)` of the AST pool. -/
def ast_stmt_alloc_2 (type : STMT_TYPE) (expr : expr_t) (block : stmt_t) (s : pstate) :
    stmt_t × pstate :=
  if (heap_alloc s).1 then
    (stmt_t.node type expr block stmt_t.NULL stmt_t.NULL, (heap_alloc s).2)
  else (stmt_t.NULL, (heap_alloc s).2)

/-- Modelled from the spec: `ast_stmt_alloc_3(type, expr, block, other)` of the
AST pool. -/
def ast_stmt_alloc_3 (type : STMT_TYPE) (expr : expr_t) (block other : stmt_t) (s : pstate) :
    stmt_t × pstate :=
  if (heap_alloc s).1 then
    (stmt_t.node type expr block other stmt_t.NULL, (heap_alloc s).2)
  else (stmt_t.NULL, (heap_alloc s).2)

/-- The assignment `last->next = curr` of `parse_stmt_list`: `last` is the end of
the chain that starts at `head`, so the new statement is linked after the last
node of that chain. -/
def ast_stmt_link : stmt_t → stmt_t → stmt_t
  | stmt_t.NULL, curr => curr
  | stmt_t.node ty e b o next, curr => stmt_t.node ty e b o (ast_stmt_link next curr)

/-! ## The parser (`lang/parse.c`) -/

/-- `parse_expr_form_unary` (parse.c:528-544). -/
def parse_expr_form_unary (type : EXPR_TYPE) (lft : expr_t) (s : pstate) : expr_t × pstate :=
  if lft.is_null then (expr_t.NULL, s)
  else
    let (expr, s1) := ast_expr_alloc_type type s
    if expr.is_null then
      (expr, ast_expr_release lft (parse_fail s1 ERR_NotEnoughMemory))
    else (ast_expr_set_lft expr lft, s1)

/-- `parse_expr_form_binary` (parse.c:546-565). -/
def parse_expr_form_binary (type : EXPR_TYPE) (lft rht : expr_t) (s : pstate) : expr_t × pstate :=
  if rht.is_null then (expr_t.NULL, ast_expr_release lft s)
  else
    let (expr, s1) := ast_expr_alloc_type type s
    if expr.is_null then
      (expr, ast_expr_release rht (ast_expr_release lft (parse_fail s1 ERR_NotEnoughMemory)))
    else (ast_expr_set_rht (ast_expr_set_lft expr lft) rht, s1)

/-- The tail shared by the leaf cases of the `switch` in `parse_expr_factor`
(parse.c:52-59): `if (!(expr = alloc)) parse_fail(NotEnoughMemory); lex_match(lex, tok);`. -/
def parse_expr_factor_leaf (tok : Int) (r : expr_t × pstate) : expr_t × pstate :=
  (r.1, (lex_match (if r.1.is_null then parse_fail r.2 ERR_NotEnoughMemory else r.2) tok).2)

/-- The label `DO_ERROR` of `parse_expr_funcdef` (parse.c:382-391). -/
def parse_expr_funcdef_error (name param head : expr_t) (block : stmt_t) (s : pstate) :
    expr_t × pstate :=
  let s1 :=
    if head.is_null = false then ast_expr_release head s
    else
      let s0 := if name.is_null = false then ast_expr_release name s else s
      if param.is_null = false then ast_expr_release param s0 else s0
  (expr_t.NULL, if block.is_null = false then ast_stmt_release block s1 else s1)

/-- The variant chosen by the `switch` of `parse_expr_test` (parse.c:185-193). -/
def parse_expr_test_type (tok : Int) : EXPR_TYPE :=
  if tok = CH_GT then EXPR_TGT
  else if tok = CH_LT then EXPR_TLT
  else if tok = TOK_NE then EXPR_TNE
  else if tok = TOK_EQ then EXPR_TEQ
  else if tok = TOK_GE then EXPR_TGE
  else if tok = TOK_LE then EXPR_TLE
  else EXPR_TIN

/-- The end of `parse_expr_funcdef` (parse.c:375-380): wrap the block in a
`PROC` node and form the `FUNCDEF`. -/
def parse_expr_funcdef_proc (name param head : expr_t) (block : stmt_t) (s : pstate) :
    expr_t × pstate :=
  let (proc, s1) := ast_expr_alloc_proc block s
  if proc.is_null then
    parse_expr_funcdef_error name param head block (parse_fail s1 ERR_NotEnoughMemory)
  else parse_expr_form_binary EXPR_FUNCDEF head proc s1

/-- `parse_stmt_break` (parse.c:697-708). -/
def parse_stmt_break (s : pstate) : stmt_t × pstate :=
  let s1 := (lex_match s TOK_BREAK).2
  let s2 := (lex_match s1 CH_SEMI).2
  let (st, s3) := ast_stmt_alloc_0 STMT_BREAK s2
  if st.is_null then (st, parse_fail s3 ERR_NotEnoughMemory) else (st, s3)

/-- `parse_stmt_continue` (parse.c:710-721). -/
def parse_stmt_continue (s : pstate) : stmt_t × pstate :=
  let s1 := (lex_match s TOK_CONTINUE).2
  let s2 := (lex_match s1 CH_SEMI).2
  let (st, s3) := ast_stmt_alloc_0 STMT_CONTINUE s2
  if st.is_null then (st, parse_fail s3 ERR_NotEnoughMemory) else (st, s3)

mutual

/-- `parse_expr_factor` (parse.c:40-65). -/
def parse_expr_factor : Nat → pstate → Option (expr_t × pstate)
  | 0, _ => none
  | n + 1, s =>
    let tok := lex_token s
    let text := lex_token_text s
    if tok = TOK_EOF then some (expr_t.NULL, parse_fail s ERR_InvalidSyntax)
    else if tok = CH_LPAREN then parse_expr_form_parenth n s
    else if tok = CH_LBRACKET then parse_expr_form_array n s
    else if tok = CH_LBRACE then parse_expr_form_dict n s
    else if tok = TOK_DEF then parse_expr_funcdef n s
    else if tok = TOK_ID then some (parse_expr_factor_leaf tok (ast_expr_alloc_str EXPR_ID text s))
    else if tok = TOK_NUM then some (parse_expr_factor_leaf tok (ast_expr_alloc_num EXPR_NUM text s))
    else if tok = TOK_STR then some (parse_expr_factor_leaf tok (ast_expr_alloc_str EXPR_STRING text s))
    else if tok = TOK_UND then some (parse_expr_factor_leaf tok (ast_expr_alloc_type EXPR_UND s))
    else if tok = TOK_NAN then some (parse_expr_factor_leaf tok (ast_expr_alloc_type EXPR_NAN s))
    else if tok = TOK_NULL then some (parse_expr_factor_leaf tok (ast_expr_alloc_type EXPR_NULL s))
    else if tok = TOK_TRUE then some (parse_expr_factor_leaf tok (ast_expr_alloc_type EXPR_TRUE s))
    else if tok = TOK_FALSE then some (parse_expr_factor_leaf tok (ast_expr_alloc_type EXPR_FALSE s))
    else some (expr_t.NULL, parse_fail s ERR_InvalidToken)

/-- `parse_expr_primary` (parse.c:67-91), up to the `while`. -/
def parse_expr_primary : Nat → pstate → Option (expr_t × pstate)
  | 0, _ => none
  | n + 1, s => do
    let (expr, s1) ← parse_expr_factor n s
    let tok := lex_token s1
    if expr.is_null = false ∧ expr.is_type EXPR_ID = false then some (expr, s1)
    else parse_expr_primary_while n expr tok s1

/-- The `while` of `parse_expr_primary` (parse.c:77-90). -/
def parse_expr_primary_while : Nat → expr_t → Int → pstate → Option (expr_t × pstate)
  | 0, _, _, _ => none
  | n + 1, expr, tok, s =>
    if expr.is_null = false ∧ (tok = CH_DOT ∨ tok = CH_LBRACKET ∨ tok = CH_LPAREN) then do
      let (expr1, s1) ←
        (if tok = CH_DOT then parse_expr_form_attr n expr s
         else if tok = CH_LBRACKET then parse_expr_form_elem n expr s
         else parse_expr_form_call n expr s)
      parse_expr_primary_while n expr1 (lex_token s1) s1
    else some (expr, s)

/-- `parse_expr_unary` (parse.c:93-111). -/
def parse_expr_unary : Nat → pstate → Option (expr_t × pstate)
  | 0, _ => none
  | n + 1, s =>
    let tok := lex_token s
    if tok = CH_BANG then do
      let (lft, s1) ← parse_expr_unary n (lex_match s tok).2
      some (parse_expr_form_unary EXPR_LOGIC_NOT lft s1)
    else if tok = CH_MINUS ∨ tok = CH_TILDE then do
      let (lft, s1) ← parse_expr_unary n (lex_match s tok).2
      some (parse_expr_form_unary (if tok = CH_MINUS then EXPR_NEG else EXPR_NOT) lft s1)
    else parse_expr_primary n s

/-- `parse_expr_mul` (parse.c:113-128), up to the `while`. -/
def parse_expr_mul : Nat → pstate → Option (expr_t × pstate)
  | 0, _ => none
  | n + 1, s => do
    let (expr, s1) ← parse_expr_unary n s
    parse_expr_mul_while n expr (lex_token s1) s1

/-- The `while` of `parse_expr_mul` (parse.c:118-127). -/
def parse_expr_mul_while : Nat → expr_t → Int → pstate → Option (expr_t × pstate)
  | 0, _, _, _ => none
  | n + 1, expr, tok, s =>
    if expr.is_null = false ∧ (tok = CH_STAR ∨ tok = CH_SLASH ∨ tok = CH_PERCENT) then do
      let type := if tok = CH_STAR then EXPR_MUL else if tok = CH_SLASH then EXPR_DIV else EXPR_MOD
      let (rht, s1) ← parse_expr_unary n (lex_match s tok).2
      let (expr1, s2) ← some (parse_expr_form_binary type expr rht s1)
      parse_expr_mul_while n expr1 (lex_token s2) s2
    else some (expr, s)

/-- `parse_expr_add` (parse.c:130-143), up to the `while`. -/
def parse_expr_add : Nat → pstate → Option (expr_t × pstate)
  | 0, _ => none
  | n + 1, s => do
    let (expr, s1) ← parse_expr_mul n s
    parse_expr_add_while n expr (lex_token s1) s1

/-- The `while` of `parse_expr_add` (parse.c:135-142). -/
def parse_expr_add_while : Nat → expr_t → Int → pstate → Option (expr_t × pstate)
  | 0, _, _, _ => none
  | n + 1, expr, tok, s =>
    if expr.is_null = false ∧ (tok = CH_PLUS ∨ tok = CH_MINUS) then do
      let (rht, s1) ← parse_expr_mul n (lex_match s tok).2
      let (expr1, s2) ←
        some (parse_expr_form_binary (if tok = CH_PLUS then EXPR_ADD else EXPR_SUB) expr rht s1)
      parse_expr_add_while n expr1 (lex_token s2) s2
    else some (expr, s)

/-- `parse_expr_shift` (parse.c:145-158), up to the `while`. -/
def parse_expr_shift : Nat → pstate → Option (expr_t × pstate)
  | 0, _ => none
  | n + 1, s => do
    let (expr, s1) ← parse_expr_add n s
    parse_expr_shift_while n expr (lex_token s1) s1

/-- The `while` of `parse_expr_shift` (parse.c:150-155). -/
def parse_expr_shift_while : Nat → expr_t → Int → pstate → Option (expr_t × pstate)
  | 0, _, _, _ => none
  | n + 1, expr, tok, s =>
    if expr.is_null = false ∧ (tok = TOK_RSHIFT ∨ tok = TOK_LSHIFT) then do
      let (rht, s1) ← parse_expr_add n (lex_match s tok).2
      let (expr1, s2) ←
        some (parse_expr_form_binary (if tok = TOK_RSHIFT then EXPR_RSHIFT else EXPR_LSHIFT)
          expr rht s1)
      parse_expr_shift_while n expr1 (lex_token s2) s2
    else some (expr, s)

/-- `parse_expr_aand` (parse.c:160-173), up to the `while`. -/
def parse_expr_aand : Nat → pstate → Option (expr_t × pstate)
  | 0, _ => none
  | n + 1, s => do
    let (expr, s1) ← parse_expr_shift n s
    parse_expr_aand_while n expr (lex_token s1) s1

/-- The `while` of `parse_expr_aand` (parse.c:165-170). -/
def parse_expr_aand_while : Nat → expr_t → Int → pstate → Option (expr_t × pstate)
  | 0, _, _, _ => none
  | n + 1, expr, tok, s =>
    if expr.is_null = false ∧ (tok = CH_AMP ∨ tok = CH_BAR ∨ tok = CH_CARET) then do
      let (rht, s1) ← parse_expr_shift n (lex_match s tok).2
      let (expr1, s2) ←
        some (parse_expr_form_binary
          (if tok = CH_AMP then EXPR_AND else if tok = CH_BAR then EXPR_OR else EXPR_XOR)
          expr rht s1)
      parse_expr_aand_while n expr1 (lex_token s2) s2
    else some (expr, s)

/-- `parse_expr_test` (parse.c:175-200), up to the `while`. -/
def parse_expr_test : Nat → pstate → Option (expr_t × pstate)
  | 0, _ => none
  | n + 1, s => do
    let (expr, s1) ← parse_expr_aand n s
    parse_expr_test_while n expr (lex_token s1) s1

/-- The `while` of `parse_expr_test` (parse.c:180-197). -/
def parse_expr_test_while : Nat → expr_t → Int → pstate → Option (expr_t × pstate)
  | 0, _, _, _ => none
  | n + 1, expr, tok, s =>
    if expr.is_null = false ∧ (tok = CH_GT ∨ tok = CH_LT ∨ tok = TOK_NE ∨ tok = TOK_EQ
        ∨ tok = TOK_GE ∨ tok = TOK_LE ∨ tok = TOK_IN) then do
      let type := parse_expr_test_type tok
      let (rht, s1) ← parse_expr_aand n (lex_match s tok).2
      let (expr1, s2) ← some (parse_expr_form_binary type expr rht s1)
      parse_expr_test_while n expr1 (lex_token s2) s2
    else some (expr, s)

/-- `parse_expr_logic_and` (parse.c:202-213). -/
def parse_expr_logic_and : Nat → pstate → Option (expr_t × pstate)
  | 0, _ => none
  | n + 1, s => do
    let (expr, s1) ← parse_expr_test n s
    let tok := lex_token s1
    if expr.is_null = false ∧ tok = TOK_LOGICAND then do
      let (rht, s2) ← parse_expr_logic_and n (lex_match s1 tok).2
      some (parse_expr_form_binary EXPR_LOGIC_AND expr rht s2)
    else some (expr, s1)

/-- `parse_expr_logic_or` (parse.c:215-226). -/
def parse_expr_logic_or : Nat → pstate → Option (expr_t × pstate)
  | 0, _ => none
  | n + 1, s => do
    let (expr, s1) ← parse_expr_logic_and n s
    let tok := lex_token s1
    if expr.is_null = false ∧ tok = TOK_LOGICOR then do
      let (rht, s2) ← parse_expr_logic_or n (lex_match s1 tok).2
      some (parse_expr_form_binary EXPR_LOGIC_OR expr rht s2)
    else some (expr, s1)

/-- `parse_expr_ternary` (parse.c:228-239). -/
def parse_expr_ternary : Nat → pstate → Option (expr_t × pstate)
  | 0, _ => none
  | n + 1, s => do
    let (expr, s1) ← parse_expr_logic_or n s
    let tok := lex_token s1
    if expr.is_null = false ∧ tok = CH_QUEST then do
      let (rht, s2) ← parse_expr_form_pair n (lex_match s1 tok).2
      some (parse_expr_form_binary EXPR_TERNARY expr rht s2)
    else some (expr, s1)

/-- `parse_expr_assign` (parse.c:241-258). -/
def parse_expr_assign : Nat → pstate → Option (expr_t × pstate)
  | 0, _ => none
  | n + 1, s => do
    let (expr, s1) ← parse_expr_ternary n s
    let tok := lex_token s1
    if expr.is_null = false ∧ tok = CH_ASSIGN then
      if expr.is_type EXPR_ID = false ∧ expr.is_type EXPR_ATTR = false
          ∧ expr.is_type EXPR_ELEM = false then
        some (expr_t.NULL, ast_expr_release expr (parse_fail s1 ERR_InvalidLeftValue))
      else do
        let (rht, s2) ← parse_expr_assign n (lex_match s1 tok).2
        some (parse_expr_form_binary EXPR_ASSIGN expr rht s2)
    else some (expr, s1)

/-- `parse_expr_kv` (parse.c:260-281). -/
def parse_expr_kv : Nat → pstate → Option (expr_t × pstate)
  | 0, _ => none
  | n + 1, s =>
    let tok := lex_token s
    if tok ≠ TOK_ID ∧ tok ≠ TOK_STR then some (expr_t.NULL, parse_fail s ERR_InvalidToken)
    else do
      let (expr, s1) ← parse_expr_factor n s
      if expr.is_null = false then
        let (m, s2) := lex_match s1 CH_COLON
        if m = false then
          some (expr_t.NULL, ast_expr_release expr (parse_fail s2 ERR_InvalidToken))
        else do
          let (rht, s3) ← parse_expr_assign n s2
          some (parse_expr_form_binary EXPR_PAIR expr rht s3)
      else some (expr, s1)

/-- `parse_expr_vardef` (parse.c:283-299). -/
def parse_expr_vardef : Nat → pstate → Option (expr_t × pstate)
  | 0, _ => none
  | n + 1, s =>
    let tok := lex_token s
    if tok ≠ TOK_ID then some (expr_t.NULL, parse_fail s ERR_InvalidToken)
    else do
      let (expr, s1) ← parse_expr_factor n s
      if expr.is_null = false ∧ (lex_match s1 CH_ASSIGN).1 = true then do
        let (rht, s2) ← parse_expr_assign n (lex_match s1 CH_ASSIGN).2
        some (parse_expr_form_binary EXPR_ASSIGN expr rht s2)
      else some (expr, s1)

/-- `parse_expr_kvlist` (parse.c:301-310). -/
def parse_expr_kvlist : Nat → pstate → Option (expr_t × pstate)
  | 0, _ => none
  | n + 1, s => do
    let (expr, s1) ← parse_expr_kv n s
    if expr.is_null = false ∧ (lex_match s1 CH_COMMA).1 = true then do
      let (rht, s2) ← parse_expr_kvlist n (lex_match s1 CH_COMMA).2
      some (parse_expr_form_binary EXPR_COMMA expr rht s2)
    else some (expr, s1)

/-- `parse_expr_vardef_list` (parse.c:312-321). -/
def parse_expr_vardef_list : Nat → pstate → Option (expr_t × pstate)
  | 0, _ => none
  | n + 1, s => do
    let (expr, s1) ← parse_expr_vardef n s
    if expr.is_null = false ∧ (lex_match s1 CH_COMMA).1 = true then do
      let (rht, s2) ← parse_expr_vardef_list n (lex_match s1 CH_COMMA).2
      some (parse_expr_form_binary EXPR_COMMA expr rht s2)
    else some (expr, s1)

/-- `parse_expr_comma` (parse.c:323-332). -/
def parse_expr_comma : Nat → pstate → Option (expr_t × pstate)
  | 0, _ => none
  | n + 1, s => do
    let (expr, s1) ← parse_expr_assign n s
    if expr.is_null = false ∧ (lex_match s1 CH_COMMA).1 = true then do
      let (rht, s2) ← parse_expr_comma n (lex_match s1 CH_COMMA).2
      some (parse_expr_form_binary EXPR_COMMA expr rht s2)
    else some (expr, s1)

/-- `parse_expr_funcdef` (parse.c:334-360), up to the closing parenthesis of
the parameter list. -/
def parse_expr_funcdef : Nat → pstate → Option (expr_t × pstate)
  | 0, _ => none
  | n + 1, s => do
    let s1 := (lex_match s TOK_DEF).2
    let (name, s2) ←
      (if lex_token s1 = TOK_ID then parse_expr_factor n s1 else some (expr_t.NULL, s1))
    if lex_token s1 = TOK_ID ∧ name.is_null = true then some (expr_t.NULL, s2)
    else
      let (m, s3) := lex_match s2 CH_LPAREN
      if m = false then
        some (parse_expr_funcdef_error name expr_t.NULL expr_t.NULL stmt_t.NULL
          (parse_fail s3 ERR_InvalidToken))
      else
        let (m1, s4) := lex_match s3 CH_RPAREN
        if m1 = false then do
          let (param, s5) ← parse_expr_vardef_list n s4
          if param.is_null then
            some (parse_expr_funcdef_error name param expr_t.NULL stmt_t.NULL s5)
          else
            let (m2, s6) := lex_match s5 CH_RPAREN
            if m2 = false then
              some (parse_expr_funcdef_error name param expr_t.NULL stmt_t.NULL
                (parse_fail s6 ERR_InvalidToken))
            else parse_expr_funcdef_block n name param s6
        else parse_expr_funcdef_block n name expr_t.NULL s4

/-- The rest of `parse_expr_funcdef` (parse.c:362-380), from the block on. -/
def parse_expr_funcdef_block : Nat → expr_t → expr_t → pstate → Option (expr_t × pstate)
  | 0, _, _, _ => none
  | n + 1, name, param, s => do
    let (block, s1) ← parse_stmt_block n s
    if block.is_null then
      some (parse_expr_funcdef_error name param expr_t.NULL block s1)
    else if name.is_null = false ∨ param.is_null = false then
      let (head, s2) ← some (ast_expr_alloc_type EXPR_FUNCHEAD s1)
      if head.is_null then
        some (parse_expr_funcdef_error name param head block (parse_fail s2 ERR_NotEnoughMemory))
      else
        some (parse_expr_funcdef_proc name param
          (ast_expr_set_rht (ast_expr_set_lft head name) param) block s2)
    else some (parse_expr_funcdef_proc name param expr_t.NULL block s1)

/-- `parse_expr_form_attr` (parse.c:394-405). -/
def parse_expr_form_attr : Nat → expr_t → pstate → Option (expr_t × pstate)
  | 0, _, _ => none
  | n + 1, lft, s =>
    let s1 := (lex_match s CH_DOT).2
    if lex_token s1 ≠ TOK_ID then
      some (expr_t.NULL, ast_expr_release lft (parse_fail s1 ERR_InvalidToken))
    else do
      let (rht, s2) ← parse_expr_factor n s1
      some (parse_expr_form_binary EXPR_ATTR lft rht s2)

/-- `parse_expr_form_elem` (parse.c:407-423). -/
def parse_expr_form_elem : Nat → expr_t → pstate → Option (expr_t × pstate)
  | 0, _, _ => none
  | n + 1, lft, s => do
    let s1 := (lex_match s CH_LBRACKET).2
    let (rht, s2) ← parse_expr_ternary n s1
    let (expr, s3) ← some (parse_expr_form_binary EXPR_ELEM lft rht s2)
    if expr.is_null = false then
      let (m, s4) := lex_match s3 CH_RBRACKET
      if m = false then
        some (expr_t.NULL, ast_expr_release expr (parse_fail s4 ERR_InvalidToken))
      else some (expr, s4)
    else some (expr, s3)

/-- `parse_expr_form_call` (parse.c:425-443). -/
def parse_expr_form_call : Nat → expr_t → pstate → Option (expr_t × pstate)
  | 0, _, _ => none
  | n + 1, lft, s =>
    let s1 := (lex_match s CH_LPAREN).2
    let (m, s2) := lex_match s1 CH_RPAREN
    if m = true then some (parse_expr_form_unary EXPR_CALL lft s2)
    else do
      let (rht, s3) ← parse_expr_comma n s2
      let (expr, s4) ← some (parse_expr_form_binary EXPR_CALL lft rht s3)
      if expr.is_null = false then
        let (m1, s5) := lex_match s4 CH_RPAREN
        if m1 = false then
          some (expr_t.NULL, ast_expr_release expr (parse_fail s5 ERR_InvalidToken))
        else some (expr, s5)
      else some (expr, s4)

/-- `parse_expr_form_parenth` (parse.c:445-460). -/
def parse_expr_form_parenth : Nat → pstate → Option (expr_t × pstate)
  | 0, _ => none
  | n + 1, s => do
    let s1 := (lex_match s CH_LPAREN).2
    let (expr, s2) ← parse_expr_comma n s1
    if expr.is_null = false then
      let (m, s3) := lex_match s2 CH_RPAREN
      if m = false then
        some (expr_t.NULL, ast_expr_release expr (parse_fail s3 ERR_InvalidToken))
      else some (expr, s3)
    else some (expr, s2)

/-- `parse_expr_form_array` (parse.c:462-485). -/
def parse_expr_form_array : Nat → pstate → Option (expr_t × pstate)
  | 0, _ => none
  | n + 1, s =>
    let s1 := (lex_match s CH_LBRACKET).2
    let (m, s2) := lex_match s1 CH_RBRACKET
    if m = true then do
      let (expr, s3) ← some (ast_expr_alloc_type EXPR_ARRAY s2)
      if expr.is_null then some (expr, parse_fail s3 ERR_NotEnoughMemory) else some (expr, s3)
    else do
      let (lft, s3) ← parse_expr_comma n s2
      let (expr, s4) ← some (parse_expr_form_unary EXPR_ARRAY lft s3)
      if expr.is_null = false then
        let (m1, s5) := lex_match s4 CH_RBRACKET
        if m1 = false then
          some (expr_t.NULL, ast_expr_release expr (parse_fail s5 ERR_InvalidToken))
        else some (expr, s5)
      else some (expr, s4)

/-- `parse_expr_form_dict` (parse.c:487-510). -/
def parse_expr_form_dict : Nat → pstate → Option (expr_t × pstate)
  | 0, _ => none
  | n + 1, s =>
    let s1 := (lex_match s CH_LBRACE).2
    let (m, s2) := lex_match s1 CH_RBRACE
    if m = true then do
      let (expr, s3) ← some (ast_expr_alloc_type EXPR_DICT s2)
      if expr.is_null then some (expr, parse_fail s3 ERR_NotEnoughMemory) else some (expr, s3)
    else do
      let (lft, s3) ← parse_expr_kvlist n s2
      let (expr, s4) ← some (parse_expr_form_unary EXPR_DICT lft s3)
      if expr.is_null = false then
        let (m1, s5) := lex_match s4 CH_RBRACE
        if m1 = false then
          some (expr_t.NULL, ast_expr_release expr (parse_fail s5 ERR_InvalidToken))
        else some (expr, s5)
      else some (expr, s4)

/-- `parse_expr_form_pair` (parse.c:512-526). -/
def parse_expr_form_pair : Nat → pstate → Option (expr_t × pstate)
  | 0, _ => none
  | n + 1, s => do
    let (expr, s1) ← parse_expr_ternary n s
    if expr.is_null = false then
      let (m, s2) := lex_match s1 CH_COLON
      if m = false then
        some (expr_t.NULL, ast_expr_release expr (parse_fail s2 ERR_InvalidToken))
      else do
        let (rht, s3) ← parse_expr_ternary n s2
        some (parse_expr_form_binary EXPR_PAIR expr rht s3)
    else some (expr, s1)

/-- `parse_stmt_block` (parse.c:567-587). -/
def parse_stmt_block : Nat → pstate → Option (stmt_t × pstate)
  | 0, _ => none
  | n + 1, s =>
    let (m, s1) := lex_match s CH_LBRACE
    if m = true then do
      let (st, s2) ← parse_stmt_list n s1
      if st.is_null then some (stmt_t.NULL, s2)
      else
        let (m1, s3) := lex_match s2 CH_RBRACE
        if m1 = false then
          some (stmt_t.NULL, ast_stmt_release st (parse_fail s3 ERR_InvalidToken))
        else some (st, s3)
    else do
      let (st, s2) ← parse_stmt n s1
      if st.is_null then some (stmt_t.NULL, s2) else some (st, s2)

/-- `parse_stmt_if` (parse.c:589-629). -/
def parse_stmt_if : Nat → pstate → Option (stmt_t × pstate)
  | 0, _ => none
  | n + 1, s => do
    let s1 := (lex_match s TOK_IF).2
    let (cond, s2) ← parse_expr n s1
    if cond.is_null then some (stmt_t.NULL, s2)
    else do
      let (block, s3) ← parse_stmt_block n s2
      if block.is_null then some (stmt_t.NULL, ast_expr_release cond s3)
      else do
        let (m, s4) := lex_match s3 TOK_ELSE
        let (other, s5) ← (if m = true then parse_stmt_block n s4 else some (stmt_t.NULL, s4))
        if m = true ∧ other.is_null = true then
          some (stmt_t.NULL, ast_stmt_release block (ast_expr_release cond s5))
        else
          let (st, s6) ←
            (if other.is_null = false then some (ast_stmt_alloc_3 STMT_IF cond block other s5)
             else some (ast_stmt_alloc_2 STMT_IF cond block s5))
          if st.is_null then
            let s7 := ast_stmt_release block (ast_expr_release cond (parse_fail s6 ERR_NotEnoughMemory))
            some (st, if other.is_null = false then ast_stmt_release other s7 else s7)
          else some (st, s6)

/-- `parse_stmt_var` (parse.c:631-648). -/
def parse_stmt_var : Nat → pstate → Option (stmt_t × pstate)
  | 0, _ => none
  | n + 1, s => do
    let s1 := (lex_match s TOK_VAR).2
    let (expr, s2) ← parse_expr_vardef_list n s1
    if expr.is_null = false then
      let s3 := (lex_match s2 CH_SEMI).2
      let (st, s4) ← some (ast_stmt_alloc_1 STMT_VAR expr s3)
      if st.is_null = false then some (st, s4)
      else some (stmt_t.NULL, parse_fail s4 ERR_NotEnoughMemory)
    else some (stmt_t.NULL, s2)

/-- `parse_stmt_ret` (parse.c:650-668). -/
def parse_stmt_ret : Nat → pstate → Option (stmt_t × pstate)
  | 0, _ => none
  | n + 1, s => do
    let s1 := (lex_match s TOK_RET).2
    let (m, s2) := lex_match s1 CH_SEMI
    let (expr, s3) ← (if m = false then parse_expr n s2 else some (expr_t.NULL, s2))
    if m = false ∧ expr.is_null = true then some (stmt_t.NULL, s3)
    else
      let s4 := if m = false then (lex_match s3 CH_SEMI).2 else s3
      let (st, s5) ← some (ast_stmt_alloc_1 STMT_RET expr s4)
      if st.is_null then some (st, parse_fail s5 ERR_NotEnoughMemory) else some (st, s5)

/-- `parse_stmt_while` (parse.c:670-695). -/
def parse_stmt_while : Nat → pstate → Option (stmt_t × pstate)
  | 0, _ => none
  | n + 1, s => do
    let s1 := (lex_match s TOK_WHILE).2
    let (cond, s2) ← parse_expr n s1
    if cond.is_null then some (stmt_t.NULL, s2)
    else do
      let (block, s3) ← parse_stmt_block n s2
      if block.is_null then some (stmt_t.NULL, ast_expr_release cond s3)
      else
        let (st, s4) ← some (ast_stmt_alloc_2 STMT_WHILE cond block s3)
        if st.is_null then
          some (st, ast_stmt_release block (ast_expr_release cond (parse_fail s4 ERR_NotEnoughMemory)))
        else some (st, s4)

/-- `parse_stmt_expr` (parse.c:723-738). -/
def parse_stmt_expr : Nat → pstate → Option (stmt_t × pstate)
  | 0, _ => none
  | n + 1, s => do
    let (expr, s1) ← parse_expr n s
    let s2 := (lex_match s1 CH_SEMI).2
    if expr.is_null = false then
      let (st, s3) ← some (ast_stmt_alloc_1 STMT_EXPR expr s2)
      if st.is_null = false then some (st, s3)
      else some (stmt_t.NULL, ast_expr_release expr (parse_fail s3 ERR_NotEnoughMemory))
    else some (stmt_t.NULL, s2)

/-- `parse_expr` (parse.c:740-743). -/
def parse_expr : Nat → pstate → Option (expr_t × pstate)
  | 0, _ => none
  | n + 1, s => parse_expr_comma n s

/-- `parse_stmt` (parse.c:745-759). -/
def parse_stmt : Nat → pstate → Option (stmt_t × pstate)
  | 0, _ => none
  | n + 1, s =>
    let tok := lex_token s
    if tok = TOK_EOF then some (stmt_t.NULL, parse_eof s)
    else if tok = TOK_IF then parse_stmt_if n s
    else if tok = TOK_VAR then parse_stmt_var n s
    else if tok = TOK_RET then parse_stmt_ret n s
    else if tok = TOK_WHILE then parse_stmt_while n s
    else if tok = TOK_BREAK then some (parse_stmt_break s)
    else if tok = TOK_CONTINUE then some (parse_stmt_continue s)
    else parse_stmt_expr n s

/-- `parse_stmt_list` (parse.c:761-790), up to the `while`. -/
def parse_stmt_list : Nat → pstate → Option (stmt_t × pstate)
  | 0, _ => none
  | n + 1, s => parse_stmt_list_while n stmt_t.NULL (lex_token s) s

/-- The `while` of `parse_stmt_list` and the code after it (parse.c:766-789). -/
def parse_stmt_list_while : Nat → stmt_t → Int → pstate → Option (stmt_t × pstate)
  | 0, _, _, _ => none
  | n + 1, head, tok, s =>
    if tok ≠ 0 ∧ tok ≠ CH_RBRACE then do
      let s1 := { s with toks := lex_match_semicolons s.toks }
      let (curr, s2) ← parse_stmt n s1
      if curr.is_null then
        some (stmt_t.NULL, if head.is_null = false then ast_stmt_release head s2 else s2)
      else
        let head1 := if head.is_null = false then ast_stmt_link head curr else curr
        parse_stmt_list_while n head1 (lex_token s2) s2
    else if head.is_null then do
      let (st, s1) ← some (ast_stmt_alloc_0 STMT_PASS s)
      if st.is_null then some (st, parse_fail s1 ERR_NotEnoughMemory) else some (st, s1)
    else some (head, s)

end

/-! ## Observations used in the statements -/

/-- Whether an event handed to the sink is a `FAIL`. -/
def parse_event_t.is_fail : parse_event_t → Bool
  | PARSE_FAIL _ _ _ => true
  | PARSE_EOF => false

/-- The number of `FAIL` events the sink has received. -/
def nfail (s : pstate) : Nat := s.events.countP parse_event_t.is_fail

/-- An expression that may stand on the left of `=`: an `ID`, `ATTR` or `ELEM` node. -/
def expr_t.assignable (e : expr_t) : Prop :=
  e.is_type EXPR_ID = true ∨ e.is_type EXPR_ATTR = true ∨ e.is_type EXPR_ELEM = true

mutual
/-- Assignment well-formedness of an expression tree: at every `ASSIGN` node of
the tree, function bodies included, the left child is an `ID`, `ATTR` or
`ELEM` node. -/
def expr_wf : expr_t → Prop
  | expr_t.NULL => True
  | expr_t.node ty _ lft rht proc =>
    (ty = EXPR_ASSIGN → lft.assignable) ∧ expr_wf lft ∧ expr_wf rht ∧ stmt_wf proc
/-- Assignment well-formedness of a statement, its children and its siblings. -/
def stmt_wf : stmt_t → Prop
  | stmt_t.NULL => True
  | stmt_t.node _ e b o nx => expr_wf e ∧ stmt_wf b ∧ stmt_wf o ∧ stmt_wf nx
end

/-- `Post m Q`: if the call `m` finishes within its fuel, its result and final
state satisfy `Q`. -/
def Post {α : Type} (m : Option (α × pstate)) (Q : α → pstate → Prop) : Prop :=
  ∀ a s', m = some (a, s') → Q a s'

/-- What a call does to the sink and the heap script, given whether it returned
`NULL`: the sink stays the same one, at most one `FAIL` is added and none when
the result is not `NULL`, and the script of coming allocations only shrinks. -/
structure Eff (s s' : pstate) (isnull : Bool) : Prop where
  cb : s'.cb = s.cb
  le : nfail s' ≤ nfail s + 1
  ge : nfail s ≤ nfail s'
  ok : isnull = false → nfail s' = nfail s
  hp : s'.heap.length ≤ s.heap.length

/-- What a node allocation leaves behind: nothing is reported, the script shrinks. -/
structure Quiet (s s' : pstate) : Prop where
  cb : s'.cb = s.cb
  nf : nfail s' = nfail s
  hp : s'.heap.length ≤ s.heap.length

/-- Invariant of an expression parser. -/
def EInv (s : pstate) (e : expr_t) (s' : pstate) : Prop :=
  Eff s s' e.is_null ∧ expr_wf e

/-- Invariant of `parse_expr_factor`: on an identifier token the result is an `ID` leaf. -/
def FInv (s : pstate) (e : expr_t) (s' : pstate) : Prop :=
  Eff s s' e.is_null ∧ expr_wf e ∧
    (lex_token s = TOK_ID → e.is_null = false → e.is_type EXPR_ID = true)

/-- Invariant of a statement parser. -/
def SInv (s : pstate) (e : stmt_t) (s' : pstate) : Prop :=
  Eff s s' e.is_null ∧ stmt_wf e

/-- Invariant of the `while` of a tier, entered with the expression parsed so far. -/
def WInv (expr : expr_t) (s : pstate) (e : expr_t) (s' : pstate) : Prop :=
  Eff s s' e.is_null ∧ (expr_wf expr → expr_wf e) ∧
    (expr.is_null = true → nfail s' = nfail s ∧ e.is_null = true)

/-- Invariant of a suffix form, entered with the expression it extends. -/
def LInv (lft : expr_t) (s : pstate) (e : expr_t) (s' : pstate) : Prop :=
  Eff s s' e.is_null ∧ (expr_wf lft → expr_wf e)

/-- Invariant of the second half of `parse_expr_funcdef`. -/
def DInv (name param : expr_t) (s : pstate) (e : expr_t) (s' : pstate) : Prop :=
  Eff s s' e.is_null ∧ (expr_wf name → expr_wf param → expr_wf e)

/-- Invariant of the `while` of `parse_stmt_list`, entered with the list built so far. -/
def HInv (head : stmt_t) (s : pstate) (e : stmt_t) (s' : pstate) : Prop :=
  Eff s s' e.is_null ∧ (stmt_wf head → stmt_wf e)

/-- `FLe m m'`: whatever `m` returns, `m'` returns too. -/
def FLe {α : Type} (m m' : Option α) : Prop := ∀ r, m = some r → m' = some r


/-- The invariants of all parser functions at one fuel level. -/
structure AllInv (n : Nat) : Prop where
  parse_expr_factor : ∀ (s : pstate), Post (parse_expr_factor n s) (FInv s)
  parse_expr_primary : ∀ (s : pstate), Post (parse_expr_primary n s) (EInv s)
  parse_expr_primary_while : ∀ (expr : expr_t) (tok : Int) (s : pstate), Post (parse_expr_primary_while n expr tok s) (WInv expr s)
  parse_expr_unary : ∀ (s : pstate), Post (parse_expr_unary n s) (EInv s)
  parse_expr_mul : ∀ (s : pstate), Post (parse_expr_mul n s) (EInv s)
  parse_expr_mul_while : ∀ (expr : expr_t) (tok : Int) (s : pstate), Post (parse_expr_mul_while n expr tok s) (WInv expr s)
  parse_expr_add : ∀ (s : pstate), Post (parse_expr_add n s) (EInv s)
  parse_expr_add_while : ∀ (expr : expr_t) (tok : Int) (s : pstate), Post (parse_expr_add_while n expr tok s) (WInv expr s)
  parse_expr_shift : ∀ (s : pstate), Post (parse_expr_shift n s) (EInv s)
  parse_expr_shift_while : ∀ (expr : expr_t) (tok : Int) (s : pstate), Post (parse_expr_shift_while n expr tok s) (WInv expr s)
  parse_expr_aand : ∀ (s : pstate), Post (parse_expr_aand n s) (EInv s)
  parse_expr_aand_while : ∀ (expr : expr_t) (tok : Int) (s : pstate), Post (parse_expr_aand_while n expr tok s) (WInv expr s)
  parse_expr_test : ∀ (s : pstate), Post (parse_expr_test n s) (EInv s)
  parse_expr_test_while : ∀ (expr : expr_t) (tok : Int) (s : pstate), Post (parse_expr_test_while n expr tok s) (WInv expr s)
  parse_expr_logic_and : ∀ (s : pstate), Post (parse_expr_logic_and n s) (EInv s)
  parse_expr_logic_or : ∀ (s : pstate), Post (parse_expr_logic_or n s) (EInv s)
  parse_expr_ternary : ∀ (s : pstate), Post (parse_expr_ternary n s) (EInv s)
  parse_expr_assign : ∀ (s : pstate), Post (parse_expr_assign n s) (EInv s)
  parse_expr_kv : ∀ (s : pstate), Post (parse_expr_kv n s) (EInv s)
  parse_expr_vardef : ∀ (s : pstate), Post (parse_expr_vardef n s) (EInv s)
  parse_expr_kvlist : ∀ (s : pstate), Post (parse_expr_kvlist n s) (EInv s)
  parse_expr_vardef_list : ∀ (s : pstate), Post (parse_expr_vardef_list n s) (EInv s)
  parse_expr_comma : ∀ (s : pstate), Post (parse_expr_comma n s) (EInv s)
  parse_expr_funcdef : ∀ (s : pstate), Post (parse_expr_funcdef n s) (EInv s)
  parse_expr_funcdef_block : ∀ (name : expr_t) (param : expr_t) (s : pstate), Post (parse_expr_funcdef_block n name param s) (DInv name param s)
  parse_expr_form_attr : ∀ (lft : expr_t) (s : pstate), Post (parse_expr_form_attr n lft s) (LInv lft s)
  parse_expr_form_elem : ∀ (lft : expr_t) (s : pstate), Post (parse_expr_form_elem n lft s) (LInv lft s)
  parse_expr_form_call : ∀ (lft : expr_t) (s : pstate), Post (parse_expr_form_call n lft s) (LInv lft s)
  parse_expr_form_parenth : ∀ (s : pstate), Post (parse_expr_form_parenth n s) (EInv s)
  parse_expr_form_array : ∀ (s : pstate), Post (parse_expr_form_array n s) (EInv s)
  parse_expr_form_dict : ∀ (s : pstate), Post (parse_expr_form_dict n s) (EInv s)
  parse_expr_form_pair : ∀ (s : pstate), Post (parse_expr_form_pair n s) (EInv s)
  parse_stmt_block : ∀ (s : pstate), Post (parse_stmt_block n s) (SInv s)
  parse_stmt_if : ∀ (s : pstate), Post (parse_stmt_if n s) (SInv s)
  parse_stmt_var : ∀ (s : pstate), Post (parse_stmt_var n s) (SInv s)
  parse_stmt_ret : ∀ (s : pstate), Post (parse_stmt_ret n s) (SInv s)
  parse_stmt_while : ∀ (s : pstate), Post (parse_stmt_while n s) (SInv s)
  parse_stmt_expr : ∀ (s : pstate), Post (parse_stmt_expr n s) (SInv s)
  parse_expr : ∀ (s : pstate), Post (parse_expr n s) (EInv s)
  parse_stmt : ∀ (s : pstate), Post (parse_stmt n s) (SInv s)
  parse_stmt_list : ∀ (s : pstate), Post (parse_stmt_list n s) (SInv s)
  parse_stmt_list_while : ∀ (head : stmt_t) (tok : Int) (s : pstate), Post (parse_stmt_list_while n head tok s) (HInv head s)


/-- One more unit of fuel never changes a result, for all parser functions. -/
structure AllMono (n : Nat) : Prop where
  parse_expr_factor : ∀ (s : pstate), FLe (parse_expr_factor n s) (parse_expr_factor (n + 1) s)
  parse_expr_primary : ∀ (s : pstate), FLe (parse_expr_primary n s) (parse_expr_primary (n + 1) s)
  parse_expr_primary_while : ∀ (expr : expr_t) (tok : Int) (s : pstate), FLe (parse_expr_primary_while n expr tok s) (parse_expr_primary_while (n + 1) expr tok s)
  parse_expr_unary : ∀ (s : pstate), FLe (parse_expr_unary n s) (parse_expr_unary (n + 1) s)
  parse_expr_mul : ∀ (s : pstate), FLe (parse_expr_mul n s) (parse_expr_mul (n + 1) s)
  parse_expr_mul_while : ∀ (expr : expr_t) (tok : Int) (s : pstate), FLe (parse_expr_mul_while n expr tok s) (parse_expr_mul_while (n + 1) expr tok s)
  parse_expr_add : ∀ (s : pstate), FLe (parse_expr_add n s) (parse_expr_add (n + 1) s)
  parse_expr_add_while : ∀ (expr : expr_t) (tok : Int) (s : pstate), FLe (parse_expr_add_while n expr tok s) (parse_expr_add_while (n + 1) expr tok s)
  parse_expr_shift : ∀ (s : pstate), FLe (parse_expr_shift n s) (parse_expr_shift (n + 1) s)
  parse_expr_shift_while : ∀ (expr : expr_t) (tok : Int) (s : pstate), FLe (parse_expr_shift_while n expr tok s) (parse_expr_shift_while (n + 1) expr tok s)
  parse_expr_aand : ∀ (s : pstate), FLe (parse_expr_aand n s) (parse_expr_aand (n + 1) s)
  parse_expr_aand_while : ∀ (expr : expr_t) (tok : Int) (s : pstate), FLe (parse_expr_aand_while n expr tok s) (parse_expr_aand_while (n + 1) expr tok s)
  parse_expr_test : ∀ (s : pstate), FLe (parse_expr_test n s) (parse_expr_test (n + 1) s)
  parse_expr_test_while : ∀ (expr : expr_t) (tok : Int) (s : pstate), FLe (parse_expr_test_while n expr tok s) (parse_expr_test_while (n + 1) expr tok s)
  parse_expr_logic_and : ∀ (s : pstate), FLe (parse_expr_logic_and n s) (parse_expr_logic_and (n + 1) s)
  parse_expr_logic_or : ∀ (s : pstate), FLe (parse_expr_logic_or n s) (parse_expr_logic_or (n + 1) s)
  parse_expr_ternary : ∀ (s : pstate), FLe (parse_expr_ternary n s) (parse_expr_ternary (n + 1) s)
  parse_expr_assign : ∀ (s : pstate), FLe (parse_expr_assign n s) (parse_expr_assign (n + 1) s)
  parse_expr_kv : ∀ (s : pstate), FLe (parse_expr_kv n s) (parse_expr_kv (n + 1) s)
  parse_expr_vardef : ∀ (s : pstate), FLe (parse_expr_vardef n s) (parse_expr_vardef (n + 1) s)
  parse_expr_kvlist : ∀ (s : pstate), FLe (parse_expr_kvlist n s) (parse_expr_kvlist (n + 1) s)
  parse_expr_vardef_list : ∀ (s : pstate), FLe (parse_expr_vardef_list n s) (parse_expr_vardef_list (n + 1) s)
  parse_expr_comma : ∀ (s : pstate), FLe (parse_expr_comma n s) (parse_expr_comma (n + 1) s)
  parse_expr_funcdef : ∀ (s : pstate), FLe (parse_expr_funcdef n s) (parse_expr_funcdef (n + 1) s)
  parse_expr_funcdef_block : ∀ (name : expr_t) (param : expr_t) (s : pstate), FLe (parse_expr_funcdef_block n name param s) (parse_expr_funcdef_block (n + 1) name param s)
  parse_expr_form_attr : ∀ (lft : expr_t) (s : pstate), FLe (parse_expr_form_attr n lft s) (parse_expr_form_attr (n + 1) lft s)
  parse_expr_form_elem : ∀ (lft : expr_t) (s : pstate), FLe (parse_expr_form_elem n lft s) (parse_expr_form_elem (n + 1) lft s)
  parse_expr_form_call : ∀ (lft : expr_t) (s : pstate), FLe (parse_expr_form_call n lft s) (parse_expr_form_call (n + 1) lft s)
  parse_expr_form_parenth : ∀ (s : pstate), FLe (parse_expr_form_parenth n s) (parse_expr_form_parenth (n + 1) s)
  parse_expr_form_array : ∀ (s : pstate), FLe (parse_expr_form_array n s) (parse_expr_form_array (n + 1) s)
  parse_expr_form_dict : ∀ (s : pstate), FLe (parse_expr_form_dict n s) (parse_expr_form_dict (n + 1) s)
  parse_expr_form_pair : ∀ (s : pstate), FLe (parse_expr_form_pair n s) (parse_expr_form_pair (n + 1) s)
  parse_stmt_block : ∀ (s : pstate), FLe (parse_stmt_block n s) (parse_stmt_block (n + 1) s)
  parse_stmt_if : ∀ (s : pstate), FLe (parse_stmt_if n s) (parse_stmt_if (n + 1) s)
  parse_stmt_var : ∀ (s : pstate), FLe (parse_stmt_var n s) (parse_stmt_var (n + 1) s)
  parse_stmt_ret : ∀ (s : pstate), FLe (parse_stmt_ret n s) (parse_stmt_ret (n + 1) s)
  parse_stmt_while : ∀ (s : pstate), FLe (parse_stmt_while n s) (parse_stmt_while (n + 1) s)
  parse_stmt_expr : ∀ (s : pstate), FLe (parse_stmt_expr n s) (parse_stmt_expr (n + 1) s)
  parse_expr : ∀ (s : pstate), FLe (parse_expr n s) (parse_expr (n + 1) s)
  parse_stmt : ∀ (s : pstate), FLe (parse_stmt n s) (parse_stmt (n + 1) s)
  parse_stmt_list : ∀ (s : pstate), FLe (parse_stmt_list n s) (parse_stmt_list (n + 1) s)
  parse_stmt_list_while : ∀ (head : stmt_t) (tok : Int) (s : pstate), FLe (parse_stmt_list_while n head tok s) (parse_stmt_list_while (n + 1) head tok s)


/-! ## Writing down inputs and trees -/

/-- A fresh parse session on a token stream: a sink is attached and has received
nothing, no node has been allocated, and the coming allocations behave as the
script `heap` says.  The end of the stream is reported at line 1, column 1. -/
def parse_session (toks : List token_t) (heap : List Bool) : pstate :=
  { toks := toks, eof_line := 1, eof_col := 1, cb := true, events := [],
    heap := heap, allocated := 0, released := 0 }

/-- A token of the given type and text at a source position. -/
abbrev token_at (type : Int) (line col : Nat) (text : String) : token_t :=
  { type := type, line := line, col := col, value := 0, text := text }

/-- A leaf node with its text, as `ast_expr_alloc_str` and `ast_expr_alloc_num`
build it (and `ast_expr_alloc_type` with the empty text). -/
abbrev expr_leaf (type : EXPR_TYPE) (text : String) : expr_t :=
  expr_t.node type text expr_t.NULL expr_t.NULL stmt_t.NULL

/-- A node with a left child only. -/
abbrev expr_unary (type : EXPR_TYPE) (lft : expr_t) : expr_t :=
  expr_t.node type "" lft expr_t.NULL stmt_t.NULL

/-- A node with a left and a right child. -/
abbrev expr_binary (type : EXPR_TYPE) (lft rht : expr_t) : expr_t :=
  expr_t.node type "" lft rht stmt_t.NULL

/-- A `PROC` node wrapping a statement block. -/
abbrev expr_proc (block : stmt_t) : expr_t :=
  expr_t.node EXPR_PROC "" expr_t.NULL expr_t.NULL block

/-- A statement with one expression slot and no sibling. -/
abbrev stmt_1 (type : STMT_TYPE) (expr : expr_t) : stmt_t :=
  stmt_t.node type expr stmt_t.NULL stmt_t.NULL stmt_t.NULL

/-- The state after `k` more successful node allocations. -/
abbrev pstate.allocs (s : pstate) (k : Nat) : pstate :=
  { s with allocated := s.allocated + k }

/-- The tokens of `a.b = c = 1;`. -/
def tokens_assign_chain : List token_t :=
  [token_at TOK_ID 1 1 "a", token_at CH_DOT 1 2 "", token_at TOK_ID 1 3 "b",
   token_at CH_ASSIGN 1 5 "", token_at TOK_ID 1 7 "c", token_at CH_ASSIGN 1 9 "",
   token_at TOK_NUM 1 11 "1", token_at CH_SEMI 1 12 ""]

/-- The tokens of `1 = 2;`. -/
def tokens_one_eq_two : List token_t :=
  [token_at TOK_NUM 1 1 "1", token_at CH_ASSIGN 1 3 "", token_at TOK_NUM 1 5 "2",
   token_at CH_SEMI 1 6 ""]

/-- The tokens of `a; ;`. -/
def tokens_a_semi_semi : List token_t :=
  [token_at TOK_ID 1 1 "a", token_at CH_SEMI 1 2 "", token_at CH_SEMI 1 4 ""]

/-- The tokens of `if x`, after which the stream ends. -/
def tokens_if_x : List token_t :=
  [token_at TOK_IF 1 1 "", token_at TOK_ID 1 4 "x"]

/-- The tokens of `def f()`, after which the stream ends. -/
def tokens_def_f : List token_t :=
  [token_at TOK_DEF 1 1 "", token_at TOK_ID 1 5 "f", token_at CH_LPAREN 1 6 "",
   token_at CH_RPAREN 1 7 ""]

/-- The tokens of `var a;`. -/
def tokens_var_a : List token_t :=
  [token_at TOK_VAR 1 1 "", token_at TOK_ID 1 5 "a", token_at CH_SEMI 1 6 ""]

/-- The tokens of `return a;`. -/
def tokens_return_a : List token_t :=
  [token_at TOK_RET 1 1 "", token_at TOK_ID 1 8 "a", token_at CH_SEMI 1 9 ""]

/-- The state with `toks` left to read and `k` more nodes allocated. -/
def pstate.seek (s : pstate) (toks : List token_t) (k : Nat) : pstate :=
  { s with toks := toks, allocated := s.allocated + k }

/-- The tokens of `1 + 2 * 3;`. -/
def tokens_add_mul : List token_t :=
  [token_at TOK_NUM 1 1 "1", token_at CH_PLUS 1 3 "", token_at TOK_NUM 1 5 "2",
   token_at CH_STAR 1 7 "", token_at TOK_NUM 1 9 "3", token_at CH_SEMI 1 10 ""]

/-- The tokens of `8 - 3 - 2`. -/
def tokens_sub_sub : List token_t :=
  [token_at TOK_NUM 1 1 "8", token_at CH_MINUS 1 3 "", token_at TOK_NUM 1 5 "3",
   token_at CH_MINUS 1 7 "", token_at TOK_NUM 1 9 "2"]

/-- The tokens of `a, b, c`. -/
def tokens_a_b_c : List token_t :=
  [token_at TOK_ID 1 1 "a", token_at CH_COMMA 1 2 "", token_at TOK_ID 1 4 "b",
   token_at CH_COMMA 1 5 "", token_at TOK_ID 1 7 "c"]

/-- The tokens of `a + b`. -/
def tokens_a_plus_b : List token_t :=
  [token_at TOK_ID 1 1 "a", token_at CH_PLUS 1 3 "", token_at TOK_ID 1 5 "b"]

/-- The tokens of `a.b[0](1,2)`. -/
def tokens_suffix_chain : List token_t :=
  [token_at TOK_ID 1 1 "a", token_at CH_DOT 1 2 "", token_at TOK_ID 1 3 "b",
   token_at CH_LBRACKET 1 4 "", token_at TOK_NUM 1 5 "0", token_at CH_RBRACKET 1 6 "",
   token_at CH_LPAREN 1 7 "", token_at TOK_NUM 1 8 "1", token_at CH_COMMA 1 9 "",
   token_at TOK_NUM 1 10 "2", token_at CH_RPAREN 1 11 ""]

/-- The compound-assignment tokens of the lexer: `+=`, `-=`, `*=`, `/=`, `%=`, `&=`,
`|=`, `^=`, `~=`, `<<=`, `>>=`. -/
def compound_assign_tokens : List Int :=
  [TOK_ADDASSIGN, TOK_SUBASSIGN, TOK_MULASSIGN, TOK_DIVASSIGN, TOK_MODASSIGN, TOK_ANDASSIGN,
   TOK_ORASSIGN, TOK_XORASSIGN, TOK_NOTASSIGN, TOK_LSHIFTASSIGN, TOK_RSHIFTASSIGN]

/-- The tokens of `x += 1;`. -/
def tokens_x_addassign_1 : List token_t :=
  [token_at TOK_ID 1 1 "x", token_at TOK_ADDASSIGN 1 3 "", token_at TOK_NUM 1 6 "1",
   token_at CH_SEMI 1 7 ""]

/-- The tokens of `;`. -/
def tokens_semi : List token_t := [token_at CH_SEMI 1 1 ""]

/-- The tokens of `; }`. -/
def tokens_semi_rbrace : List token_t := [token_at CH_SEMI 1 1 "", token_at CH_RBRACE 1 3 ""]

/-- The tokens of `1(x)`. -/
def tokens_one_call_x : List token_t :=
  [token_at TOK_NUM 1 1 "1", token_at CH_LPAREN 1 2 "", token_at TOK_ID 1 3 "x",
   token_at CH_RPAREN 1 4 ""]

/-- The tokens of `"s".x`. -/
def tokens_str_dot_x : List token_t :=
  [token_at TOK_STR 1 1 "s", token_at CH_DOT 1 4 "", token_at TOK_ID 1 5 "x"]

/-- The tokens of `var a = 1, b;`. -/
def tokens_var_a_1_b : List token_t :=
  [token_at TOK_VAR 1 1 "", token_at TOK_ID 1 5 "a", token_at CH_ASSIGN 1 7 "",
   token_at TOK_NUM 1 9 "1", token_at CH_COMMA 1 10 "", token_at TOK_ID 1 12 "b",
   token_at CH_SEMI 1 13 ""]

/-- The tokens of `def f(x, y=1) { return x + y; }`. -/
def tokens_def_f_x_y : List token_t :=
  [token_at TOK_DEF 1 1 "", token_at TOK_ID 1 5 "f", token_at CH_LPAREN 1 6 "",
   token_at TOK_ID 1 7 "x", token_at CH_COMMA 1 8 "", token_at TOK_ID 1 10 "y",
   token_at CH_ASSIGN 1 11 "", token_at TOK_NUM 1 12 "1", token_at CH_RPAREN 1 13 "",
   token_at CH_LBRACE 1 15 "", token_at TOK_RET 1 17 "", token_at TOK_ID 1 24 "x",
   token_at CH_PLUS 1 26 "", token_at TOK_ID 1 28 "y", token_at CH_SEMI 1 29 "",
   token_at CH_RBRACE 1 31 ""]

/-- `Ev f r`: with enough fuel the call `f` returns `r`. -/
def Ev {α : Type} (f : Nat → Option α) (r : α) : Prop :=
  ∃ N, ∀ m, N ≤ m → f m = some r

/-! ## The grammar's tables, as the specification words them -/

/-- The tokens after which an expression goes on: the binary operators, `?`, `=`
and `,`. -/
def expr_continuation_tokens : List Int :=
  [CH_STAR, CH_SLASH, CH_PERCENT, CH_PLUS, CH_MINUS, TOK_RSHIFT, TOK_LSHIFT, CH_AMP, CH_BAR,
   CH_CARET, CH_GT, CH_LT, TOK_NE, TOK_EQ, TOK_GE, TOK_LE, TOK_IN, TOK_LOGICAND, TOK_LOGICOR,
   CH_QUEST, CH_ASSIGN, CH_COMMA]

/-- A token at which every expression tier stops. -/
def ends_expr (tok : Int) : Prop := tok ∉ expr_continuation_tokens

instance ends_expr_decidable (tok : Int) : Decidable (ends_expr tok) := by
  unfold ends_expr
  infer_instance

/-- The variant of the leaf that a literal or identifier token becomes. -/
def operand_variant (tok : Int) : Option EXPR_TYPE :=
  if tok = TOK_ID then some EXPR_ID
  else if tok = TOK_NUM then some EXPR_NUM
  else if tok = TOK_STR then some EXPR_STRING
  else if tok = TOK_UND then some EXPR_UND
  else if tok = TOK_NAN then some EXPR_NAN
  else if tok = TOK_NULL then some EXPR_NULL
  else if tok = TOK_TRUE then some EXPR_TRUE
  else if tok = TOK_FALSE then some EXPR_FALSE
  else none

/-- The leaf that a literal or identifier token becomes: identifiers, numbers and
strings keep their text. -/
def operand_leaf (t : token_t) (ty : EXPR_TYPE) : expr_t :=
  expr_leaf ty (if t.type = TOK_ID ∨ t.type = TOK_NUM ∨ t.type = TOK_STR then t.text else "")

/-- The five left-associative tiers of binary operators. -/
inductive tier where
  | mul | add | shift | aand | test
deriving DecidableEq, Repr

/-- The parser of a tier. -/
def tier.parse : tier → Nat → pstate → Option (expr_t × pstate)
  | tier.mul => parse_expr_mul
  | tier.add => parse_expr_add
  | tier.shift => parse_expr_shift
  | tier.aand => parse_expr_aand
  | tier.test => parse_expr_test

/-- The parser of the operands of a tier, the next-tighter tier. -/
def tier.operand : tier → Nat → pstate → Option (expr_t × pstate)
  | tier.mul => parse_expr_unary
  | tier.add => parse_expr_mul
  | tier.shift => parse_expr_add
  | tier.aand => parse_expr_shift
  | tier.test => parse_expr_aand

/-- The operator-to-variant mapping of the specification, tier by tier. -/
def tier.variant : tier → Int → Option EXPR_TYPE
  | tier.mul, tok =>
    if tok = CH_STAR then some EXPR_MUL else if tok = CH_SLASH then some EXPR_DIV
    else if tok = CH_PERCENT then some EXPR_MOD else none
  | tier.add, tok =>
    if tok = CH_PLUS then some EXPR_ADD else if tok = CH_MINUS then some EXPR_SUB else none
  | tier.shift, tok =>
    if tok = TOK_LSHIFT then some EXPR_LSHIFT else if tok = TOK_RSHIFT then some EXPR_RSHIFT
    else none
  | tier.aand, tok =>
    if tok = CH_AMP then some EXPR_AND else if tok = CH_BAR then some EXPR_OR
    else if tok = CH_CARET then some EXPR_XOR else none
  | tier.test, tok =>
    if tok = TOK_EQ then some EXPR_TEQ else if tok = TOK_NE then some EXPR_TNE
    else if tok = CH_GT then some EXPR_TGT else if tok = CH_LT then some EXPR_TLT
    else if tok = TOK_GE then some EXPR_TGE else if tok = TOK_LE then some EXPR_TLE
    else if tok = TOK_IN then some EXPR_TIN else none

/-- The four right-associative tiers. -/
inductive rtier where
  | comma | assign | logic_or | logic_and
deriving DecidableEq, Repr

/-- The parser of a right-associative tier. -/
def rtier.parse : rtier → Nat → pstate → Option (expr_t × pstate)
  | rtier.comma => parse_expr_comma
  | rtier.assign => parse_expr_assign
  | rtier.logic_or => parse_expr_logic_or
  | rtier.logic_and => parse_expr_logic_and

/-- The parser of the items of a right-associative tier, the next-tighter tier. -/
def rtier.operand : rtier → Nat → pstate → Option (expr_t × pstate)
  | rtier.comma => parse_expr_assign
  | rtier.assign => parse_expr_ternary
  | rtier.logic_or => parse_expr_logic_and
  | rtier.logic_and => parse_expr_test

/-- The operator token of a right-associative tier. -/
def rtier.op : rtier → Int
  | rtier.comma => CH_COMMA
  | rtier.assign => CH_ASSIGN
  | rtier.logic_or => TOK_LOGICOR
  | rtier.logic_and => TOK_LOGICAND

/-- The node variant of a right-associative tier. -/
def rtier.variant : rtier → EXPR_TYPE
  | rtier.comma => EXPR_COMMA
  | rtier.assign => EXPR_ASSIGN
  | rtier.logic_or => EXPR_LOGIC_OR
  | rtier.logic_and => EXPR_LOGIC_AND

/-- The right-leaning chain `ty(e1, ty(e2, ... en))` over a list of items. -/
def right_chain (ty : EXPR_TYPE) : List expr_t → expr_t
  | [] => expr_t.NULL
  | [e] => e
  | e :: e2 :: es => expr_binary ty e (right_chain ty (e2 :: es))

/-- The input `e1 op e2 op ... op en` of a right-associative tier, as the parser
walks it with all allocations succeeding: from `s` the next-tighter tier reads the
non-null item `e1`; either the operator does not follow and the input ends there,
or it does and the remaining items are read after it, one more node being
allocated once they are.  An item to the left of `=` is an `ID`, `ATTR` or `ELEM`
node. -/
inductive reads_items (t : rtier) : pstate → List expr_t → pstate → Prop where
  | last (n : Nat) (s s1 : pstate) (e : expr_t) :
      t.operand n s = some (e, s1) → e ≠ expr_t.NULL → lex_token s1 ≠ t.op →
      reads_items t s [e] s1
  | more (n : Nat) (s s1 s2 : pstate) (e : expr_t) (es : List expr_t) :
      t.operand n s = some (e, s1) → e ≠ expr_t.NULL → (t = rtier.assign → e.assignable) →
      lex_token s1 = t.op → reads_items t (lex_match s1 t.op).2 es s2 →
      reads_items t s (e :: es) (s2.allocs 1)

/-- The operator-to-variant table of the specification for the binary operators. -/
def binop_variant (tok : Int) : Option EXPR_TYPE :=
  if tok = CH_PLUS then some EXPR_ADD
  else if tok = CH_MINUS then some EXPR_SUB
  else if tok = CH_STAR then some EXPR_MUL
  else if tok = CH_SLASH then some EXPR_DIV
  else if tok = CH_PERCENT then some EXPR_MOD
  else if tok = CH_AMP then some EXPR_AND
  else if tok = CH_BAR then some EXPR_OR
  else if tok = CH_CARET then some EXPR_XOR
  else if tok = TOK_LSHIFT then some EXPR_LSHIFT
  else if tok = TOK_RSHIFT then some EXPR_RSHIFT
  else if tok = TOK_EQ then some EXPR_TEQ
  else if tok = TOK_NE then some EXPR_TNE
  else if tok = CH_GT then some EXPR_TGT
  else if tok = CH_LT then some EXPR_TLT
  else if tok = TOK_GE then some EXPR_TGE
  else if tok = TOK_LE then some EXPR_TLE
  else if tok = TOK_IN then some EXPR_TIN
  else if tok = TOK_LOGICAND then some EXPR_LOGIC_AND
  else if tok = TOK_LOGICOR then some EXPR_LOGIC_OR
  else if tok = CH_ASSIGN then some EXPR_ASSIGN
  else none

/-- The operator-to-variant table of the specification for the prefix operators. -/
def unop_variant (tok : Int) : Option EXPR_TYPE :=
  if tok = CH_BANG then some EXPR_LOGIC_NOT
  else if tok = CH_MINUS then some EXPR_NEG
  else if tok = CH_TILDE then some EXPR_NOT
  else none

/-- A suffix of a primary expression: `.x`, `[e]`, `(args)` or `()`. -/
inductive suffix where
  | attr (x : String)
  | elem (e : expr_t)
  | call (args : expr_t)
  | call_empty

/-- The node a suffix makes of the expression before it. -/
def suffix.apply (prev : expr_t) : suffix → expr_t
  | suffix.attr x => expr_binary EXPR_ATTR prev (expr_leaf EXPR_ID x)
  | suffix.elem e => expr_binary EXPR_ELEM prev e
  | suffix.call args => expr_binary EXPR_CALL prev args
  | suffix.call_empty => expr_unary EXPR_CALL prev

/-- The tree `sn'(...s2'(s1'(h))...)` of a head and its suffixes in source order. -/
def apply_suffixes (head : expr_t) (l : List suffix) : expr_t :=
  l.foldl suffix.apply head

/-- One suffix in the input, as the parser walks it with all allocations
succeeding: `.` and an identifier; `[`, a non-null ternary-level expression and
`]`; `(`, a non-null comma-level expression and `)`; or `(` and `)`. -/
inductive reads_suffix : pstate → suffix → pstate → Prop where
  | attr (s : pstate) :
      lex_token s = CH_DOT → lex_token (lex_match s CH_DOT).2 = TOK_ID →
      reads_suffix s (suffix.attr (lex_token_text (lex_match s CH_DOT).2))
        ((lex_match (lex_match s CH_DOT).2 TOK_ID).2.allocs 2)
  | elem (n : Nat) (s s1 : pstate) (e : expr_t) :
      lex_token s = CH_LBRACKET →
      parse_expr_ternary n (lex_match s CH_LBRACKET).2 = some (e, s1) → e ≠ expr_t.NULL →
      lex_token s1 = CH_RBRACKET →
      reads_suffix s (suffix.elem e) (lex_match (s1.allocs 1) CH_RBRACKET).2
  | call (n : Nat) (s s1 : pstate) (args : expr_t) :
      lex_token s = CH_LPAREN → lex_token (lex_match s CH_LPAREN).2 ≠ CH_RPAREN →
      parse_expr_comma n (lex_match s CH_LPAREN).2 = some (args, s1) → args ≠ expr_t.NULL →
      lex_token s1 = CH_RPAREN →
      reads_suffix s (suffix.call args) (lex_match (s1.allocs 1) CH_RPAREN).2
  | call_empty (s : pstate) :
      lex_token s = CH_LPAREN → lex_token (lex_match s CH_LPAREN).2 = CH_RPAREN →
      reads_suffix s suffix.call_empty
        ((lex_match (lex_match s CH_LPAREN).2 CH_RPAREN).2.allocs 1)

/-- A sequence of suffixes in the input, one after the other. -/
inductive reads_suffixes : pstate → List suffix → pstate → Prop where
  | nil (s : pstate) : reads_suffixes s [] s
  | cons (s s1 s2 : pstate) (x : suffix) (xs : List suffix) :
      reads_suffix s x s1 → reads_suffixes s1 xs s2 → reads_suffixes s (x :: xs) s2

/-- One declarator in the input, as the parser walks it with all allocations
succeeding: an identifier not followed by `=`, giving `ID`; or an identifier, `=`
and a non-null assign-level expression, giving `ASSIGN(ID, expr)`. -/
inductive reads_vardef : pstate → expr_t → pstate → Prop where
  | plain (s : pstate) :
      lex_token s = TOK_ID → lex_token (lex_match s TOK_ID).2 ≠ CH_ASSIGN →
      reads_vardef s (expr_leaf EXPR_ID (lex_token_text s)) ((lex_match s TOK_ID).2.allocs 1)
  | init (n : Nat) (s s1 : pstate) (e : expr_t) :
      lex_token s = TOK_ID → lex_token (lex_match s TOK_ID).2 = CH_ASSIGN →
      parse_expr_assign n (lex_match ((lex_match s TOK_ID).2.allocs 1) CH_ASSIGN).2
        = some (e, s1) →
      e ≠ expr_t.NULL →
      reads_vardef s (expr_binary EXPR_ASSIGN (expr_leaf EXPR_ID (lex_token_text s)) e)
        (s1.allocs 1)

/-- A list `d1 , ... , dn` of declarators in the input, `n ≥ 1`, not followed by a
further `,`. -/
inductive reads_vardefs : pstate → List expr_t → pstate → Prop where
  | last (s s1 : pstate) (d : expr_t) :
      reads_vardef s d s1 → lex_token s1 ≠ CH_COMMA → reads_vardefs s [d] s1
  | more (s s1 s2 : pstate) (d : expr_t) (ds : List expr_t) :
      reads_vardef s d s1 → lex_token s1 = CH_COMMA →
      reads_vardefs (lex_match s1 CH_COMMA).2 ds s2 →
      reads_vardefs s (d :: ds) (s2.allocs 1)

/-- Zero or more declarators, each followed by `,`, and then, at the state given
second, a token that is not an identifier where the next declarator should start. -/
inductive reads_vardefs_bad : pstate → pstate → Prop where
  | bad (s : pstate) : lex_token s ≠ TOK_ID → reads_vardefs_bad s s
  | more (s s1 sb : pstate) (d : expr_t) :
      reads_vardef s d s1 → lex_token s1 = CH_COMMA →
      reads_vardefs_bad (lex_match s1 CH_COMMA).2 sb → reads_vardefs_bad s sb

/-- The optional name of a function literal in the input: an identifier, giving
`ID`, or no identifier, giving `NULL` and leaving the state as it is. -/
inductive reads_name : pstate → expr_t → pstate → Prop where
  | named (s : pstate) :
      lex_token s = TOK_ID →
      reads_name s (expr_leaf EXPR_ID (lex_token_text s)) ((lex_match s TOK_ID).2.allocs 1)
  | anonymous (s : pstate) : lex_token s ≠ TOK_ID → reads_name s expr_t.NULL s

/-- The optional parameter list of a function literal in the input, from after the
`(` to after the `)`: no parameter, giving `NULL`, or a list of declarators,
giving their right-leaning `COMMA` chain. -/
inductive reads_params : pstate → expr_t → pstate → Prop where
  | none (s : pstate) :
      lex_token s = CH_RPAREN → reads_params s expr_t.NULL (lex_match s CH_RPAREN).2
  | some (s s1 : pstate) (ds : List expr_t) :
      lex_token s ≠ CH_RPAREN → reads_vardefs s ds s1 → lex_token s1 = CH_RPAREN →
      reads_params s (right_chain EXPR_COMMA ds) (lex_match s1 CH_RPAREN).2

/-- The tree `FUNCDEF(FUNCHEAD(name?, params?)?, PROC(block))` of the
specification: the `FUNCHEAD` is left out when both the name and the parameters
are absent. -/
def funcdef_tree (name param : expr_t) (block : stmt_t) : expr_t :=
  expr_binary EXPR_FUNCDEF
    (if name.is_null && param.is_null then expr_t.NULL
     else expr_binary EXPR_FUNCHEAD name param)
    (expr_proc block)

/-! ## Values (`lang/val.h`) -/

/-- `MAKE_TAG(s, t)` (val.h:40-41) on `val_t`, a 64-bit unsigned integer:
`(val_t)(s) << 63 | (val_t) 0x7ff0 << 48 | (val_t)(t) << 48`. -/
def MAKE_TAG (s t : Nat) : Nat :=
  ((s <<< 63) % 2 ^ 64) ||| ((0x7ff0 <<< 48) % 2 ^ 64) ||| ((t <<< 48) % 2 ^ 64)

/-- `TAG_INFINITE` (val.h:43). -/
def TAG_INFINITE : Nat := MAKE_TAG 0 0

/-- `val_is_number` (val.h:83-85), on the 64-bit value `*v`. -/
def val_is_number (v : Nat) : Bool := (v &&& TAG_INFINITE) != TAG_INFINITE

/-- The sign bit and the 11 exponent bits (bits 63..52) of a 64-bit value are all 1. -/
def high12_all_ones (v : Nat) : Bool := v >>> 52 == 0xFFF

/-- The 11 exponent bits (bits 62..52) of a value are all 1. -/
def exponent_all_ones (v : Nat) : Bool := (v >>> 52) % 2 ^ 11 == 0x7FF

/-- `TAG_FUNC_SCRIPT` (val.h:44). -/
def TAG_FUNC_SCRIPT : Nat := MAKE_TAG 1 1
/-- `TAG_FUNC_NATIVE` (val.h:45). -/
def TAG_FUNC_NATIVE : Nat := MAKE_TAG 1 2
/-- `TAG_STRING_S` (val.h:46). -/
def TAG_STRING_S : Nat := MAKE_TAG 1 3
/-- `TAG_STRING_I` (val.h:47). -/
def TAG_STRING_I : Nat := MAKE_TAG 1 4
/-- `TAG_STRING_O` (val.h:48). -/
def TAG_STRING_O : Nat := MAKE_TAG 1 5
/-- `TAG_UNDEFINED` (val.h:49). -/
def TAG_UNDEFINED : Nat := MAKE_TAG 1 6
/-- `TAG_BOOLEAN` (val.h:50). -/
def TAG_BOOLEAN : Nat := MAKE_TAG 1 7
/-- `TAG_NAN` (val.h:51). -/
def TAG_NAN : Nat := MAKE_TAG 1 8
/-- `TAG_OBJECT` (val.h:53). -/
def TAG_OBJECT : Nat := MAKE_TAG 1 9
/-- `TAG_ARRAY` (val.h:54). -/
def TAG_ARRAY : Nat := MAKE_TAG 1 0xA
/-- `TAG_DICTIONARY` (val.h:55). -/
def TAG_DICTIONARY : Nat := MAKE_TAG 1 0xB
/-- `TAG_BUFFER` (val.h:56). -/
def TAG_BUFFER : Nat := MAKE_TAG 1 0xC
/-- `TAG_REFERENCE` (val.h:58). -/
def TAG_REFERENCE : Nat := MAKE_TAG 1 0xE
/-- `TAG_MASK` (val.h:60). -/
def TAG_MASK : Nat := MAKE_TAG 1 0xF
/-- `VAR_MASK` (val.h:61), `~MAKE_TAG(1, 0xF)` on 64 bits. -/
def VAR_MASK : Nat := (2 ^ 64 - 1) - TAG_MASK

/-- The value of a 64-bit pattern read as the signed `intptr_t`. -/
def to_intptr (x : Nat) : Int :=
  if x % 2 ^ 64 < 2 ^ 63 then (x % 2 ^ 64 : Nat) else (x % 2 ^ 64 : Nat) - 2 ^ 64

/-- The 64-bit pattern of an `intptr_t`, as the conversion to `val_t` gives it. -/
def of_intptr (x : Int) : Nat := (x % 2 ^ 64).toNat

/-- The conversion of an `intptr_t` to `int` on return, keeping the low 32 bits. -/
def to_int (x : Int) : Int := (x + 2 ^ 31) % 2 ^ 32 - 2 ^ 31

/-- `val_2_intptr` (val.h:71-73). -/
def val_2_intptr (v : Nat) : Int := to_intptr (v &&& VAR_MASK)

/-- `val_2_reference` (val.h:75-77), the address as a number. -/
def val_2_reference (v : Nat) : Nat := v &&& VAR_MASK

/-- `val_is_nan` (val.h:87-89). -/
def val_is_nan (v : Nat) : Bool := (v &&& TAG_MASK) == TAG_NAN
/-- `val_is_script` (val.h:91-93). -/
def val_is_script (v : Nat) : Bool := (v &&& TAG_MASK) == TAG_FUNC_SCRIPT
/-- `val_is_native` (val.h:95-97). -/
def val_is_native (v : Nat) : Bool := (v &&& TAG_MASK) == TAG_FUNC_NATIVE
/-- `val_is_function` (val.h:99-101). -/
def val_is_function (v : Nat) : Bool := val_is_script v || val_is_native v
/-- `val_is_undefined` (val.h:103-105). -/
def val_is_undefined (v : Nat) : Bool := (v &&& TAG_MASK) == TAG_UNDEFINED
/-- `val_is_boolean` (val.h:107-109). -/
def val_is_boolean (v : Nat) : Bool := (v &&& TAG_MASK) == TAG_BOOLEAN
/-- `val_is_owned_string` (val.h:111-113). -/
def val_is_owned_string (v : Nat) : Bool := (v &&& TAG_MASK) == TAG_STRING_O
/-- `val_is_static_string` (val.h:115-117). -/
def val_is_static_string (v : Nat) : Bool := (v &&& TAG_MASK) == TAG_STRING_S
/-- `val_is_inline_string` (val.h:119-121). -/
def val_is_inline_string (v : Nat) : Bool := (v &&& TAG_MASK) == TAG_STRING_I
/-- `val_is_string` (val.h:123-125). -/
def val_is_string (v : Nat) : Bool :=
  val_is_owned_string v || val_is_static_string v || val_is_inline_string v
/-- `val_is_object` (val.h:140-142). -/
def val_is_object (v : Nat) : Bool := (v &&& TAG_MASK) == TAG_OBJECT
/-- `val_is_reference` (val.h:144-146). -/
def val_is_reference (v : Nat) : Bool := (v &&& TAG_MASK) == TAG_REFERENCE
/-- `val_is_array` (val.h:148-150). -/
def val_is_array (v : Nat) : Bool := (v &&& TAG_MASK) == TAG_ARRAY
/-- `val_is_dictionary` (val.h:152-154). -/
def val_is_dictionary (v : Nat) : Bool := (v &&& TAG_MASK) == TAG_DICTIONARY

/-- Modelled from the spec: the buffer predicate, which `val.h` does not define; the
test of `TAG_BUFFER` (val.h:56) in the way of its siblings. -/
def val_is_buffer (v : Nat) : Bool := (v &&& TAG_MASK) == TAG_BUFFER

/-- The C comparison `d != 0` on the double whose bit pattern is `bits`: false
exactly on the patterns of `+0.0` and `-0.0`, whose bits 62..0 are all 0 (a NaN
compares unequal to everything). -/
def double_ne_zero (bits : Nat) : Bool := bits % 2 ^ 63 != 0

/-- `val_is_true` (val.h:156-167) on the value `*v`; `mem` gives the value stored at
an address, for the first line, which follows a reference.  `val_2_double` is the
bit pattern itself. -/
def val_is_true (mem : Nat → Nat) (v : Nat) : Int :=
  let v1 := if val_is_reference v then mem (val_2_reference v) else v
  to_int
    (if val_is_boolean v1 then val_2_intptr v1
     else if val_is_number v1 then (if double_ne_zero v1 then 1 else 0)
     else 0)

/-- `val_mk_number` (val.h:169-171): `double_2_val` reads the double as its 64-bit
pattern, so on patterns it is the identity. -/
def val_mk_number (d : Nat) : Nat := d
/-- `val_mk_nan` (val.h:173-175). -/
def val_mk_nan : Nat := TAG_NAN
/-- `val_mk_undefined` (val.h:177-179). -/
def val_mk_undefined : Nat := TAG_UNDEFINED
/-- `val_mk_script` (val.h:181-183). -/
def val_mk_script (s : Int) : Nat := TAG_FUNC_SCRIPT ||| of_intptr s
/-- `val_mk_native` (val.h:185-187). -/
def val_mk_native (n : Int) : Nat := TAG_FUNC_NATIVE ||| of_intptr n
/-- `val_mk_boolean` (val.h:189-191). -/
def val_mk_boolean (v : Int) : Nat := TAG_BOOLEAN ||| (if v = 0 then 0 else 1)
/-- `val_mk_static_string` (val.h:193-195). -/
def val_mk_static_string (s : Int) : Nat := TAG_STRING_S ||| of_intptr s
/-- `val_mk_owned_string` (val.h:197-199). -/
def val_mk_owned_string (s : Int) : Nat := TAG_STRING_O ||| of_intptr s
/-- `val_mk_reference` (val.h:201-203), on the address as a 64-bit number. -/
def val_mk_reference (ref : Nat) : Nat := TAG_REFERENCE ||| (ref % 2 ^ 64)
/-- `val_mk_array` (val.h:205-207), on the address as a 64-bit number. -/
def val_mk_array (ptr : Nat) : Nat := TAG_ARRAY ||| (ptr % 2 ^ 64)
/-- `val_mk_dictionary` (val.h:209-211), on the address as a 64-bit number. -/
def val_mk_dictionary (ptr : Nat) : Nat := TAG_DICTIONARY ||| (ptr % 2 ^ 64)

/-- Bits 63..48 of a value: the sign, the exponent and the 4-bit tag. -/
def val_top16 (v : Nat) : Nat := (v >>> 48) % 2 ^ 16

/-- The thirteen leaf predicates of `val.h` on a value, in the order number,
undefined, nan, boolean, script, native, static string, inline string, owned
string, object, array, dictionary, reference. -/
def val_leaf_predicates (v : Nat) : List Bool :=
  [val_is_number v, val_is_undefined v, val_is_nan v, val_is_boolean v, val_is_script v,
   val_is_native v, val_is_static_string v, val_is_inline_string v, val_is_owned_string v,
   val_is_object v, val_is_array v, val_is_dictionary v, val_is_reference v]

/-- The fourteen predicates of the specification: the leaf predicates of `val.h`
and the buffer predicate. -/
def val_predicates (v : Nat) : List Bool := val_leaf_predicates v ++ [val_is_buffer v]

/-- The patterns of bits 63..48 that a tagged predicate accepts: `0xFFF1` to `0xFFFC`
and `0xFFFE`. -/
def assigned_tags : List Nat :=
  [0xFFF1, 0xFFF2, 0xFFF3, 0xFFF4, 0xFFF5, 0xFFF6, 0xFFF7, 0xFFF8, 0xFFF9, 0xFFFA, 0xFFFB,
   0xFFFC, 0xFFFE]

/-- The 48-bit payload of a value sign-extended from bit 47 to 64 bits, as a signed
number. -/
def payload_sign_extended (v : Nat) : Int :=
  if v % 2 ^ 48 < 2 ^ 47 then (v % 2 ^ 48 : Nat) else (v % 2 ^ 48 : Nat) - 2 ^ 48

/-- A 64-bit pattern of an IEEE-754 NaN: the exponent bits all 1 and the mantissa
(bits 51..0) not zero, either sign. -/
def is_nan_pattern (d : Nat) : Bool := exponent_all_ones d && (d % 2 ^ 52 != 0)

/-- The leaf predicates as a function of bits 63..48. -/
def leaf_predicates_of_top16 (t : Nat) : List Bool :=
  [decide ((t / 16) % 2 ^ 11 ≠ 0x7FF), decide (t = 0xFFF6), decide (t = 0xFFF8),
   decide (t = 0xFFF7), decide (t = 0xFFF1), decide (t = 0xFFF2), decide (t = 0xFFF3),
   decide (t = 0xFFF4), decide (t = 0xFFF5), decide (t = 0xFFF9), decide (t = 0xFFFA),
   decide (t = 0xFFFB), decide (t = 0xFFFE)]

/-! ## Termination: definitions -/

/-- The number of tokens the lexer has not yet handed out. -/
def remaining (s : pstate) : Nat := s.toks.length

/-- The number of tokens that `lex_match s tok` consumes, 1 or 0. -/
def advance (s : pstate) (tok : Int) : Nat := remaining s - remaining (lex_match s tok).2

/-- `Tot m Q`: the call `m` finishes within its fuel, and its result and final
state satisfy `Q`. -/
def Tot {α : Type} (m : Option (α × pstate)) (Q : α → pstate → Prop) : Prop :=
  ∃ a s', m = some (a, s') ∧ Q a s'

/-- Result of an expression function: nothing is given back to the stream, and a
node is returned only after a token was consumed. -/
def EProg (s : pstate) (e : expr_t) (s' : pstate) : Prop :=
  remaining s' ≤ remaining s ∧ (e.is_null = false → remaining s' < remaining s)

/-- Result of a statement function: nothing is given back to the stream, and a
node is returned only after a token was consumed. -/
def SProg (s : pstate) (st : stmt_t) (s' : pstate) : Prop :=
  remaining s' ≤ remaining s ∧ (st.is_null = false → remaining s' < remaining s)

/-- Result of the `while` of a binary tier: nothing is given back to the stream,
and a node is returned only if the loop started from one. -/
def WProg (expr : expr_t) (s : pstate) (e : expr_t) (s' : pstate) : Prop :=
  remaining s' ≤ remaining s ∧ (e.is_null = false → expr.is_null = false)
/-- Termination and progress of all parser functions at one fuel level: a call
whose fuel exceeds fifty times the number of remaining tokens, plus the rank of
the function among the functions callable without consuming, finishes. -/
structure AllTot (n : Nat) : Prop where
  parse_expr_form_parenth : ∀ (s : pstate), lex_token s = CH_LPAREN → 50 * remaining s + 0 < n →
      Tot (parse_expr_form_parenth n s) (fun _ s' => remaining s' < remaining s)
  parse_expr_form_array : ∀ (s : pstate), lex_token s = CH_LBRACKET → 50 * remaining s + 1 < n →
      Tot (parse_expr_form_array n s) (fun _ s' => remaining s' < remaining s)
  parse_expr_form_dict : ∀ (s : pstate), lex_token s = CH_LBRACE → 50 * remaining s + 2 < n →
      Tot (parse_expr_form_dict n s) (fun _ s' => remaining s' < remaining s)
  parse_expr_funcdef : ∀ (s : pstate), lex_token s = TOK_DEF → 50 * remaining s + 3 < n →
      Tot (parse_expr_funcdef n s) (fun _ s' => remaining s' < remaining s)
  parse_expr_form_attr : ∀ (lft : expr_t) (s : pstate), lex_token s = CH_DOT → 50 * remaining s + 4 < n →
      Tot (parse_expr_form_attr n lft s) (fun _ s' => remaining s' < remaining s)
  parse_expr_form_elem : ∀ (lft : expr_t) (s : pstate), lex_token s = CH_LBRACKET → 50 * remaining s + 5 < n →
      Tot (parse_expr_form_elem n lft s) (fun _ s' => remaining s' < remaining s)
  parse_expr_form_call : ∀ (lft : expr_t) (s : pstate), lex_token s = CH_LPAREN → 50 * remaining s + 6 < n →
      Tot (parse_expr_form_call n lft s) (fun _ s' => remaining s' < remaining s)
  parse_expr_factor : ∀ (s : pstate), 50 * remaining s + 7 < n →
      Tot (parse_expr_factor n s) (EProg s)
  parse_expr_primary_while : ∀ (expr : expr_t) (tok : Int) (s : pstate), tok = lex_token s → 50 * remaining s + 8 < n →
      Tot (parse_expr_primary_while n expr tok s) (WProg expr s)
  parse_expr_primary : ∀ (s : pstate), 50 * remaining s + 9 < n →
      Tot (parse_expr_primary n s) (EProg s)
  parse_expr_unary : ∀ (s : pstate), 50 * remaining s + 10 < n →
      Tot (parse_expr_unary n s) (EProg s)
  parse_expr_mul_while : ∀ (expr : expr_t) (tok : Int) (s : pstate), tok = lex_token s → 50 * remaining s + 11 < n →
      Tot (parse_expr_mul_while n expr tok s) (WProg expr s)
  parse_expr_mul : ∀ (s : pstate), 50 * remaining s + 12 < n →
      Tot (parse_expr_mul n s) (EProg s)
  parse_expr_add_while : ∀ (expr : expr_t) (tok : Int) (s : pstate), tok = lex_token s → 50 * remaining s + 13 < n →
      Tot (parse_expr_add_while n expr tok s) (WProg expr s)
  parse_expr_add : ∀ (s : pstate), 50 * remaining s + 14 < n →
      Tot (parse_expr_add n s) (EProg s)
  parse_expr_shift_while : ∀ (expr : expr_t) (tok : Int) (s : pstate), tok = lex_token s → 50 * remaining s + 15 < n →
      Tot (parse_expr_shift_while n expr tok s) (WProg expr s)
  parse_expr_shift : ∀ (s : pstate), 50 * remaining s + 16 < n →
      Tot (parse_expr_shift n s) (EProg s)
  parse_expr_aand_while : ∀ (expr : expr_t) (tok : Int) (s : pstate), tok = lex_token s → 50 * remaining s + 17 < n →
      Tot (parse_expr_aand_while n expr tok s) (WProg expr s)
  parse_expr_aand : ∀ (s : pstate), 50 * remaining s + 18 < n →
      Tot (parse_expr_aand n s) (EProg s)
  parse_expr_test_while : ∀ (expr : expr_t) (tok : Int) (s : pstate), tok = lex_token s → 50 * remaining s + 19 < n →
      Tot (parse_expr_test_while n expr tok s) (WProg expr s)
  parse_expr_test : ∀ (s : pstate), 50 * remaining s + 20 < n →
      Tot (parse_expr_test n s) (EProg s)
  parse_expr_logic_and : ∀ (s : pstate), 50 * remaining s + 21 < n →
      Tot (parse_expr_logic_and n s) (EProg s)
  parse_expr_logic_or : ∀ (s : pstate), 50 * remaining s + 22 < n →
      Tot (parse_expr_logic_or n s) (EProg s)
  parse_expr_ternary : ∀ (s : pstate), 50 * remaining s + 23 < n →
      Tot (parse_expr_ternary n s) (EProg s)
  parse_expr_form_pair : ∀ (s : pstate), 50 * remaining s + 24 < n →
      Tot (parse_expr_form_pair n s) (EProg s)
  parse_expr_assign : ∀ (s : pstate), 50 * remaining s + 25 < n →
      Tot (parse_expr_assign n s) (EProg s)
  parse_expr_kv : ∀ (s : pstate), 50 * remaining s + 26 < n →
      Tot (parse_expr_kv n s) (EProg s)
  parse_expr_vardef : ∀ (s : pstate), 50 * remaining s + 27 < n →
      Tot (parse_expr_vardef n s) (EProg s)
  parse_expr_kvlist : ∀ (s : pstate), 50 * remaining s + 28 < n →
      Tot (parse_expr_kvlist n s) (EProg s)
  parse_expr_vardef_list : ∀ (s : pstate), 50 * remaining s + 29 < n →
      Tot (parse_expr_vardef_list n s) (EProg s)
  parse_expr_comma : ∀ (s : pstate), 50 * remaining s + 30 < n →
      Tot (parse_expr_comma n s) (EProg s)
  parse_expr : ∀ (s : pstate), 50 * remaining s + 31 < n →
      Tot (parse_expr n s) (EProg s)
  parse_stmt_expr : ∀ (s : pstate), 50 * remaining s + 32 < n →
      Tot (parse_stmt_expr n s) (SProg s)
  parse_stmt_ret : ∀ (s : pstate), lex_token s = TOK_RET → 50 * remaining s + 33 < n →
      Tot (parse_stmt_ret n s) (fun _ s' => remaining s' < remaining s)
  parse_stmt_var : ∀ (s : pstate), lex_token s = TOK_VAR → 50 * remaining s + 34 < n →
      Tot (parse_stmt_var n s) (fun _ s' => remaining s' < remaining s)
  parse_stmt_if : ∀ (s : pstate), lex_token s = TOK_IF → 50 * remaining s + 35 < n →
      Tot (parse_stmt_if n s) (fun _ s' => remaining s' < remaining s)
  parse_stmt_while : ∀ (s : pstate), lex_token s = TOK_WHILE → 50 * remaining s + 36 < n →
      Tot (parse_stmt_while n s) (fun _ s' => remaining s' < remaining s)
  parse_stmt : ∀ (s : pstate), 50 * remaining s + 37 < n →
      Tot (parse_stmt n s) (SProg s)
  parse_stmt_list_while : ∀ (head : stmt_t) (tok : Int) (s : pstate), tok = lex_token s → 50 * remaining s + 38 < n →
      Tot (parse_stmt_list_while n head tok s) (fun _ s' => remaining s' ≤ remaining s)
  parse_stmt_list : ∀ (s : pstate), 50 * remaining s + 39 < n →
      Tot (parse_stmt_list n s) (fun _ s' => remaining s' ≤ remaining s)
  parse_stmt_block : ∀ (s : pstate), 50 * remaining s + 40 < n →
      Tot (parse_stmt_block n s) (fun _ s' => remaining s' ≤ remaining s)
  parse_expr_funcdef_block : ∀ (name : expr_t) (param : expr_t) (s : pstate), 50 * remaining s + 41 < n →
      Tot (parse_expr_funcdef_block n name param s) (fun _ s' => remaining s' ≤ remaining s)


/-! ## Basic facts -/

@[simp] theorem expr_is_null_NULL : expr_t.NULL.is_null = true := rfl
@[simp] theorem expr_is_null_node (ty : EXPR_TYPE) (tx : String) (l r : expr_t) (p : stmt_t) :
    (expr_t.node ty tx l r p).is_null = false := rfl
@[simp] theorem stmt_is_null_NULL : stmt_t.NULL.is_null = true := rfl
@[simp] theorem stmt_is_null_node (ty : STMT_TYPE) (e : expr_t) (b o n : stmt_t) :
    (stmt_t.node ty e b o n).is_null = false := rfl
@[simp] theorem expr_is_type_NULL (t : EXPR_TYPE) : expr_t.NULL.is_type t = false := rfl
@[simp] theorem expr_is_type_node (ty : EXPR_TYPE) (tx : String) (l r : expr_t) (p : stmt_t)
    (t : EXPR_TYPE) : (expr_t.node ty tx l r p).is_type t = decide (ty = t) := rfl
@[simp] theorem expr_wf_NULL : expr_wf expr_t.NULL = True := by simp [expr_wf]
@[simp] theorem stmt_wf_NULL : stmt_wf stmt_t.NULL = True := by simp [stmt_wf]
@[simp] theorem expr_wf_node (ty : EXPR_TYPE) (tx : String) (l r : expr_t) (p : stmt_t) :
    expr_wf (expr_t.node ty tx l r p) =
      ((ty = EXPR_ASSIGN → l.assignable) ∧ expr_wf l ∧ expr_wf r ∧ stmt_wf p) := by
  simp [expr_wf]
@[simp] theorem stmt_wf_node (ty : STMT_TYPE) (e : expr_t) (b o n : stmt_t) :
    stmt_wf (stmt_t.node ty e b o n) = (expr_wf e ∧ stmt_wf b ∧ stmt_wf o ∧ stmt_wf n) := by
  simp [stmt_wf]

theorem expr_is_null_eq_true {e : expr_t} : e.is_null = true ↔ e = expr_t.NULL := by
  cases e <;> simp
theorem stmt_is_null_eq_true {e : stmt_t} : e.is_null = true ↔ e = stmt_t.NULL := by
  cases e <;> simp

@[simp] theorem expr_wf_of_is_null {e : expr_t} (h : e.is_null = true) : expr_wf e = True := by
  cases e <;> simp_all
@[simp] theorem stmt_wf_of_is_null {e : stmt_t} (h : e.is_null = true) : stmt_wf e = True := by
  cases e <;> simp_all

theorem assignable_iff (e : expr_t) : e.assignable ↔
    (e.is_type EXPR_ID = false → e.is_type EXPR_ATTR = false → e.is_type EXPR_ELEM = true) := by
  unfold expr_t.assignable
  cases e.is_type EXPR_ID <;> cases e.is_type EXPR_ATTR <;> cases e.is_type EXPR_ELEM <;> simp

@[simp] theorem parse_expr_test_type_ne (tok : Int) : parse_expr_test_type tok ≠ EXPR_ASSIGN := by
  unfold parse_expr_test_type; split_ifs <;> simp

@[simp] theorem ast_expr_set_lft_node (ty : EXPR_TYPE) (tx : String) (l r : expr_t) (p : stmt_t)
    (x : expr_t) : ast_expr_set_lft (expr_t.node ty tx l r p) x = expr_t.node ty tx x r p := rfl
@[simp] theorem ast_expr_set_rht_node (ty : EXPR_TYPE) (tx : String) (l r : expr_t) (p : stmt_t)
    (x : expr_t) : ast_expr_set_rht (expr_t.node ty tx l r p) x = expr_t.node ty tx l x p := rfl

theorem stmt_wf_link : ∀ (head curr : stmt_t),
    stmt_wf (ast_stmt_link head curr) ↔ (stmt_wf head ∧ stmt_wf curr)
  | stmt_t.NULL, curr => by simp [ast_stmt_link]
  | stmt_t.node ty e b o nx, curr => by
    simp only [ast_stmt_link, stmt_wf_node, stmt_wf_link nx curr]
    tauto

/-! ### What the primitive steps do to the observations -/

@[simp] theorem lex_match_cb (s : pstate) (t : Int) : (lex_match s t).2.cb = s.cb := by
  unfold lex_match; split <;> rfl
@[simp] theorem lex_match_heap (s : pstate) (t : Int) : (lex_match s t).2.heap = s.heap := by
  unfold lex_match; split <;> rfl
@[simp] theorem nfail_lex_match (s : pstate) (t : Int) : nfail (lex_match s t).2 = nfail s := by
  unfold lex_match; split <;> rfl
@[simp] theorem parse_fail_cb (s : pstate) (e : ERR_CODE) : (parse_fail s e).cb = s.cb := by
  unfold parse_fail; split <;> rfl
@[simp] theorem parse_fail_heap (s : pstate) (e : ERR_CODE) : (parse_fail s e).heap = s.heap := by
  unfold parse_fail; split <;> rfl
@[simp] theorem nfail_parse_fail (s : pstate) (e : ERR_CODE) :
    nfail (parse_fail s e) = nfail s + (if s.cb = true then 1 else 0) := by
  unfold parse_fail; split <;> simp [nfail, parse_event_t.is_fail]
@[simp] theorem parse_eof_cb (s : pstate) : (parse_eof s).cb = s.cb := by
  unfold parse_eof; split <;> rfl
@[simp] theorem parse_eof_heap (s : pstate) : (parse_eof s).heap = s.heap := by
  unfold parse_eof; split <;> rfl
@[simp] theorem nfail_parse_eof (s : pstate) : nfail (parse_eof s) = nfail s := by
  unfold parse_eof; split <;> simp [nfail, parse_event_t.is_fail]
@[simp] theorem heap_alloc_cb (s : pstate) : (heap_alloc s).2.cb = s.cb := by
  unfold heap_alloc; split <;> rfl
@[simp] theorem heap_alloc_heap (s : pstate) : (heap_alloc s).2.heap = s.heap.tail := by
  unfold heap_alloc; split <;> simp_all
@[simp] theorem nfail_heap_alloc (s : pstate) : nfail (heap_alloc s).2 = nfail s := by
  unfold heap_alloc; split <;> rfl
@[simp] theorem ast_expr_release_cb (e : expr_t) (s : pstate) :
    (ast_expr_release e s).cb = s.cb := rfl
@[simp] theorem ast_expr_release_heap (e : expr_t) (s : pstate) :
    (ast_expr_release e s).heap = s.heap := rfl
@[simp] theorem nfail_ast_expr_release (e : expr_t) (s : pstate) :
    nfail (ast_expr_release e s) = nfail s := rfl
@[simp] theorem ast_stmt_release_cb (e : stmt_t) (s : pstate) :
    (ast_stmt_release e s).cb = s.cb := rfl
@[simp] theorem ast_stmt_release_heap (e : stmt_t) (s : pstate) :
    (ast_stmt_release e s).heap = s.heap := rfl
@[simp] theorem nfail_ast_stmt_release (e : stmt_t) (s : pstate) :
    nfail (ast_stmt_release e s) = nfail s := rfl
@[simp] theorem nfail_set_toks (s : pstate) (t : List token_t) :
    nfail { s with toks := t } = nfail s := rfl

/-! ### Post-conditions of fuelled calls -/

theorem Post_none {α : Type} {Q : α → pstate → Prop} : Post (none : Option (α × pstate)) Q := by
  intro a s' e; cases e

theorem Post_some {α : Type} {x : α × pstate} {Q : α → pstate → Prop} (h : Q x.1 x.2) :
    Post (some x) Q := by
  intro a s' e; cases e; exact h

theorem Post_some_iff {α : Type} {x : α × pstate} {Q : α → pstate → Prop} :
    Post (some x) Q ↔ Q x.1 x.2 :=
  ⟨fun h => h _ _ rfl, Post_some⟩

theorem Post_bind {α β : Type} {m : Option (α × pstate)} {f : α × pstate → Option (β × pstate)}
    {Q : β → pstate → Prop} (h : Post m (fun a s => Post (f (a, s)) Q)) : Post (m >>= f) Q := by
  cases m with
  | none => intro a s' e; simp at e
  | some x => obtain ⟨a, s⟩ := x; exact h a s rfl

theorem Post_ite {α : Type} {c : Prop} [Decidable c] {a b : Option (α × pstate)}
    {Q : α → pstate → Prop} (h1 : c → Post a Q) (h2 : ¬ c → Post b Q) :
    Post (if c then a else b) Q := by
  by_cases h : c
  · simp only [h, if_true]; exact h1 h
  · simp only [h, if_false]; exact h2 h

theorem Post.mono {α : Type} {m : Option (α × pstate)} {Q Q' : α → pstate → Prop}
    (h : Post m Q) (hq : ∀ a s', Q a s' → Q' a s') : Post m Q' :=
  fun a s' e => hq a s' (h a s' e)

theorem eff_iff (s s' : pstate) (b : Bool) : Eff s s' b ↔
    (s'.cb = s.cb ∧ nfail s' ≤ nfail s + 1 ∧ nfail s ≤ nfail s' ∧ (b = false → nfail s' = nfail s)
      ∧ s'.heap.length ≤ s.heap.length) :=
  ⟨fun h => ⟨h.1, h.2, h.3, h.4, h.5⟩, fun h => ⟨h.1, h.2.1, h.2.2.1, h.2.2.2.1, h.2.2.2.2⟩⟩

/-! ### Specifications of the non-recursive helpers -/

theorem quiet_iff (s s' : pstate) : Quiet s s' ↔
    (s'.cb = s.cb ∧ nfail s' = nfail s ∧ s'.heap.length ≤ s.heap.length) :=
  ⟨fun h => ⟨h.1, h.2, h.3⟩, fun h => ⟨h.1, h.2.1, h.2.2⟩⟩

theorem quiet_heap_alloc (s : pstate) : Quiet s (heap_alloc s).2 :=
  ⟨by simp, by simp, by simp⟩

theorem ast_expr_alloc_type_post (ty : EXPR_TYPE) (s : pstate) :
    Post (some (ast_expr_alloc_type ty s)) (fun e s' =>
      (e.is_null = false → e = expr_t.node ty "" expr_t.NULL expr_t.NULL stmt_t.NULL) ∧ Quiet s s') := by
  refine Post_some ?_
  unfold ast_expr_alloc_type
  split <;> simp [quiet_iff]

theorem ast_stmt_alloc_0_post (ty : STMT_TYPE) (s : pstate) :
    Post (some (ast_stmt_alloc_0 ty s)) (fun e s' =>
      (e.is_null = false → e = stmt_t.node ty expr_t.NULL stmt_t.NULL stmt_t.NULL stmt_t.NULL) ∧ Quiet s s') := by
  refine Post_some ?_
  unfold ast_stmt_alloc_0
  split <;> simp [quiet_iff]

theorem ast_stmt_alloc_1_post (ty : STMT_TYPE) (x : expr_t) (s : pstate) :
    Post (some (ast_stmt_alloc_1 ty x s)) (fun e s' =>
      (e.is_null = false → e = stmt_t.node ty x stmt_t.NULL stmt_t.NULL stmt_t.NULL) ∧ Quiet s s') := by
  refine Post_some ?_
  unfold ast_stmt_alloc_1
  split <;> simp [quiet_iff]

theorem ast_stmt_alloc_2_post (ty : STMT_TYPE) (x : expr_t) (b : stmt_t) (s : pstate) :
    Post (some (ast_stmt_alloc_2 ty x b s)) (fun e s' =>
      (e.is_null = false → e = stmt_t.node ty x b stmt_t.NULL stmt_t.NULL) ∧ Quiet s s') := by
  refine Post_some ?_
  unfold ast_stmt_alloc_2
  split <;> simp [quiet_iff]

theorem ast_stmt_alloc_3_post (ty : STMT_TYPE) (x : expr_t) (b o : stmt_t) (s : pstate) :
    Post (some (ast_stmt_alloc_3 ty x b o s)) (fun e s' =>
      (e.is_null = false → e = stmt_t.node ty x b o stmt_t.NULL) ∧ Quiet s s') := by
  refine Post_some ?_
  unfold ast_stmt_alloc_3
  split <;> simp [quiet_iff]

theorem parse_expr_form_unary_post (ty : EXPR_TYPE) (l : expr_t) (s : pstate) :
    Post (some (parse_expr_form_unary ty l s)) (fun e s' =>
      Eff s s' e.is_null ∧ (l.is_null = true → nfail s' = nfail s ∧ e.is_null = true) ∧
      (ty ≠ EXPR_ASSIGN → expr_wf l → expr_wf e)) := by
  refine Post_some ?_
  unfold parse_expr_form_unary ast_expr_alloc_type
  cases hcb : s.cb <;> cases hl : l.is_null <;> cases hh : (heap_alloc s).1 <;>
    simp [eff_iff, hcb, ast_expr_set_lft] <;> (try omega) <;> (intros; simp_all)

theorem parse_expr_form_binary_post (ty : EXPR_TYPE) (l r : expr_t) (s : pstate) :
    Post (some (parse_expr_form_binary ty l r s)) (fun e s' =>
      Eff s s' e.is_null ∧ (r.is_null = true → nfail s' = nfail s ∧ e.is_null = true) ∧
      (expr_wf l → expr_wf r → (ty = EXPR_ASSIGN → l.assignable) → expr_wf e)) := by
  refine Post_some ?_
  unfold parse_expr_form_binary ast_expr_alloc_type
  cases hcb : s.cb <;> cases hr : r.is_null <;> cases hh : (heap_alloc s).1 <;>
    simp [eff_iff, hcb, ast_expr_set_lft, ast_expr_set_rht] <;> (try omega) <;>
    (intros; simp_all)

theorem parse_expr_factor_leaf_str_post (tok : Int) (ty : EXPR_TYPE) (tx : String) (s : pstate) :
    Post (some (parse_expr_factor_leaf tok (ast_expr_alloc_str ty tx s))) (fun e s' =>
      Eff s s' e.is_null ∧ (ty ≠ EXPR_ASSIGN → expr_wf e) ∧
        (e.is_null = false → e.is_type ty = true)) := by
  refine Post_some ?_
  unfold parse_expr_factor_leaf ast_expr_alloc_str
  cases hcb : s.cb <;> cases hh : (heap_alloc s).1 <;>
    simp [eff_iff, hcb, hh] <;> (intro h1 h2; exact absurd h2 h1)

theorem parse_expr_factor_leaf_num_post (tok : Int) (ty : EXPR_TYPE) (tx : String) (s : pstate) :
    Post (some (parse_expr_factor_leaf tok (ast_expr_alloc_num ty tx s))) (fun e s' =>
      Eff s s' e.is_null ∧ (ty ≠ EXPR_ASSIGN → expr_wf e) ∧
        (e.is_null = false → e.is_type ty = true)) := by
  refine Post_some ?_
  unfold parse_expr_factor_leaf ast_expr_alloc_num
  cases hcb : s.cb <;> cases hh : (heap_alloc s).1 <;>
    simp [eff_iff, hcb, hh] <;> (intro h1 h2; exact absurd h2 h1)

theorem parse_expr_factor_leaf_type_post (tok : Int) (ty : EXPR_TYPE) (s : pstate) :
    Post (some (parse_expr_factor_leaf tok (ast_expr_alloc_type ty s))) (fun e s' =>
      Eff s s' e.is_null ∧ (ty ≠ EXPR_ASSIGN → expr_wf e) ∧
        (e.is_null = false → e.is_type ty = true)) := by
  refine Post_some ?_
  unfold parse_expr_factor_leaf ast_expr_alloc_type
  cases hcb : s.cb <;> cases hh : (heap_alloc s).1 <;>
    simp [eff_iff, hcb, hh] <;> (intro h1 h2; exact absurd h2 h1)

@[simp] theorem parse_expr_funcdef_error_fst (name param head : expr_t) (block : stmt_t)
    (s : pstate) : (parse_expr_funcdef_error name param head block s).1 = expr_t.NULL := rfl
@[simp] theorem parse_expr_funcdef_error_cb (name param head : expr_t) (block : stmt_t)
    (s : pstate) : (parse_expr_funcdef_error name param head block s).2.cb = s.cb := by
  unfold parse_expr_funcdef_error; dsimp only; split_ifs <;> rfl
@[simp] theorem parse_expr_funcdef_error_heap (name param head : expr_t) (block : stmt_t)
    (s : pstate) : (parse_expr_funcdef_error name param head block s).2.heap = s.heap := by
  unfold parse_expr_funcdef_error; dsimp only; split_ifs <;> rfl
@[simp] theorem nfail_parse_expr_funcdef_error (name param head : expr_t) (block : stmt_t)
    (s : pstate) : nfail (parse_expr_funcdef_error name param head block s).2 = nfail s := by
  unfold parse_expr_funcdef_error; dsimp only; split_ifs <;> rfl

theorem parse_expr_funcdef_proc_post (name param head : expr_t) (block : stmt_t) (s : pstate) :
    Post (some (parse_expr_funcdef_proc name param head block s)) (fun e s' =>
      Eff s s' e.is_null ∧ (expr_wf head → stmt_wf block → expr_wf e)) := by
  refine Post_some ?_
  unfold parse_expr_funcdef_proc ast_expr_alloc_proc
  dsimp only
  cases hh : (heap_alloc s).1
  · cases hcb : s.cb <;> simp [eff_iff, hcb]
  · have h := Post_some_iff.1 (parse_expr_form_binary_post EXPR_FUNCDEF head
      (expr_t.node EXPR_PROC "" expr_t.NULL expr_t.NULL block) (heap_alloc s).2)
    simp only [expr_is_null_node, if_true, Bool.false_eq_true, if_false, eff_iff] at h ⊢
    simp at h
    obtain ⟨⟨h1, h2, h3, h4, h5⟩, h6⟩ := h
    refine ⟨⟨h1, h2, h3, h4, by omega⟩, fun a b => h6 a b⟩

theorem parse_stmt_break_post (s : pstate) :
    Post (some (parse_stmt_break s)) (fun e s' => Eff s s' e.is_null ∧ stmt_wf e) := by
  refine Post_some ?_
  unfold parse_stmt_break ast_stmt_alloc_0
  dsimp only
  cases hcb : s.cb <;> split_ifs <;> simp_all [eff_iff]

theorem parse_stmt_continue_post (s : pstate) :
    Post (some (parse_stmt_continue s)) (fun e s' => Eff s s' e.is_null ∧ stmt_wf e) := by
  refine Post_some ?_
  unfold parse_stmt_continue ast_stmt_alloc_0
  dsimp only
  cases hcb : s.cb <;> split_ifs <;> simp_all [eff_iff]

theorem ast_stmt_link_is_null (head curr : stmt_t) (h : head.is_null = false) :
    (ast_stmt_link head curr).is_null = false := by
  cases head <;> simp_all [ast_stmt_link]


/-! ### The invariants hold for every function -/

theorem parse_expr_factor_inv_step (n : Nat) (ih : AllInv n) :
    ∀ (s : pstate), Post (parse_expr_factor (n + 1) s) (FInv s) := by
  intro s
  rw [parse_expr_factor]
  all_goals repeat' first
    | (with_reducible refine Post_bind ?_)
    | (with_reducible refine Post_ite ?_ ?_ <;> intro hc)
    | (with_reducible refine Post.mono (ih.parse_expr_funcdef _) ?_; intro e1 s1 i1; beta_reduce; cases hn : e1.is_null)
    | (with_reducible refine Post.mono (ih.parse_expr_form_parenth _) ?_; intro e1 s1 i1; beta_reduce; cases hn : e1.is_null)
    | (with_reducible refine Post.mono (ih.parse_expr_form_array _) ?_; intro e1 s1 i1; beta_reduce; cases hn : e1.is_null)
    | (with_reducible refine Post.mono (ih.parse_expr_form_dict _) ?_; intro e1 s1 i1; beta_reduce; cases hn : e1.is_null)
    | (with_reducible refine Post.mono (parse_expr_factor_leaf_str_post _ _ _ _) ?_; intro e1 s1 i1; beta_reduce; cases hn : e1.is_null)
    | (with_reducible refine Post.mono (parse_expr_factor_leaf_num_post _ _ _ _) ?_; intro e1 s1 i1; beta_reduce; cases hn : e1.is_null)
    | (with_reducible refine Post.mono (parse_expr_factor_leaf_type_post _ _ _) ?_; intro e1 s1 i1; beta_reduce; cases hn : e1.is_null)
    | (with_reducible refine Post.mono (ast_expr_alloc_type_post _ _) ?_; intro e1 s1 i1; beta_reduce; cases hn : e1.is_null)
    | (with_reducible refine Post_some ?_)
  all_goals simp only [EInv, FInv, SInv, WInv, LInv, DInv, HInv, eff_iff, quiet_iff, assignable_iff] at *
  all_goals simp_all [stmt_wf_link]
  all_goals (try split_ifs at * <;> simp_all [stmt_wf_link])
  all_goals (try omega)

theorem parse_expr_primary_inv_step (n : Nat) (ih : AllInv n) :
    ∀ (s : pstate), Post (parse_expr_primary (n + 1) s) (EInv s) := by
  intro s
  rw [parse_expr_primary]
  all_goals repeat' first
    | (with_reducible refine Post_bind ?_)
    | (with_reducible refine Post_ite ?_ ?_ <;> intro hc)
    | (with_reducible refine Post.mono (ih.parse_expr_factor _) ?_; intro e1 s1 i1; beta_reduce; cases hn : e1.is_null)
    | (with_reducible refine Post.mono (ih.parse_expr_primary_while _ _ _) ?_; intro e1 s1 i1; beta_reduce; cases hn : e1.is_null)
    | (with_reducible refine Post_some ?_)
  all_goals simp only [EInv, FInv, SInv, WInv, LInv, DInv, HInv, eff_iff, quiet_iff, assignable_iff] at *
  all_goals simp_all [stmt_wf_link]
  all_goals (try split_ifs at * <;> simp_all [stmt_wf_link])
  all_goals (try omega)

theorem parse_expr_primary_while_inv_step (n : Nat) (ih : AllInv n) :
    ∀ (expr : expr_t) (tok : Int) (s : pstate), Post (parse_expr_primary_while (n + 1) expr tok s) (WInv expr s) := by
  intro expr tok s
  rw [parse_expr_primary_while]
  all_goals repeat' first
    | (with_reducible refine Post_bind ?_)
    | (with_reducible refine Post_ite ?_ ?_ <;> intro hc)
    | (with_reducible refine Post.mono (ih.parse_expr_primary_while _ _ _) ?_; intro e1 s1 i1; beta_reduce; cases hn : e1.is_null)
    | (with_reducible refine Post.mono (ih.parse_expr_form_attr _ _) ?_; intro e1 s1 i1; beta_reduce; cases hn : e1.is_null)
    | (with_reducible refine Post.mono (ih.parse_expr_form_elem _ _) ?_; intro e1 s1 i1; beta_reduce; cases hn : e1.is_null)
    | (with_reducible refine Post.mono (ih.parse_expr_form_call _ _) ?_; intro e1 s1 i1; beta_reduce; cases hn : e1.is_null)
    | (with_reducible refine Post_some ?_)
  all_goals simp only [EInv, FInv, SInv, WInv, LInv, DInv, HInv, eff_iff, quiet_iff, assignable_iff] at *
  all_goals simp_all [stmt_wf_link]
  all_goals (try split_ifs at * <;> simp_all [stmt_wf_link])
  all_goals (try omega)

theorem parse_expr_unary_inv_step (n : Nat) (ih : AllInv n) :
    ∀ (s : pstate), Post (parse_expr_unary (n + 1) s) (EInv s) := by
  intro s
  rw [parse_expr_unary]
  all_goals repeat' first
    | (with_reducible refine Post_bind ?_)
    | (with_reducible refine Post_ite ?_ ?_ <;> intro hc)
    | (with_reducible refine Post.mono (ih.parse_expr_primary _) ?_; intro e1 s1 i1; beta_reduce; cases hn : e1.is_null)
    | (with_reducible refine Post.mono (ih.parse_expr_unary _) ?_; intro e1 s1 i1; beta_reduce; cases hn : e1.is_null)
    | (with_reducible refine Post.mono (parse_expr_form_unary_post _ _ _) ?_; intro e1 s1 i1; beta_reduce; cases hn : e1.is_null)
    | (with_reducible refine Post_some ?_)
  all_goals simp only [EInv, FInv, SInv, WInv, LInv, DInv, HInv, eff_iff, quiet_iff, assignable_iff] at *
  all_goals simp_all [stmt_wf_link]
  all_goals (try split_ifs at * <;> simp_all [stmt_wf_link])
  all_goals (try omega)

theorem parse_expr_mul_inv_step (n : Nat) (ih : AllInv n) :
    ∀ (s : pstate), Post (parse_expr_mul (n + 1) s) (EInv s) := by
  intro s
  rw [parse_expr_mul]
  all_goals repeat' first
    | (with_reducible refine Post_bind ?_)
    | (with_reducible refine Post_ite ?_ ?_ <;> intro hc)
    | (with_reducible refine Post.mono (ih.parse_expr_unary _) ?_; intro e1 s1 i1; beta_reduce; cases hn : e1.is_null)
    | (with_reducible refine Post.mono (ih.parse_expr_mul_while _ _ _) ?_; intro e1 s1 i1; beta_reduce; cases hn : e1.is_null)
    | (with_reducible refine Post_some ?_)
  all_goals simp only [EInv, FInv, SInv, WInv, LInv, DInv, HInv, eff_iff, quiet_iff, assignable_iff] at *
  all_goals simp_all [stmt_wf_link]
  all_goals (try split_ifs at * <;> simp_all [stmt_wf_link])
  all_goals (try omega)

theorem parse_expr_mul_while_inv_step (n : Nat) (ih : AllInv n) :
    ∀ (expr : expr_t) (tok : Int) (s : pstate), Post (parse_expr_mul_while (n + 1) expr tok s) (WInv expr s) := by
  intro expr tok s
  rw [parse_expr_mul_while]
  all_goals repeat' first
    | (with_reducible refine Post_bind ?_)
    | (with_reducible refine Post_ite ?_ ?_ <;> intro hc)
    | (with_reducible refine Post.mono (ih.parse_expr_unary _) ?_; intro e1 s1 i1; beta_reduce; cases hn : e1.is_null)
    | (with_reducible refine Post.mono (ih.parse_expr_mul_while _ _ _) ?_; intro e1 s1 i1; beta_reduce; cases hn : e1.is_null)
    | (with_reducible refine Post.mono (parse_expr_form_binary_post _ _ _ _) ?_; intro e1 s1 i1; beta_reduce; cases hn : e1.is_null)
    | (with_reducible refine Post_some ?_)
  all_goals simp only [EInv, FInv, SInv, WInv, LInv, DInv, HInv, eff_iff, quiet_iff, assignable_iff] at *
  all_goals simp_all [stmt_wf_link]
  all_goals (try split_ifs at * <;> simp_all [stmt_wf_link])
  all_goals (try omega)

theorem parse_expr_add_inv_step (n : Nat) (ih : AllInv n) :
    ∀ (s : pstate), Post (parse_expr_add (n + 1) s) (EInv s) := by
  intro s
  rw [parse_expr_add]
  all_goals repeat' first
    | (with_reducible refine Post_bind ?_)
    | (with_reducible refine Post_ite ?_ ?_ <;> intro hc)
    | (with_reducible refine Post.mono (ih.parse_expr_mul _) ?_; intro e1 s1 i1; beta_reduce; cases hn : e1.is_null)
    | (with_reducible refine Post.mono (ih.parse_expr_add_while _ _ _) ?_; intro e1 s1 i1; beta_reduce; cases hn : e1.is_null)
    | (with_reducible refine Post_some ?_)
  all_goals simp only [EInv, FInv, SInv, WInv, LInv, DInv, HInv, eff_iff, quiet_iff, assignable_iff] at *
  all_goals simp_all [stmt_wf_link]
  all_goals (try split_ifs at * <;> simp_all [stmt_wf_link])
  all_goals (try omega)

theorem parse_expr_add_while_inv_step (n : Nat) (ih : AllInv n) :
    ∀ (expr : expr_t) (tok : Int) (s : pstate), Post (parse_expr_add_while (n + 1) expr tok s) (WInv expr s) := by
  intro expr tok s
  rw [parse_expr_add_while]
  all_goals repeat' first
    | (with_reducible refine Post_bind ?_)
    | (with_reducible refine Post_ite ?_ ?_ <;> intro hc)
    | (with_reducible refine Post.mono (ih.parse_expr_mul _) ?_; intro e1 s1 i1; beta_reduce; cases hn : e1.is_null)
    | (with_reducible refine Post.mono (ih.parse_expr_add_while _ _ _) ?_; intro e1 s1 i1; beta_reduce; cases hn : e1.is_null)
    | (with_reducible refine Post.mono (parse_expr_form_binary_post _ _ _ _) ?_; intro e1 s1 i1; beta_reduce; cases hn : e1.is_null)
    | (with_reducible refine Post_some ?_)
  all_goals simp only [EInv, FInv, SInv, WInv, LInv, DInv, HInv, eff_iff, quiet_iff, assignable_iff] at *
  all_goals simp_all [stmt_wf_link]
  all_goals (try split_ifs at * <;> simp_all [stmt_wf_link])
  all_goals (try omega)

theorem parse_expr_shift_inv_step (n : Nat) (ih : AllInv n) :
    ∀ (s : pstate), Post (parse_expr_shift (n + 1) s) (EInv s) := by
  intro s
  rw [parse_expr_shift]
  all_goals repeat' first
    | (with_reducible refine Post_bind ?_)
    | (with_reducible refine Post_ite ?_ ?_ <;> intro hc)
    | (with_reducible refine Post.mono (ih.parse_expr_add _) ?_; intro e1 s1 i1; beta_reduce; cases hn : e1.is_null)
    | (with_reducible refine Post.mono (ih.parse_expr_shift_while _ _ _) ?_; intro e1 s1 i1; beta_reduce; cases hn : e1.is_null)
    | (with_reducible refine Post_some ?_)
  all_goals simp only [EInv, FInv, SInv, WInv, LInv, DInv, HInv, eff_iff, quiet_iff, assignable_iff] at *
  all_goals simp_all [stmt_wf_link]
  all_goals (try split_ifs at * <;> simp_all [stmt_wf_link])
  all_goals (try omega)

theorem parse_expr_shift_while_inv_step (n : Nat) (ih : AllInv n) :
    ∀ (expr : expr_t) (tok : Int) (s : pstate), Post (parse_expr_shift_while (n + 1) expr tok s) (WInv expr s) := by
  intro expr tok s
  rw [parse_expr_shift_while]
  all_goals repeat' first
    | (with_reducible refine Post_bind ?_)
    | (with_reducible refine Post_ite ?_ ?_ <;> intro hc)
    | (with_reducible refine Post.mono (ih.parse_expr_add _) ?_; intro e1 s1 i1; beta_reduce; cases hn : e1.is_null)
    | (with_reducible refine Post.mono (ih.parse_expr_shift_while _ _ _) ?_; intro e1 s1 i1; beta_reduce; cases hn : e1.is_null)
    | (with_reducible refine Post.mono (parse_expr_form_binary_post _ _ _ _) ?_; intro e1 s1 i1; beta_reduce; cases hn : e1.is_null)
    | (with_reducible refine Post_some ?_)
  all_goals simp only [EInv, FInv, SInv, WInv, LInv, DInv, HInv, eff_iff, quiet_iff, assignable_iff] at *
  all_goals simp_all [stmt_wf_link]
  all_goals (try split_ifs at * <;> simp_all [stmt_wf_link])
  all_goals (try omega)

theorem parse_expr_aand_inv_step (n : Nat) (ih : AllInv n) :
    ∀ (s : pstate), Post (parse_expr_aand (n + 1) s) (EInv s) := by
  intro s
  rw [parse_expr_aand]
  all_goals repeat' first
    | (with_reducible refine Post_bind ?_)
    | (with_reducible refine Post_ite ?_ ?_ <;> intro hc)
    | (with_reducible refine Post.mono (ih.parse_expr_shift _) ?_; intro e1 s1 i1; beta_reduce; cases hn : e1.is_null)
    | (with_reducible refine Post.mono (ih.parse_expr_aand_while _ _ _) ?_; intro e1 s1 i1; beta_reduce; cases hn : e1.is_null)
    | (with_reducible refine Post_some ?_)
  all_goals simp only [EInv, FInv, SInv, WInv, LInv, DInv, HInv, eff_iff, quiet_iff, assignable_iff] at *
  all_goals simp_all [stmt_wf_link]
  all_goals (try split_ifs at * <;> simp_all [stmt_wf_link])
  all_goals (try omega)

theorem parse_expr_aand_while_inv_step (n : Nat) (ih : AllInv n) :
    ∀ (expr : expr_t) (tok : Int) (s : pstate), Post (parse_expr_aand_while (n + 1) expr tok s) (WInv expr s) := by
  intro expr tok s
  rw [parse_expr_aand_while]
  all_goals repeat' first
    | (with_reducible refine Post_bind ?_)
    | (with_reducible refine Post_ite ?_ ?_ <;> intro hc)
    | (with_reducible refine Post.mono (ih.parse_expr_shift _) ?_; intro e1 s1 i1; beta_reduce; cases hn : e1.is_null)
    | (with_reducible refine Post.mono (ih.parse_expr_aand_while _ _ _) ?_; intro e1 s1 i1; beta_reduce; cases hn : e1.is_null)
    | (with_reducible refine Post.mono (parse_expr_form_binary_post _ _ _ _) ?_; intro e1 s1 i1; beta_reduce; cases hn : e1.is_null)
    | (with_reducible refine Post_some ?_)
  all_goals simp only [EInv, FInv, SInv, WInv, LInv, DInv, HInv, eff_iff, quiet_iff, assignable_iff] at *
  all_goals simp_all [stmt_wf_link]
  all_goals (try split_ifs at * <;> simp_all [stmt_wf_link])
  all_goals (try omega)

theorem parse_expr_test_inv_step (n : Nat) (ih : AllInv n) :
    ∀ (s : pstate), Post (parse_expr_test (n + 1) s) (EInv s) := by
  intro s
  rw [parse_expr_test]
  all_goals repeat' first
    | (with_reducible refine Post_bind ?_)
    | (with_reducible refine Post_ite ?_ ?_ <;> intro hc)
    | (with_reducible refine Post.mono (ih.parse_expr_aand _) ?_; intro e1 s1 i1; beta_reduce; cases hn : e1.is_null)
    | (with_reducible refine Post.mono (ih.parse_expr_test_while _ _ _) ?_; intro e1 s1 i1; beta_reduce; cases hn : e1.is_null)
    | (with_reducible refine Post_some ?_)
  all_goals simp only [EInv, FInv, SInv, WInv, LInv, DInv, HInv, eff_iff, quiet_iff, assignable_iff] at *
  all_goals simp_all [stmt_wf_link]
  all_goals (try split_ifs at * <;> simp_all [stmt_wf_link])
  all_goals (try omega)

theorem parse_expr_test_while_inv_step (n : Nat) (ih : AllInv n) :
    ∀ (expr : expr_t) (tok : Int) (s : pstate), Post (parse_expr_test_while (n + 1) expr tok s) (WInv expr s) := by
  intro expr tok s
  rw [parse_expr_test_while]
  all_goals repeat' first
    | (with_reducible refine Post_bind ?_)
    | (with_reducible refine Post_ite ?_ ?_ <;> intro hc)
    | (with_reducible refine Post.mono (ih.parse_expr_aand _) ?_; intro e1 s1 i1; beta_reduce; cases hn : e1.is_null)
    | (with_reducible refine Post.mono (ih.parse_expr_test_while _ _ _) ?_; intro e1 s1 i1; beta_reduce; cases hn : e1.is_null)
    | (with_reducible refine Post.mono (parse_expr_form_binary_post _ _ _ _) ?_; intro e1 s1 i1; beta_reduce; cases hn : e1.is_null)
    | (with_reducible refine Post_some ?_)
  all_goals simp only [EInv, FInv, SInv, WInv, LInv, DInv, HInv, eff_iff, quiet_iff, assignable_iff] at *
  all_goals simp_all [stmt_wf_link]
  all_goals (try split_ifs at * <;> simp_all [stmt_wf_link])
  all_goals (try omega)

theorem parse_expr_logic_and_inv_step (n : Nat) (ih : AllInv n) :
    ∀ (s : pstate), Post (parse_expr_logic_and (n + 1) s) (EInv s) := by
  intro s
  rw [parse_expr_logic_and]
  all_goals repeat' first
    | (with_reducible refine Post_bind ?_)
    | (with_reducible refine Post_ite ?_ ?_ <;> intro hc)
    | (with_reducible refine Post.mono (ih.parse_expr_test _) ?_; intro e1 s1 i1; beta_reduce; cases hn : e1.is_null)
    | (with_reducible refine Post.mono (ih.parse_expr_logic_and _) ?_; intro e1 s1 i1; beta_reduce; cases hn : e1.is_null)
    | (with_reducible refine Post.mono (parse_expr_form_binary_post _ _ _ _) ?_; intro e1 s1 i1; beta_reduce; cases hn : e1.is_null)
    | (with_reducible refine Post_some ?_)
  all_goals simp only [EInv, FInv, SInv, WInv, LInv, DInv, HInv, eff_iff, quiet_iff, assignable_iff] at *
  all_goals simp_all [stmt_wf_link]
  all_goals (try split_ifs at * <;> simp_all [stmt_wf_link])
  all_goals (try omega)

theorem parse_expr_logic_or_inv_step (n : Nat) (ih : AllInv n) :
    ∀ (s : pstate), Post (parse_expr_logic_or (n + 1) s) (EInv s) := by
  intro s
  rw [parse_expr_logic_or]
  all_goals repeat' first
    | (with_reducible refine Post_bind ?_)
    | (with_reducible refine Post_ite ?_ ?_ <;> intro hc)
    | (with_reducible refine Post.mono (ih.parse_expr_logic_and _) ?_; intro e1 s1 i1; beta_reduce; cases hn : e1.is_null)
    | (with_reducible refine Post.mono (ih.parse_expr_logic_or _) ?_; intro e1 s1 i1; beta_reduce; cases hn : e1.is_null)
    | (with_reducible refine Post.mono (parse_expr_form_binary_post _ _ _ _) ?_; intro e1 s1 i1; beta_reduce; cases hn : e1.is_null)
    | (with_reducible refine Post_some ?_)
  all_goals simp only [EInv, FInv, SInv, WInv, LInv, DInv, HInv, eff_iff, quiet_iff, assignable_iff] at *
  all_goals simp_all [stmt_wf_link]
  all_goals (try split_ifs at * <;> simp_all [stmt_wf_link])
  all_goals (try omega)

theorem parse_expr_ternary_inv_step (n : Nat) (ih : AllInv n) :
    ∀ (s : pstate), Post (parse_expr_ternary (n + 1) s) (EInv s) := by
  intro s
  rw [parse_expr_ternary]
  all_goals repeat' first
    | (with_reducible refine Post_bind ?_)
    | (with_reducible refine Post_ite ?_ ?_ <;> intro hc)
    | (with_reducible refine Post.mono (ih.parse_expr_logic_or _) ?_; intro e1 s1 i1; beta_reduce; cases hn : e1.is_null)
    | (with_reducible refine Post.mono (ih.parse_expr_form_pair _) ?_; intro e1 s1 i1; beta_reduce; cases hn : e1.is_null)
    | (with_reducible refine Post.mono (parse_expr_form_binary_post _ _ _ _) ?_; intro e1 s1 i1; beta_reduce; cases hn : e1.is_null)
    | (with_reducible refine Post_some ?_)
  all_goals simp only [EInv, FInv, SInv, WInv, LInv, DInv, HInv, eff_iff, quiet_iff, assignable_iff] at *
  all_goals simp_all [stmt_wf_link]
  all_goals (try split_ifs at * <;> simp_all [stmt_wf_link])
  all_goals (try omega)

theorem parse_expr_assign_inv_step (n : Nat) (ih : AllInv n) :
    ∀ (s : pstate), Post (parse_expr_assign (n + 1) s) (EInv s) := by
  intro s
  rw [parse_expr_assign]
  all_goals repeat' first
    | (with_reducible refine Post_bind ?_)
    | (with_reducible refine Post_ite ?_ ?_ <;> intro hc)
    | (with_reducible refine Post.mono (ih.parse_expr_ternary _) ?_; intro e1 s1 i1; beta_reduce; cases hn : e1.is_null)
    | (with_reducible refine Post.mono (ih.parse_expr_assign _) ?_; intro e1 s1 i1; beta_reduce; cases hn : e1.is_null)
    | (with_reducible refine Post.mono (parse_expr_form_binary_post _ _ _ _) ?_; intro e1 s1 i1; beta_reduce; cases hn : e1.is_null)
    | (with_reducible refine Post_some ?_)
  all_goals simp only [EInv, FInv, SInv, WInv, LInv, DInv, HInv, eff_iff, quiet_iff, assignable_iff] at *
  all_goals simp_all [stmt_wf_link]
  all_goals (try split_ifs at * <;> simp_all [stmt_wf_link])
  all_goals (try omega)

theorem parse_expr_kv_inv_step (n : Nat) (ih : AllInv n) :
    ∀ (s : pstate), Post (parse_expr_kv (n + 1) s) (EInv s) := by
  intro s
  rw [parse_expr_kv]
  all_goals repeat' first
    | (with_reducible refine Post_bind ?_)
    | (with_reducible refine Post_ite ?_ ?_ <;> intro hc)
    | (with_reducible refine Post.mono (ih.parse_expr_factor _) ?_; intro e1 s1 i1; beta_reduce; cases hn : e1.is_null)
    | (with_reducible refine Post.mono (ih.parse_expr_assign _) ?_; intro e1 s1 i1; beta_reduce; cases hn : e1.is_null)
    | (with_reducible refine Post.mono (parse_expr_form_binary_post _ _ _ _) ?_; intro e1 s1 i1; beta_reduce; cases hn : e1.is_null)
    | (with_reducible refine Post_some ?_)
  all_goals simp only [EInv, FInv, SInv, WInv, LInv, DInv, HInv, eff_iff, quiet_iff, assignable_iff] at *
  all_goals simp_all [stmt_wf_link]
  all_goals (try split_ifs at * <;> simp_all [stmt_wf_link])
  all_goals (try omega)

theorem parse_expr_vardef_inv_step (n : Nat) (ih : AllInv n) :
    ∀ (s : pstate), Post (parse_expr_vardef (n + 1) s) (EInv s) := by
  intro s
  rw [parse_expr_vardef]
  all_goals repeat' first
    | (with_reducible refine Post_bind ?_)
    | (with_reducible refine Post_ite ?_ ?_ <;> intro hc)
    | (with_reducible refine Post.mono (ih.parse_expr_factor _) ?_; intro e1 s1 i1; beta_reduce; cases hn : e1.is_null)
    | (with_reducible refine Post.mono (ih.parse_expr_assign _) ?_; intro e1 s1 i1; beta_reduce; cases hn : e1.is_null)
    | (with_reducible refine Post.mono (parse_expr_form_binary_post _ _ _ _) ?_; intro e1 s1 i1; beta_reduce; cases hn : e1.is_null)
    | (with_reducible refine Post_some ?_)
  all_goals simp only [EInv, FInv, SInv, WInv, LInv, DInv, HInv, eff_iff, quiet_iff, assignable_iff] at *
  all_goals simp_all [stmt_wf_link]
  all_goals (try split_ifs at * <;> simp_all [stmt_wf_link])
  all_goals (try omega)

theorem parse_expr_kvlist_inv_step (n : Nat) (ih : AllInv n) :
    ∀ (s : pstate), Post (parse_expr_kvlist (n + 1) s) (EInv s) := by
  intro s
  rw [parse_expr_kvlist]
  all_goals repeat' first
    | (with_reducible refine Post_bind ?_)
    | (with_reducible refine Post_ite ?_ ?_ <;> intro hc)
    | (with_reducible refine Post.mono (ih.parse_expr_kv _) ?_; intro e1 s1 i1; beta_reduce; cases hn : e1.is_null)
    | (with_reducible refine Post.mono (ih.parse_expr_kvlist _) ?_; intro e1 s1 i1; beta_reduce; cases hn : e1.is_null)
    | (with_reducible refine Post.mono (parse_expr_form_binary_post _ _ _ _) ?_; intro e1 s1 i1; beta_reduce; cases hn : e1.is_null)
    | (with_reducible refine Post_some ?_)
  all_goals simp only [EInv, FInv, SInv, WInv, LInv, DInv, HInv, eff_iff, quiet_iff, assignable_iff] at *
  all_goals simp_all [stmt_wf_link]
  all_goals (try split_ifs at * <;> simp_all [stmt_wf_link])
  all_goals (try omega)

theorem parse_expr_vardef_list_inv_step (n : Nat) (ih : AllInv n) :
    ∀ (s : pstate), Post (parse_expr_vardef_list (n + 1) s) (EInv s) := by
  intro s
  rw [parse_expr_vardef_list]
  all_goals repeat' first
    | (with_reducible refine Post_bind ?_)
    | (with_reducible refine Post_ite ?_ ?_ <;> intro hc)
    | (with_reducible refine Post.mono (ih.parse_expr_vardef _) ?_; intro e1 s1 i1; beta_reduce; cases hn : e1.is_null)
    | (with_reducible refine Post.mono (ih.parse_expr_vardef_list _) ?_; intro e1 s1 i1; beta_reduce; cases hn : e1.is_null)
    | (with_reducible refine Post.mono (parse_expr_form_binary_post _ _ _ _) ?_; intro e1 s1 i1; beta_reduce; cases hn : e1.is_null)
    | (with_reducible refine Post_some ?_)
  all_goals simp only [EInv, FInv, SInv, WInv, LInv, DInv, HInv, eff_iff, quiet_iff, assignable_iff] at *
  all_goals simp_all [stmt_wf_link]
  all_goals (try split_ifs at * <;> simp_all [stmt_wf_link])
  all_goals (try omega)

theorem parse_expr_comma_inv_step (n : Nat) (ih : AllInv n) :
    ∀ (s : pstate), Post (parse_expr_comma (n + 1) s) (EInv s) := by
  intro s
  rw [parse_expr_comma]
  all_goals repeat' first
    | (with_reducible refine Post_bind ?_)
    | (with_reducible refine Post_ite ?_ ?_ <;> intro hc)
    | (with_reducible refine Post.mono (ih.parse_expr_assign _) ?_; intro e1 s1 i1; beta_reduce; cases hn : e1.is_null)
    | (with_reducible refine Post.mono (ih.parse_expr_comma _) ?_; intro e1 s1 i1; beta_reduce; cases hn : e1.is_null)
    | (with_reducible refine Post.mono (parse_expr_form_binary_post _ _ _ _) ?_; intro e1 s1 i1; beta_reduce; cases hn : e1.is_null)
    | (with_reducible refine Post_some ?_)
  all_goals simp only [EInv, FInv, SInv, WInv, LInv, DInv, HInv, eff_iff, quiet_iff, assignable_iff] at *
  all_goals simp_all [stmt_wf_link]
  all_goals (try split_ifs at * <;> simp_all [stmt_wf_link])
  all_goals (try omega)

theorem parse_expr_funcdef_inv_step (n : Nat) (ih : AllInv n) :
    ∀ (s : pstate), Post (parse_expr_funcdef (n + 1) s) (EInv s) := by
  intro s
  rw [parse_expr_funcdef]
  all_goals repeat' first
    | (with_reducible refine Post_bind ?_)
    | (with_reducible refine Post_ite ?_ ?_ <;> intro hc)
    | (with_reducible refine Post.mono (ih.parse_expr_factor _) ?_; intro e1 s1 i1; beta_reduce; cases hn : e1.is_null)
    | (with_reducible refine Post.mono (ih.parse_expr_vardef_list _) ?_; intro e1 s1 i1; beta_reduce; cases hn : e1.is_null)
    | (with_reducible refine Post.mono (ih.parse_expr_funcdef_block _ _ _) ?_; intro e1 s1 i1; beta_reduce; cases hn : e1.is_null)
    | (with_reducible refine Post_some ?_)
  all_goals simp only [EInv, FInv, SInv, WInv, LInv, DInv, HInv, eff_iff, quiet_iff, assignable_iff] at *
  all_goals simp_all [stmt_wf_link]
  all_goals (try split_ifs at * <;> simp_all [stmt_wf_link])
  all_goals (try omega)

theorem parse_expr_funcdef_block_inv_step (n : Nat) (ih : AllInv n) :
    ∀ (name : expr_t) (param : expr_t) (s : pstate), Post (parse_expr_funcdef_block (n + 1) name param s) (DInv name param s) := by
  intro name param s
  rw [parse_expr_funcdef_block]
  all_goals repeat' first
    | (with_reducible refine Post_bind ?_)
    | (with_reducible refine Post_ite ?_ ?_ <;> intro hc)
    | (with_reducible refine Post.mono (ih.parse_stmt_block _) ?_; intro e1 s1 i1; beta_reduce; cases hn : e1.is_null)
    | (with_reducible refine Post.mono (parse_expr_funcdef_proc_post _ _ _ _ _) ?_; intro e1 s1 i1; beta_reduce; cases hn : e1.is_null)
    | (with_reducible refine Post.mono (ast_expr_alloc_type_post _ _) ?_; intro e1 s1 i1; beta_reduce; cases hn : e1.is_null)
    | (with_reducible refine Post_some ?_)
  all_goals simp only [EInv, FInv, SInv, WInv, LInv, DInv, HInv, eff_iff, quiet_iff, assignable_iff] at *
  all_goals simp_all [stmt_wf_link]
  all_goals (try split_ifs at * <;> simp_all [stmt_wf_link])
  all_goals (try omega)

theorem parse_expr_form_attr_inv_step (n : Nat) (ih : AllInv n) :
    ∀ (lft : expr_t) (s : pstate), Post (parse_expr_form_attr (n + 1) lft s) (LInv lft s) := by
  intro lft s
  rw [parse_expr_form_attr]
  all_goals repeat' first
    | (with_reducible refine Post_bind ?_)
    | (with_reducible refine Post_ite ?_ ?_ <;> intro hc)
    | (with_reducible refine Post.mono (ih.parse_expr_factor _) ?_; intro e1 s1 i1; beta_reduce; cases hn : e1.is_null)
    | (with_reducible refine Post.mono (parse_expr_form_binary_post _ _ _ _) ?_; intro e1 s1 i1; beta_reduce; cases hn : e1.is_null)
    | (with_reducible refine Post_some ?_)
  all_goals simp only [EInv, FInv, SInv, WInv, LInv, DInv, HInv, eff_iff, quiet_iff, assignable_iff] at *
  all_goals simp_all [stmt_wf_link]
  all_goals (try split_ifs at * <;> simp_all [stmt_wf_link])
  all_goals (try omega)

theorem parse_expr_form_elem_inv_step (n : Nat) (ih : AllInv n) :
    ∀ (lft : expr_t) (s : pstate), Post (parse_expr_form_elem (n + 1) lft s) (LInv lft s) := by
  intro lft s
  rw [parse_expr_form_elem]
  all_goals repeat' first
    | (with_reducible refine Post_bind ?_)
    | (with_reducible refine Post_ite ?_ ?_ <;> intro hc)
    | (with_reducible refine Post.mono (ih.parse_expr_ternary _) ?_; intro e1 s1 i1; beta_reduce; cases hn : e1.is_null)
    | (with_reducible refine Post.mono (parse_expr_form_binary_post _ _ _ _) ?_; intro e1 s1 i1; beta_reduce; cases hn : e1.is_null)
    | (with_reducible refine Post_some ?_)
  all_goals simp only [EInv, FInv, SInv, WInv, LInv, DInv, HInv, eff_iff, quiet_iff, assignable_iff] at *
  all_goals simp_all [stmt_wf_link]
  all_goals (try split_ifs at * <;> simp_all [stmt_wf_link])
  all_goals (try omega)

theorem parse_expr_form_call_inv_step (n : Nat) (ih : AllInv n) :
    ∀ (lft : expr_t) (s : pstate), Post (parse_expr_form_call (n + 1) lft s) (LInv lft s) := by
  intro lft s
  rw [parse_expr_form_call]
  all_goals repeat' first
    | (with_reducible refine Post_bind ?_)
    | (with_reducible refine Post_ite ?_ ?_ <;> intro hc)
    | (with_reducible refine Post.mono (ih.parse_expr_comma _) ?_; intro e1 s1 i1; beta_reduce; cases hn : e1.is_null)
    | (with_reducible refine Post.mono (parse_expr_form_binary_post _ _ _ _) ?_; intro e1 s1 i1; beta_reduce; cases hn : e1.is_null)
    | (with_reducible refine Post.mono (parse_expr_form_unary_post _ _ _) ?_; intro e1 s1 i1; beta_reduce; cases hn : e1.is_null)
    | (with_reducible refine Post_some ?_)
  all_goals simp only [EInv, FInv, SInv, WInv, LInv, DInv, HInv, eff_iff, quiet_iff, assignable_iff] at *
  all_goals simp_all [stmt_wf_link]
  all_goals (try split_ifs at * <;> simp_all [stmt_wf_link])
  all_goals (try omega)

theorem parse_expr_form_parenth_inv_step (n : Nat) (ih : AllInv n) :
    ∀ (s : pstate), Post (parse_expr_form_parenth (n + 1) s) (EInv s) := by
  intro s
  rw [parse_expr_form_parenth]
  all_goals repeat' first
    | (with_reducible refine Post_bind ?_)
    | (with_reducible refine Post_ite ?_ ?_ <;> intro hc)
    | (with_reducible refine Post.mono (ih.parse_expr_comma _) ?_; intro e1 s1 i1; beta_reduce; cases hn : e1.is_null)
    | (with_reducible refine Post_some ?_)
  all_goals simp only [EInv, FInv, SInv, WInv, LInv, DInv, HInv, eff_iff, quiet_iff, assignable_iff] at *
  all_goals simp_all [stmt_wf_link]
  all_goals (try split_ifs at * <;> simp_all [stmt_wf_link])
  all_goals (try omega)

theorem parse_expr_form_array_inv_step (n : Nat) (ih : AllInv n) :
    ∀ (s : pstate), Post (parse_expr_form_array (n + 1) s) (EInv s) := by
  intro s
  rw [parse_expr_form_array]
  all_goals repeat' first
    | (with_reducible refine Post_bind ?_)
    | (with_reducible refine Post_ite ?_ ?_ <;> intro hc)
    | (with_reducible refine Post.mono (ih.parse_expr_comma _) ?_; intro e1 s1 i1; beta_reduce; cases hn : e1.is_null)
    | (with_reducible refine Post.mono (parse_expr_form_unary_post _ _ _) ?_; intro e1 s1 i1; beta_reduce; cases hn : e1.is_null)
    | (with_reducible refine Post.mono (ast_expr_alloc_type_post _ _) ?_; intro e1 s1 i1; beta_reduce; cases hn : e1.is_null)
    | (with_reducible refine Post_some ?_)
  all_goals simp only [EInv, FInv, SInv, WInv, LInv, DInv, HInv, eff_iff, quiet_iff, assignable_iff] at *
  all_goals simp_all [stmt_wf_link]
  all_goals (try split_ifs at * <;> simp_all [stmt_wf_link])
  all_goals (try omega)

theorem parse_expr_form_dict_inv_step (n : Nat) (ih : AllInv n) :
    ∀ (s : pstate), Post (parse_expr_form_dict (n + 1) s) (EInv s) := by
  intro s
  rw [parse_expr_form_dict]
  all_goals repeat' first
    | (with_reducible refine Post_bind ?_)
    | (with_reducible refine Post_ite ?_ ?_ <;> intro hc)
    | (with_reducible refine Post.mono (ih.parse_expr_kvlist _) ?_; intro e1 s1 i1; beta_reduce; cases hn : e1.is_null)
    | (with_reducible refine Post.mono (parse_expr_form_unary_post _ _ _) ?_; intro e1 s1 i1; beta_reduce; cases hn : e1.is_null)
    | (with_reducible refine Post.mono (ast_expr_alloc_type_post _ _) ?_; intro e1 s1 i1; beta_reduce; cases hn : e1.is_null)
    | (with_reducible refine Post_some ?_)
  all_goals simp only [EInv, FInv, SInv, WInv, LInv, DInv, HInv, eff_iff, quiet_iff, assignable_iff] at *
  all_goals simp_all [stmt_wf_link]
  all_goals (try split_ifs at * <;> simp_all [stmt_wf_link])
  all_goals (try omega)

theorem parse_expr_form_pair_inv_step (n : Nat) (ih : AllInv n) :
    ∀ (s : pstate), Post (parse_expr_form_pair (n + 1) s) (EInv s) := by
  intro s
  rw [parse_expr_form_pair]
  all_goals repeat' first
    | (with_reducible refine Post_bind ?_)
    | (with_reducible refine Post_ite ?_ ?_ <;> intro hc)
    | (with_reducible refine Post.mono (ih.parse_expr_ternary _) ?_; intro e1 s1 i1; beta_reduce; cases hn : e1.is_null)
    | (with_reducible refine Post.mono (parse_expr_form_binary_post _ _ _ _) ?_; intro e1 s1 i1; beta_reduce; cases hn : e1.is_null)
    | (with_reducible refine Post_some ?_)
  all_goals simp only [EInv, FInv, SInv, WInv, LInv, DInv, HInv, eff_iff, quiet_iff, assignable_iff] at *
  all_goals simp_all [stmt_wf_link]
  all_goals (try split_ifs at * <;> simp_all [stmt_wf_link])
  all_goals (try omega)

theorem parse_stmt_block_inv_step (n : Nat) (ih : AllInv n) :
    ∀ (s : pstate), Post (parse_stmt_block (n + 1) s) (SInv s) := by
  intro s
  rw [parse_stmt_block]
  all_goals repeat' first
    | (with_reducible refine Post_bind ?_)
    | (with_reducible refine Post_ite ?_ ?_ <;> intro hc)
    | (with_reducible refine Post.mono (ih.parse_stmt _) ?_; intro e1 s1 i1; beta_reduce; cases hn : e1.is_null)
    | (with_reducible refine Post.mono (ih.parse_stmt_list _) ?_; intro e1 s1 i1; beta_reduce; cases hn : e1.is_null)
    | (with_reducible refine Post_some ?_)
  all_goals simp only [EInv, FInv, SInv, WInv, LInv, DInv, HInv, eff_iff, quiet_iff, assignable_iff] at *
  all_goals simp_all [stmt_wf_link]
  all_goals (try split_ifs at * <;> simp_all [stmt_wf_link])
  all_goals (try omega)

theorem parse_stmt_if_inv_step (n : Nat) (ih : AllInv n) :
    ∀ (s : pstate), Post (parse_stmt_if (n + 1) s) (SInv s) := by
  intro s
  rw [parse_stmt_if]
  all_goals repeat' first
    | (with_reducible refine Post_bind ?_)
    | (with_reducible refine Post_ite ?_ ?_ <;> intro hc)
    | (with_reducible refine Post.mono (ih.parse_stmt_block _) ?_; intro e1 s1 i1; beta_reduce; cases hn : e1.is_null)
    | (with_reducible refine Post.mono (ih.parse_expr _) ?_; intro e1 s1 i1; beta_reduce; cases hn : e1.is_null)
    | (with_reducible refine Post.mono (ast_stmt_alloc_2_post _ _ _ _) ?_; intro e1 s1 i1; beta_reduce; cases hn : e1.is_null)
    | (with_reducible refine Post.mono (ast_stmt_alloc_3_post _ _ _ _ _) ?_; intro e1 s1 i1; beta_reduce; cases hn : e1.is_null)
    | (with_reducible refine Post_some ?_)
  all_goals simp only [EInv, FInv, SInv, WInv, LInv, DInv, HInv, eff_iff, quiet_iff, assignable_iff] at *
  all_goals simp_all [stmt_wf_link]
  all_goals (try split_ifs at * <;> simp_all [stmt_wf_link])
  all_goals (try omega)

theorem parse_stmt_var_inv_step (n : Nat) (ih : AllInv n) :
    ∀ (s : pstate), Post (parse_stmt_var (n + 1) s) (SInv s) := by
  intro s
  rw [parse_stmt_var]
  all_goals repeat' first
    | (with_reducible refine Post_bind ?_)
    | (with_reducible refine Post_ite ?_ ?_ <;> intro hc)
    | (with_reducible refine Post.mono (ih.parse_expr_vardef_list _) ?_; intro e1 s1 i1; beta_reduce; cases hn : e1.is_null)
    | (with_reducible refine Post.mono (ast_stmt_alloc_1_post _ _ _) ?_; intro e1 s1 i1; beta_reduce; cases hn : e1.is_null)
    | (with_reducible refine Post_some ?_)
  all_goals simp only [EInv, FInv, SInv, WInv, LInv, DInv, HInv, eff_iff, quiet_iff, assignable_iff] at *
  all_goals simp_all [stmt_wf_link]
  all_goals (try split_ifs at * <;> simp_all [stmt_wf_link])
  all_goals (try omega)

theorem parse_stmt_ret_inv_step (n : Nat) (ih : AllInv n) :
    ∀ (s : pstate), Post (parse_stmt_ret (n + 1) s) (SInv s) := by
  intro s
  rw [parse_stmt_ret]
  all_goals repeat' first
    | (with_reducible refine Post_bind ?_)
    | (with_reducible refine Post_ite ?_ ?_ <;> intro hc)
    | (with_reducible refine Post.mono (ih.parse_expr _) ?_; intro e1 s1 i1; beta_reduce; cases hn : e1.is_null)
    | (with_reducible refine Post.mono (ast_stmt_alloc_1_post _ _ _) ?_; intro e1 s1 i1; beta_reduce; cases hn : e1.is_null)
    | (with_reducible refine Post_some ?_)
  all_goals simp only [EInv, FInv, SInv, WInv, LInv, DInv, HInv, eff_iff, quiet_iff, assignable_iff] at *
  all_goals simp_all [stmt_wf_link]
  all_goals (try split_ifs at * <;> simp_all [stmt_wf_link])
  all_goals (try omega)

theorem parse_stmt_while_inv_step (n : Nat) (ih : AllInv n) :
    ∀ (s : pstate), Post (parse_stmt_while (n + 1) s) (SInv s) := by
  intro s
  rw [parse_stmt_while]
  all_goals repeat' first
    | (with_reducible refine Post_bind ?_)
    | (with_reducible refine Post_ite ?_ ?_ <;> intro hc)
    | (with_reducible refine Post.mono (ih.parse_stmt_block _) ?_; intro e1 s1 i1; beta_reduce; cases hn : e1.is_null)
    | (with_reducible refine Post.mono (ih.parse_expr _) ?_; intro e1 s1 i1; beta_reduce; cases hn : e1.is_null)
    | (with_reducible refine Post.mono (ast_stmt_alloc_2_post _ _ _ _) ?_; intro e1 s1 i1; beta_reduce; cases hn : e1.is_null)
    | (with_reducible refine Post_some ?_)
  all_goals simp only [EInv, FInv, SInv, WInv, LInv, DInv, HInv, eff_iff, quiet_iff, assignable_iff] at *
  all_goals simp_all [stmt_wf_link]
  all_goals (try split_ifs at * <;> simp_all [stmt_wf_link])
  all_goals (try omega)

theorem parse_stmt_expr_inv_step (n : Nat) (ih : AllInv n) :
    ∀ (s : pstate), Post (parse_stmt_expr (n + 1) s) (SInv s) := by
  intro s
  rw [parse_stmt_expr]
  all_goals repeat' first
    | (with_reducible refine Post_bind ?_)
    | (with_reducible refine Post_ite ?_ ?_ <;> intro hc)
    | (with_reducible refine Post.mono (ih.parse_expr _) ?_; intro e1 s1 i1; beta_reduce; cases hn : e1.is_null)
    | (with_reducible refine Post.mono (ast_stmt_alloc_1_post _ _ _) ?_; intro e1 s1 i1; beta_reduce; cases hn : e1.is_null)
    | (with_reducible refine Post_some ?_)
  all_goals simp only [EInv, FInv, SInv, WInv, LInv, DInv, HInv, eff_iff, quiet_iff, assignable_iff] at *
  all_goals simp_all [stmt_wf_link]
  all_goals (try split_ifs at * <;> simp_all [stmt_wf_link])
  all_goals (try omega)

theorem parse_expr_inv_step (n : Nat) (ih : AllInv n) :
    ∀ (s : pstate), Post (parse_expr (n + 1) s) (EInv s) := by
  intro s
  rw [parse_expr]
  all_goals repeat' first
    | (with_reducible refine Post_bind ?_)
    | (with_reducible refine Post_ite ?_ ?_ <;> intro hc)
    | (with_reducible refine Post.mono (ih.parse_expr_comma _) ?_; intro e1 s1 i1; beta_reduce; cases hn : e1.is_null)
    | (with_reducible refine Post_some ?_)
  all_goals simp only [EInv, FInv, SInv, WInv, LInv, DInv, HInv, eff_iff, quiet_iff, assignable_iff] at *
  all_goals simp_all [stmt_wf_link]
  all_goals (try split_ifs at * <;> simp_all [stmt_wf_link])
  all_goals (try omega)

theorem parse_stmt_inv_step (n : Nat) (ih : AllInv n) :
    ∀ (s : pstate), Post (parse_stmt (n + 1) s) (SInv s) := by
  intro s
  rw [parse_stmt]
  all_goals repeat' first
    | (with_reducible refine Post_bind ?_)
    | (with_reducible refine Post_ite ?_ ?_ <;> intro hc)
    | (with_reducible refine Post.mono (ih.parse_stmt_if _) ?_; intro e1 s1 i1; beta_reduce; cases hn : e1.is_null)
    | (with_reducible refine Post.mono (ih.parse_stmt_var _) ?_; intro e1 s1 i1; beta_reduce; cases hn : e1.is_null)
    | (with_reducible refine Post.mono (ih.parse_stmt_ret _) ?_; intro e1 s1 i1; beta_reduce; cases hn : e1.is_null)
    | (with_reducible refine Post.mono (ih.parse_stmt_while _) ?_; intro e1 s1 i1; beta_reduce; cases hn : e1.is_null)
    | (with_reducible refine Post.mono (ih.parse_stmt_expr _) ?_; intro e1 s1 i1; beta_reduce; cases hn : e1.is_null)
    | (with_reducible refine Post.mono (parse_stmt_break_post _) ?_; intro e1 s1 i1; beta_reduce; cases hn : e1.is_null)
    | (with_reducible refine Post.mono (parse_stmt_continue_post _) ?_; intro e1 s1 i1; beta_reduce; cases hn : e1.is_null)
    | (with_reducible refine Post_some ?_)
  all_goals simp only [EInv, FInv, SInv, WInv, LInv, DInv, HInv, eff_iff, quiet_iff, assignable_iff] at *
  all_goals simp_all [stmt_wf_link]
  all_goals (try split_ifs at * <;> simp_all [stmt_wf_link])
  all_goals (try omega)

theorem parse_stmt_list_inv_step (n : Nat) (ih : AllInv n) :
    ∀ (s : pstate), Post (parse_stmt_list (n + 1) s) (SInv s) := by
  intro s
  rw [parse_stmt_list]
  all_goals repeat' first
    | (with_reducible refine Post_bind ?_)
    | (with_reducible refine Post_ite ?_ ?_ <;> intro hc)
    | (with_reducible refine Post.mono (ih.parse_stmt_list_while _ _ _) ?_; intro e1 s1 i1; beta_reduce; cases hn : e1.is_null)
    | (with_reducible refine Post_some ?_)
  all_goals simp only [EInv, FInv, SInv, WInv, LInv, DInv, HInv, eff_iff, quiet_iff, assignable_iff] at *
  all_goals simp_all [stmt_wf_link]
  all_goals (try split_ifs at * <;> simp_all [stmt_wf_link])
  all_goals (try omega)

theorem parse_stmt_list_while_inv_step (n : Nat) (ih : AllInv n) :
    ∀ (head : stmt_t) (tok : Int) (s : pstate), Post (parse_stmt_list_while (n + 1) head tok s) (HInv head s) := by
  intro head tok s
  rw [parse_stmt_list_while]
  all_goals repeat' first
    | (with_reducible refine Post_bind ?_)
    | (with_reducible refine Post_ite ?_ ?_ <;> intro hc)
    | (with_reducible refine Post.mono (ih.parse_stmt _) ?_; intro e1 s1 i1; beta_reduce; cases hn : e1.is_null)
    | (with_reducible refine Post.mono (ih.parse_stmt_list_while _ _ _) ?_; intro e1 s1 i1; beta_reduce; cases hn : e1.is_null)
    | (with_reducible refine Post.mono (ast_stmt_alloc_0_post _ _) ?_; intro e1 s1 i1; beta_reduce; cases hn : e1.is_null)
    | (with_reducible refine Post_some ?_)
  all_goals simp only [EInv, FInv, SInv, WInv, LInv, DInv, HInv, eff_iff, quiet_iff, assignable_iff] at *
  all_goals simp_all [stmt_wf_link]
  all_goals (try split_ifs at * <;> simp_all [stmt_wf_link])
  all_goals (try omega)

/-- Every parser function satisfies its invariant at every fuel level. -/
theorem all_inv : ∀ n : Nat, AllInv n
  | 0 => by
    constructor <;> intros <;> exact Post_none
  | n + 1 => by
    have ih := all_inv n
    exact {
      parse_expr_factor := parse_expr_factor_inv_step n ih
      parse_expr_primary := parse_expr_primary_inv_step n ih
      parse_expr_primary_while := parse_expr_primary_while_inv_step n ih
      parse_expr_unary := parse_expr_unary_inv_step n ih
      parse_expr_mul := parse_expr_mul_inv_step n ih
      parse_expr_mul_while := parse_expr_mul_while_inv_step n ih
      parse_expr_add := parse_expr_add_inv_step n ih
      parse_expr_add_while := parse_expr_add_while_inv_step n ih
      parse_expr_shift := parse_expr_shift_inv_step n ih
      parse_expr_shift_while := parse_expr_shift_while_inv_step n ih
      parse_expr_aand := parse_expr_aand_inv_step n ih
      parse_expr_aand_while := parse_expr_aand_while_inv_step n ih
      parse_expr_test := parse_expr_test_inv_step n ih
      parse_expr_test_while := parse_expr_test_while_inv_step n ih
      parse_expr_logic_and := parse_expr_logic_and_inv_step n ih
      parse_expr_logic_or := parse_expr_logic_or_inv_step n ih
      parse_expr_ternary := parse_expr_ternary_inv_step n ih
      parse_expr_assign := parse_expr_assign_inv_step n ih
      parse_expr_kv := parse_expr_kv_inv_step n ih
      parse_expr_vardef := parse_expr_vardef_inv_step n ih
      parse_expr_kvlist := parse_expr_kvlist_inv_step n ih
      parse_expr_vardef_list := parse_expr_vardef_list_inv_step n ih
      parse_expr_comma := parse_expr_comma_inv_step n ih
      parse_expr_funcdef := parse_expr_funcdef_inv_step n ih
      parse_expr_funcdef_block := parse_expr_funcdef_block_inv_step n ih
      parse_expr_form_attr := parse_expr_form_attr_inv_step n ih
      parse_expr_form_elem := parse_expr_form_elem_inv_step n ih
      parse_expr_form_call := parse_expr_form_call_inv_step n ih
      parse_expr_form_parenth := parse_expr_form_parenth_inv_step n ih
      parse_expr_form_array := parse_expr_form_array_inv_step n ih
      parse_expr_form_dict := parse_expr_form_dict_inv_step n ih
      parse_expr_form_pair := parse_expr_form_pair_inv_step n ih
      parse_stmt_block := parse_stmt_block_inv_step n ih
      parse_stmt_if := parse_stmt_if_inv_step n ih
      parse_stmt_var := parse_stmt_var_inv_step n ih
      parse_stmt_ret := parse_stmt_ret_inv_step n ih
      parse_stmt_while := parse_stmt_while_inv_step n ih
      parse_stmt_expr := parse_stmt_expr_inv_step n ih
      parse_expr := parse_expr_inv_step n ih
      parse_stmt := parse_stmt_inv_step n ih
      parse_stmt_list := parse_stmt_list_inv_step n ih
      parse_stmt_list_while := parse_stmt_list_while_inv_step n ih
    }

/-! ### Fuel monotonicity -/

theorem FLe.refl {α : Type} (m : Option α) : FLe m m := fun _ h => h

theorem FLe_none {α : Type} (m' : Option α) : FLe none m' := by
  intro r h; cases h

theorem FLe_bind {α β : Type} {m m' : Option α} {f f' : α → Option β}
    (h : FLe m m') (hf : ∀ a, FLe (f a) (f' a)) : FLe (m >>= f) (m' >>= f') := by
  intro r hr
  cases hm : m with
  | none => rw [hm] at hr; simp at hr
  | some a =>
    rw [hm] at hr
    rw [h a hm]
    exact hf a r hr

theorem FLe_ite {α : Type} {c : Prop} [Decidable c] {a a' b b' : Option α}
    (h1 : c → FLe a a') (h2 : ¬ c → FLe b b') :
    FLe (if c then a else b) (if c then a' else b') := by
  by_cases h : c
  · simp only [h, if_true]; exact h1 h
  · simp only [h, if_false]; exact h2 h

theorem parse_expr_factor_mono_step (n : Nat) (ih : AllMono n) :
    ∀ (s : pstate), FLe (parse_expr_factor (n + 1) s) (parse_expr_factor (n + 1 + 1) s) := by
  intro s
  rw [parse_expr_factor, parse_expr_factor]
  repeat' first
    | (with_reducible exact FLe.refl _)
    | (with_reducible exact ih.parse_expr_funcdef _)
    | (with_reducible exact ih.parse_expr_form_parenth _)
    | (with_reducible exact ih.parse_expr_form_array _)
    | (with_reducible exact ih.parse_expr_form_dict _)
    | (with_reducible refine FLe_bind ?_ ?_)
    | (with_reducible refine FLe_ite ?_ ?_)
    | (intro x)

theorem parse_expr_primary_mono_step (n : Nat) (ih : AllMono n) :
    ∀ (s : pstate), FLe (parse_expr_primary (n + 1) s) (parse_expr_primary (n + 1 + 1) s) := by
  intro s
  rw [parse_expr_primary, parse_expr_primary]
  repeat' first
    | (with_reducible exact FLe.refl _)
    | (with_reducible exact ih.parse_expr_factor _)
    | (with_reducible exact ih.parse_expr_primary_while _ _ _)
    | (with_reducible refine FLe_bind ?_ ?_)
    | (with_reducible refine FLe_ite ?_ ?_)
    | (intro x)

theorem parse_expr_primary_while_mono_step (n : Nat) (ih : AllMono n) :
    ∀ (expr : expr_t) (tok : Int) (s : pstate), FLe (parse_expr_primary_while (n + 1) expr tok s) (parse_expr_primary_while (n + 1 + 1) expr tok s) := by
  intro expr tok s
  rw [parse_expr_primary_while, parse_expr_primary_while]
  repeat' first
    | (with_reducible exact FLe.refl _)
    | (with_reducible exact ih.parse_expr_primary_while _ _ _)
    | (with_reducible exact ih.parse_expr_form_attr _ _)
    | (with_reducible exact ih.parse_expr_form_elem _ _)
    | (with_reducible exact ih.parse_expr_form_call _ _)
    | (with_reducible refine FLe_bind ?_ ?_)
    | (with_reducible refine FLe_ite ?_ ?_)
    | (intro x)

theorem parse_expr_unary_mono_step (n : Nat) (ih : AllMono n) :
    ∀ (s : pstate), FLe (parse_expr_unary (n + 1) s) (parse_expr_unary (n + 1 + 1) s) := by
  intro s
  rw [parse_expr_unary, parse_expr_unary]
  repeat' first
    | (with_reducible exact FLe.refl _)
    | (with_reducible exact ih.parse_expr_primary _)
    | (with_reducible exact ih.parse_expr_unary _)
    | (with_reducible refine FLe_bind ?_ ?_)
    | (with_reducible refine FLe_ite ?_ ?_)
    | (intro x)

theorem parse_expr_mul_mono_step (n : Nat) (ih : AllMono n) :
    ∀ (s : pstate), FLe (parse_expr_mul (n + 1) s) (parse_expr_mul (n + 1 + 1) s) := by
  intro s
  rw [parse_expr_mul, parse_expr_mul]
  repeat' first
    | (with_reducible exact FLe.refl _)
    | (with_reducible exact ih.parse_expr_unary _)
    | (with_reducible exact ih.parse_expr_mul_while _ _ _)
    | (with_reducible refine FLe_bind ?_ ?_)
    | (with_reducible refine FLe_ite ?_ ?_)
    | (intro x)

theorem parse_expr_mul_while_mono_step (n : Nat) (ih : AllMono n) :
    ∀ (expr : expr_t) (tok : Int) (s : pstate), FLe (parse_expr_mul_while (n + 1) expr tok s) (parse_expr_mul_while (n + 1 + 1) expr tok s) := by
  intro expr tok s
  rw [parse_expr_mul_while, parse_expr_mul_while]
  repeat' first
    | (with_reducible exact FLe.refl _)
    | (with_reducible exact ih.parse_expr_unary _)
    | (with_reducible exact ih.parse_expr_mul_while _ _ _)
    | (with_reducible refine FLe_bind ?_ ?_)
    | (with_reducible refine FLe_ite ?_ ?_)
    | (intro x)

theorem parse_expr_add_mono_step (n : Nat) (ih : AllMono n) :
    ∀ (s : pstate), FLe (parse_expr_add (n + 1) s) (parse_expr_add (n + 1 + 1) s) := by
  intro s
  rw [parse_expr_add, parse_expr_add]
  repeat' first
    | (with_reducible exact FLe.refl _)
    | (with_reducible exact ih.parse_expr_mul _)
    | (with_reducible exact ih.parse_expr_add_while _ _ _)
    | (with_reducible refine FLe_bind ?_ ?_)
    | (with_reducible refine FLe_ite ?_ ?_)
    | (intro x)

theorem parse_expr_add_while_mono_step (n : Nat) (ih : AllMono n) :
    ∀ (expr : expr_t) (tok : Int) (s : pstate), FLe (parse_expr_add_while (n + 1) expr tok s) (parse_expr_add_while (n + 1 + 1) expr tok s) := by
  intro expr tok s
  rw [parse_expr_add_while, parse_expr_add_while]
  repeat' first
    | (with_reducible exact FLe.refl _)
    | (with_reducible exact ih.parse_expr_mul _)
    | (with_reducible exact ih.parse_expr_add_while _ _ _)
    | (with_reducible refine FLe_bind ?_ ?_)
    | (with_reducible refine FLe_ite ?_ ?_)
    | (intro x)

theorem parse_expr_shift_mono_step (n : Nat) (ih : AllMono n) :
    ∀ (s : pstate), FLe (parse_expr_shift (n + 1) s) (parse_expr_shift (n + 1 + 1) s) := by
  intro s
  rw [parse_expr_shift, parse_expr_shift]
  repeat' first
    | (with_reducible exact FLe.refl _)
    | (with_reducible exact ih.parse_expr_add _)
    | (with_reducible exact ih.parse_expr_shift_while _ _ _)
    | (with_reducible refine FLe_bind ?_ ?_)
    | (with_reducible refine FLe_ite ?_ ?_)
    | (intro x)

theorem parse_expr_shift_while_mono_step (n : Nat) (ih : AllMono n) :
    ∀ (expr : expr_t) (tok : Int) (s : pstate), FLe (parse_expr_shift_while (n + 1) expr tok s) (parse_expr_shift_while (n + 1 + 1) expr tok s) := by
  intro expr tok s
  rw [parse_expr_shift_while, parse_expr_shift_while]
  repeat' first
    | (with_reducible exact FLe.refl _)
    | (with_reducible exact ih.parse_expr_add _)
    | (with_reducible exact ih.parse_expr_shift_while _ _ _)
    | (with_reducible refine FLe_bind ?_ ?_)
    | (with_reducible refine FLe_ite ?_ ?_)
    | (intro x)

theorem parse_expr_aand_mono_step (n : Nat) (ih : AllMono n) :
    ∀ (s : pstate), FLe (parse_expr_aand (n + 1) s) (parse_expr_aand (n + 1 + 1) s) := by
  intro s
  rw [parse_expr_aand, parse_expr_aand]
  repeat' first
    | (with_reducible exact FLe.refl _)
    | (with_reducible exact ih.parse_expr_shift _)
    | (with_reducible exact ih.parse_expr_aand_while _ _ _)
    | (with_reducible refine FLe_bind ?_ ?_)
    | (with_reducible refine FLe_ite ?_ ?_)
    | (intro x)

theorem parse_expr_aand_while_mono_step (n : Nat) (ih : AllMono n) :
    ∀ (expr : expr_t) (tok : Int) (s : pstate), FLe (parse_expr_aand_while (n + 1) expr tok s) (parse_expr_aand_while (n + 1 + 1) expr tok s) := by
  intro expr tok s
  rw [parse_expr_aand_while, parse_expr_aand_while]
  repeat' first
    | (with_reducible exact FLe.refl _)
    | (with_reducible exact ih.parse_expr_shift _)
    | (with_reducible exact ih.parse_expr_aand_while _ _ _)
    | (with_reducible refine FLe_bind ?_ ?_)
    | (with_reducible refine FLe_ite ?_ ?_)
    | (intro x)

theorem parse_expr_test_mono_step (n : Nat) (ih : AllMono n) :
    ∀ (s : pstate), FLe (parse_expr_test (n + 1) s) (parse_expr_test (n + 1 + 1) s) := by
  intro s
  rw [parse_expr_test, parse_expr_test]
  repeat' first
    | (with_reducible exact FLe.refl _)
    | (with_reducible exact ih.parse_expr_aand _)
    | (with_reducible exact ih.parse_expr_test_while _ _ _)
    | (with_reducible refine FLe_bind ?_ ?_)
    | (with_reducible refine FLe_ite ?_ ?_)
    | (intro x)

theorem parse_expr_test_while_mono_step (n : Nat) (ih : AllMono n) :
    ∀ (expr : expr_t) (tok : Int) (s : pstate), FLe (parse_expr_test_while (n + 1) expr tok s) (parse_expr_test_while (n + 1 + 1) expr tok s) := by
  intro expr tok s
  rw [parse_expr_test_while, parse_expr_test_while]
  repeat' first
    | (with_reducible exact FLe.refl _)
    | (with_reducible exact ih.parse_expr_aand _)
    | (with_reducible exact ih.parse_expr_test_while _ _ _)
    | (with_reducible refine FLe_bind ?_ ?_)
    | (with_reducible refine FLe_ite ?_ ?_)
    | (intro x)

theorem parse_expr_logic_and_mono_step (n : Nat) (ih : AllMono n) :
    ∀ (s : pstate), FLe (parse_expr_logic_and (n + 1) s) (parse_expr_logic_and (n + 1 + 1) s) := by
  intro s
  rw [parse_expr_logic_and, parse_expr_logic_and]
  repeat' first
    | (with_reducible exact FLe.refl _)
    | (with_reducible exact ih.parse_expr_test _)
    | (with_reducible exact ih.parse_expr_logic_and _)
    | (with_reducible refine FLe_bind ?_ ?_)
    | (with_reducible refine FLe_ite ?_ ?_)
    | (intro x)

theorem parse_expr_logic_or_mono_step (n : Nat) (ih : AllMono n) :
    ∀ (s : pstate), FLe (parse_expr_logic_or (n + 1) s) (parse_expr_logic_or (n + 1 + 1) s) := by
  intro s
  rw [parse_expr_logic_or, parse_expr_logic_or]
  repeat' first
    | (with_reducible exact FLe.refl _)
    | (with_reducible exact ih.parse_expr_logic_and _)
    | (with_reducible exact ih.parse_expr_logic_or _)
    | (with_reducible refine FLe_bind ?_ ?_)
    | (with_reducible refine FLe_ite ?_ ?_)
    | (intro x)

theorem parse_expr_ternary_mono_step (n : Nat) (ih : AllMono n) :
    ∀ (s : pstate), FLe (parse_expr_ternary (n + 1) s) (parse_expr_ternary (n + 1 + 1) s) := by
  intro s
  rw [parse_expr_ternary, parse_expr_ternary]
  repeat' first
    | (with_reducible exact FLe.refl _)
    | (with_reducible exact ih.parse_expr_logic_or _)
    | (with_reducible exact ih.parse_expr_form_pair _)
    | (with_reducible refine FLe_bind ?_ ?_)
    | (with_reducible refine FLe_ite ?_ ?_)
    | (intro x)

theorem parse_expr_assign_mono_step (n : Nat) (ih : AllMono n) :
    ∀ (s : pstate), FLe (parse_expr_assign (n + 1) s) (parse_expr_assign (n + 1 + 1) s) := by
  intro s
  rw [parse_expr_assign, parse_expr_assign]
  repeat' first
    | (with_reducible exact FLe.refl _)
    | (with_reducible exact ih.parse_expr_ternary _)
    | (with_reducible exact ih.parse_expr_assign _)
    | (with_reducible refine FLe_bind ?_ ?_)
    | (with_reducible refine FLe_ite ?_ ?_)
    | (intro x)

theorem parse_expr_kv_mono_step (n : Nat) (ih : AllMono n) :
    ∀ (s : pstate), FLe (parse_expr_kv (n + 1) s) (parse_expr_kv (n + 1 + 1) s) := by
  intro s
  rw [parse_expr_kv, parse_expr_kv]
  repeat' first
    | (with_reducible exact FLe.refl _)
    | (with_reducible exact ih.parse_expr_factor _)
    | (with_reducible exact ih.parse_expr_assign _)
    | (with_reducible refine FLe_bind ?_ ?_)
    | (with_reducible refine FLe_ite ?_ ?_)
    | (intro x)

theorem parse_expr_vardef_mono_step (n : Nat) (ih : AllMono n) :
    ∀ (s : pstate), FLe (parse_expr_vardef (n + 1) s) (parse_expr_vardef (n + 1 + 1) s) := by
  intro s
  rw [parse_expr_vardef, parse_expr_vardef]
  repeat' first
    | (with_reducible exact FLe.refl _)
    | (with_reducible exact ih.parse_expr_factor _)
    | (with_reducible exact ih.parse_expr_assign _)
    | (with_reducible refine FLe_bind ?_ ?_)
    | (with_reducible refine FLe_ite ?_ ?_)
    | (intro x)

theorem parse_expr_kvlist_mono_step (n : Nat) (ih : AllMono n) :
    ∀ (s : pstate), FLe (parse_expr_kvlist (n + 1) s) (parse_expr_kvlist (n + 1 + 1) s) := by
  intro s
  rw [parse_expr_kvlist, parse_expr_kvlist]
  repeat' first
    | (with_reducible exact FLe.refl _)
    | (with_reducible exact ih.parse_expr_kv _)
    | (with_reducible exact ih.parse_expr_kvlist _)
    | (with_reducible refine FLe_bind ?_ ?_)
    | (with_reducible refine FLe_ite ?_ ?_)
    | (intro x)

theorem parse_expr_vardef_list_mono_step (n : Nat) (ih : AllMono n) :
    ∀ (s : pstate), FLe (parse_expr_vardef_list (n + 1) s) (parse_expr_vardef_list (n + 1 + 1) s) := by
  intro s
  rw [parse_expr_vardef_list, parse_expr_vardef_list]
  repeat' first
    | (with_reducible exact FLe.refl _)
    | (with_reducible exact ih.parse_expr_vardef _)
    | (with_reducible exact ih.parse_expr_vardef_list _)
    | (with_reducible refine FLe_bind ?_ ?_)
    | (with_reducible refine FLe_ite ?_ ?_)
    | (intro x)

theorem parse_expr_comma_mono_step (n : Nat) (ih : AllMono n) :
    ∀ (s : pstate), FLe (parse_expr_comma (n + 1) s) (parse_expr_comma (n + 1 + 1) s) := by
  intro s
  rw [parse_expr_comma, parse_expr_comma]
  repeat' first
    | (with_reducible exact FLe.refl _)
    | (with_reducible exact ih.parse_expr_assign _)
    | (with_reducible exact ih.parse_expr_comma _)
    | (with_reducible refine FLe_bind ?_ ?_)
    | (with_reducible refine FLe_ite ?_ ?_)
    | (intro x)

theorem parse_expr_funcdef_mono_step (n : Nat) (ih : AllMono n) :
    ∀ (s : pstate), FLe (parse_expr_funcdef (n + 1) s) (parse_expr_funcdef (n + 1 + 1) s) := by
  intro s
  rw [parse_expr_funcdef, parse_expr_funcdef]
  repeat' first
    | (with_reducible exact FLe.refl _)
    | (with_reducible exact ih.parse_expr_factor _)
    | (with_reducible exact ih.parse_expr_vardef_list _)
    | (with_reducible exact ih.parse_expr_funcdef_block _ _ _)
    | (with_reducible refine FLe_bind ?_ ?_)
    | (with_reducible refine FLe_ite ?_ ?_)
    | (intro x)

theorem parse_expr_funcdef_block_mono_step (n : Nat) (ih : AllMono n) :
    ∀ (name : expr_t) (param : expr_t) (s : pstate), FLe (parse_expr_funcdef_block (n + 1) name param s) (parse_expr_funcdef_block (n + 1 + 1) name param s) := by
  intro name param s
  rw [parse_expr_funcdef_block, parse_expr_funcdef_block]
  repeat' first
    | (with_reducible exact FLe.refl _)
    | (with_reducible exact ih.parse_stmt_block _)
    | (with_reducible refine FLe_bind ?_ ?_)
    | (with_reducible refine FLe_ite ?_ ?_)
    | (intro x)

theorem parse_expr_form_attr_mono_step (n : Nat) (ih : AllMono n) :
    ∀ (lft : expr_t) (s : pstate), FLe (parse_expr_form_attr (n + 1) lft s) (parse_expr_form_attr (n + 1 + 1) lft s) := by
  intro lft s
  rw [parse_expr_form_attr, parse_expr_form_attr]
  repeat' first
    | (with_reducible exact FLe.refl _)
    | (with_reducible exact ih.parse_expr_factor _)
    | (with_reducible refine FLe_bind ?_ ?_)
    | (with_reducible refine FLe_ite ?_ ?_)
    | (intro x)

theorem parse_expr_form_elem_mono_step (n : Nat) (ih : AllMono n) :
    ∀ (lft : expr_t) (s : pstate), FLe (parse_expr_form_elem (n + 1) lft s) (parse_expr_form_elem (n + 1 + 1) lft s) := by
  intro lft s
  rw [parse_expr_form_elem, parse_expr_form_elem]
  repeat' first
    | (with_reducible exact FLe.refl _)
    | (with_reducible exact ih.parse_expr_ternary _)
    | (with_reducible refine FLe_bind ?_ ?_)
    | (with_reducible refine FLe_ite ?_ ?_)
    | (intro x)

theorem parse_expr_form_call_mono_step (n : Nat) (ih : AllMono n) :
    ∀ (lft : expr_t) (s : pstate), FLe (parse_expr_form_call (n + 1) lft s) (parse_expr_form_call (n + 1 + 1) lft s) := by
  intro lft s
  rw [parse_expr_form_call, parse_expr_form_call]
  repeat' first
    | (with_reducible exact FLe.refl _)
    | (with_reducible exact ih.parse_expr_comma _)
    | (with_reducible refine FLe_bind ?_ ?_)
    | (with_reducible refine FLe_ite ?_ ?_)
    | (intro x)

theorem parse_expr_form_parenth_mono_step (n : Nat) (ih : AllMono n) :
    ∀ (s : pstate), FLe (parse_expr_form_parenth (n + 1) s) (parse_expr_form_parenth (n + 1 + 1) s) := by
  intro s
  rw [parse_expr_form_parenth, parse_expr_form_parenth]
  repeat' first
    | (with_reducible exact FLe.refl _)
    | (with_reducible exact ih.parse_expr_comma _)
    | (with_reducible refine FLe_bind ?_ ?_)
    | (with_reducible refine FLe_ite ?_ ?_)
    | (intro x)

theorem parse_expr_form_array_mono_step (n : Nat) (ih : AllMono n) :
    ∀ (s : pstate), FLe (parse_expr_form_array (n + 1) s) (parse_expr_form_array (n + 1 + 1) s) := by
  intro s
  rw [parse_expr_form_array, parse_expr_form_array]
  repeat' first
    | (with_reducible exact FLe.refl _)
    | (with_reducible exact ih.parse_expr_comma _)
    | (with_reducible refine FLe_bind ?_ ?_)
    | (with_reducible refine FLe_ite ?_ ?_)
    | (intro x)

theorem parse_expr_form_dict_mono_step (n : Nat) (ih : AllMono n) :
    ∀ (s : pstate), FLe (parse_expr_form_dict (n + 1) s) (parse_expr_form_dict (n + 1 + 1) s) := by
  intro s
  rw [parse_expr_form_dict, parse_expr_form_dict]
  repeat' first
    | (with_reducible exact FLe.refl _)
    | (with_reducible exact ih.parse_expr_kvlist _)
    | (with_reducible refine FLe_bind ?_ ?_)
    | (with_reducible refine FLe_ite ?_ ?_)
    | (intro x)

theorem parse_expr_form_pair_mono_step (n : Nat) (ih : AllMono n) :
    ∀ (s : pstate), FLe (parse_expr_form_pair (n + 1) s) (parse_expr_form_pair (n + 1 + 1) s) := by
  intro s
  rw [parse_expr_form_pair, parse_expr_form_pair]
  repeat' first
    | (with_reducible exact FLe.refl _)
    | (with_reducible exact ih.parse_expr_ternary _)
    | (with_reducible refine FLe_bind ?_ ?_)
    | (with_reducible refine FLe_ite ?_ ?_)
    | (intro x)

theorem parse_stmt_block_mono_step (n : Nat) (ih : AllMono n) :
    ∀ (s : pstate), FLe (parse_stmt_block (n + 1) s) (parse_stmt_block (n + 1 + 1) s) := by
  intro s
  rw [parse_stmt_block, parse_stmt_block]
  repeat' first
    | (with_reducible exact FLe.refl _)
    | (with_reducible exact ih.parse_stmt _)
    | (with_reducible exact ih.parse_stmt_list _)
    | (with_reducible refine FLe_bind ?_ ?_)
    | (with_reducible refine FLe_ite ?_ ?_)
    | (intro x)

theorem parse_stmt_if_mono_step (n : Nat) (ih : AllMono n) :
    ∀ (s : pstate), FLe (parse_stmt_if (n + 1) s) (parse_stmt_if (n + 1 + 1) s) := by
  intro s
  rw [parse_stmt_if, parse_stmt_if]
  repeat' first
    | (with_reducible exact FLe.refl _)
    | (with_reducible exact ih.parse_stmt_block _)
    | (with_reducible exact ih.parse_expr _)
    | (with_reducible refine FLe_bind ?_ ?_)
    | (with_reducible refine FLe_ite ?_ ?_)
    | (intro x)

theorem parse_stmt_var_mono_step (n : Nat) (ih : AllMono n) :
    ∀ (s : pstate), FLe (parse_stmt_var (n + 1) s) (parse_stmt_var (n + 1 + 1) s) := by
  intro s
  rw [parse_stmt_var, parse_stmt_var]
  repeat' first
    | (with_reducible exact FLe.refl _)
    | (with_reducible exact ih.parse_expr_vardef_list _)
    | (with_reducible refine FLe_bind ?_ ?_)
    | (with_reducible refine FLe_ite ?_ ?_)
    | (intro x)

theorem parse_stmt_ret_mono_step (n : Nat) (ih : AllMono n) :
    ∀ (s : pstate), FLe (parse_stmt_ret (n + 1) s) (parse_stmt_ret (n + 1 + 1) s) := by
  intro s
  rw [parse_stmt_ret, parse_stmt_ret]
  repeat' first
    | (with_reducible exact FLe.refl _)
    | (with_reducible exact ih.parse_expr _)
    | (with_reducible refine FLe_bind ?_ ?_)
    | (with_reducible refine FLe_ite ?_ ?_)
    | (intro x)

theorem parse_stmt_while_mono_step (n : Nat) (ih : AllMono n) :
    ∀ (s : pstate), FLe (parse_stmt_while (n + 1) s) (parse_stmt_while (n + 1 + 1) s) := by
  intro s
  rw [parse_stmt_while, parse_stmt_while]
  repeat' first
    | (with_reducible exact FLe.refl _)
    | (with_reducible exact ih.parse_stmt_block _)
    | (with_reducible exact ih.parse_expr _)
    | (with_reducible refine FLe_bind ?_ ?_)
    | (with_reducible refine FLe_ite ?_ ?_)
    | (intro x)

theorem parse_stmt_expr_mono_step (n : Nat) (ih : AllMono n) :
    ∀ (s : pstate), FLe (parse_stmt_expr (n + 1) s) (parse_stmt_expr (n + 1 + 1) s) := by
  intro s
  rw [parse_stmt_expr, parse_stmt_expr]
  repeat' first
    | (with_reducible exact FLe.refl _)
    | (with_reducible exact ih.parse_expr _)
    | (with_reducible refine FLe_bind ?_ ?_)
    | (with_reducible refine FLe_ite ?_ ?_)
    | (intro x)

theorem parse_expr_mono_step (n : Nat) (ih : AllMono n) :
    ∀ (s : pstate), FLe (parse_expr (n + 1) s) (parse_expr (n + 1 + 1) s) := by
  intro s
  rw [parse_expr, parse_expr]
  repeat' first
    | (with_reducible exact FLe.refl _)
    | (with_reducible exact ih.parse_expr_comma _)
    | (with_reducible refine FLe_bind ?_ ?_)
    | (with_reducible refine FLe_ite ?_ ?_)
    | (intro x)

theorem parse_stmt_mono_step (n : Nat) (ih : AllMono n) :
    ∀ (s : pstate), FLe (parse_stmt (n + 1) s) (parse_stmt (n + 1 + 1) s) := by
  intro s
  rw [parse_stmt, parse_stmt]
  repeat' first
    | (with_reducible exact FLe.refl _)
    | (with_reducible exact ih.parse_stmt_if _)
    | (with_reducible exact ih.parse_stmt_var _)
    | (with_reducible exact ih.parse_stmt_ret _)
    | (with_reducible exact ih.parse_stmt_while _)
    | (with_reducible exact ih.parse_stmt_expr _)
    | (with_reducible refine FLe_bind ?_ ?_)
    | (with_reducible refine FLe_ite ?_ ?_)
    | (intro x)

theorem parse_stmt_list_mono_step (n : Nat) (ih : AllMono n) :
    ∀ (s : pstate), FLe (parse_stmt_list (n + 1) s) (parse_stmt_list (n + 1 + 1) s) := by
  intro s
  rw [parse_stmt_list, parse_stmt_list]
  repeat' first
    | (with_reducible exact FLe.refl _)
    | (with_reducible exact ih.parse_stmt_list_while _ _ _)
    | (with_reducible refine FLe_bind ?_ ?_)
    | (with_reducible refine FLe_ite ?_ ?_)
    | (intro x)

theorem parse_stmt_list_while_mono_step (n : Nat) (ih : AllMono n) :
    ∀ (head : stmt_t) (tok : Int) (s : pstate), FLe (parse_stmt_list_while (n + 1) head tok s) (parse_stmt_list_while (n + 1 + 1) head tok s) := by
  intro head tok s
  rw [parse_stmt_list_while, parse_stmt_list_while]
  repeat' first
    | (with_reducible exact FLe.refl _)
    | (with_reducible exact ih.parse_stmt _)
    | (with_reducible exact ih.parse_stmt_list_while _ _ _)
    | (with_reducible refine FLe_bind ?_ ?_)
    | (with_reducible refine FLe_ite ?_ ?_)
    | (intro x)

/-- One more unit of fuel never changes a result. -/
theorem all_mono : ∀ n : Nat, AllMono n
  | 0 => by
    constructor <;> intros <;> exact FLe_none _
  | n + 1 => by
    have ih := all_mono n
    exact {
      parse_expr_factor := parse_expr_factor_mono_step n ih
      parse_expr_primary := parse_expr_primary_mono_step n ih
      parse_expr_primary_while := parse_expr_primary_while_mono_step n ih
      parse_expr_unary := parse_expr_unary_mono_step n ih
      parse_expr_mul := parse_expr_mul_mono_step n ih
      parse_expr_mul_while := parse_expr_mul_while_mono_step n ih
      parse_expr_add := parse_expr_add_mono_step n ih
      parse_expr_add_while := parse_expr_add_while_mono_step n ih
      parse_expr_shift := parse_expr_shift_mono_step n ih
      parse_expr_shift_while := parse_expr_shift_while_mono_step n ih
      parse_expr_aand := parse_expr_aand_mono_step n ih
      parse_expr_aand_while := parse_expr_aand_while_mono_step n ih
      parse_expr_test := parse_expr_test_mono_step n ih
      parse_expr_test_while := parse_expr_test_while_mono_step n ih
      parse_expr_logic_and := parse_expr_logic_and_mono_step n ih
      parse_expr_logic_or := parse_expr_logic_or_mono_step n ih
      parse_expr_ternary := parse_expr_ternary_mono_step n ih
      parse_expr_assign := parse_expr_assign_mono_step n ih
      parse_expr_kv := parse_expr_kv_mono_step n ih
      parse_expr_vardef := parse_expr_vardef_mono_step n ih
      parse_expr_kvlist := parse_expr_kvlist_mono_step n ih
      parse_expr_vardef_list := parse_expr_vardef_list_mono_step n ih
      parse_expr_comma := parse_expr_comma_mono_step n ih
      parse_expr_funcdef := parse_expr_funcdef_mono_step n ih
      parse_expr_funcdef_block := parse_expr_funcdef_block_mono_step n ih
      parse_expr_form_attr := parse_expr_form_attr_mono_step n ih
      parse_expr_form_elem := parse_expr_form_elem_mono_step n ih
      parse_expr_form_call := parse_expr_form_call_mono_step n ih
      parse_expr_form_parenth := parse_expr_form_parenth_mono_step n ih
      parse_expr_form_array := parse_expr_form_array_mono_step n ih
      parse_expr_form_dict := parse_expr_form_dict_mono_step n ih
      parse_expr_form_pair := parse_expr_form_pair_mono_step n ih
      parse_stmt_block := parse_stmt_block_mono_step n ih
      parse_stmt_if := parse_stmt_if_mono_step n ih
      parse_stmt_var := parse_stmt_var_mono_step n ih
      parse_stmt_ret := parse_stmt_ret_mono_step n ih
      parse_stmt_while := parse_stmt_while_mono_step n ih
      parse_stmt_expr := parse_stmt_expr_mono_step n ih
      parse_expr := parse_expr_mono_step n ih
      parse_stmt := parse_stmt_mono_step n ih
      parse_stmt_list := parse_stmt_list_mono_step n ih
      parse_stmt_list_while := parse_stmt_list_while_mono_step n ih
    }

/-! ### More fuel never changes a result -/

theorem parse_expr_factor_fuel_le {n m : Nat} (h : n ≤ m) (s : pstate) :
    FLe (parse_expr_factor n s) (parse_expr_factor m s) := by
  induction h with
  | refl => exact FLe.refl _
  | step _ ih => exact fun r hr => (all_mono _).parse_expr_factor s r (ih r hr)

theorem parse_expr_primary_fuel_le {n m : Nat} (h : n ≤ m) (s : pstate) :
    FLe (parse_expr_primary n s) (parse_expr_primary m s) := by
  induction h with
  | refl => exact FLe.refl _
  | step _ ih => exact fun r hr => (all_mono _).parse_expr_primary s r (ih r hr)

theorem parse_expr_primary_while_fuel_le {n m : Nat} (h : n ≤ m) (expr : expr_t) (tok : Int) (s : pstate) :
    FLe (parse_expr_primary_while n expr tok s) (parse_expr_primary_while m expr tok s) := by
  induction h with
  | refl => exact FLe.refl _
  | step _ ih => exact fun r hr => (all_mono _).parse_expr_primary_while expr tok s r (ih r hr)

theorem parse_expr_unary_fuel_le {n m : Nat} (h : n ≤ m) (s : pstate) :
    FLe (parse_expr_unary n s) (parse_expr_unary m s) := by
  induction h with
  | refl => exact FLe.refl _
  | step _ ih => exact fun r hr => (all_mono _).parse_expr_unary s r (ih r hr)

theorem parse_expr_mul_fuel_le {n m : Nat} (h : n ≤ m) (s : pstate) :
    FLe (parse_expr_mul n s) (parse_expr_mul m s) := by
  induction h with
  | refl => exact FLe.refl _
  | step _ ih => exact fun r hr => (all_mono _).parse_expr_mul s r (ih r hr)

theorem parse_expr_mul_while_fuel_le {n m : Nat} (h : n ≤ m) (expr : expr_t) (tok : Int) (s : pstate) :
    FLe (parse_expr_mul_while n expr tok s) (parse_expr_mul_while m expr tok s) := by
  induction h with
  | refl => exact FLe.refl _
  | step _ ih => exact fun r hr => (all_mono _).parse_expr_mul_while expr tok s r (ih r hr)

theorem parse_expr_add_fuel_le {n m : Nat} (h : n ≤ m) (s : pstate) :
    FLe (parse_expr_add n s) (parse_expr_add m s) := by
  induction h with
  | refl => exact FLe.refl _
  | step _ ih => exact fun r hr => (all_mono _).parse_expr_add s r (ih r hr)

theorem parse_expr_add_while_fuel_le {n m : Nat} (h : n ≤ m) (expr : expr_t) (tok : Int) (s : pstate) :
    FLe (parse_expr_add_while n expr tok s) (parse_expr_add_while m expr tok s) := by
  induction h with
  | refl => exact FLe.refl _
  | step _ ih => exact fun r hr => (all_mono _).parse_expr_add_while expr tok s r (ih r hr)

theorem parse_expr_shift_fuel_le {n m : Nat} (h : n ≤ m) (s : pstate) :
    FLe (parse_expr_shift n s) (parse_expr_shift m s) := by
  induction h with
  | refl => exact FLe.refl _
  | step _ ih => exact fun r hr => (all_mono _).parse_expr_shift s r (ih r hr)

theorem parse_expr_shift_while_fuel_le {n m : Nat} (h : n ≤ m) (expr : expr_t) (tok : Int) (s : pstate) :
    FLe (parse_expr_shift_while n expr tok s) (parse_expr_shift_while m expr tok s) := by
  induction h with
  | refl => exact FLe.refl _
  | step _ ih => exact fun r hr => (all_mono _).parse_expr_shift_while expr tok s r (ih r hr)

theorem parse_expr_aand_fuel_le {n m : Nat} (h : n ≤ m) (s : pstate) :
    FLe (parse_expr_aand n s) (parse_expr_aand m s) := by
  induction h with
  | refl => exact FLe.refl _
  | step _ ih => exact fun r hr => (all_mono _).parse_expr_aand s r (ih r hr)

theorem parse_expr_aand_while_fuel_le {n m : Nat} (h : n ≤ m) (expr : expr_t) (tok : Int) (s : pstate) :
    FLe (parse_expr_aand_while n expr tok s) (parse_expr_aand_while m expr tok s) := by
  induction h with
  | refl => exact FLe.refl _
  | step _ ih => exact fun r hr => (all_mono _).parse_expr_aand_while expr tok s r (ih r hr)

theorem parse_expr_test_fuel_le {n m : Nat} (h : n ≤ m) (s : pstate) :
    FLe (parse_expr_test n s) (parse_expr_test m s) := by
  induction h with
  | refl => exact FLe.refl _
  | step _ ih => exact fun r hr => (all_mono _).parse_expr_test s r (ih r hr)

theorem parse_expr_test_while_fuel_le {n m : Nat} (h : n ≤ m) (expr : expr_t) (tok : Int) (s : pstate) :
    FLe (parse_expr_test_while n expr tok s) (parse_expr_test_while m expr tok s) := by
  induction h with
  | refl => exact FLe.refl _
  | step _ ih => exact fun r hr => (all_mono _).parse_expr_test_while expr tok s r (ih r hr)

theorem parse_expr_logic_and_fuel_le {n m : Nat} (h : n ≤ m) (s : pstate) :
    FLe (parse_expr_logic_and n s) (parse_expr_logic_and m s) := by
  induction h with
  | refl => exact FLe.refl _
  | step _ ih => exact fun r hr => (all_mono _).parse_expr_logic_and s r (ih r hr)

theorem parse_expr_logic_or_fuel_le {n m : Nat} (h : n ≤ m) (s : pstate) :
    FLe (parse_expr_logic_or n s) (parse_expr_logic_or m s) := by
  induction h with
  | refl => exact FLe.refl _
  | step _ ih => exact fun r hr => (all_mono _).parse_expr_logic_or s r (ih r hr)

theorem parse_expr_ternary_fuel_le {n m : Nat} (h : n ≤ m) (s : pstate) :
    FLe (parse_expr_ternary n s) (parse_expr_ternary m s) := by
  induction h with
  | refl => exact FLe.refl _
  | step _ ih => exact fun r hr => (all_mono _).parse_expr_ternary s r (ih r hr)

theorem parse_expr_assign_fuel_le {n m : Nat} (h : n ≤ m) (s : pstate) :
    FLe (parse_expr_assign n s) (parse_expr_assign m s) := by
  induction h with
  | refl => exact FLe.refl _
  | step _ ih => exact fun r hr => (all_mono _).parse_expr_assign s r (ih r hr)

theorem parse_expr_kv_fuel_le {n m : Nat} (h : n ≤ m) (s : pstate) :
    FLe (parse_expr_kv n s) (parse_expr_kv m s) := by
  induction h with
  | refl => exact FLe.refl _
  | step _ ih => exact fun r hr => (all_mono _).parse_expr_kv s r (ih r hr)

theorem parse_expr_vardef_fuel_le {n m : Nat} (h : n ≤ m) (s : pstate) :
    FLe (parse_expr_vardef n s) (parse_expr_vardef m s) := by
  induction h with
  | refl => exact FLe.refl _
  | step _ ih => exact fun r hr => (all_mono _).parse_expr_vardef s r (ih r hr)

theorem parse_expr_kvlist_fuel_le {n m : Nat} (h : n ≤ m) (s : pstate) :
    FLe (parse_expr_kvlist n s) (parse_expr_kvlist m s) := by
  induction h with
  | refl => exact FLe.refl _
  | step _ ih => exact fun r hr => (all_mono _).parse_expr_kvlist s r (ih r hr)

theorem parse_expr_vardef_list_fuel_le {n m : Nat} (h : n ≤ m) (s : pstate) :
    FLe (parse_expr_vardef_list n s) (parse_expr_vardef_list m s) := by
  induction h with
  | refl => exact FLe.refl _
  | step _ ih => exact fun r hr => (all_mono _).parse_expr_vardef_list s r (ih r hr)

theorem parse_expr_comma_fuel_le {n m : Nat} (h : n ≤ m) (s : pstate) :
    FLe (parse_expr_comma n s) (parse_expr_comma m s) := by
  induction h with
  | refl => exact FLe.refl _
  | step _ ih => exact fun r hr => (all_mono _).parse_expr_comma s r (ih r hr)

theorem parse_expr_funcdef_fuel_le {n m : Nat} (h : n ≤ m) (s : pstate) :
    FLe (parse_expr_funcdef n s) (parse_expr_funcdef m s) := by
  induction h with
  | refl => exact FLe.refl _
  | step _ ih => exact fun r hr => (all_mono _).parse_expr_funcdef s r (ih r hr)

theorem parse_expr_funcdef_block_fuel_le {n m : Nat} (h : n ≤ m) (name : expr_t) (param : expr_t) (s : pstate) :
    FLe (parse_expr_funcdef_block n name param s) (parse_expr_funcdef_block m name param s) := by
  induction h with
  | refl => exact FLe.refl _
  | step _ ih => exact fun r hr => (all_mono _).parse_expr_funcdef_block name param s r (ih r hr)

theorem parse_expr_form_attr_fuel_le {n m : Nat} (h : n ≤ m) (lft : expr_t) (s : pstate) :
    FLe (parse_expr_form_attr n lft s) (parse_expr_form_attr m lft s) := by
  induction h with
  | refl => exact FLe.refl _
  | step _ ih => exact fun r hr => (all_mono _).parse_expr_form_attr lft s r (ih r hr)

theorem parse_expr_form_elem_fuel_le {n m : Nat} (h : n ≤ m) (lft : expr_t) (s : pstate) :
    FLe (parse_expr_form_elem n lft s) (parse_expr_form_elem m lft s) := by
  induction h with
  | refl => exact FLe.refl _
  | step _ ih => exact fun r hr => (all_mono _).parse_expr_form_elem lft s r (ih r hr)

theorem parse_expr_form_call_fuel_le {n m : Nat} (h : n ≤ m) (lft : expr_t) (s : pstate) :
    FLe (parse_expr_form_call n lft s) (parse_expr_form_call m lft s) := by
  induction h with
  | refl => exact FLe.refl _
  | step _ ih => exact fun r hr => (all_mono _).parse_expr_form_call lft s r (ih r hr)

theorem parse_expr_form_parenth_fuel_le {n m : Nat} (h : n ≤ m) (s : pstate) :
    FLe (parse_expr_form_parenth n s) (parse_expr_form_parenth m s) := by
  induction h with
  | refl => exact FLe.refl _
  | step _ ih => exact fun r hr => (all_mono _).parse_expr_form_parenth s r (ih r hr)

theorem parse_expr_form_array_fuel_le {n m : Nat} (h : n ≤ m) (s : pstate) :
    FLe (parse_expr_form_array n s) (parse_expr_form_array m s) := by
  induction h with
  | refl => exact FLe.refl _
  | step _ ih => exact fun r hr => (all_mono _).parse_expr_form_array s r (ih r hr)

theorem parse_expr_form_dict_fuel_le {n m : Nat} (h : n ≤ m) (s : pstate) :
    FLe (parse_expr_form_dict n s) (parse_expr_form_dict m s) := by
  induction h with
  | refl => exact FLe.refl _
  | step _ ih => exact fun r hr => (all_mono _).parse_expr_form_dict s r (ih r hr)

theorem parse_expr_form_pair_fuel_le {n m : Nat} (h : n ≤ m) (s : pstate) :
    FLe (parse_expr_form_pair n s) (parse_expr_form_pair m s) := by
  induction h with
  | refl => exact FLe.refl _
  | step _ ih => exact fun r hr => (all_mono _).parse_expr_form_pair s r (ih r hr)

theorem parse_stmt_block_fuel_le {n m : Nat} (h : n ≤ m) (s : pstate) :
    FLe (parse_stmt_block n s) (parse_stmt_block m s) := by
  induction h with
  | refl => exact FLe.refl _
  | step _ ih => exact fun r hr => (all_mono _).parse_stmt_block s r (ih r hr)

theorem parse_stmt_if_fuel_le {n m : Nat} (h : n ≤ m) (s : pstate) :
    FLe (parse_stmt_if n s) (parse_stmt_if m s) := by
  induction h with
  | refl => exact FLe.refl _
  | step _ ih => exact fun r hr => (all_mono _).parse_stmt_if s r (ih r hr)

theorem parse_stmt_var_fuel_le {n m : Nat} (h : n ≤ m) (s : pstate) :
    FLe (parse_stmt_var n s) (parse_stmt_var m s) := by
  induction h with
  | refl => exact FLe.refl _
  | step _ ih => exact fun r hr => (all_mono _).parse_stmt_var s r (ih r hr)

theorem parse_stmt_ret_fuel_le {n m : Nat} (h : n ≤ m) (s : pstate) :
    FLe (parse_stmt_ret n s) (parse_stmt_ret m s) := by
  induction h with
  | refl => exact FLe.refl _
  | step _ ih => exact fun r hr => (all_mono _).parse_stmt_ret s r (ih r hr)

theorem parse_stmt_while_fuel_le {n m : Nat} (h : n ≤ m) (s : pstate) :
    FLe (parse_stmt_while n s) (parse_stmt_while m s) := by
  induction h with
  | refl => exact FLe.refl _
  | step _ ih => exact fun r hr => (all_mono _).parse_stmt_while s r (ih r hr)

theorem parse_stmt_expr_fuel_le {n m : Nat} (h : n ≤ m) (s : pstate) :
    FLe (parse_stmt_expr n s) (parse_stmt_expr m s) := by
  induction h with
  | refl => exact FLe.refl _
  | step _ ih => exact fun r hr => (all_mono _).parse_stmt_expr s r (ih r hr)

theorem parse_expr_fuel_le {n m : Nat} (h : n ≤ m) (s : pstate) :
    FLe (parse_expr n s) (parse_expr m s) := by
  induction h with
  | refl => exact FLe.refl _
  | step _ ih => exact fun r hr => (all_mono _).parse_expr s r (ih r hr)

theorem parse_stmt_fuel_le {n m : Nat} (h : n ≤ m) (s : pstate) :
    FLe (parse_stmt n s) (parse_stmt m s) := by
  induction h with
  | refl => exact FLe.refl _
  | step _ ih => exact fun r hr => (all_mono _).parse_stmt s r (ih r hr)

theorem parse_stmt_list_fuel_le {n m : Nat} (h : n ≤ m) (s : pstate) :
    FLe (parse_stmt_list n s) (parse_stmt_list m s) := by
  induction h with
  | refl => exact FLe.refl _
  | step _ ih => exact fun r hr => (all_mono _).parse_stmt_list s r (ih r hr)

theorem parse_stmt_list_while_fuel_le {n m : Nat} (h : n ≤ m) (head : stmt_t) (tok : Int) (s : pstate) :
    FLe (parse_stmt_list_while n head tok s) (parse_stmt_list_while m head tok s) := by
  induction h with
  | refl => exact FLe.refl _
  | step _ ih => exact fun r hr => (all_mono _).parse_stmt_list_while head tok s r (ih r hr)

/-! ### Results that hold with enough fuel -/

theorem parse_expr_factor_ev {n : Nat} {s : pstate} {r : expr_t × pstate}
    (h : parse_expr_factor n s = some r) : Ev (fun m => parse_expr_factor m s) r :=
  ⟨n, fun _ hm => parse_expr_factor_fuel_le hm s r h⟩

theorem parse_expr_primary_ev {n : Nat} {s : pstate} {r : expr_t × pstate}
    (h : parse_expr_primary n s = some r) : Ev (fun m => parse_expr_primary m s) r :=
  ⟨n, fun _ hm => parse_expr_primary_fuel_le hm s r h⟩

theorem parse_expr_primary_while_ev {n : Nat} (expr : expr_t) (tok : Int) {s : pstate} {r : expr_t × pstate}
    (h : parse_expr_primary_while n expr tok s = some r) : Ev (fun m => parse_expr_primary_while m expr tok s) r :=
  ⟨n, fun _ hm => parse_expr_primary_while_fuel_le hm expr tok s r h⟩

theorem parse_expr_unary_ev {n : Nat} {s : pstate} {r : expr_t × pstate}
    (h : parse_expr_unary n s = some r) : Ev (fun m => parse_expr_unary m s) r :=
  ⟨n, fun _ hm => parse_expr_unary_fuel_le hm s r h⟩

theorem parse_expr_mul_ev {n : Nat} {s : pstate} {r : expr_t × pstate}
    (h : parse_expr_mul n s = some r) : Ev (fun m => parse_expr_mul m s) r :=
  ⟨n, fun _ hm => parse_expr_mul_fuel_le hm s r h⟩

theorem parse_expr_mul_while_ev {n : Nat} (expr : expr_t) (tok : Int) {s : pstate} {r : expr_t × pstate}
    (h : parse_expr_mul_while n expr tok s = some r) : Ev (fun m => parse_expr_mul_while m expr tok s) r :=
  ⟨n, fun _ hm => parse_expr_mul_while_fuel_le hm expr tok s r h⟩

theorem parse_expr_add_ev {n : Nat} {s : pstate} {r : expr_t × pstate}
    (h : parse_expr_add n s = some r) : Ev (fun m => parse_expr_add m s) r :=
  ⟨n, fun _ hm => parse_expr_add_fuel_le hm s r h⟩

theorem parse_expr_add_while_ev {n : Nat} (expr : expr_t) (tok : Int) {s : pstate} {r : expr_t × pstate}
    (h : parse_expr_add_while n expr tok s = some r) : Ev (fun m => parse_expr_add_while m expr tok s) r :=
  ⟨n, fun _ hm => parse_expr_add_while_fuel_le hm expr tok s r h⟩

theorem parse_expr_shift_ev {n : Nat} {s : pstate} {r : expr_t × pstate}
    (h : parse_expr_shift n s = some r) : Ev (fun m => parse_expr_shift m s) r :=
  ⟨n, fun _ hm => parse_expr_shift_fuel_le hm s r h⟩

theorem parse_expr_shift_while_ev {n : Nat} (expr : expr_t) (tok : Int) {s : pstate} {r : expr_t × pstate}
    (h : parse_expr_shift_while n expr tok s = some r) : Ev (fun m => parse_expr_shift_while m expr tok s) r :=
  ⟨n, fun _ hm => parse_expr_shift_while_fuel_le hm expr tok s r h⟩

theorem parse_expr_aand_ev {n : Nat} {s : pstate} {r : expr_t × pstate}
    (h : parse_expr_aand n s = some r) : Ev (fun m => parse_expr_aand m s) r :=
  ⟨n, fun _ hm => parse_expr_aand_fuel_le hm s r h⟩

theorem parse_expr_aand_while_ev {n : Nat} (expr : expr_t) (tok : Int) {s : pstate} {r : expr_t × pstate}
    (h : parse_expr_aand_while n expr tok s = some r) : Ev (fun m => parse_expr_aand_while m expr tok s) r :=
  ⟨n, fun _ hm => parse_expr_aand_while_fuel_le hm expr tok s r h⟩

theorem parse_expr_test_ev {n : Nat} {s : pstate} {r : expr_t × pstate}
    (h : parse_expr_test n s = some r) : Ev (fun m => parse_expr_test m s) r :=
  ⟨n, fun _ hm => parse_expr_test_fuel_le hm s r h⟩

theorem parse_expr_test_while_ev {n : Nat} (expr : expr_t) (tok : Int) {s : pstate} {r : expr_t × pstate}
    (h : parse_expr_test_while n expr tok s = some r) : Ev (fun m => parse_expr_test_while m expr tok s) r :=
  ⟨n, fun _ hm => parse_expr_test_while_fuel_le hm expr tok s r h⟩

theorem parse_expr_logic_and_ev {n : Nat} {s : pstate} {r : expr_t × pstate}
    (h : parse_expr_logic_and n s = some r) : Ev (fun m => parse_expr_logic_and m s) r :=
  ⟨n, fun _ hm => parse_expr_logic_and_fuel_le hm s r h⟩

theorem parse_expr_logic_or_ev {n : Nat} {s : pstate} {r : expr_t × pstate}
    (h : parse_expr_logic_or n s = some r) : Ev (fun m => parse_expr_logic_or m s) r :=
  ⟨n, fun _ hm => parse_expr_logic_or_fuel_le hm s r h⟩

theorem parse_expr_ternary_ev {n : Nat} {s : pstate} {r : expr_t × pstate}
    (h : parse_expr_ternary n s = some r) : Ev (fun m => parse_expr_ternary m s) r :=
  ⟨n, fun _ hm => parse_expr_ternary_fuel_le hm s r h⟩

theorem parse_expr_assign_ev {n : Nat} {s : pstate} {r : expr_t × pstate}
    (h : parse_expr_assign n s = some r) : Ev (fun m => parse_expr_assign m s) r :=
  ⟨n, fun _ hm => parse_expr_assign_fuel_le hm s r h⟩

theorem parse_expr_kv_ev {n : Nat} {s : pstate} {r : expr_t × pstate}
    (h : parse_expr_kv n s = some r) : Ev (fun m => parse_expr_kv m s) r :=
  ⟨n, fun _ hm => parse_expr_kv_fuel_le hm s r h⟩

theorem parse_expr_vardef_ev {n : Nat} {s : pstate} {r : expr_t × pstate}
    (h : parse_expr_vardef n s = some r) : Ev (fun m => parse_expr_vardef m s) r :=
  ⟨n, fun _ hm => parse_expr_vardef_fuel_le hm s r h⟩

theorem parse_expr_kvlist_ev {n : Nat} {s : pstate} {r : expr_t × pstate}
    (h : parse_expr_kvlist n s = some r) : Ev (fun m => parse_expr_kvlist m s) r :=
  ⟨n, fun _ hm => parse_expr_kvlist_fuel_le hm s r h⟩

theorem parse_expr_vardef_list_ev {n : Nat} {s : pstate} {r : expr_t × pstate}
    (h : parse_expr_vardef_list n s = some r) : Ev (fun m => parse_expr_vardef_list m s) r :=
  ⟨n, fun _ hm => parse_expr_vardef_list_fuel_le hm s r h⟩

theorem parse_expr_comma_ev {n : Nat} {s : pstate} {r : expr_t × pstate}
    (h : parse_expr_comma n s = some r) : Ev (fun m => parse_expr_comma m s) r :=
  ⟨n, fun _ hm => parse_expr_comma_fuel_le hm s r h⟩

theorem parse_expr_funcdef_ev {n : Nat} {s : pstate} {r : expr_t × pstate}
    (h : parse_expr_funcdef n s = some r) : Ev (fun m => parse_expr_funcdef m s) r :=
  ⟨n, fun _ hm => parse_expr_funcdef_fuel_le hm s r h⟩

theorem parse_expr_funcdef_block_ev {n : Nat} (name : expr_t) (param : expr_t) {s : pstate} {r : expr_t × pstate}
    (h : parse_expr_funcdef_block n name param s = some r) : Ev (fun m => parse_expr_funcdef_block m name param s) r :=
  ⟨n, fun _ hm => parse_expr_funcdef_block_fuel_le hm name param s r h⟩

theorem parse_expr_form_attr_ev {n : Nat} (lft : expr_t) {s : pstate} {r : expr_t × pstate}
    (h : parse_expr_form_attr n lft s = some r) : Ev (fun m => parse_expr_form_attr m lft s) r :=
  ⟨n, fun _ hm => parse_expr_form_attr_fuel_le hm lft s r h⟩

theorem parse_expr_form_elem_ev {n : Nat} (lft : expr_t) {s : pstate} {r : expr_t × pstate}
    (h : parse_expr_form_elem n lft s = some r) : Ev (fun m => parse_expr_form_elem m lft s) r :=
  ⟨n, fun _ hm => parse_expr_form_elem_fuel_le hm lft s r h⟩

theorem parse_expr_form_call_ev {n : Nat} (lft : expr_t) {s : pstate} {r : expr_t × pstate}
    (h : parse_expr_form_call n lft s = some r) : Ev (fun m => parse_expr_form_call m lft s) r :=
  ⟨n, fun _ hm => parse_expr_form_call_fuel_le hm lft s r h⟩

theorem parse_expr_form_parenth_ev {n : Nat} {s : pstate} {r : expr_t × pstate}
    (h : parse_expr_form_parenth n s = some r) : Ev (fun m => parse_expr_form_parenth m s) r :=
  ⟨n, fun _ hm => parse_expr_form_parenth_fuel_le hm s r h⟩

theorem parse_expr_form_array_ev {n : Nat} {s : pstate} {r : expr_t × pstate}
    (h : parse_expr_form_array n s = some r) : Ev (fun m => parse_expr_form_array m s) r :=
  ⟨n, fun _ hm => parse_expr_form_array_fuel_le hm s r h⟩

theorem parse_expr_form_dict_ev {n : Nat} {s : pstate} {r : expr_t × pstate}
    (h : parse_expr_form_dict n s = some r) : Ev (fun m => parse_expr_form_dict m s) r :=
  ⟨n, fun _ hm => parse_expr_form_dict_fuel_le hm s r h⟩

theorem parse_expr_form_pair_ev {n : Nat} {s : pstate} {r : expr_t × pstate}
    (h : parse_expr_form_pair n s = some r) : Ev (fun m => parse_expr_form_pair m s) r :=
  ⟨n, fun _ hm => parse_expr_form_pair_fuel_le hm s r h⟩

theorem parse_stmt_block_ev {n : Nat} {s : pstate} {r : stmt_t × pstate}
    (h : parse_stmt_block n s = some r) : Ev (fun m => parse_stmt_block m s) r :=
  ⟨n, fun _ hm => parse_stmt_block_fuel_le hm s r h⟩

theorem parse_stmt_if_ev {n : Nat} {s : pstate} {r : stmt_t × pstate}
    (h : parse_stmt_if n s = some r) : Ev (fun m => parse_stmt_if m s) r :=
  ⟨n, fun _ hm => parse_stmt_if_fuel_le hm s r h⟩

theorem parse_stmt_var_ev {n : Nat} {s : pstate} {r : stmt_t × pstate}
    (h : parse_stmt_var n s = some r) : Ev (fun m => parse_stmt_var m s) r :=
  ⟨n, fun _ hm => parse_stmt_var_fuel_le hm s r h⟩

theorem parse_stmt_ret_ev {n : Nat} {s : pstate} {r : stmt_t × pstate}
    (h : parse_stmt_ret n s = some r) : Ev (fun m => parse_stmt_ret m s) r :=
  ⟨n, fun _ hm => parse_stmt_ret_fuel_le hm s r h⟩

theorem parse_stmt_while_ev {n : Nat} {s : pstate} {r : stmt_t × pstate}
    (h : parse_stmt_while n s = some r) : Ev (fun m => parse_stmt_while m s) r :=
  ⟨n, fun _ hm => parse_stmt_while_fuel_le hm s r h⟩

theorem parse_stmt_expr_ev {n : Nat} {s : pstate} {r : stmt_t × pstate}
    (h : parse_stmt_expr n s = some r) : Ev (fun m => parse_stmt_expr m s) r :=
  ⟨n, fun _ hm => parse_stmt_expr_fuel_le hm s r h⟩

theorem parse_stmt_ev {n : Nat} {s : pstate} {r : stmt_t × pstate}
    (h : parse_stmt n s = some r) : Ev (fun m => parse_stmt m s) r :=
  ⟨n, fun _ hm => parse_stmt_fuel_le hm s r h⟩

theorem parse_stmt_list_ev {n : Nat} {s : pstate} {r : stmt_t × pstate}
    (h : parse_stmt_list n s = some r) : Ev (fun m => parse_stmt_list m s) r :=
  ⟨n, fun _ hm => parse_stmt_list_fuel_le hm s r h⟩

theorem parse_stmt_list_while_ev {n : Nat} (head : stmt_t) (tok : Int) {s : pstate} {r : stmt_t × pstate}
    (h : parse_stmt_list_while n head tok s = some r) : Ev (fun m => parse_stmt_list_while m head tok s) r :=
  ⟨n, fun _ hm => parse_stmt_list_while_fuel_le hm head tok s r h⟩

/-! ### When every allocation succeeds -/

@[simp] theorem lex_token_allocs (s : pstate) (k : Nat) : lex_token (s.allocs k) = lex_token s := rfl
@[simp] theorem lex_match_allocs (s : pstate) (k : Nat) (t : Int) :
    lex_match (s.allocs k) t = ((lex_match s t).1, (lex_match s t).2.allocs k) := by
  unfold lex_match; split <;> simp_all [lex_token]
@[simp] theorem allocs_heap (s : pstate) (k : Nat) : (s.allocs k).heap = s.heap := rfl
@[simp] theorem allocs_toks (s : pstate) (k : Nat) : (s.allocs k).toks = s.toks := rfl
@[simp] theorem allocs_allocs (s : pstate) (j k : Nat) : (s.allocs j).allocs k = s.allocs (j + k) := by
  simp [pstate.allocs, Nat.add_assoc]

theorem heap_alloc_nil {s : pstate} (h : s.heap = []) : heap_alloc s = (true, s.allocs 1) := by
  simp [heap_alloc, h]

theorem heap_nil_of_eff {s s' : pstate} {b : Bool} (h : Eff s s' b) (hs : s.heap = []) :
    s'.heap = [] := by
  have := h.hp
  rw [hs] at this
  exact List.length_eq_zero.1 (Nat.le_zero.1 this)

theorem parse_expr_form_binary_ok (ty : EXPR_TYPE) (l r : expr_t) {s : pstate}
    (hr : r.is_null = false) (h : s.heap = []) :
    parse_expr_form_binary ty l r s = (expr_binary ty l r, s.allocs 1) := by
  simp [parse_expr_form_binary, ast_expr_alloc_type, heap_alloc_nil h, hr]

theorem parse_expr_form_unary_ok (ty : EXPR_TYPE) (l : expr_t) {s : pstate}
    (hl : l.is_null = false) (h : s.heap = []) :
    parse_expr_form_unary ty l s = (expr_unary ty l, s.allocs 1) := by
  simp [parse_expr_form_unary, ast_expr_alloc_type, heap_alloc_nil h, hl]

theorem is_null_of_ne {e : expr_t} (h : e ≠ expr_t.NULL) : e.is_null = false := by
  cases e <;> simp_all

theorem lex_match_fst (s : pstate) (t : Int) : (lex_match s t).1 = decide (lex_token s = t) := by
  unfold lex_match; split <;> simp_all

theorem lex_match_snd_of_ne {s : pstate} {t : Int} (h : ¬ lex_token s = t) :
    (lex_match s t).2 = s := by
  unfold lex_match; split <;> simp_all

/-! ### The left-associative tiers -/

theorem parse_expr_mul_while_stop (expr : expr_t) (tok : Int) (s : pstate)
    (h : ¬ (tok = CH_STAR ∨ tok = CH_SLASH ∨ tok = CH_PERCENT))
    : Ev (fun m => parse_expr_mul_while m expr tok s) (expr, s) := by
  refine ⟨1, fun m hm => ?_⟩
  obtain ⟨k, rfl⟩ : ∃ k, m = k + 1 := ⟨m - 1, by omega⟩
  beta_reduce
  rw [parse_expr_mul_while]
  simp_all [parse_expr_form_binary_ok, parse_expr_form_unary_ok, lex_match_fst, lex_match_snd_of_ne]

theorem parse_expr_mul_while_step (expr rht : expr_t) (tok : Int) (s s1 : pstate) (r : expr_t × pstate)
    (he : expr.is_null = false)
    (hop : tok = CH_STAR ∨ tok = CH_SLASH ∨ tok = CH_PERCENT)
    (hr : rht.is_null = false)
    (hh : s1.heap = [])
    (hs : Ev (fun m => parse_expr_unary m (lex_match s tok).2) (rht, s1))
    (hw : Ev (fun m => parse_expr_mul_while m (expr_binary (if tok = CH_STAR then EXPR_MUL else if tok = CH_SLASH then EXPR_DIV else EXPR_MOD) expr rht) (lex_token s1) (s1.allocs 1)) r)
    : Ev (fun m => parse_expr_mul_while m expr tok s) r := by
  obtain ⟨N0, hs⟩ := hs
  obtain ⟨N1, hw⟩ := hw
  refine ⟨N0 + N1 + 1, fun m hm => ?_⟩
  obtain ⟨k, rfl⟩ : ∃ k, m = k + 1 := ⟨m - 1, by omega⟩
  beta_reduce
  rw [parse_expr_mul_while]
  have hsk := hs k (by omega)
  have hwk := hw k (by omega)
  clear hs hw
  simp only [] at hsk hwk
  simp_all [parse_expr_form_binary_ok, parse_expr_form_unary_ok, lex_match_fst, lex_match_snd_of_ne]

theorem parse_expr_mul_of_unary (s s1 : pstate) (e : expr_t) (r : expr_t × pstate)
    (hs : Ev (fun m => parse_expr_unary m s) (e, s1))
    (hw : Ev (fun m => parse_expr_mul_while m e (lex_token s1) s1) r)
    : Ev (fun m => parse_expr_mul m s) r := by
  obtain ⟨N0, hs⟩ := hs
  obtain ⟨N1, hw⟩ := hw
  refine ⟨N0 + N1 + 1, fun m hm => ?_⟩
  obtain ⟨k, rfl⟩ : ∃ k, m = k + 1 := ⟨m - 1, by omega⟩
  beta_reduce
  rw [parse_expr_mul]
  have hsk := hs k (by omega)
  have hwk := hw k (by omega)
  clear hs hw
  simp only [] at hsk hwk
  simp_all [parse_expr_form_binary_ok, parse_expr_form_unary_ok, lex_match_fst, lex_match_snd_of_ne]

theorem parse_expr_mul_of_unary_end (s s1 : pstate) (e : expr_t)
    (h : ¬ (lex_token s1 = CH_STAR ∨ lex_token s1 = CH_SLASH ∨ lex_token s1 = CH_PERCENT))
    (hs : Ev (fun m => parse_expr_unary m s) (e, s1))
    : Ev (fun m => parse_expr_mul m s) (e, s1) :=
  parse_expr_mul_of_unary s s1 e (e, s1) hs (parse_expr_mul_while_stop e (lex_token s1) s1 h)

theorem parse_expr_add_while_stop (expr : expr_t) (tok : Int) (s : pstate)
    (h : ¬ (tok = CH_PLUS ∨ tok = CH_MINUS))
    : Ev (fun m => parse_expr_add_while m expr tok s) (expr, s) := by
  refine ⟨1, fun m hm => ?_⟩
  obtain ⟨k, rfl⟩ : ∃ k, m = k + 1 := ⟨m - 1, by omega⟩
  beta_reduce
  rw [parse_expr_add_while]
  simp_all [parse_expr_form_binary_ok, parse_expr_form_unary_ok, lex_match_fst, lex_match_snd_of_ne]

theorem parse_expr_add_while_step (expr rht : expr_t) (tok : Int) (s s1 : pstate) (r : expr_t × pstate)
    (he : expr.is_null = false)
    (hop : tok = CH_PLUS ∨ tok = CH_MINUS)
    (hr : rht.is_null = false)
    (hh : s1.heap = [])
    (hs : Ev (fun m => parse_expr_mul m (lex_match s tok).2) (rht, s1))
    (hw : Ev (fun m => parse_expr_add_while m (expr_binary (if tok = CH_PLUS then EXPR_ADD else EXPR_SUB) expr rht) (lex_token s1) (s1.allocs 1)) r)
    : Ev (fun m => parse_expr_add_while m expr tok s) r := by
  obtain ⟨N0, hs⟩ := hs
  obtain ⟨N1, hw⟩ := hw
  refine ⟨N0 + N1 + 1, fun m hm => ?_⟩
  obtain ⟨k, rfl⟩ : ∃ k, m = k + 1 := ⟨m - 1, by omega⟩
  beta_reduce
  rw [parse_expr_add_while]
  have hsk := hs k (by omega)
  have hwk := hw k (by omega)
  clear hs hw
  simp only [] at hsk hwk
  simp_all [parse_expr_form_binary_ok, parse_expr_form_unary_ok, lex_match_fst, lex_match_snd_of_ne]

theorem parse_expr_add_of_mul (s s1 : pstate) (e : expr_t) (r : expr_t × pstate)
    (hs : Ev (fun m => parse_expr_mul m s) (e, s1))
    (hw : Ev (fun m => parse_expr_add_while m e (lex_token s1) s1) r)
    : Ev (fun m => parse_expr_add m s) r := by
  obtain ⟨N0, hs⟩ := hs
  obtain ⟨N1, hw⟩ := hw
  refine ⟨N0 + N1 + 1, fun m hm => ?_⟩
  obtain ⟨k, rfl⟩ : ∃ k, m = k + 1 := ⟨m - 1, by omega⟩
  beta_reduce
  rw [parse_expr_add]
  have hsk := hs k (by omega)
  have hwk := hw k (by omega)
  clear hs hw
  simp only [] at hsk hwk
  simp_all [parse_expr_form_binary_ok, parse_expr_form_unary_ok, lex_match_fst, lex_match_snd_of_ne]

theorem parse_expr_add_of_mul_end (s s1 : pstate) (e : expr_t)
    (h : ¬ (lex_token s1 = CH_PLUS ∨ lex_token s1 = CH_MINUS))
    (hs : Ev (fun m => parse_expr_mul m s) (e, s1))
    : Ev (fun m => parse_expr_add m s) (e, s1) :=
  parse_expr_add_of_mul s s1 e (e, s1) hs (parse_expr_add_while_stop e (lex_token s1) s1 h)

theorem parse_expr_shift_while_stop (expr : expr_t) (tok : Int) (s : pstate)
    (h : ¬ (tok = TOK_RSHIFT ∨ tok = TOK_LSHIFT))
    : Ev (fun m => parse_expr_shift_while m expr tok s) (expr, s) := by
  refine ⟨1, fun m hm => ?_⟩
  obtain ⟨k, rfl⟩ : ∃ k, m = k + 1 := ⟨m - 1, by omega⟩
  beta_reduce
  rw [parse_expr_shift_while]
  simp_all [parse_expr_form_binary_ok, parse_expr_form_unary_ok, lex_match_fst, lex_match_snd_of_ne]

theorem parse_expr_shift_while_step (expr rht : expr_t) (tok : Int) (s s1 : pstate) (r : expr_t × pstate)
    (he : expr.is_null = false)
    (hop : tok = TOK_RSHIFT ∨ tok = TOK_LSHIFT)
    (hr : rht.is_null = false)
    (hh : s1.heap = [])
    (hs : Ev (fun m => parse_expr_add m (lex_match s tok).2) (rht, s1))
    (hw : Ev (fun m => parse_expr_shift_while m (expr_binary (if tok = TOK_RSHIFT then EXPR_RSHIFT else EXPR_LSHIFT) expr rht) (lex_token s1) (s1.allocs 1)) r)
    : Ev (fun m => parse_expr_shift_while m expr tok s) r := by
  obtain ⟨N0, hs⟩ := hs
  obtain ⟨N1, hw⟩ := hw
  refine ⟨N0 + N1 + 1, fun m hm => ?_⟩
  obtain ⟨k, rfl⟩ : ∃ k, m = k + 1 := ⟨m - 1, by omega⟩
  beta_reduce
  rw [parse_expr_shift_while]
  have hsk := hs k (by omega)
  have hwk := hw k (by omega)
  clear hs hw
  simp only [] at hsk hwk
  simp_all [parse_expr_form_binary_ok, parse_expr_form_unary_ok, lex_match_fst, lex_match_snd_of_ne]

theorem parse_expr_shift_of_add (s s1 : pstate) (e : expr_t) (r : expr_t × pstate)
    (hs : Ev (fun m => parse_expr_add m s) (e, s1))
    (hw : Ev (fun m => parse_expr_shift_while m e (lex_token s1) s1) r)
    : Ev (fun m => parse_expr_shift m s) r := by
  obtain ⟨N0, hs⟩ := hs
  obtain ⟨N1, hw⟩ := hw
  refine ⟨N0 + N1 + 1, fun m hm => ?_⟩
  obtain ⟨k, rfl⟩ : ∃ k, m = k + 1 := ⟨m - 1, by omega⟩
  beta_reduce
  rw [parse_expr_shift]
  have hsk := hs k (by omega)
  have hwk := hw k (by omega)
  clear hs hw
  simp only [] at hsk hwk
  simp_all [parse_expr_form_binary_ok, parse_expr_form_unary_ok, lex_match_fst, lex_match_snd_of_ne]

theorem parse_expr_shift_of_add_end (s s1 : pstate) (e : expr_t)
    (h : ¬ (lex_token s1 = TOK_RSHIFT ∨ lex_token s1 = TOK_LSHIFT))
    (hs : Ev (fun m => parse_expr_add m s) (e, s1))
    : Ev (fun m => parse_expr_shift m s) (e, s1) :=
  parse_expr_shift_of_add s s1 e (e, s1) hs (parse_expr_shift_while_stop e (lex_token s1) s1 h)

theorem parse_expr_aand_while_stop (expr : expr_t) (tok : Int) (s : pstate)
    (h : ¬ (tok = CH_AMP ∨ tok = CH_BAR ∨ tok = CH_CARET))
    : Ev (fun m => parse_expr_aand_while m expr tok s) (expr, s) := by
  refine ⟨1, fun m hm => ?_⟩
  obtain ⟨k, rfl⟩ : ∃ k, m = k + 1 := ⟨m - 1, by omega⟩
  beta_reduce
  rw [parse_expr_aand_while]
  simp_all [parse_expr_form_binary_ok, parse_expr_form_unary_ok, lex_match_fst, lex_match_snd_of_ne]

theorem parse_expr_aand_while_step (expr rht : expr_t) (tok : Int) (s s1 : pstate) (r : expr_t × pstate)
    (he : expr.is_null = false)
    (hop : tok = CH_AMP ∨ tok = CH_BAR ∨ tok = CH_CARET)
    (hr : rht.is_null = false)
    (hh : s1.heap = [])
    (hs : Ev (fun m => parse_expr_shift m (lex_match s tok).2) (rht, s1))
    (hw : Ev (fun m => parse_expr_aand_while m (expr_binary (if tok = CH_AMP then EXPR_AND else if tok = CH_BAR then EXPR_OR else EXPR_XOR) expr rht) (lex_token s1) (s1.allocs 1)) r)
    : Ev (fun m => parse_expr_aand_while m expr tok s) r := by
  obtain ⟨N0, hs⟩ := hs
  obtain ⟨N1, hw⟩ := hw
  refine ⟨N0 + N1 + 1, fun m hm => ?_⟩
  obtain ⟨k, rfl⟩ : ∃ k, m = k + 1 := ⟨m - 1, by omega⟩
  beta_reduce
  rw [parse_expr_aand_while]
  have hsk := hs k (by omega)
  have hwk := hw k (by omega)
  clear hs hw
  simp only [] at hsk hwk
  simp_all [parse_expr_form_binary_ok, parse_expr_form_unary_ok, lex_match_fst, lex_match_snd_of_ne]

theorem parse_expr_aand_of_shift (s s1 : pstate) (e : expr_t) (r : expr_t × pstate)
    (hs : Ev (fun m => parse_expr_shift m s) (e, s1))
    (hw : Ev (fun m => parse_expr_aand_while m e (lex_token s1) s1) r)
    : Ev (fun m => parse_expr_aand m s) r := by
  obtain ⟨N0, hs⟩ := hs
  obtain ⟨N1, hw⟩ := hw
  refine ⟨N0 + N1 + 1, fun m hm => ?_⟩
  obtain ⟨k, rfl⟩ : ∃ k, m = k + 1 := ⟨m - 1, by omega⟩
  beta_reduce
  rw [parse_expr_aand]
  have hsk := hs k (by omega)
  have hwk := hw k (by omega)
  clear hs hw
  simp only [] at hsk hwk
  simp_all [parse_expr_form_binary_ok, parse_expr_form_unary_ok, lex_match_fst, lex_match_snd_of_ne]

theorem parse_expr_aand_of_shift_end (s s1 : pstate) (e : expr_t)
    (h : ¬ (lex_token s1 = CH_AMP ∨ lex_token s1 = CH_BAR ∨ lex_token s1 = CH_CARET))
    (hs : Ev (fun m => parse_expr_shift m s) (e, s1))
    : Ev (fun m => parse_expr_aand m s) (e, s1) :=
  parse_expr_aand_of_shift s s1 e (e, s1) hs (parse_expr_aand_while_stop e (lex_token s1) s1 h)

theorem parse_expr_test_while_stop (expr : expr_t) (tok : Int) (s : pstate)
    (h : ¬ (tok = CH_GT ∨ tok = CH_LT ∨ tok = TOK_NE ∨ tok = TOK_EQ ∨ tok = TOK_GE ∨ tok = TOK_LE ∨ tok = TOK_IN))
    : Ev (fun m => parse_expr_test_while m expr tok s) (expr, s) := by
  refine ⟨1, fun m hm => ?_⟩
  obtain ⟨k, rfl⟩ : ∃ k, m = k + 1 := ⟨m - 1, by omega⟩
  beta_reduce
  rw [parse_expr_test_while]
  simp_all [parse_expr_form_binary_ok, parse_expr_form_unary_ok, lex_match_fst, lex_match_snd_of_ne]

theorem parse_expr_test_while_step (expr rht : expr_t) (tok : Int) (s s1 : pstate) (r : expr_t × pstate)
    (he : expr.is_null = false)
    (hop : tok = CH_GT ∨ tok = CH_LT ∨ tok = TOK_NE ∨ tok = TOK_EQ ∨ tok = TOK_GE ∨ tok = TOK_LE ∨ tok = TOK_IN)
    (hr : rht.is_null = false)
    (hh : s1.heap = [])
    (hs : Ev (fun m => parse_expr_aand m (lex_match s tok).2) (rht, s1))
    (hw : Ev (fun m => parse_expr_test_while m (expr_binary (parse_expr_test_type tok) expr rht) (lex_token s1) (s1.allocs 1)) r)
    : Ev (fun m => parse_expr_test_while m expr tok s) r := by
  obtain ⟨N0, hs⟩ := hs
  obtain ⟨N1, hw⟩ := hw
  refine ⟨N0 + N1 + 1, fun m hm => ?_⟩
  obtain ⟨k, rfl⟩ : ∃ k, m = k + 1 := ⟨m - 1, by omega⟩
  beta_reduce
  rw [parse_expr_test_while]
  have hsk := hs k (by omega)
  have hwk := hw k (by omega)
  clear hs hw
  simp only [] at hsk hwk
  simp_all [parse_expr_form_binary_ok, parse_expr_form_unary_ok, lex_match_fst, lex_match_snd_of_ne]

theorem parse_expr_test_of_aand (s s1 : pstate) (e : expr_t) (r : expr_t × pstate)
    (hs : Ev (fun m => parse_expr_aand m s) (e, s1))
    (hw : Ev (fun m => parse_expr_test_while m e (lex_token s1) s1) r)
    : Ev (fun m => parse_expr_test m s) r := by
  obtain ⟨N0, hs⟩ := hs
  obtain ⟨N1, hw⟩ := hw
  refine ⟨N0 + N1 + 1, fun m hm => ?_⟩
  obtain ⟨k, rfl⟩ : ∃ k, m = k + 1 := ⟨m - 1, by omega⟩
  beta_reduce
  rw [parse_expr_test]
  have hsk := hs k (by omega)
  have hwk := hw k (by omega)
  clear hs hw
  simp only [] at hsk hwk
  simp_all [parse_expr_form_binary_ok, parse_expr_form_unary_ok, lex_match_fst, lex_match_snd_of_ne]

theorem parse_expr_test_of_aand_end (s s1 : pstate) (e : expr_t)
    (h : ¬ (lex_token s1 = CH_GT ∨ lex_token s1 = CH_LT ∨ lex_token s1 = TOK_NE ∨ lex_token s1 = TOK_EQ ∨ lex_token s1 = TOK_GE ∨ lex_token s1 = TOK_LE ∨ lex_token s1 = TOK_IN))
    (hs : Ev (fun m => parse_expr_aand m s) (e, s1))
    : Ev (fun m => parse_expr_test m s) (e, s1) :=
  parse_expr_test_of_aand s s1 e (e, s1) hs (parse_expr_test_while_stop e (lex_token s1) s1 h)

/-! ### The right-associative tiers -/

theorem parse_expr_logic_and_of_test_end (s s1 : pstate) (e : expr_t)
    (h : lex_token s1 ≠ TOK_LOGICAND)
    (hs : Ev (fun m => parse_expr_test m s) (e, s1))
    : Ev (fun m => parse_expr_logic_and m s) (e, s1) := by
  obtain ⟨N0, hs⟩ := hs
  refine ⟨N0 + 1, fun m hm => ?_⟩
  obtain ⟨k, rfl⟩ : ∃ k, m = k + 1 := ⟨m - 1, by omega⟩
  beta_reduce
  rw [parse_expr_logic_and]
  have hsk := hs k (by omega)
  clear hs
  simp only [] at hsk
  simp_all [parse_expr_form_binary_ok, parse_expr_form_unary_ok, lex_match_fst, lex_match_snd_of_ne]

theorem parse_expr_logic_and_step (s s1 s2 : pstate) (e rht : expr_t)
    (he : e.is_null = false)
    (htok : lex_token s1 = TOK_LOGICAND)
    (hr : rht.is_null = false)
    (hh : s2.heap = [])
    (hs : Ev (fun m => parse_expr_test m s) (e, s1))
    (hw : Ev (fun m => parse_expr_logic_and m (lex_match s1 TOK_LOGICAND).2) (rht, s2))
    : Ev (fun m => parse_expr_logic_and m s) (expr_binary EXPR_LOGIC_AND e rht, s2.allocs 1) := by
  obtain ⟨N0, hs⟩ := hs
  obtain ⟨N1, hw⟩ := hw
  refine ⟨N0 + N1 + 1, fun m hm => ?_⟩
  obtain ⟨k, rfl⟩ : ∃ k, m = k + 1 := ⟨m - 1, by omega⟩
  beta_reduce
  rw [parse_expr_logic_and]
  have hsk := hs k (by omega)
  have hwk := hw k (by omega)
  clear hs hw
  simp only [] at hsk hwk
  simp_all [parse_expr_form_binary_ok, parse_expr_form_unary_ok, lex_match_fst, lex_match_snd_of_ne]

theorem parse_expr_logic_or_of_logic_and_end (s s1 : pstate) (e : expr_t)
    (h : lex_token s1 ≠ TOK_LOGICOR)
    (hs : Ev (fun m => parse_expr_logic_and m s) (e, s1))
    : Ev (fun m => parse_expr_logic_or m s) (e, s1) := by
  obtain ⟨N0, hs⟩ := hs
  refine ⟨N0 + 1, fun m hm => ?_⟩
  obtain ⟨k, rfl⟩ : ∃ k, m = k + 1 := ⟨m - 1, by omega⟩
  beta_reduce
  rw [parse_expr_logic_or]
  have hsk := hs k (by omega)
  clear hs
  simp only [] at hsk
  simp_all [parse_expr_form_binary_ok, parse_expr_form_unary_ok, lex_match_fst, lex_match_snd_of_ne]

theorem parse_expr_logic_or_step (s s1 s2 : pstate) (e rht : expr_t)
    (he : e.is_null = false)
    (htok : lex_token s1 = TOK_LOGICOR)
    (hr : rht.is_null = false)
    (hh : s2.heap = [])
    (hs : Ev (fun m => parse_expr_logic_and m s) (e, s1))
    (hw : Ev (fun m => parse_expr_logic_or m (lex_match s1 TOK_LOGICOR).2) (rht, s2))
    : Ev (fun m => parse_expr_logic_or m s) (expr_binary EXPR_LOGIC_OR e rht, s2.allocs 1) := by
  obtain ⟨N0, hs⟩ := hs
  obtain ⟨N1, hw⟩ := hw
  refine ⟨N0 + N1 + 1, fun m hm => ?_⟩
  obtain ⟨k, rfl⟩ : ∃ k, m = k + 1 := ⟨m - 1, by omega⟩
  beta_reduce
  rw [parse_expr_logic_or]
  have hsk := hs k (by omega)
  have hwk := hw k (by omega)
  clear hs hw
  simp only [] at hsk hwk
  simp_all [parse_expr_form_binary_ok, parse_expr_form_unary_ok, lex_match_fst, lex_match_snd_of_ne]

theorem parse_expr_ternary_of_logic_or_end (s s1 : pstate) (e : expr_t)
    (h : lex_token s1 ≠ CH_QUEST)
    (hs : Ev (fun m => parse_expr_logic_or m s) (e, s1))
    : Ev (fun m => parse_expr_ternary m s) (e, s1) := by
  obtain ⟨N0, hs⟩ := hs
  refine ⟨N0 + 1, fun m hm => ?_⟩
  obtain ⟨k, rfl⟩ : ∃ k, m = k + 1 := ⟨m - 1, by omega⟩
  beta_reduce
  rw [parse_expr_ternary]
  have hsk := hs k (by omega)
  clear hs
  simp only [] at hsk
  simp_all [parse_expr_form_binary_ok, parse_expr_form_unary_ok, lex_match_fst, lex_match_snd_of_ne]

theorem parse_expr_ternary_step (s s1 s2 : pstate) (e rht : expr_t)
    (he : e.is_null = false)
    (htok : lex_token s1 = CH_QUEST)
    (hr : rht.is_null = false)
    (hh : s2.heap = [])
    (hs : Ev (fun m => parse_expr_logic_or m s) (e, s1))
    (hw : Ev (fun m => parse_expr_form_pair m (lex_match s1 CH_QUEST).2) (rht, s2))
    : Ev (fun m => parse_expr_ternary m s) (expr_binary EXPR_TERNARY e rht, s2.allocs 1) := by
  obtain ⟨N0, hs⟩ := hs
  obtain ⟨N1, hw⟩ := hw
  refine ⟨N0 + N1 + 1, fun m hm => ?_⟩
  obtain ⟨k, rfl⟩ : ∃ k, m = k + 1 := ⟨m - 1, by omega⟩
  beta_reduce
  rw [parse_expr_ternary]
  have hsk := hs k (by omega)
  have hwk := hw k (by omega)
  clear hs hw
  simp only [] at hsk hwk
  simp_all [parse_expr_form_binary_ok, parse_expr_form_unary_ok, lex_match_fst, lex_match_snd_of_ne]

theorem parse_expr_comma_of_assign_end (s s1 : pstate) (e : expr_t)
    (h : lex_token s1 ≠ CH_COMMA)
    (hs : Ev (fun m => parse_expr_assign m s) (e, s1))
    : Ev (fun m => parse_expr_comma m s) (e, s1) := by
  obtain ⟨N0, hs⟩ := hs
  refine ⟨N0 + 1, fun m hm => ?_⟩
  obtain ⟨k, rfl⟩ : ∃ k, m = k + 1 := ⟨m - 1, by omega⟩
  beta_reduce
  rw [parse_expr_comma]
  have hsk := hs k (by omega)
  clear hs
  simp only [] at hsk
  simp_all [parse_expr_form_binary_ok, parse_expr_form_unary_ok, lex_match_fst, lex_match_snd_of_ne]

theorem parse_expr_comma_step (s s1 s2 : pstate) (e rht : expr_t)
    (he : e.is_null = false)
    (htok : lex_token s1 = CH_COMMA)
    (hr : rht.is_null = false)
    (hh : s2.heap = [])
    (hs : Ev (fun m => parse_expr_assign m s) (e, s1))
    (hw : Ev (fun m => parse_expr_comma m (lex_match s1 CH_COMMA).2) (rht, s2))
    : Ev (fun m => parse_expr_comma m s) (expr_binary EXPR_COMMA e rht, s2.allocs 1) := by
  obtain ⟨N0, hs⟩ := hs
  obtain ⟨N1, hw⟩ := hw
  refine ⟨N0 + N1 + 1, fun m hm => ?_⟩
  obtain ⟨k, rfl⟩ : ∃ k, m = k + 1 := ⟨m - 1, by omega⟩
  beta_reduce
  rw [parse_expr_comma]
  have hsk := hs k (by omega)
  have hwk := hw k (by omega)
  clear hs hw
  simp only [] at hsk hwk
  simp_all [parse_expr_form_binary_ok, parse_expr_form_unary_ok, lex_match_fst, lex_match_snd_of_ne]

theorem parse_expr_assign_of_ternary_end (s s1 : pstate) (e : expr_t)
    (h : lex_token s1 ≠ CH_ASSIGN)
    (hs : Ev (fun m => parse_expr_ternary m s) (e, s1))
    : Ev (fun m => parse_expr_assign m s) (e, s1) := by
  obtain ⟨N0, hs⟩ := hs
  refine ⟨N0 + 1, fun m hm => ?_⟩
  obtain ⟨k, rfl⟩ : ∃ k, m = k + 1 := ⟨m - 1, by omega⟩
  beta_reduce
  rw [parse_expr_assign]
  have hsk := hs k (by omega)
  clear hs
  simp only [] at hsk
  simp_all [parse_expr_form_binary_ok, parse_expr_form_unary_ok, lex_match_fst, lex_match_snd_of_ne]

theorem parse_expr_assign_step (s s1 s2 : pstate) (e rht : expr_t)
    (he : e.is_null = false)
    (hty : e.assignable)
    (htok : lex_token s1 = CH_ASSIGN)
    (hr : rht.is_null = false)
    (hh : s2.heap = [])
    (hs : Ev (fun m => parse_expr_ternary m s) (e, s1))
    (hw : Ev (fun m => parse_expr_assign m (lex_match s1 CH_ASSIGN).2) (rht, s2))
    : Ev (fun m => parse_expr_assign m s) (expr_binary EXPR_ASSIGN e rht, s2.allocs 1) := by
  obtain ⟨N0, hs⟩ := hs
  obtain ⟨N1, hw⟩ := hw
  refine ⟨N0 + N1 + 1, fun m hm => ?_⟩
  obtain ⟨k, rfl⟩ : ∃ k, m = k + 1 := ⟨m - 1, by omega⟩
  beta_reduce
  rw [parse_expr_assign]
  have hsk := hs k (by omega)
  have hwk := hw k (by omega)
  clear hs hw
  simp only [] at hsk hwk
  simp_all [parse_expr_form_binary_ok, parse_expr_form_unary_ok, lex_match_fst, lex_match_snd_of_ne, assignable_iff]

theorem parse_expr_form_pair_ok (s s1 s2 : pstate) (a b : expr_t)
    (ha : a.is_null = false)
    (htok : lex_token s1 = CH_COLON)
    (hb : b.is_null = false)
    (hh : s2.heap = [])
    (hs : Ev (fun m => parse_expr_ternary m s) (a, s1))
    (hw : Ev (fun m => parse_expr_ternary m (lex_match s1 CH_COLON).2) (b, s2))
    : Ev (fun m => parse_expr_form_pair m s) (expr_binary EXPR_PAIR a b, s2.allocs 1) := by
  obtain ⟨N0, hs⟩ := hs
  obtain ⟨N1, hw⟩ := hw
  refine ⟨N0 + N1 + 1, fun m hm => ?_⟩
  obtain ⟨k, rfl⟩ : ∃ k, m = k + 1 := ⟨m - 1, by omega⟩
  beta_reduce
  rw [parse_expr_form_pair]
  have hsk := hs k (by omega)
  have hwk := hw k (by omega)
  clear hs hw
  simp only [] at hsk hwk
  simp_all [parse_expr_form_binary_ok, parse_expr_form_unary_ok, lex_match_fst, lex_match_snd_of_ne]

theorem parse_expr_of_comma (s : pstate) (r : expr_t × pstate)
    (hs : Ev (fun m => parse_expr_comma m s) r)
    : Ev (fun m => parse_expr m s) r := by
  obtain ⟨N0, hs⟩ := hs
  refine ⟨N0 + 1, fun m hm => ?_⟩
  obtain ⟨k, rfl⟩ : ∃ k, m = k + 1 := ⟨m - 1, by omega⟩
  beta_reduce
  rw [parse_expr]
  have hsk := hs k (by omega)
  clear hs
  simp only [] at hsk
  simp_all [parse_expr_form_binary_ok, parse_expr_form_unary_ok, lex_match_fst, lex_match_snd_of_ne]

/-! ### Prefix operators, suffix chains, factors -/

theorem parse_expr_unary_of_primary (s : pstate) (r : expr_t × pstate)
    (h : ¬ (lex_token s = CH_BANG ∨ lex_token s = CH_MINUS ∨ lex_token s = CH_TILDE))
    (hs : Ev (fun m => parse_expr_primary m s) r)
    : Ev (fun m => parse_expr_unary m s) r := by
  obtain ⟨N0, hs⟩ := hs
  refine ⟨N0 + 1, fun m hm => ?_⟩
  obtain ⟨k, rfl⟩ : ∃ k, m = k + 1 := ⟨m - 1, by omega⟩
  beta_reduce
  rw [parse_expr_unary]
  have hsk := hs k (by omega)
  clear hs
  simp only [] at hsk
  simp_all [parse_expr_form_binary_ok, parse_expr_form_unary_ok, lex_match_fst, lex_match_snd_of_ne]

theorem parse_expr_unary_not (s s1 : pstate) (e : expr_t)
    (htok : lex_token s = CH_BANG)
    (he : e.is_null = false)
    (hh : s1.heap = [])
    (hs : Ev (fun m => parse_expr_unary m (lex_match s CH_BANG).2) (e, s1))
    : Ev (fun m => parse_expr_unary m s) (expr_unary EXPR_LOGIC_NOT e, s1.allocs 1) := by
  obtain ⟨N0, hs⟩ := hs
  refine ⟨N0 + 1, fun m hm => ?_⟩
  obtain ⟨k, rfl⟩ : ∃ k, m = k + 1 := ⟨m - 1, by omega⟩
  beta_reduce
  rw [parse_expr_unary]
  have hsk := hs k (by omega)
  clear hs
  simp only [] at hsk
  simp_all [parse_expr_form_binary_ok, parse_expr_form_unary_ok, lex_match_fst, lex_match_snd_of_ne]

theorem parse_expr_unary_neg (s s1 : pstate) (e : expr_t)
    (htok : lex_token s = CH_MINUS)
    (he : e.is_null = false)
    (hh : s1.heap = [])
    (hs : Ev (fun m => parse_expr_unary m (lex_match s CH_MINUS).2) (e, s1))
    : Ev (fun m => parse_expr_unary m s) (expr_unary EXPR_NEG e, s1.allocs 1) := by
  obtain ⟨N0, hs⟩ := hs
  refine ⟨N0 + 1, fun m hm => ?_⟩
  obtain ⟨k, rfl⟩ : ∃ k, m = k + 1 := ⟨m - 1, by omega⟩
  beta_reduce
  rw [parse_expr_unary]
  have hsk := hs k (by omega)
  clear hs
  simp only [] at hsk
  simp_all [parse_expr_form_binary_ok, parse_expr_form_unary_ok, lex_match_fst, lex_match_snd_of_ne]

theorem parse_expr_unary_inv (s s1 : pstate) (e : expr_t)
    (htok : lex_token s = CH_TILDE)
    (he : e.is_null = false)
    (hh : s1.heap = [])
    (hs : Ev (fun m => parse_expr_unary m (lex_match s CH_TILDE).2) (e, s1))
    : Ev (fun m => parse_expr_unary m s) (expr_unary EXPR_NOT e, s1.allocs 1) := by
  obtain ⟨N0, hs⟩ := hs
  refine ⟨N0 + 1, fun m hm => ?_⟩
  obtain ⟨k, rfl⟩ : ∃ k, m = k + 1 := ⟨m - 1, by omega⟩
  beta_reduce
  rw [parse_expr_unary]
  have hsk := hs k (by omega)
  clear hs
  simp only [] at hsk
  simp_all [parse_expr_form_binary_ok, parse_expr_form_unary_ok, lex_match_fst, lex_match_snd_of_ne]

theorem parse_expr_primary_of_factor_other (s s1 : pstate) (e : expr_t)
    (he : e.is_null = false)
    (hty : e.is_type EXPR_ID = false)
    (hs : Ev (fun m => parse_expr_factor m s) (e, s1))
    : Ev (fun m => parse_expr_primary m s) (e, s1) := by
  obtain ⟨N0, hs⟩ := hs
  refine ⟨N0 + 1, fun m hm => ?_⟩
  obtain ⟨k, rfl⟩ : ∃ k, m = k + 1 := ⟨m - 1, by omega⟩
  beta_reduce
  rw [parse_expr_primary]
  have hsk := hs k (by omega)
  clear hs
  simp only [] at hsk
  simp_all [parse_expr_form_binary_ok, parse_expr_form_unary_ok, lex_match_fst, lex_match_snd_of_ne]

theorem parse_expr_primary_of_factor_id (s s1 : pstate) (e : expr_t) (r : expr_t × pstate)
    (hty : e.is_type EXPR_ID = true)
    (hs : Ev (fun m => parse_expr_factor m s) (e, s1))
    (hw : Ev (fun m => parse_expr_primary_while m e (lex_token s1) s1) r)
    : Ev (fun m => parse_expr_primary m s) r := by
  obtain ⟨N0, hs⟩ := hs
  obtain ⟨N1, hw⟩ := hw
  refine ⟨N0 + N1 + 1, fun m hm => ?_⟩
  obtain ⟨k, rfl⟩ : ∃ k, m = k + 1 := ⟨m - 1, by omega⟩
  beta_reduce
  rw [parse_expr_primary]
  have hsk := hs k (by omega)
  have hwk := hw k (by omega)
  clear hs hw
  simp only [] at hsk hwk
  simp_all [parse_expr_form_binary_ok, parse_expr_form_unary_ok, lex_match_fst, lex_match_snd_of_ne]

theorem parse_expr_primary_while_stop (expr : expr_t) (tok : Int) (s : pstate)
    (h : ¬ (tok = CH_DOT ∨ tok = CH_LBRACKET ∨ tok = CH_LPAREN))
    : Ev (fun m => parse_expr_primary_while m expr tok s) (expr, s) := by
  refine ⟨1, fun m hm => ?_⟩
  obtain ⟨k, rfl⟩ : ∃ k, m = k + 1 := ⟨m - 1, by omega⟩
  beta_reduce
  rw [parse_expr_primary_while]
  simp_all [parse_expr_form_binary_ok, parse_expr_form_unary_ok, lex_match_fst, lex_match_snd_of_ne]

theorem parse_expr_primary_while_attr (expr e1 : expr_t) (tok : Int) (s s1 : pstate) (r : expr_t × pstate)
    (he : expr.is_null = false)
    (htok : tok = CH_DOT)
    (hs : Ev (fun m => parse_expr_form_attr m expr s) (e1, s1))
    (hw : Ev (fun m => parse_expr_primary_while m e1 (lex_token s1) s1) r)
    : Ev (fun m => parse_expr_primary_while m expr tok s) r := by
  obtain ⟨N0, hs⟩ := hs
  obtain ⟨N1, hw⟩ := hw
  refine ⟨N0 + N1 + 1, fun m hm => ?_⟩
  obtain ⟨k, rfl⟩ : ∃ k, m = k + 1 := ⟨m - 1, by omega⟩
  beta_reduce
  rw [parse_expr_primary_while]
  have hsk := hs k (by omega)
  have hwk := hw k (by omega)
  clear hs hw
  simp only [] at hsk hwk
  simp_all [parse_expr_form_binary_ok, parse_expr_form_unary_ok, lex_match_fst, lex_match_snd_of_ne]

theorem parse_expr_primary_while_elem (expr e1 : expr_t) (tok : Int) (s s1 : pstate) (r : expr_t × pstate)
    (he : expr.is_null = false)
    (htok : tok = CH_LBRACKET)
    (hs : Ev (fun m => parse_expr_form_elem m expr s) (e1, s1))
    (hw : Ev (fun m => parse_expr_primary_while m e1 (lex_token s1) s1) r)
    : Ev (fun m => parse_expr_primary_while m expr tok s) r := by
  obtain ⟨N0, hs⟩ := hs
  obtain ⟨N1, hw⟩ := hw
  refine ⟨N0 + N1 + 1, fun m hm => ?_⟩
  obtain ⟨k, rfl⟩ : ∃ k, m = k + 1 := ⟨m - 1, by omega⟩
  beta_reduce
  rw [parse_expr_primary_while]
  have hsk := hs k (by omega)
  have hwk := hw k (by omega)
  clear hs hw
  simp only [] at hsk hwk
  simp_all [parse_expr_form_binary_ok, parse_expr_form_unary_ok, lex_match_fst, lex_match_snd_of_ne]

theorem parse_expr_primary_while_call (expr e1 : expr_t) (tok : Int) (s s1 : pstate) (r : expr_t × pstate)
    (he : expr.is_null = false)
    (htok : tok = CH_LPAREN)
    (hs : Ev (fun m => parse_expr_form_call m expr s) (e1, s1))
    (hw : Ev (fun m => parse_expr_primary_while m e1 (lex_token s1) s1) r)
    : Ev (fun m => parse_expr_primary_while m expr tok s) r := by
  obtain ⟨N0, hs⟩ := hs
  obtain ⟨N1, hw⟩ := hw
  refine ⟨N0 + N1 + 1, fun m hm => ?_⟩
  obtain ⟨k, rfl⟩ : ∃ k, m = k + 1 := ⟨m - 1, by omega⟩
  beta_reduce
  rw [parse_expr_primary_while]
  have hsk := hs k (by omega)
  have hwk := hw k (by omega)
  clear hs hw
  simp only [] at hsk hwk
  simp_all [parse_expr_form_binary_ok, parse_expr_form_unary_ok, lex_match_fst, lex_match_snd_of_ne]

theorem parse_expr_form_attr_ok (lft rht : expr_t) (s s2 : pstate)
    (htok : lex_token (lex_match s CH_DOT).2 = TOK_ID)
    (hr : rht.is_null = false)
    (hh : s2.heap = [])
    (hs : Ev (fun m => parse_expr_factor m (lex_match s CH_DOT).2) (rht, s2))
    : Ev (fun m => parse_expr_form_attr m lft s) (expr_binary EXPR_ATTR lft rht, s2.allocs 1) := by
  obtain ⟨N0, hs⟩ := hs
  refine ⟨N0 + 1, fun m hm => ?_⟩
  obtain ⟨k, rfl⟩ : ∃ k, m = k + 1 := ⟨m - 1, by omega⟩
  beta_reduce
  rw [parse_expr_form_attr]
  have hsk := hs k (by omega)
  clear hs
  simp only [] at hsk
  simp_all [parse_expr_form_binary_ok, parse_expr_form_unary_ok, lex_match_fst, lex_match_snd_of_ne]

theorem parse_expr_form_elem_ok (lft rht : expr_t) (s s2 : pstate)
    (hr : rht.is_null = false)
    (hh : s2.heap = [])
    (htok : lex_token s2 = CH_RBRACKET)
    (hs : Ev (fun m => parse_expr_ternary m (lex_match s CH_LBRACKET).2) (rht, s2))
    : Ev (fun m => parse_expr_form_elem m lft s) (expr_binary EXPR_ELEM lft rht, (lex_match (s2.allocs 1) CH_RBRACKET).2) := by
  obtain ⟨N0, hs⟩ := hs
  refine ⟨N0 + 1, fun m hm => ?_⟩
  obtain ⟨k, rfl⟩ : ∃ k, m = k + 1 := ⟨m - 1, by omega⟩
  beta_reduce
  rw [parse_expr_form_elem]
  have hsk := hs k (by omega)
  clear hs
  simp only [] at hsk
  simp_all [parse_expr_form_binary_ok, parse_expr_form_unary_ok, lex_match_fst, lex_match_snd_of_ne]

theorem parse_expr_form_call_empty (lft : expr_t) (s : pstate)
    (hl : lft.is_null = false)
    (hh : s.heap = [])
    (htok : lex_token (lex_match s CH_LPAREN).2 = CH_RPAREN)
    : Ev (fun m => parse_expr_form_call m lft s) (expr_unary EXPR_CALL lft, (lex_match (lex_match s CH_LPAREN).2 CH_RPAREN).2.allocs 1) := by
  refine ⟨1, fun m hm => ?_⟩
  obtain ⟨k, rfl⟩ : ∃ k, m = k + 1 := ⟨m - 1, by omega⟩
  beta_reduce
  rw [parse_expr_form_call]
  simp_all [parse_expr_form_binary_ok, parse_expr_form_unary_ok, lex_match_fst, lex_match_snd_of_ne]

theorem parse_expr_form_call_args (lft rht : expr_t) (s s3 : pstate)
    (hne : lex_token (lex_match s CH_LPAREN).2 ≠ CH_RPAREN)
    (hr : rht.is_null = false)
    (hh : s3.heap = [])
    (htok : lex_token s3 = CH_RPAREN)
    (hs : Ev (fun m => parse_expr_comma m (lex_match s CH_LPAREN).2) (rht, s3))
    : Ev (fun m => parse_expr_form_call m lft s) (expr_binary EXPR_CALL lft rht, (lex_match (s3.allocs 1) CH_RPAREN).2) := by
  obtain ⟨N0, hs⟩ := hs
  refine ⟨N0 + 1, fun m hm => ?_⟩
  obtain ⟨k, rfl⟩ : ∃ k, m = k + 1 := ⟨m - 1, by omega⟩
  beta_reduce
  rw [parse_expr_form_call]
  have hsk := hs k (by omega)
  clear hs
  simp only [] at hsk
  simp_all [parse_expr_form_binary_ok, parse_expr_form_unary_ok, lex_match_fst, lex_match_snd_of_ne]

/-! ### Expression statements -/

theorem parse_stmt_expr_ok (s s1 : pstate) (e : expr_t)
    (he : e.is_null = false)
    (hh : s1.heap = [])
    (hs : Ev (fun m => parse_expr m s) (e, s1))
    : Ev (fun m => parse_stmt_expr m s) (stmt_1 STMT_EXPR e, (lex_match s1 CH_SEMI).2.allocs 1) := by
  obtain ⟨N0, hs⟩ := hs
  refine ⟨N0 + 1, fun m hm => ?_⟩
  obtain ⟨k, rfl⟩ : ∃ k, m = k + 1 := ⟨m - 1, by omega⟩
  beta_reduce
  rw [parse_stmt_expr]
  have hsk := hs k (by omega)
  clear hs
  simp only [] at hsk
  simp_all [parse_expr_form_binary_ok, parse_expr_form_unary_ok, lex_match_fst, lex_match_snd_of_ne, ast_stmt_alloc_1, heap_alloc_nil]

theorem parse_stmt_of_expr (s : pstate) (r : stmt_t × pstate)
    (h : ¬ (lex_token s = TOK_EOF ∨ lex_token s = TOK_IF ∨ lex_token s = TOK_VAR ∨ lex_token s = TOK_RET ∨ lex_token s = TOK_WHILE ∨ lex_token s = TOK_BREAK ∨ lex_token s = TOK_CONTINUE))
    (hs : Ev (fun m => parse_stmt_expr m s) r)
    : Ev (fun m => parse_stmt m s) r := by
  obtain ⟨N0, hs⟩ := hs
  refine ⟨N0 + 1, fun m hm => ?_⟩
  obtain ⟨k, rfl⟩ : ∃ k, m = k + 1 := ⟨m - 1, by omega⟩
  beta_reduce
  rw [parse_stmt]
  have hsk := hs k (by omega)
  clear hs
  simp only [] at hsk
  simp_all [parse_expr_form_binary_ok, parse_expr_form_unary_ok, lex_match_fst, lex_match_snd_of_ne]


/-! ### Literal and identifier operands -/

theorem operand_variant_cases {tok : Int} {ty : EXPR_TYPE} (h : operand_variant tok = some ty) :
    (tok = TOK_ID ∧ ty = EXPR_ID) ∨ (tok = TOK_NUM ∧ ty = EXPR_NUM) ∨
    (tok = TOK_STR ∧ ty = EXPR_STRING) ∨ (tok = TOK_UND ∧ ty = EXPR_UND) ∨
    (tok = TOK_NAN ∧ ty = EXPR_NAN) ∨ (tok = TOK_NULL ∧ ty = EXPR_NULL) ∨
    (tok = TOK_TRUE ∧ ty = EXPR_TRUE) ∨ (tok = TOK_FALSE ∧ ty = EXPR_FALSE) := by
  unfold operand_variant at h
  split_ifs at h <;> simp_all

theorem parse_expr_factor_operand (s : pstate) (t : token_t) (rest : List token_t)
    (ty : EXPR_TYPE) (hs : s.toks = t :: rest) (hty : operand_variant t.type = some ty)
    (hh : s.heap = []) :
    Ev (fun m => parse_expr_factor m s)
      (operand_leaf t ty, ({ s with toks := rest } : pstate).allocs 1) := by
  refine ⟨1, fun m hm => ?_⟩
  obtain ⟨k, rfl⟩ : ∃ k, m = k + 1 := ⟨m - 1, by omega⟩
  beta_reduce
  rw [parse_expr_factor]
  have htok : lex_token s = t.type := by simp [lex_token, hs]
  have htxt : lex_token_text s = t.text := by simp [lex_token_text, hs]
  rcases operand_variant_cases hty with h | h | h | h | h | h | h | h <;>
    obtain ⟨h1, rfl⟩ := h <;>
    simp [htok, htxt, h1, parse_expr_factor_leaf, ast_expr_alloc_str, ast_expr_alloc_num,
      ast_expr_alloc_type, heap_alloc_nil hh, operand_leaf, lex_match, lex_token, hs]

theorem operand_leaf_is_null (t : token_t) (ty : EXPR_TYPE) : (operand_leaf t ty).is_null = false :=
  rfl

theorem parse_expr_unary_operand (s : pstate) (t : token_t) (rest : List token_t)
    (ty : EXPR_TYPE) (hs : s.toks = t :: rest) (hty : operand_variant t.type = some ty)
    (hh : s.heap = [])
    (hnext : ¬ (lex_token ({ s with toks := rest } : pstate) = CH_DOT
      ∨ lex_token ({ s with toks := rest } : pstate) = CH_LBRACKET
      ∨ lex_token ({ s with toks := rest } : pstate) = CH_LPAREN)) :
    Ev (fun m => parse_expr_unary m s)
      (operand_leaf t ty, ({ s with toks := rest } : pstate).allocs 1) := by
  have hf := parse_expr_factor_operand s t rest ty hs hty hh
  have htok : lex_token s = t.type := by simp [lex_token, hs]
  refine parse_expr_unary_of_primary s _ ?_ ?_
  · rw [htok]
    rcases operand_variant_cases hty with h | h | h | h | h | h | h | h <;> simp [h.1]
  · by_cases hid : (operand_leaf t ty).is_type EXPR_ID = true
    · exact parse_expr_primary_of_factor_id s _ _ _ hid hf
        (parse_expr_primary_while_stop _ _ _ (by simpa using hnext))
    · exact parse_expr_primary_of_factor_other s _ _ (operand_leaf_is_null t ty)
        (by simpa using hid) hf
/-! ### From a tier up to `parse_expr` -/

theorem parse_expr_of_comma_end (s s1 : pstate) (e : expr_t) (h : ends_expr (lex_token s1))
    (hs : Ev (fun m => parse_expr_comma m s) (e, s1)) : Ev (fun m => parse_expr m s) (e, s1) :=
  parse_expr_of_comma s (e, s1) hs

theorem parse_expr_of_assign_end (s s1 : pstate) (e : expr_t) (h : ends_expr (lex_token s1))
    (hs : Ev (fun m => parse_expr_assign m s) (e, s1)) : Ev (fun m => parse_expr m s) (e, s1) :=
  parse_expr_of_comma_end s s1 e h (parse_expr_comma_of_assign_end s s1 e
    (by simp [ends_expr, expr_continuation_tokens] at h; simp [h]) hs)

theorem parse_expr_of_ternary_end (s s1 : pstate) (e : expr_t) (h : ends_expr (lex_token s1))
    (hs : Ev (fun m => parse_expr_ternary m s) (e, s1)) : Ev (fun m => parse_expr m s) (e, s1) :=
  parse_expr_of_assign_end s s1 e h (parse_expr_assign_of_ternary_end s s1 e
    (by simp [ends_expr, expr_continuation_tokens] at h; simp [h]) hs)

theorem parse_expr_of_logic_or_end (s s1 : pstate) (e : expr_t) (h : ends_expr (lex_token s1))
    (hs : Ev (fun m => parse_expr_logic_or m s) (e, s1)) : Ev (fun m => parse_expr m s) (e, s1) :=
  parse_expr_of_ternary_end s s1 e h (parse_expr_ternary_of_logic_or_end s s1 e
    (by simp [ends_expr, expr_continuation_tokens] at h; simp [h]) hs)

theorem parse_expr_of_logic_and_end (s s1 : pstate) (e : expr_t) (h : ends_expr (lex_token s1))
    (hs : Ev (fun m => parse_expr_logic_and m s) (e, s1)) : Ev (fun m => parse_expr m s) (e, s1) :=
  parse_expr_of_logic_or_end s s1 e h (parse_expr_logic_or_of_logic_and_end s s1 e
    (by simp [ends_expr, expr_continuation_tokens] at h; simp [h]) hs)

theorem parse_expr_of_test_end (s s1 : pstate) (e : expr_t) (h : ends_expr (lex_token s1))
    (hs : Ev (fun m => parse_expr_test m s) (e, s1)) : Ev (fun m => parse_expr m s) (e, s1) :=
  parse_expr_of_logic_and_end s s1 e h (parse_expr_logic_and_of_test_end s s1 e
    (by simp [ends_expr, expr_continuation_tokens] at h; simp [h]) hs)

theorem parse_expr_of_aand_end (s s1 : pstate) (e : expr_t) (h : ends_expr (lex_token s1))
    (hs : Ev (fun m => parse_expr_aand m s) (e, s1)) : Ev (fun m => parse_expr m s) (e, s1) :=
  parse_expr_of_test_end s s1 e h (parse_expr_test_of_aand_end s s1 e
    (by simp [ends_expr, expr_continuation_tokens] at h; simp [h]) hs)

theorem parse_expr_of_shift_end (s s1 : pstate) (e : expr_t) (h : ends_expr (lex_token s1))
    (hs : Ev (fun m => parse_expr_shift m s) (e, s1)) : Ev (fun m => parse_expr m s) (e, s1) :=
  parse_expr_of_aand_end s s1 e h (parse_expr_aand_of_shift_end s s1 e
    (by simp [ends_expr, expr_continuation_tokens] at h; simp [h]) hs)

theorem parse_expr_of_add_end (s s1 : pstate) (e : expr_t) (h : ends_expr (lex_token s1))
    (hs : Ev (fun m => parse_expr_add m s) (e, s1)) : Ev (fun m => parse_expr m s) (e, s1) :=
  parse_expr_of_shift_end s s1 e h (parse_expr_shift_of_add_end s s1 e
    (by simp [ends_expr, expr_continuation_tokens] at h; simp [h]) hs)

theorem parse_expr_of_mul_end (s s1 : pstate) (e : expr_t) (h : ends_expr (lex_token s1))
    (hs : Ev (fun m => parse_expr_mul m s) (e, s1)) : Ev (fun m => parse_expr m s) (e, s1) :=
  parse_expr_of_add_end s s1 e h (parse_expr_add_of_mul_end s s1 e
    (by simp [ends_expr, expr_continuation_tokens] at h; simp [h]) hs)

theorem parse_expr_of_unary_end (s s1 : pstate) (e : expr_t) (h : ends_expr (lex_token s1))
    (hs : Ev (fun m => parse_expr_unary m s) (e, s1)) : Ev (fun m => parse_expr m s) (e, s1) :=
  parse_expr_of_mul_end s s1 e h (parse_expr_mul_of_unary_end s s1 e
    (by simp [ends_expr, expr_continuation_tokens] at h; simp [h]) hs)

/-! ### Two operators of one left-associative tier -/

theorem parse_expr_mul_two_ops (a b c : expr_t) (op1 op2 : Int) (s0 s1 s2 s3 : pstate)
    (hop1 : op1 = CH_STAR ∨ op1 = CH_SLASH ∨ op1 = CH_PERCENT)
    (hop2 : op2 = CH_STAR ∨ op2 = CH_SLASH ∨ op2 = CH_PERCENT)
    (ha : Ev (fun m => parse_expr_unary m s0) (a, s1)) (han : a.is_null = false)
    (h1 : lex_token s1 = op1)
    (hb : Ev (fun m => parse_expr_unary m (lex_match s1 op1).2) (b, s2)) (hbn : b.is_null = false)
    (hh2 : s2.heap = []) (h2 : lex_token s2 = op2)
    (hc : Ev (fun m => parse_expr_unary m (lex_match (s2.allocs 1) op2).2) (c, s3))
    (hcn : c.is_null = false) (hh3 : s3.heap = [])
    (h3 : ¬ (lex_token s3 = CH_STAR ∨ lex_token s3 = CH_SLASH ∨ lex_token s3 = CH_PERCENT)) :
    Ev (fun m => parse_expr_mul m s0)
      (expr_binary (if op2 = CH_STAR then EXPR_MUL else if op2 = CH_SLASH then EXPR_DIV else EXPR_MOD) (expr_binary (if op1 = CH_STAR then EXPR_MUL else if op1 = CH_SLASH then EXPR_DIV else EXPR_MOD) a b) c, s3.allocs 1) := by
  refine parse_expr_mul_of_unary s0 s1 a _ ha ?_
  rw [h1]
  refine parse_expr_mul_while_step a b op1 s1 s2 _ han hop1 hbn hh2 hb ?_
  rw [h2]
  refine parse_expr_mul_while_step _ c op2 (s2.allocs 1) s3 _ rfl hop2 hcn hh3 hc ?_
  exact parse_expr_mul_while_stop _ _ _ h3

theorem parse_expr_add_two_ops (a b c : expr_t) (op1 op2 : Int) (s0 s1 s2 s3 : pstate)
    (hop1 : op1 = CH_PLUS ∨ op1 = CH_MINUS)
    (hop2 : op2 = CH_PLUS ∨ op2 = CH_MINUS)
    (ha : Ev (fun m => parse_expr_mul m s0) (a, s1)) (han : a.is_null = false)
    (h1 : lex_token s1 = op1)
    (hb : Ev (fun m => parse_expr_mul m (lex_match s1 op1).2) (b, s2)) (hbn : b.is_null = false)
    (hh2 : s2.heap = []) (h2 : lex_token s2 = op2)
    (hc : Ev (fun m => parse_expr_mul m (lex_match (s2.allocs 1) op2).2) (c, s3))
    (hcn : c.is_null = false) (hh3 : s3.heap = [])
    (h3 : ¬ (lex_token s3 = CH_PLUS ∨ lex_token s3 = CH_MINUS)) :
    Ev (fun m => parse_expr_add m s0)
      (expr_binary (if op2 = CH_PLUS then EXPR_ADD else EXPR_SUB) (expr_binary (if op1 = CH_PLUS then EXPR_ADD else EXPR_SUB) a b) c, s3.allocs 1) := by
  refine parse_expr_add_of_mul s0 s1 a _ ha ?_
  rw [h1]
  refine parse_expr_add_while_step a b op1 s1 s2 _ han hop1 hbn hh2 hb ?_
  rw [h2]
  refine parse_expr_add_while_step _ c op2 (s2.allocs 1) s3 _ rfl hop2 hcn hh3 hc ?_
  exact parse_expr_add_while_stop _ _ _ h3

theorem parse_expr_shift_two_ops (a b c : expr_t) (op1 op2 : Int) (s0 s1 s2 s3 : pstate)
    (hop1 : op1 = TOK_RSHIFT ∨ op1 = TOK_LSHIFT)
    (hop2 : op2 = TOK_RSHIFT ∨ op2 = TOK_LSHIFT)
    (ha : Ev (fun m => parse_expr_add m s0) (a, s1)) (han : a.is_null = false)
    (h1 : lex_token s1 = op1)
    (hb : Ev (fun m => parse_expr_add m (lex_match s1 op1).2) (b, s2)) (hbn : b.is_null = false)
    (hh2 : s2.heap = []) (h2 : lex_token s2 = op2)
    (hc : Ev (fun m => parse_expr_add m (lex_match (s2.allocs 1) op2).2) (c, s3))
    (hcn : c.is_null = false) (hh3 : s3.heap = [])
    (h3 : ¬ (lex_token s3 = TOK_RSHIFT ∨ lex_token s3 = TOK_LSHIFT)) :
    Ev (fun m => parse_expr_shift m s0)
      (expr_binary (if op2 = TOK_RSHIFT then EXPR_RSHIFT else EXPR_LSHIFT) (expr_binary (if op1 = TOK_RSHIFT then EXPR_RSHIFT else EXPR_LSHIFT) a b) c, s3.allocs 1) := by
  refine parse_expr_shift_of_add s0 s1 a _ ha ?_
  rw [h1]
  refine parse_expr_shift_while_step a b op1 s1 s2 _ han hop1 hbn hh2 hb ?_
  rw [h2]
  refine parse_expr_shift_while_step _ c op2 (s2.allocs 1) s3 _ rfl hop2 hcn hh3 hc ?_
  exact parse_expr_shift_while_stop _ _ _ h3

theorem parse_expr_aand_two_ops (a b c : expr_t) (op1 op2 : Int) (s0 s1 s2 s3 : pstate)
    (hop1 : op1 = CH_AMP ∨ op1 = CH_BAR ∨ op1 = CH_CARET)
    (hop2 : op2 = CH_AMP ∨ op2 = CH_BAR ∨ op2 = CH_CARET)
    (ha : Ev (fun m => parse_expr_shift m s0) (a, s1)) (han : a.is_null = false)
    (h1 : lex_token s1 = op1)
    (hb : Ev (fun m => parse_expr_shift m (lex_match s1 op1).2) (b, s2)) (hbn : b.is_null = false)
    (hh2 : s2.heap = []) (h2 : lex_token s2 = op2)
    (hc : Ev (fun m => parse_expr_shift m (lex_match (s2.allocs 1) op2).2) (c, s3))
    (hcn : c.is_null = false) (hh3 : s3.heap = [])
    (h3 : ¬ (lex_token s3 = CH_AMP ∨ lex_token s3 = CH_BAR ∨ lex_token s3 = CH_CARET)) :
    Ev (fun m => parse_expr_aand m s0)
      (expr_binary (if op2 = CH_AMP then EXPR_AND else if op2 = CH_BAR then EXPR_OR else EXPR_XOR) (expr_binary (if op1 = CH_AMP then EXPR_AND else if op1 = CH_BAR then EXPR_OR else EXPR_XOR) a b) c, s3.allocs 1) := by
  refine parse_expr_aand_of_shift s0 s1 a _ ha ?_
  rw [h1]
  refine parse_expr_aand_while_step a b op1 s1 s2 _ han hop1 hbn hh2 hb ?_
  rw [h2]
  refine parse_expr_aand_while_step _ c op2 (s2.allocs 1) s3 _ rfl hop2 hcn hh3 hc ?_
  exact parse_expr_aand_while_stop _ _ _ h3

theorem parse_expr_test_two_ops (a b c : expr_t) (op1 op2 : Int) (s0 s1 s2 s3 : pstate)
    (hop1 : op1 = CH_GT ∨ op1 = CH_LT ∨ op1 = TOK_NE ∨ op1 = TOK_EQ ∨ op1 = TOK_GE ∨ op1 = TOK_LE ∨ op1 = TOK_IN)
    (hop2 : op2 = CH_GT ∨ op2 = CH_LT ∨ op2 = TOK_NE ∨ op2 = TOK_EQ ∨ op2 = TOK_GE ∨ op2 = TOK_LE ∨ op2 = TOK_IN)
    (ha : Ev (fun m => parse_expr_aand m s0) (a, s1)) (han : a.is_null = false)
    (h1 : lex_token s1 = op1)
    (hb : Ev (fun m => parse_expr_aand m (lex_match s1 op1).2) (b, s2)) (hbn : b.is_null = false)
    (hh2 : s2.heap = []) (h2 : lex_token s2 = op2)
    (hc : Ev (fun m => parse_expr_aand m (lex_match (s2.allocs 1) op2).2) (c, s3))
    (hcn : c.is_null = false) (hh3 : s3.heap = [])
    (h3 : ¬ (lex_token s3 = CH_GT ∨ lex_token s3 = CH_LT ∨ lex_token s3 = TOK_NE ∨ lex_token s3 = TOK_EQ ∨ lex_token s3 = TOK_GE ∨ lex_token s3 = TOK_LE ∨ lex_token s3 = TOK_IN)) :
    Ev (fun m => parse_expr_test m s0)
      (expr_binary (parse_expr_test_type op2) (expr_binary (parse_expr_test_type op1) a b) c, s3.allocs 1) := by
  refine parse_expr_test_of_aand s0 s1 a _ ha ?_
  rw [h1]
  refine parse_expr_test_while_step a b op1 s1 s2 _ han hop1 hbn hh2 hb ?_
  rw [h2]
  refine parse_expr_test_while_step _ c op2 (s2.allocs 1) s3 _ rfl hop2 hcn hh3 hc ?_
  exact parse_expr_test_while_stop _ _ _ h3
/-! ### The tiers as one family -/

theorem tier_variant_mul {op : Int} {ty : EXPR_TYPE}
    (h : tier.variant tier.mul op = some ty) :
    (op = CH_STAR ∨ op = CH_SLASH ∨ op = CH_PERCENT) ∧ (if op = CH_STAR then EXPR_MUL else if op = CH_SLASH then EXPR_DIV else EXPR_MOD) = ty := by
  simp only [tier.variant] at h
  split_ifs at h <;> simp_all [parse_expr_test_type]

theorem tier_variant_add {op : Int} {ty : EXPR_TYPE}
    (h : tier.variant tier.add op = some ty) :
    (op = CH_PLUS ∨ op = CH_MINUS) ∧ (if op = CH_PLUS then EXPR_ADD else EXPR_SUB) = ty := by
  simp only [tier.variant] at h
  split_ifs at h <;> simp_all [parse_expr_test_type]

theorem tier_variant_shift {op : Int} {ty : EXPR_TYPE}
    (h : tier.variant tier.shift op = some ty) :
    (op = TOK_RSHIFT ∨ op = TOK_LSHIFT) ∧ (if op = TOK_RSHIFT then EXPR_RSHIFT else EXPR_LSHIFT) = ty := by
  simp only [tier.variant] at h
  split_ifs at h <;> simp_all [parse_expr_test_type]

theorem tier_variant_aand {op : Int} {ty : EXPR_TYPE}
    (h : tier.variant tier.aand op = some ty) :
    (op = CH_AMP ∨ op = CH_BAR ∨ op = CH_CARET) ∧ (if op = CH_AMP then EXPR_AND else if op = CH_BAR then EXPR_OR else EXPR_XOR) = ty := by
  simp only [tier.variant] at h
  split_ifs at h <;> simp_all [parse_expr_test_type]

theorem tier_variant_test {op : Int} {ty : EXPR_TYPE}
    (h : tier.variant tier.test op = some ty) :
    (op = CH_GT ∨ op = CH_LT ∨ op = TOK_NE ∨ op = TOK_EQ ∨ op = TOK_GE ∨ op = TOK_LE ∨ op = TOK_IN) ∧ (parse_expr_test_type op) = ty := by
  simp only [tier.variant] at h
  split_ifs at h <;> simp_all [parse_expr_test_type]

theorem tier_operand_heap (t : tier) {n : Nat} {s s1 : pstate} {e : expr_t}
    (h : t.operand n s = some (e, s1)) (hs : s.heap = []) : s1.heap = [] := by
  cases t
  · exact heap_nil_of_eff ((all_inv n).parse_expr_unary s e s1 h).1 hs
  · exact heap_nil_of_eff ((all_inv n).parse_expr_mul s e s1 h).1 hs
  · exact heap_nil_of_eff ((all_inv n).parse_expr_add s e s1 h).1 hs
  · exact heap_nil_of_eff ((all_inv n).parse_expr_shift s e s1 h).1 hs
  · exact heap_nil_of_eff ((all_inv n).parse_expr_aand s e s1 h).1 hs

theorem tier_operand_ev (t : tier) {n : Nat} {s : pstate} {r : expr_t × pstate}
    (h : t.operand n s = some r) : Ev (fun m => t.operand m s) r := by
  cases t
  · exact parse_expr_unary_ev h
  · exact parse_expr_mul_ev h
  · exact parse_expr_add_ev h
  · exact parse_expr_shift_ev h
  · exact parse_expr_aand_ev h

theorem parse_expr_of_tier_end (t : tier) (s s1 : pstate) (e : expr_t)
    (h : ends_expr (lex_token s1)) (hs : Ev (fun m => t.parse m s) (e, s1)) :
    Ev (fun m => parse_expr m s) (e, s1) := by
  cases t
  · exact parse_expr_of_mul_end s s1 e h hs
  · exact parse_expr_of_add_end s s1 e h hs
  · exact parse_expr_of_shift_end s s1 e h hs
  · exact parse_expr_of_aand_end s s1 e h hs
  · exact parse_expr_of_test_end s s1 e h hs

theorem tier_two_ops (t : tier) (op1 op2 : Int) (ty1 ty2 : EXPR_TYPE) (a b c : expr_t)
    (s0 s1 s2 s3 : pstate) (hh : s0.heap = [])
    (hop1 : t.variant op1 = some ty1) (hop2 : t.variant op2 = some ty2)
    (ha : Ev (fun m => t.operand m s0) (a, s1)) (han : a.is_null = false)
    (h1 : lex_token s1 = op1)
    (hb : Ev (fun m => t.operand m (lex_match s1 op1).2) (b, s2)) (hbn : b.is_null = false)
    (h2 : lex_token s2 = op2)
    (hc : Ev (fun m => t.operand m (lex_match (s2.allocs 1) op2).2) (c, s3))
    (hcn : c.is_null = false)
    (h3 : ends_expr (lex_token s3)) :
    Ev (fun m => t.parse m s0) (expr_binary ty2 (expr_binary ty1 a b) c, s3.allocs 1) := by
  have hh1 : s1.heap = [] := tier_operand_heap t (ha.choose_spec _ (le_refl _)) hh
  have hh2 : s2.heap = [] :=
    tier_operand_heap t (hb.choose_spec _ (le_refl _)) (by simpa using hh1)
  have hh3 : s3.heap = [] :=
    tier_operand_heap t (hc.choose_spec _ (le_refl _)) (by simpa using hh2)
  simp [ends_expr, expr_continuation_tokens] at h3
  cases t
  · obtain ⟨c1, rfl⟩ := tier_variant_mul hop1
    obtain ⟨c2, rfl⟩ := tier_variant_mul hop2
    exact parse_expr_mul_two_ops a b c op1 op2 s0 s1 s2 s3 c1 c2 ha han h1 hb hbn hh2 h2 hc hcn
      hh3 (by simp [h3])
  · obtain ⟨c1, rfl⟩ := tier_variant_add hop1
    obtain ⟨c2, rfl⟩ := tier_variant_add hop2
    exact parse_expr_add_two_ops a b c op1 op2 s0 s1 s2 s3 c1 c2 ha han h1 hb hbn hh2 h2 hc hcn
      hh3 (by simp [h3])
  · obtain ⟨c1, rfl⟩ := tier_variant_shift hop1
    obtain ⟨c2, rfl⟩ := tier_variant_shift hop2
    exact parse_expr_shift_two_ops a b c op1 op2 s0 s1 s2 s3 c1 c2 ha han h1 hb hbn hh2 h2 hc hcn
      hh3 (by simp [h3])
  · obtain ⟨c1, rfl⟩ := tier_variant_aand hop1
    obtain ⟨c2, rfl⟩ := tier_variant_aand hop2
    exact parse_expr_aand_two_ops a b c op1 op2 s0 s1 s2 s3 c1 c2 ha han h1 hb hbn hh2 h2 hc hcn
      hh3 (by simp [h3])
  · obtain ⟨c1, rfl⟩ := tier_variant_test hop1
    obtain ⟨c2, rfl⟩ := tier_variant_test hop2
    exact parse_expr_test_two_ops a b c op1 op2 s0 s1 s2 s3 c1 c2 ha han h1 hb hbn hh2 h2 hc hcn
      hh3 (by simp [h3])

/-! ### States along a token list -/

@[simp] theorem seek_toks (s : pstate) (t : List token_t) (k : Nat) : (s.seek t k).toks = t := rfl
@[simp] theorem seek_heap (s : pstate) (t : List token_t) (k : Nat) :
    (s.seek t k).heap = s.heap := rfl
@[simp] theorem seek_events (s : pstate) (t : List token_t) (k : Nat) :
    (s.seek t k).events = s.events := rfl
@[simp] theorem seek_cb (s : pstate) (t : List token_t) (k : Nat) : (s.seek t k).cb = s.cb := rfl
@[simp] theorem seek_allocated (s : pstate) (t : List token_t) (k : Nat) :
    (s.seek t k).allocated = s.allocated + k := rfl
@[simp] theorem seek_released (s : pstate) (t : List token_t) (k : Nat) :
    (s.seek t k).released = s.released := rfl
theorem seek_self (s : pstate) : s.seek s.toks 0 = s := rfl
@[simp] theorem seek_allocs (s : pstate) (t : List token_t) (k j : Nat) :
    (s.seek t k).allocs j = s.seek t (k + j) := by
  simp [pstate.seek, Nat.add_assoc]
@[simp] theorem lex_token_seek_cons (s : pstate) (t : token_t) (r : List token_t) (k : Nat) :
    lex_token (s.seek (t :: r) k) = t.type := rfl
@[simp] theorem lex_token_seek_nil (s : pstate) (k : Nat) :
    lex_token (s.seek [] k) = TOK_EOF := rfl
@[simp] theorem lex_token_text_seek_cons (s : pstate) (t : token_t) (r : List token_t) (k : Nat) :
    lex_token_text (s.seek (t :: r) k) = t.text := rfl
@[simp] theorem lex_match_seek_cons (s : pstate) (t : token_t) (r : List token_t) (k : Nat) :
    (lex_match (s.seek (t :: r) k) t.type).2 = s.seek r k := by
  simp [lex_match, pstate.seek, lex_token]
theorem lex_match_seek_of_eq (s : pstate) (t : token_t) (r : List token_t) (k : Nat) (tok : Int)
    (h : t.type = tok) : (lex_match (s.seek (t :: r) k) tok).2 = s.seek r k := by
  subst h
  exact lex_match_seek_cons s t r k

theorem parse_expr_unary_operand_seek (s : pstate) (t : token_t) (r : List token_t) (k : Nat)
    (ty : EXPR_TYPE) (hty : operand_variant t.type = some ty) (hh : s.heap = [])
    (hnext : ¬ (lex_token (s.seek r (k + 1)) = CH_DOT ∨ lex_token (s.seek r (k + 1)) = CH_LBRACKET
      ∨ lex_token (s.seek r (k + 1)) = CH_LPAREN)) :
    Ev (fun m => parse_expr_unary m (s.seek (t :: r) k)) (operand_leaf t ty, s.seek r (k + 1)) :=
  parse_expr_unary_operand (s.seek (t :: r) k) t r ty rfl hty hh hnext

/-! ### Two operands and one operator, read from a token list -/

theorem operand_not_keyword {tok : Int} {ty : EXPR_TYPE} (h : operand_variant tok = some ty) :
    ¬ (tok = TOK_EOF ∨ tok = TOK_IF ∨ tok = TOK_VAR ∨ tok = TOK_RET ∨ tok = TOK_WHILE
      ∨ tok = TOK_BREAK ∨ tok = TOK_CONTINUE) := by
  rcases operand_variant_cases h with h | h | h | h | h | h | h | h <;> simp [h.1]

/-- A multiplicative tier over a single operand, followed by a token that is not
multiplicative and opens no suffix. -/
theorem parse_expr_mul_operand_seek (s : pstate) (t : token_t) (r : List token_t) (k : Nat)
    (ty : EXPR_TYPE) (hty : operand_variant t.type = some ty) (hh : s.heap = [])
    (hnext : ¬ (lex_token (s.seek r (k + 1)) = CH_DOT ∨ lex_token (s.seek r (k + 1)) = CH_LBRACKET
      ∨ lex_token (s.seek r (k + 1)) = CH_LPAREN))
    (hmul : ¬ (lex_token (s.seek r (k + 1)) = CH_STAR ∨ lex_token (s.seek r (k + 1)) = CH_SLASH
      ∨ lex_token (s.seek r (k + 1)) = CH_PERCENT)) :
    Ev (fun m => parse_expr_mul m (s.seek (t :: r) k)) (operand_leaf t ty, s.seek r (k + 1)) :=
  parse_expr_mul_of_unary_end _ _ _ hmul (parse_expr_unary_operand_seek s t r k ty hty hh hnext)

/-- A multiplicative tier over `y ⊗ z`, followed by a token that is not
multiplicative and opens no suffix. -/
theorem parse_expr_mul_pair_seek (s : pstate) (y q z : token_t) (r : List token_t) (k : Nat)
    (ty tz tm : EXPR_TYPE) (hy : operand_variant y.type = some ty)
    (hz : operand_variant z.type = some tz) (hq : tier.variant tier.mul q.type = some tm)
    (hh : s.heap = [])
    (hnext : ¬ (lex_token (s.seek r (k + 2)) = CH_DOT ∨ lex_token (s.seek r (k + 2)) = CH_LBRACKET
      ∨ lex_token (s.seek r (k + 2)) = CH_LPAREN))
    (hmul : ¬ (lex_token (s.seek r (k + 3)) = CH_STAR ∨ lex_token (s.seek r (k + 3)) = CH_SLASH
      ∨ lex_token (s.seek r (k + 3)) = CH_PERCENT)) :
    Ev (fun m => parse_expr_mul m (s.seek (y :: q :: z :: r) k))
      (expr_binary tm (operand_leaf y ty) (operand_leaf z tz), s.seek r (k + 3)) := by
  obtain ⟨cq, rfl⟩ := tier_variant_mul hq
  have uy := parse_expr_unary_operand_seek s y (q :: z :: r) k ty hy hh
    (by rcases cq with h | h | h <;> simp [h])
  have uz := parse_expr_unary_operand_seek s z r (k + 1) tz hz hh hnext
  refine parse_expr_mul_of_unary _ _ _ _ uy ?_
  refine parse_expr_mul_while_step _ (operand_leaf z tz) _ _ (s.seek r (k + 2)) _ rfl
    (by simpa using cq) rfl hh (by simpa using uz) ?_
  have := parse_expr_mul_while_stop
    (expr_binary (if q.type = CH_STAR then EXPR_MUL else if q.type = CH_SLASH then EXPR_DIV
      else EXPR_MOD) (operand_leaf y ty) (operand_leaf z tz))
    (lex_token (s.seek r (k + 3))) (s.seek r (k + 3)) hmul
  simpa using this

/-! ### The right-associative tiers as one family -/

theorem rtier_operand_heap (t : rtier) {n : Nat} {s s1 : pstate} {e : expr_t}
    (h : t.operand n s = some (e, s1)) (hs : s.heap = []) : s1.heap = [] := by
  cases t
  · exact heap_nil_of_eff ((all_inv n).parse_expr_assign s e s1 h).1 hs
  · exact heap_nil_of_eff ((all_inv n).parse_expr_ternary s e s1 h).1 hs
  · exact heap_nil_of_eff ((all_inv n).parse_expr_logic_and s e s1 h).1 hs
  · exact heap_nil_of_eff ((all_inv n).parse_expr_test s e s1 h).1 hs

theorem rtier_parse_heap (t : rtier) {n : Nat} {s s1 : pstate} {e : expr_t}
    (h : t.parse n s = some (e, s1)) (hs : s.heap = []) : s1.heap = [] := by
  cases t
  · exact heap_nil_of_eff ((all_inv n).parse_expr_comma s e s1 h).1 hs
  · exact heap_nil_of_eff ((all_inv n).parse_expr_assign s e s1 h).1 hs
  · exact heap_nil_of_eff ((all_inv n).parse_expr_logic_or s e s1 h).1 hs
  · exact heap_nil_of_eff ((all_inv n).parse_expr_logic_and s e s1 h).1 hs

theorem rtier_operand_ev (t : rtier) {n : Nat} {s : pstate} {r : expr_t × pstate}
    (h : t.operand n s = some r) : Ev (fun m => t.operand m s) r := by
  cases t
  · exact parse_expr_assign_ev h
  · exact parse_expr_ternary_ev h
  · exact parse_expr_logic_and_ev h
  · exact parse_expr_test_ev h

theorem rtier_parse_end (t : rtier) (s s1 : pstate) (e : expr_t)
    (h : lex_token s1 ≠ t.op) (hs : Ev (fun m => t.operand m s) (e, s1)) :
    Ev (fun m => t.parse m s) (e, s1) := by
  cases t
  · exact parse_expr_comma_of_assign_end s s1 e h hs
  · exact parse_expr_assign_of_ternary_end s s1 e h hs
  · exact parse_expr_logic_or_of_logic_and_end s s1 e h hs
  · exact parse_expr_logic_and_of_test_end s s1 e h hs

theorem rtier_parse_step (t : rtier) (s s1 s2 : pstate) (e rht : expr_t)
    (he : e.is_null = false) (hty : t = rtier.assign → e.assignable)
    (htok : lex_token s1 = t.op) (hr : rht.is_null = false) (hh : s2.heap = [])
    (hs : Ev (fun m => t.operand m s) (e, s1))
    (hw : Ev (fun m => t.parse m (lex_match s1 t.op).2) (rht, s2)) :
    Ev (fun m => t.parse m s) (expr_binary t.variant e rht, s2.allocs 1) := by
  cases t
  · exact parse_expr_comma_step s s1 s2 e rht he htok hr hh hs hw
  · exact parse_expr_assign_step s s1 s2 e rht he (hty rfl) htok hr hh hs hw
  · exact parse_expr_logic_or_step s s1 s2 e rht he htok hr hh hs hw
  · exact parse_expr_logic_and_step s s1 s2 e rht he htok hr hh hs hw

theorem parse_expr_of_rtier_end (t : rtier) (s s1 : pstate) (e : expr_t)
    (h : ends_expr (lex_token s1)) (hs : Ev (fun m => t.parse m s) (e, s1)) :
    Ev (fun m => parse_expr m s) (e, s1) := by
  cases t
  · exact parse_expr_of_comma_end s s1 e h hs
  · exact parse_expr_of_assign_end s s1 e h hs
  · exact parse_expr_of_logic_or_end s s1 e h hs
  · exact parse_expr_of_logic_and_end s s1 e h hs

theorem reads_items_chain (t : rtier) {s s1 : pstate} {es : List expr_t}
    (h : reads_items t s es s1) (hh : s.heap = []) :
    (right_chain t.variant es).is_null = false ∧
      Ev (fun m => t.parse m s) (right_chain t.variant es, s1) := by
  induction h with
  | last n s s1 e hop hne htok =>
    exact ⟨is_null_of_ne hne, rtier_parse_end t s s1 e htok (rtier_operand_ev t hop)⟩
  | more n s s1 s2 e es hop hne hty htok hrest ih =>
    have hh1 : s1.heap = [] := rtier_operand_heap t hop hh
    obtain ⟨hn, hev⟩ := ih (by simpa using hh1)
    have hh2 : s2.heap = [] :=
      rtier_parse_heap t (hev.choose_spec _ (le_refl _)) (by simpa using hh1)
    cases es with
    | nil => cases hrest
    | cons e2 es =>
      exact ⟨rfl, rtier_parse_step t s s1 s2 e _ (is_null_of_ne hne) hty htok hn hh2
        (rtier_operand_ev t hop) hev⟩

/-! ### The operator tables -/

theorem binop_variant_cases {tok : Int} {ty : EXPR_TYPE} (h : binop_variant tok = some ty) :
    (tok = CH_PLUS ∧ ty = EXPR_ADD) ∨ (tok = CH_MINUS ∧ ty = EXPR_SUB) ∨
    (tok = CH_STAR ∧ ty = EXPR_MUL) ∨ (tok = CH_SLASH ∧ ty = EXPR_DIV) ∨
    (tok = CH_PERCENT ∧ ty = EXPR_MOD) ∨ (tok = CH_AMP ∧ ty = EXPR_AND) ∨
    (tok = CH_BAR ∧ ty = EXPR_OR) ∨ (tok = CH_CARET ∧ ty = EXPR_XOR) ∨
    (tok = TOK_LSHIFT ∧ ty = EXPR_LSHIFT) ∨ (tok = TOK_RSHIFT ∧ ty = EXPR_RSHIFT) ∨
    (tok = TOK_EQ ∧ ty = EXPR_TEQ) ∨ (tok = TOK_NE ∧ ty = EXPR_TNE) ∨
    (tok = CH_GT ∧ ty = EXPR_TGT) ∨ (tok = CH_LT ∧ ty = EXPR_TLT) ∨
    (tok = TOK_GE ∧ ty = EXPR_TGE) ∨ (tok = TOK_LE ∧ ty = EXPR_TLE) ∨
    (tok = TOK_IN ∧ ty = EXPR_TIN) ∨ (tok = TOK_LOGICAND ∧ ty = EXPR_LOGIC_AND) ∨
    (tok = TOK_LOGICOR ∧ ty = EXPR_LOGIC_OR) ∨ (tok = CH_ASSIGN ∧ ty = EXPR_ASSIGN) := by
  unfold binop_variant at h
  by_cases h0 : tok = CH_PLUS
  · exact Or.inl ⟨h0, (Option.some.inj (by rwa [if_pos h0] at h)).symm⟩
  rw [if_neg h0] at h
  refine Or.inr ?_
  by_cases h1 : tok = CH_MINUS
  · exact Or.inl ⟨h1, (Option.some.inj (by rwa [if_pos h1] at h)).symm⟩
  rw [if_neg h1] at h
  refine Or.inr ?_
  by_cases h2 : tok = CH_STAR
  · exact Or.inl ⟨h2, (Option.some.inj (by rwa [if_pos h2] at h)).symm⟩
  rw [if_neg h2] at h
  refine Or.inr ?_
  by_cases h3 : tok = CH_SLASH
  · exact Or.inl ⟨h3, (Option.some.inj (by rwa [if_pos h3] at h)).symm⟩
  rw [if_neg h3] at h
  refine Or.inr ?_
  by_cases h4 : tok = CH_PERCENT
  · exact Or.inl ⟨h4, (Option.some.inj (by rwa [if_pos h4] at h)).symm⟩
  rw [if_neg h4] at h
  refine Or.inr ?_
  by_cases h5 : tok = CH_AMP
  · exact Or.inl ⟨h5, (Option.some.inj (by rwa [if_pos h5] at h)).symm⟩
  rw [if_neg h5] at h
  refine Or.inr ?_
  by_cases h6 : tok = CH_BAR
  · exact Or.inl ⟨h6, (Option.some.inj (by rwa [if_pos h6] at h)).symm⟩
  rw [if_neg h6] at h
  refine Or.inr ?_
  by_cases h7 : tok = CH_CARET
  · exact Or.inl ⟨h7, (Option.some.inj (by rwa [if_pos h7] at h)).symm⟩
  rw [if_neg h7] at h
  refine Or.inr ?_
  by_cases h8 : tok = TOK_LSHIFT
  · exact Or.inl ⟨h8, (Option.some.inj (by rwa [if_pos h8] at h)).symm⟩
  rw [if_neg h8] at h
  refine Or.inr ?_
  by_cases h9 : tok = TOK_RSHIFT
  · exact Or.inl ⟨h9, (Option.some.inj (by rwa [if_pos h9] at h)).symm⟩
  rw [if_neg h9] at h
  refine Or.inr ?_
  by_cases h10 : tok = TOK_EQ
  · exact Or.inl ⟨h10, (Option.some.inj (by rwa [if_pos h10] at h)).symm⟩
  rw [if_neg h10] at h
  refine Or.inr ?_
  by_cases h11 : tok = TOK_NE
  · exact Or.inl ⟨h11, (Option.some.inj (by rwa [if_pos h11] at h)).symm⟩
  rw [if_neg h11] at h
  refine Or.inr ?_
  by_cases h12 : tok = CH_GT
  · exact Or.inl ⟨h12, (Option.some.inj (by rwa [if_pos h12] at h)).symm⟩
  rw [if_neg h12] at h
  refine Or.inr ?_
  by_cases h13 : tok = CH_LT
  · exact Or.inl ⟨h13, (Option.some.inj (by rwa [if_pos h13] at h)).symm⟩
  rw [if_neg h13] at h
  refine Or.inr ?_
  by_cases h14 : tok = TOK_GE
  · exact Or.inl ⟨h14, (Option.some.inj (by rwa [if_pos h14] at h)).symm⟩
  rw [if_neg h14] at h
  refine Or.inr ?_
  by_cases h15 : tok = TOK_LE
  · exact Or.inl ⟨h15, (Option.some.inj (by rwa [if_pos h15] at h)).symm⟩
  rw [if_neg h15] at h
  refine Or.inr ?_
  by_cases h16 : tok = TOK_IN
  · exact Or.inl ⟨h16, (Option.some.inj (by rwa [if_pos h16] at h)).symm⟩
  rw [if_neg h16] at h
  refine Or.inr ?_
  by_cases h17 : tok = TOK_LOGICAND
  · exact Or.inl ⟨h17, (Option.some.inj (by rwa [if_pos h17] at h)).symm⟩
  rw [if_neg h17] at h
  refine Or.inr ?_
  by_cases h18 : tok = TOK_LOGICOR
  · exact Or.inl ⟨h18, (Option.some.inj (by rwa [if_pos h18] at h)).symm⟩
  rw [if_neg h18] at h
  refine Or.inr ?_
  by_cases h19 : tok = CH_ASSIGN
  · exact ⟨h19, (Option.some.inj (by rwa [if_pos h19] at h)).symm⟩
  · rw [if_neg h19] at h
    cases h

theorem unop_variant_cases {tok : Int} {ty : EXPR_TYPE} (h : unop_variant tok = some ty) :
    (tok = CH_BANG ∧ ty = EXPR_LOGIC_NOT) ∨ (tok = CH_MINUS ∧ ty = EXPR_NEG) ∨
    (tok = CH_TILDE ∧ ty = EXPR_NOT) := by
  unfold unop_variant at h
  by_cases h0 : tok = CH_BANG
  · exact Or.inl ⟨h0, (Option.some.inj (by rwa [if_pos h0] at h)).symm⟩
  rw [if_neg h0] at h
  refine Or.inr ?_
  by_cases h1 : tok = CH_MINUS
  · exact Or.inl ⟨h1, (Option.some.inj (by rwa [if_pos h1] at h)).symm⟩
  rw [if_neg h1] at h
  refine Or.inr ?_
  by_cases h2 : tok = CH_TILDE
  · exact ⟨h2, (Option.some.inj (by rwa [if_pos h2] at h)).symm⟩
  · rw [if_neg h2] at h
    cases h

/-- A state whose allocations all succeed, spelled out field by field. -/
theorem pstate_eta_heap_nil (s : pstate) (toks : List token_t) (hh : s.heap = [])
    (hs : s.toks = toks) :
    s = { toks := toks, eof_line := s.eof_line, eof_col := s.eof_col, cb := s.cb,
          events := s.events, heap := [], allocated := s.allocated, released := s.released } := by
  cases s
  simp_all

theorem token_eta (t : token_t) (ty : Int) (h : t.type = ty) :
    t = { type := ty, line := t.line, col := t.col, value := t.value, text := t.text } := by
  cases t
  simp_all

/-! ### Suffix chains -/

theorem parse_expr_factor_id (s : pstate) (hid : lex_token s = TOK_ID) (hh : s.heap = []) :
    Ev (fun m => parse_expr_factor m s)
      (expr_leaf EXPR_ID (lex_token_text s), (lex_match s TOK_ID).2.allocs 1) := by
  cases hs : s.toks with
  | nil => simp [lex_token, hs] at hid
  | cons t r =>
    have ht : t.type = TOK_ID := by simpa [lex_token, hs] using hid
    have h := parse_expr_factor_operand s t r EXPR_ID hs (by rw [ht]; rfl) hh
    have e1 : operand_leaf t EXPR_ID = expr_leaf EXPR_ID (lex_token_text s) := by
      simp [operand_leaf, ht, lex_token_text, hs]
    have e2 : ({ s with toks := r } : pstate) = (lex_match s TOK_ID).2 := by
      simp [lex_match, hid, hs]
    rw [e1, e2] at h
    exact h

theorem suffix_apply_is_null (prev : expr_t) (x : suffix) : (x.apply prev).is_null = false := by
  cases x <;> rfl

theorem reads_suffix_step (s s1 : pstate) (x : suffix) (prev : expr_t) (r : expr_t × pstate)
    (h : reads_suffix s x s1) (hh : s.heap = []) (hp : prev.is_null = false)
    (hw : Ev (fun m => parse_expr_primary_while m (x.apply prev) (lex_token s1) s1) r) :
    s1.heap = [] ∧ Ev (fun m => parse_expr_primary_while m prev (lex_token s) s) r := by
  cases h with
  | attr _ htok hid =>
    have hf := parse_expr_factor_id (lex_match s CH_DOT).2 hid (by simpa using hh)
    have ha := parse_expr_form_attr_ok prev (expr_leaf EXPR_ID (lex_token_text (lex_match s CH_DOT).2)) s _ hid rfl (by simpa using hh) hf
    refine ⟨by simpa using hh, ?_⟩
    refine parse_expr_primary_while_attr prev _ _ s _ r hp htok ha ?_
    simpa [suffix.apply] using hw
  | elem n _ s2 e htok hpar hne hclose =>
    have hh2 : s2.heap = [] :=
      heap_nil_of_eff ((all_inv n).parse_expr_ternary _ e s2 hpar).1 (by simpa using hh)
    have ha := parse_expr_form_elem_ok prev e s s2 (is_null_of_ne hne) hh2 hclose
      (parse_expr_ternary_ev hpar)
    refine ⟨by simpa using hh2, ?_⟩
    exact parse_expr_primary_while_elem prev _ _ s _ r hp htok ha hw
  | call n _ s2 args htok hopen hpar hne hclose =>
    have hh2 : s2.heap = [] :=
      heap_nil_of_eff ((all_inv n).parse_expr_comma _ args s2 hpar).1 (by simpa using hh)
    have ha := parse_expr_form_call_args prev args s s2 hopen (is_null_of_ne hne) hh2 hclose
      (parse_expr_comma_ev hpar)
    refine ⟨by simpa using hh2, ?_⟩
    exact parse_expr_primary_while_call prev _ _ s _ r hp htok ha hw
  | call_empty _ htok hclose =>
    have ha := parse_expr_form_call_empty prev s hp hh hclose
    refine ⟨by simpa using hh, ?_⟩
    exact parse_expr_primary_while_call prev _ _ s _ r hp htok ha hw

theorem reads_suffixes_chain {s s1 : pstate} {l : List suffix} (h : reads_suffixes s l s1)
    (prev : expr_t) (hh : s.heap = []) (hp : prev.is_null = false)
    (hend : ¬ (lex_token s1 = CH_DOT ∨ lex_token s1 = CH_LBRACKET ∨ lex_token s1 = CH_LPAREN)) :
    Ev (fun m => parse_expr_primary_while m prev (lex_token s) s) (apply_suffixes prev l, s1) := by
  induction h generalizing prev with
  | nil s => exact parse_expr_primary_while_stop prev _ s hend
  | cons s s1 s2 x xs hx hxs ih =>
    have h1 : s1.heap = [] := by
      cases hx with
      | attr _ htok hid => simpa using hh
      | elem n _ s2 e htok hpar hne hclose =>
        simpa using heap_nil_of_eff ((all_inv n).parse_expr_ternary _ e s2 hpar).1
          (by simpa using hh)
      | call n _ s2 args htok hopen hpar hne hclose =>
        simpa using heap_nil_of_eff ((all_inv n).parse_expr_comma _ args s2 hpar).1
          (by simpa using hh)
      | call_empty _ htok hclose => simpa using hh
    exact (reads_suffix_step s s1 x prev _ hx hh hp
      (ih (x.apply prev) h1 (suffix_apply_is_null prev x) hend)).2

/-! ### Evaluation on spelled-out states -/

/-- A state with a sink whose allocations all succeed, spelled out field by field. -/
theorem pstate_eta_session (s : pstate) (toks : List token_t) (hh : s.heap = [])
    (hcb : s.cb = true) (hs : s.toks = toks) :
    s = { toks := toks, eof_line := s.eof_line, eof_col := s.eof_col, cb := true,
          events := s.events, heap := [], allocated := s.allocated, released := s.released } := by
  cases s
  simp_all

/-- Leading semicolons before a statement are skipped: the two calls run the same
computation from the loop body on. -/
theorem parse_stmt_list_leading_semicolon (n : Nat) (s : pstate) (sc t : token_t)
    (rest : List token_t) (hsc : sc.type = CH_SEMI)
    (ht : t.type ≠ TOK_EOF ∧ t.type ≠ CH_RBRACE) :
    parse_stmt_list n ({ s with toks := sc :: t :: rest } : pstate)
      = parse_stmt_list n ({ s with toks := t :: rest } : pstate) := by
  cases n with
  | zero => rfl
  | succ n =>
    cases n with
    | zero => rfl
    | succ n =>
      simp only [parse_stmt_list, parse_stmt_list_while, lex_token, lex_match_semicolons, hsc]
      simp at ht
      simp [ht]

/-! ### Statement lists -/

theorem parse_stmt_list_of_while (s : pstate) (r : stmt_t × pstate)
    (hw : Ev (fun m => parse_stmt_list_while m stmt_t.NULL (lex_token s) s) r)
    : Ev (fun m => parse_stmt_list m s) r := by
  obtain ⟨N0, hw⟩ := hw
  refine ⟨N0 + 1, fun m hm => ?_⟩
  obtain ⟨k, rfl⟩ : ∃ k, m = k + 1 := ⟨m - 1, by omega⟩
  beta_reduce
  rw [parse_stmt_list]
  have hwk := hw k (by omega)
  clear hw
  simp only [] at hwk
  simp_all [parse_expr_form_binary_ok, parse_expr_form_unary_ok, lex_match_fst, lex_match_snd_of_ne]

theorem parse_stmt_list_while_stop (head : stmt_t) (tok : Int) (s : pstate)
    (h : ¬ (tok ≠ TOK_EOF ∧ tok ≠ CH_RBRACE))
    (hh : head.is_null = false)
    : Ev (fun m => parse_stmt_list_while m head tok s) (head, s) := by
  refine ⟨1, fun m hm => ?_⟩
  obtain ⟨k, rfl⟩ : ∃ k, m = k + 1 := ⟨m - 1, by omega⟩
  beta_reduce
  rw [parse_stmt_list_while]
  simp_all [parse_expr_form_binary_ok, parse_expr_form_unary_ok, lex_match_fst, lex_match_snd_of_ne]

theorem parse_stmt_list_while_step (head curr : stmt_t) (tok : Int) (s s2 : pstate) (r : stmt_t × pstate)
    (h : tok ≠ TOK_EOF ∧ tok ≠ CH_RBRACE)
    (hc : curr.is_null = false)
    (hs : Ev (fun m => parse_stmt m ({ s with toks := lex_match_semicolons s.toks } : pstate)) (curr, s2))
    (hw : Ev (fun m => parse_stmt_list_while m (if head.is_null = false then ast_stmt_link head curr else curr) (lex_token s2) s2) r)
    : Ev (fun m => parse_stmt_list_while m head tok s) r := by
  obtain ⟨N0, hs⟩ := hs
  obtain ⟨N1, hw⟩ := hw
  refine ⟨N0 + N1 + 1, fun m hm => ?_⟩
  obtain ⟨k, rfl⟩ : ∃ k, m = k + 1 := ⟨m - 1, by omega⟩
  beta_reduce
  rw [parse_stmt_list_while]
  have hsk := hs k (by omega)
  have hwk := hw k (by omega)
  clear hs hw
  simp only [] at hsk hwk
  simp_all [parse_expr_form_binary_ok, parse_expr_form_unary_ok, lex_match_fst, lex_match_snd_of_ne]

theorem parse_stmt_list_while_fail (head : stmt_t) (tok : Int) (s s2 : pstate)
    (h : tok ≠ TOK_EOF ∧ tok ≠ CH_RBRACE)
    (hs : Ev (fun m => parse_stmt m ({ s with toks := lex_match_semicolons s.toks } : pstate)) (stmt_t.NULL, s2))
    : Ev (fun m => parse_stmt_list_while m head tok s) (stmt_t.NULL, if head.is_null = false then ast_stmt_release head s2 else s2) := by
  obtain ⟨N0, hs⟩ := hs
  refine ⟨N0 + 1, fun m hm => ?_⟩
  obtain ⟨k, rfl⟩ : ∃ k, m = k + 1 := ⟨m - 1, by omega⟩
  beta_reduce
  rw [parse_stmt_list_while]
  have hsk := hs k (by omega)
  clear hs
  simp only [] at hsk
  simp_all [parse_expr_form_binary_ok, parse_expr_form_unary_ok, lex_match_fst, lex_match_snd_of_ne]

/-! ### Declarators -/

theorem parse_expr_vardef_bad (s : pstate)
    (h : lex_token s ≠ TOK_ID)
    : Ev (fun m => parse_expr_vardef m s) (expr_t.NULL, parse_fail s ERR_InvalidToken) := by
  refine ⟨1, fun m hm => ?_⟩
  obtain ⟨k, rfl⟩ : ∃ k, m = k + 1 := ⟨m - 1, by omega⟩
  beta_reduce
  rw [parse_expr_vardef]
  simp_all [parse_expr_form_binary_ok, parse_expr_form_unary_ok, lex_match_fst, lex_match_snd_of_ne]

theorem parse_expr_vardef_plain (s s1 : pstate) (e : expr_t)
    (h : lex_token s = TOK_ID)
    (htok : lex_token s1 ≠ CH_ASSIGN)
    (hs : Ev (fun m => parse_expr_factor m s) (e, s1))
    : Ev (fun m => parse_expr_vardef m s) (e, s1) := by
  obtain ⟨N0, hs⟩ := hs
  refine ⟨N0 + 1, fun m hm => ?_⟩
  obtain ⟨k, rfl⟩ : ∃ k, m = k + 1 := ⟨m - 1, by omega⟩
  beta_reduce
  rw [parse_expr_vardef]
  have hsk := hs k (by omega)
  clear hs
  simp only [] at hsk
  simp_all [parse_expr_form_binary_ok, parse_expr_form_unary_ok, lex_match_fst, lex_match_snd_of_ne]

theorem parse_expr_vardef_init (s s1 s2 : pstate) (e rht : expr_t)
    (h : lex_token s = TOK_ID)
    (he : e.is_null = false)
    (htok : lex_token s1 = CH_ASSIGN)
    (hr : rht.is_null = false)
    (hh : s2.heap = [])
    (hs : Ev (fun m => parse_expr_factor m s) (e, s1))
    (hw : Ev (fun m => parse_expr_assign m (lex_match s1 CH_ASSIGN).2) (rht, s2))
    : Ev (fun m => parse_expr_vardef m s) (expr_binary EXPR_ASSIGN e rht, s2.allocs 1) := by
  obtain ⟨N0, hs⟩ := hs
  obtain ⟨N1, hw⟩ := hw
  refine ⟨N0 + N1 + 1, fun m hm => ?_⟩
  obtain ⟨k, rfl⟩ : ∃ k, m = k + 1 := ⟨m - 1, by omega⟩
  beta_reduce
  rw [parse_expr_vardef]
  have hsk := hs k (by omega)
  have hwk := hw k (by omega)
  clear hs hw
  simp only [] at hsk hwk
  simp_all [parse_expr_form_binary_ok, parse_expr_form_unary_ok, lex_match_fst, lex_match_snd_of_ne]

theorem parse_expr_vardef_list_end (s s1 : pstate) (e : expr_t)
    (h : e.is_null = true ∨ lex_token s1 ≠ CH_COMMA)
    (hs : Ev (fun m => parse_expr_vardef m s) (e, s1))
    : Ev (fun m => parse_expr_vardef_list m s) (e, s1) := by
  obtain ⟨N0, hs⟩ := hs
  refine ⟨N0 + 1, fun m hm => ?_⟩
  obtain ⟨k, rfl⟩ : ∃ k, m = k + 1 := ⟨m - 1, by omega⟩
  beta_reduce
  rw [parse_expr_vardef_list]
  have hsk := hs k (by omega)
  clear hs
  simp only [] at hsk
  rcases h with h | h <;> simp_all [parse_expr_form_binary_ok, parse_expr_form_unary_ok, lex_match_fst, lex_match_snd_of_ne]

theorem parse_expr_vardef_list_step (s s1 s2 : pstate) (e rht : expr_t)
    (he : e.is_null = false)
    (htok : lex_token s1 = CH_COMMA)
    (hr : rht.is_null = false)
    (hh : s2.heap = [])
    (hs : Ev (fun m => parse_expr_vardef m s) (e, s1))
    (hw : Ev (fun m => parse_expr_vardef_list m (lex_match s1 CH_COMMA).2) (rht, s2))
    : Ev (fun m => parse_expr_vardef_list m s) (expr_binary EXPR_COMMA e rht, s2.allocs 1) := by
  obtain ⟨N0, hs⟩ := hs
  obtain ⟨N1, hw⟩ := hw
  refine ⟨N0 + N1 + 1, fun m hm => ?_⟩
  obtain ⟨k, rfl⟩ : ∃ k, m = k + 1 := ⟨m - 1, by omega⟩
  beta_reduce
  rw [parse_expr_vardef_list]
  have hsk := hs k (by omega)
  have hwk := hw k (by omega)
  clear hs hw
  simp only [] at hsk hwk
  simp_all [parse_expr_form_binary_ok, parse_expr_form_unary_ok, lex_match_fst, lex_match_snd_of_ne]

theorem parse_expr_vardef_list_step_null (s s1 s2 : pstate) (e : expr_t)
    (he : e.is_null = false)
    (htok : lex_token s1 = CH_COMMA)
    (hs : Ev (fun m => parse_expr_vardef m s) (e, s1))
    (hw : Ev (fun m => parse_expr_vardef_list m (lex_match s1 CH_COMMA).2) (expr_t.NULL, s2))
    : Ev (fun m => parse_expr_vardef_list m s) (expr_t.NULL, ast_expr_release e s2) := by
  obtain ⟨N0, hs⟩ := hs
  obtain ⟨N1, hw⟩ := hw
  refine ⟨N0 + N1 + 1, fun m hm => ?_⟩
  obtain ⟨k, rfl⟩ : ∃ k, m = k + 1 := ⟨m - 1, by omega⟩
  beta_reduce
  rw [parse_expr_vardef_list]
  have hsk := hs k (by omega)
  have hwk := hw k (by omega)
  clear hs hw
  simp only [] at hsk hwk
  simp_all [parse_expr_form_binary_ok, parse_expr_form_unary_ok, lex_match_fst, lex_match_snd_of_ne, parse_expr_form_binary]

/-! ### Statements -/

theorem parse_stmt_var_ok (s s2 : pstate) (e : expr_t)
    (he : e.is_null = false)
    (hh : s2.heap = [])
    (hs : Ev (fun m => parse_expr_vardef_list m (lex_match s TOK_VAR).2) (e, s2))
    : Ev (fun m => parse_stmt_var m s) (stmt_1 STMT_VAR e, (lex_match s2 CH_SEMI).2.allocs 1) := by
  obtain ⟨N0, hs⟩ := hs
  refine ⟨N0 + 1, fun m hm => ?_⟩
  obtain ⟨k, rfl⟩ : ∃ k, m = k + 1 := ⟨m - 1, by omega⟩
  beta_reduce
  rw [parse_stmt_var]
  have hsk := hs k (by omega)
  clear hs
  simp only [] at hsk
  simp_all [parse_expr_form_binary_ok, parse_expr_form_unary_ok, lex_match_fst, lex_match_snd_of_ne, ast_stmt_alloc_1, heap_alloc_nil]

theorem parse_stmt_var_null (s s2 : pstate)
    (hs : Ev (fun m => parse_expr_vardef_list m (lex_match s TOK_VAR).2) (expr_t.NULL, s2))
    : Ev (fun m => parse_stmt_var m s) (stmt_t.NULL, s2) := by
  obtain ⟨N0, hs⟩ := hs
  refine ⟨N0 + 1, fun m hm => ?_⟩
  obtain ⟨k, rfl⟩ : ∃ k, m = k + 1 := ⟨m - 1, by omega⟩
  beta_reduce
  rw [parse_stmt_var]
  have hsk := hs k (by omega)
  clear hs
  simp only [] at hsk
  simp_all [parse_expr_form_binary_ok, parse_expr_form_unary_ok, lex_match_fst, lex_match_snd_of_ne]

theorem parse_stmt_of_var (s : pstate) (r : stmt_t × pstate)
    (h : lex_token s = TOK_VAR)
    (hs : Ev (fun m => parse_stmt_var m s) r)
    : Ev (fun m => parse_stmt m s) r := by
  obtain ⟨N0, hs⟩ := hs
  refine ⟨N0 + 1, fun m hm => ?_⟩
  obtain ⟨k, rfl⟩ : ∃ k, m = k + 1 := ⟨m - 1, by omega⟩
  beta_reduce
  rw [parse_stmt]
  have hsk := hs k (by omega)
  clear hs
  simp only [] at hsk
  simp_all [parse_expr_form_binary_ok, parse_expr_form_unary_ok, lex_match_fst, lex_match_snd_of_ne]

theorem parse_stmt_block_of_stmt (s s1 : pstate) (st : stmt_t)
    (h : lex_token s ≠ CH_LBRACE)
    (hs : Ev (fun m => parse_stmt m s) (st, s1))
    : Ev (fun m => parse_stmt_block m s) (st, s1) := by
  obtain ⟨N0, hs⟩ := hs
  refine ⟨N0 + 1, fun m hm => ?_⟩
  obtain ⟨k, rfl⟩ : ∃ k, m = k + 1 := ⟨m - 1, by omega⟩
  beta_reduce
  rw [parse_stmt_block]
  have hsk := hs k (by omega)
  clear hs
  simp only [] at hsk
  simp_all [parse_expr_form_binary_ok, parse_expr_form_unary_ok, lex_match_fst, lex_match_snd_of_ne]
  intro hn
  cases st <;> simp_all

theorem parse_stmt_block_braced (s s1 : pstate) (st : stmt_t)
    (h : lex_token s = CH_LBRACE)
    (hn : st.is_null = false)
    (hc : lex_token s1 = CH_RBRACE)
    (hs : Ev (fun m => parse_stmt_list m (lex_match s CH_LBRACE).2) (st, s1))
    : Ev (fun m => parse_stmt_block m s) (st, (lex_match s1 CH_RBRACE).2) := by
  obtain ⟨N0, hs⟩ := hs
  refine ⟨N0 + 1, fun m hm => ?_⟩
  obtain ⟨k, rfl⟩ : ∃ k, m = k + 1 := ⟨m - 1, by omega⟩
  beta_reduce
  rw [parse_stmt_block]
  have hsk := hs k (by omega)
  clear hs
  simp only [] at hsk
  simp_all [parse_expr_form_binary_ok, parse_expr_form_unary_ok, lex_match_fst, lex_match_snd_of_ne]

theorem parse_expr_funcdef_block_ok (name param : expr_t) (s s1 : pstate) (block : stmt_t)
    (hb : block.is_null = false)
    (hh : s1.heap = [])
    (hs : Ev (fun m => parse_stmt_block m s) (block, s1))
    : Ev (fun m => parse_expr_funcdef_block m name param s) (expr_binary EXPR_FUNCDEF (if name.is_null = false ∨ param.is_null = false then expr_binary EXPR_FUNCHEAD name param else expr_t.NULL) (expr_proc block), s1.allocs (if name.is_null = false ∨ param.is_null = false then 3 else 2)) := by
  obtain ⟨N0, hs⟩ := hs
  refine ⟨N0 + 1, fun m hm => ?_⟩
  obtain ⟨k, rfl⟩ : ∃ k, m = k + 1 := ⟨m - 1, by omega⟩
  beta_reduce
  rw [parse_expr_funcdef_block]
  have hsk := hs k (by omega)
  clear hs
  simp only [] at hsk
  simp_all [parse_expr_form_binary_ok, parse_expr_form_unary_ok, lex_match_fst, lex_match_snd_of_ne, parse_expr_funcdef_proc, ast_expr_alloc_proc, ast_expr_alloc_type, heap_alloc_nil, ast_expr_set_lft, ast_expr_set_rht]
  split_ifs <;> rfl

/-! ### A factor and what follows it -/

theorem parse_expr_factor_start {n : Nat} {s s1 : pstate} {e : expr_t}
    (h : parse_expr_factor n s = some (e, s1)) (he : e.is_null = false) :
    lex_token s = CH_LPAREN ∨ lex_token s = CH_LBRACKET ∨ lex_token s = CH_LBRACE ∨
    lex_token s = TOK_DEF ∨ lex_token s = TOK_ID ∨ lex_token s = TOK_NUM ∨
    lex_token s = TOK_STR ∨ lex_token s = TOK_UND ∨ lex_token s = TOK_NAN ∨
    lex_token s = TOK_NULL ∨ lex_token s = TOK_TRUE ∨ lex_token s = TOK_FALSE := by
  cases n with
  | zero => simp [parse_expr_factor] at h
  | succ n =>
    rw [parse_expr_factor] at h
    by_contra hc
    simp only [not_or] at hc
    obtain ⟨c1, c2, c3, c4, c5, c6, c7, c8, c9, c10, c11, c12⟩ := hc
    simp only [c1, c2, c3, c4, c5, c6, c7, c8, c9, c10, c11, c12, if_false] at h
    split_ifs at h <;>
    · have h1 : expr_t.NULL = e := congrArg Prod.fst (Option.some.inj h)
      rw [← h1] at he
      simp at he

theorem pstate_eta_cb (s : pstate) (toks : List token_t) (hcb : s.cb = true)
    (hs : s.toks = toks) :
    s = { toks := toks, eof_line := s.eof_line, eof_col := s.eof_col, cb := true,
          events := s.events, heap := s.heap, allocated := s.allocated,
          released := s.released } := by
  cases s
  simp_all

/-- A statement cannot start with `.`: `parse_stmt` reports `InvalidToken` there. -/
theorem parse_stmt_at_dot (s : pstate) (hcb : s.cb = true) (h : lex_token s = CH_DOT) :
    Ev (fun m => parse_stmt m s) (stmt_t.NULL, parse_fail s ERR_InvalidToken) := by
  cases hs : s.toks with
  | nil => simp [lex_token, hs] at h
  | cons u rest =>
    have hu : u.type = CH_DOT := by simpa [lex_token, hs] using h
    rw [pstate_eta_cb s _ hcb hs, token_eta u _ hu]
    exact ⟨20, fun m hm => parse_stmt_fuel_le hm _ _ rfl⟩

theorem lex_match_semicolons_of_ne (s : pstate) (h : lex_token s ≠ CH_SEMI) :
    ({ s with toks := lex_match_semicolons s.toks } : pstate) = s := by
  cases s with
  | mk toks a b c d e f g =>
    cases toks with
    | nil => rfl
    | cons t r =>
      have : ¬ t.type = 59 := by simpa [lex_token] using h
      simp [lex_match_semicolons, this]

/-! ### Declarator lists -/

theorem reads_vardef_ev {s s1 : pstate} {d : expr_t} (h : reads_vardef s d s1)
    (hh : s.heap = []) :
    d.is_null = false ∧ s1.heap = [] ∧ s1.cb = s.cb ∧
      Ev (fun m => parse_expr_vardef m s) (d, s1) := by
  cases h with
  | plain _ hid hne =>
    exact ⟨rfl, by simpa using hh, by simp,
      parse_expr_vardef_plain s _ _ hid (by simpa using hne) (parse_expr_factor_id s hid hh)⟩
  | init n _ s2 e hid heq hpar hne =>
    have i := ((all_inv n).parse_expr_assign _ e s2 hpar).1
    have hh2 : s2.heap = [] := heap_nil_of_eff i (by simpa using hh)
    refine ⟨rfl, by simpa using hh2, by simpa using i.cb, ?_⟩
    exact parse_expr_vardef_init s _ s2 _ e hid rfl (by simpa using heq) (is_null_of_ne hne) hh2
      (parse_expr_factor_id s hid hh) (parse_expr_assign_ev hpar)

theorem reads_vardefs_ev {s s1 : pstate} {ds : List expr_t} (h : reads_vardefs s ds s1)
    (hh : s.heap = []) :
    (right_chain EXPR_COMMA ds).is_null = false ∧ s1.heap = [] ∧
      Ev (fun m => parse_expr_vardef_list m s) (right_chain EXPR_COMMA ds, s1) := by
  induction h with
  | last s s1 d hd htok =>
    obtain ⟨hn, hh1, _, hev⟩ := reads_vardef_ev hd hh
    exact ⟨hn, hh1, parse_expr_vardef_list_end s s1 d (Or.inr htok) hev⟩
  | more s s1 s2 d ds hd htok hrest ih =>
    obtain ⟨hn, hh1, _, hev⟩ := reads_vardef_ev hd hh
    obtain ⟨hrn, hh2, hrev⟩ := ih (by simpa using hh1)
    cases ds with
    | nil => cases hrest
    | cons d2 ds =>
      exact ⟨rfl, by simpa using hh2,
        parse_expr_vardef_list_step s s1 s2 d _ hn htok hrn hh2 hev hrev⟩

theorem reads_vardefs_bad_ev {s sb : pstate} (h : reads_vardefs_bad s sb) (hh : s.heap = [])
    (hcb : s.cb = true) :
    ∃ s', Ev (fun m => parse_expr_vardef_list m s) (expr_t.NULL, s') ∧
      s'.events = sb.events ++
        [PARSE_FAIL ERR_InvalidToken (lex_position sb).1 (lex_position sb).2] := by
  induction h with
  | bad s hne =>
    exact ⟨parse_fail s ERR_InvalidToken,
      parse_expr_vardef_list_end s _ _ (Or.inl rfl) (parse_expr_vardef_bad s hne),
      by simp [parse_fail, hcb]⟩
  | more s s1 sb d hd htok hrest ih =>
    obtain ⟨hn, hh1, hcb1, hev⟩ := reads_vardef_ev hd hh
    obtain ⟨s2, hrev, hevents⟩ := ih (by simpa using hh1) (by simpa [hcb1] using hcb)
    exact ⟨ast_expr_release d s2,
      parse_expr_vardef_list_step_null s s1 s2 d hn htok hev hrev, by simpa using hevents⟩

/-! ### The `if` statement -/

theorem parse_stmt_block_heap {n : Nat} {s s1 : pstate} {st : stmt_t}
    (h : parse_stmt_block n s = some (st, s1)) (hs : s.heap = []) : s1.heap = [] :=
  heap_nil_of_eff ((all_inv n).parse_stmt_block s st s1 h).1 hs

theorem stmt_is_null_of_ne {st : stmt_t} (h : st ≠ stmt_t.NULL) : st.is_null = false := by
  cases st <;> simp_all

theorem parse_expr_funcdef_named_params (s s2 s5 : pstate) (name param : expr_t) (r : expr_t × pstate)
    (hid : lex_token (lex_match s TOK_DEF).2 = TOK_ID)
    (hnn : name.is_null = false)
    (hl : lex_token s2 = CH_LPAREN)
    (hp : lex_token (lex_match s2 CH_LPAREN).2 ≠ CH_RPAREN)
    (hpn : param.is_null = false)
    (hc : lex_token s5 = CH_RPAREN)
    (hn : Ev (fun m => parse_expr_factor m (lex_match s TOK_DEF).2) (name, s2))
    (hv : Ev (fun m => parse_expr_vardef_list m (lex_match s2 CH_LPAREN).2) (param, s5))
    (hb : Ev (fun m => parse_expr_funcdef_block m name param (lex_match s5 CH_RPAREN).2) r)
    : Ev (fun m => parse_expr_funcdef m s) r := by
  obtain ⟨N0, hn⟩ := hn
  obtain ⟨N1, hv⟩ := hv
  obtain ⟨N2, hb⟩ := hb
  refine ⟨N0 + N1 + N2 + 1, fun m hm => ?_⟩
  obtain ⟨k, rfl⟩ : ∃ k, m = k + 1 := ⟨m - 1, by omega⟩
  beta_reduce
  rw [parse_expr_funcdef]
  have hnk := hn k (by omega)
  have hvk := hv k (by omega)
  have hbk := hb k (by omega)
  clear hn hv hb
  simp only [] at hnk hvk hbk
  simp_all [parse_expr_form_binary_ok, parse_expr_form_unary_ok, lex_match_fst, lex_match_snd_of_ne]

theorem parse_expr_funcdef_named_noparams (s s2 s5 : pstate) (name param : expr_t) (r : expr_t × pstate)
    (hid : lex_token (lex_match s TOK_DEF).2 = TOK_ID)
    (hnn : name.is_null = false)
    (hl : lex_token s2 = CH_LPAREN)
    (hp : lex_token (lex_match s2 CH_LPAREN).2 = CH_RPAREN)
    (hpn : param = expr_t.NULL)
    (hn : Ev (fun m => parse_expr_factor m (lex_match s TOK_DEF).2) (name, s2))
    (hb : Ev (fun m => parse_expr_funcdef_block m name param (lex_match (lex_match s2 CH_LPAREN).2 CH_RPAREN).2) r)
    : Ev (fun m => parse_expr_funcdef m s) r := by
  obtain ⟨N0, hn⟩ := hn
  obtain ⟨N1, hb⟩ := hb
  refine ⟨N0 + N1 + 1, fun m hm => ?_⟩
  obtain ⟨k, rfl⟩ : ∃ k, m = k + 1 := ⟨m - 1, by omega⟩
  beta_reduce
  rw [parse_expr_funcdef]
  have hnk := hn k (by omega)
  have hbk := hb k (by omega)
  clear hn hb
  simp only [] at hnk hbk
  simp_all [parse_expr_form_binary_ok, parse_expr_form_unary_ok, lex_match_fst, lex_match_snd_of_ne]

theorem parse_expr_funcdef_anon_params (s s2 s5 : pstate) (name param : expr_t) (r : expr_t × pstate)
    (hid : lex_token (lex_match s TOK_DEF).2 ≠ TOK_ID)
    (hnn : name = expr_t.NULL)
    (hs2 : s2 = (lex_match s TOK_DEF).2)
    (hl : lex_token s2 = CH_LPAREN)
    (hp : lex_token (lex_match s2 CH_LPAREN).2 ≠ CH_RPAREN)
    (hpn : param.is_null = false)
    (hc : lex_token s5 = CH_RPAREN)
    (hv : Ev (fun m => parse_expr_vardef_list m (lex_match s2 CH_LPAREN).2) (param, s5))
    (hb : Ev (fun m => parse_expr_funcdef_block m name param (lex_match s5 CH_RPAREN).2) r)
    : Ev (fun m => parse_expr_funcdef m s) r := by
  obtain ⟨N0, hv⟩ := hv
  obtain ⟨N1, hb⟩ := hb
  refine ⟨N0 + N1 + 1, fun m hm => ?_⟩
  obtain ⟨k, rfl⟩ : ∃ k, m = k + 1 := ⟨m - 1, by omega⟩
  beta_reduce
  rw [parse_expr_funcdef]
  have hvk := hv k (by omega)
  have hbk := hb k (by omega)
  clear hv hb
  simp only [] at hvk hbk
  simp_all [parse_expr_form_binary_ok, parse_expr_form_unary_ok, lex_match_fst, lex_match_snd_of_ne]

theorem parse_expr_funcdef_anon_noparams (s s2 s5 : pstate) (name param : expr_t) (r : expr_t × pstate)
    (hid : lex_token (lex_match s TOK_DEF).2 ≠ TOK_ID)
    (hnn : name = expr_t.NULL)
    (hs2 : s2 = (lex_match s TOK_DEF).2)
    (hl : lex_token s2 = CH_LPAREN)
    (hp : lex_token (lex_match s2 CH_LPAREN).2 = CH_RPAREN)
    (hpn : param = expr_t.NULL)
    (hb : Ev (fun m => parse_expr_funcdef_block m name param (lex_match (lex_match s2 CH_LPAREN).2 CH_RPAREN).2) r)
    : Ev (fun m => parse_expr_funcdef m s) r := by
  obtain ⟨N0, hb⟩ := hb
  refine ⟨N0 + 1, fun m hm => ?_⟩
  obtain ⟨k, rfl⟩ : ∃ k, m = k + 1 := ⟨m - 1, by omega⟩
  beta_reduce
  rw [parse_expr_funcdef]
  have hbk := hb k (by omega)
  clear hb
  simp only [] at hbk
  simp_all [parse_expr_form_binary_ok, parse_expr_form_unary_ok, lex_match_fst, lex_match_snd_of_ne]

theorem parse_expr_factor_of_funcdef (s : pstate) (r : expr_t × pstate)
    (h : lex_token s = TOK_DEF)
    (hs : Ev (fun m => parse_expr_funcdef m s) r)
    : Ev (fun m => parse_expr_factor m s) r := by
  obtain ⟨N0, hs⟩ := hs
  refine ⟨N0 + 1, fun m hm => ?_⟩
  obtain ⟨k, rfl⟩ : ∃ k, m = k + 1 := ⟨m - 1, by omega⟩
  beta_reduce
  rw [parse_expr_factor]
  have hsk := hs k (by omega)
  clear hs
  simp only [] at hsk
  simp_all [parse_expr_form_binary_ok, parse_expr_form_unary_ok, lex_match_fst, lex_match_snd_of_ne]

theorem parse_expr_funcdef_of_parts (s s2 s4 s5 : pstate) (name param : expr_t)
    (block : stmt_t) (nb : Nat) (hh : s.heap = [])
    (hname : reads_name (lex_match s TOK_DEF).2 name s2) (hl : lex_token s2 = CH_LPAREN)
    (hparam : reads_params (lex_match s2 CH_LPAREN).2 param s4)
    (hb : parse_stmt_block nb s4 = some (block, s5)) (hbn : block ≠ stmt_t.NULL) :
    Ev (fun m => parse_expr_funcdef m s)
      (funcdef_tree name param block,
        s5.allocs (if name.is_null && param.is_null then 2 else 3)) := by
  have hh1 : (lex_match s TOK_DEF).2.heap = [] := by simpa using hh
  have hh2 : s2.heap = [] := by
    cases hname with
    | named hid => simpa using hh1
    | anonymous hid => exact hh1
  have hh3 : (lex_match s2 CH_LPAREN).2.heap = [] := by simpa using hh2
  have hh4 : s4.heap = [] := by
    cases hparam with
    | none hc => simpa using hh3
    | some s1 ds hne hds hc => simpa using (reads_vardefs_ev hds hh3).2.1
  have hh5 : s5.heap = [] := parse_stmt_block_heap hb hh4
  have hblock := parse_expr_funcdef_block_ok name param s4 s5 block (stmt_is_null_of_ne hbn) hh5
    (parse_stmt_block_ev hb)
  have hres : (expr_binary EXPR_FUNCDEF
        (if name.is_null = false ∨ param.is_null = false then expr_binary EXPR_FUNCHEAD name param
         else expr_t.NULL) (expr_proc block),
        s5.allocs (if name.is_null = false ∨ param.is_null = false then 3 else 2))
      = (funcdef_tree name param block,
          s5.allocs (if name.is_null && param.is_null then 2 else 3)) := by
    unfold funcdef_tree
    cases name.is_null <;> cases param.is_null <;> simp
  rw [hres] at hblock
  cases hname with
  | named hid =>
    have hf := parse_expr_factor_id _ hid hh1
    cases hparam with
    | none hc =>
      exact parse_expr_funcdef_named_noparams s _ s5 (expr_leaf EXPR_ID _) _ _ hid rfl hl hc rfl hf hblock
    | some s1 ds hne hds hc =>
      obtain ⟨hn, _, hev⟩ := reads_vardefs_ev hds hh3
      exact parse_expr_funcdef_named_params s _ s1 (expr_leaf EXPR_ID _) _ _ hid rfl hl hne hn hc hf hev hblock
  | anonymous hid =>
    cases hparam with
    | none hc =>
      exact parse_expr_funcdef_anon_noparams s _ s5 _ _ _ hid rfl rfl hl hc rfl hblock
    | some s1 ds hne hds hc =>
      obtain ⟨hn, _, hev⟩ := reads_vardefs_ev hds hh3
      exact parse_expr_funcdef_anon_params s _ s1 _ _ _ hid rfl rfl hl hne hn hc hev hblock

/-! ### The tag of numbers -/

theorem TAG_INFINITE_eq : TAG_INFINITE = 0x7FF <<< 52 := by decide

theorem testBit_TAG_INFINITE (j : Nat) :
    TAG_INFINITE.testBit j = (decide (52 ≤ j) && decide (j < 63)) := by
  rw [TAG_INFINITE_eq, Nat.testBit_shiftLeft]
  have h : (0x7FF : Nat) = 2 ^ 11 - 1 := by decide
  rw [h, Nat.testBit_two_pow_sub_one]
  by_cases h1 : 52 ≤ j <;> by_cases h2 : j < 63 <;> simp [h1, h2] <;> omega

theorem and_TAG_INFINITE_iff (v : Nat) :
    v &&& TAG_INFINITE = TAG_INFINITE ↔ (v >>> 52) % 2 ^ 11 = 0x7FF := by
  constructor
  · intro h
    apply Nat.eq_of_testBit_eq
    intro i
    have h7 : (0x7FF : Nat) = 2 ^ 11 - 1 := by decide
    rw [h7, Nat.testBit_two_pow_sub_one, Nat.testBit_mod_two_pow, Nat.testBit_shiftRight]
    by_cases hi : i < 11
    · have := congrArg (fun x => Nat.testBit x (52 + i)) h
      simp only [Nat.testBit_and, testBit_TAG_INFINITE] at this
      have h1 : decide (52 ≤ 52 + i) = true := by simp
      have h2 : decide (52 + i < 63) = true := by simp; omega
      rw [h1, h2] at this
      simpa [hi] using this
    · simp [hi]
  · intro h
    apply Nat.eq_of_testBit_eq
    intro j
    rw [Nat.testBit_and, testBit_TAG_INFINITE]
    by_cases h1 : 52 ≤ j <;> by_cases h2 : j < 63 <;> simp [h1, h2]
    have := congrArg (fun x => Nat.testBit x (j - 52)) h
    have h7 : (0x7FF : Nat) = 2 ^ 11 - 1 := by decide
    simp only [h7, Nat.testBit_two_pow_sub_one, Nat.testBit_mod_two_pow,
      Nat.testBit_shiftRight] at this
    have e : 52 + (j - 52) = j := by omega
    rw [e] at this
    have h3 : decide (j - 52 < 11) = true := by simp; omega
    rw [h3] at this
    simpa using this

/-! ### The tag mask and the tagged predicates -/

theorem TAG_MASK_eq : TAG_MASK = (2 ^ 16 - 1) <<< 48 := by decide

theorem VAR_MASK_eq : VAR_MASK = 2 ^ 48 - 1 := by decide

theorem and_VAR_MASK (v : Nat) : v &&& VAR_MASK = v % 2 ^ 48 := by
  rw [VAR_MASK_eq, Nat.and_pow_two_sub_one_eq_mod]

theorem and_TAG_MASK (v : Nat) : v &&& TAG_MASK = val_top16 v * 2 ^ 48 := by
  rw [TAG_MASK_eq, ← Nat.shiftLeft_eq]
  apply Nat.eq_of_testBit_eq
  intro j
  simp only [Nat.testBit_and, Nat.testBit_shiftLeft, Nat.testBit_two_pow_sub_one, val_top16,
    Nat.testBit_mod_two_pow, Nat.testBit_shiftRight]
  by_cases h1 : 48 ≤ j
  · have e : 48 + (j - 48) = j := by omega
    by_cases h2 : j - 48 < 16 <;> simp [h1, h2, e]
  · simp [h1]

theorem val_top16_lt (v : Nat) : val_top16 v < 2 ^ 16 := Nat.mod_lt _ (by decide)

/-- A tag test is a test of bits 63..48. -/
theorem and_TAG_MASK_eq_iff (v k : Nat) :
    (v &&& TAG_MASK) = k * 2 ^ 48 ↔ val_top16 v = k := by
  rw [and_TAG_MASK]
  constructor
  · intro h
    exact Nat.eq_of_mul_eq_mul_right (by decide : 0 < 2 ^ 48) h
  · intro h
    rw [h]

theorem exponent_of_top16 (v : Nat) : (v >>> 52) % 2 ^ 11 = (val_top16 v / 16) % 2 ^ 11 := by
  simp only [val_top16, Nat.shiftRight_eq_div_pow]
  omega

theorem val_is_number_iff (v : Nat) :
    val_is_number v = true ↔ (val_top16 v / 16) % 2 ^ 11 ≠ 0x7FF := by
  rw [← exponent_of_top16]
  simp only [val_is_number, bne_iff_ne, ne_eq]
  exact not_congr (and_TAG_INFINITE_iff v)

theorem val_is_undefined_iff (v : Nat) : val_is_undefined v = true ↔ val_top16 v = 0xFFF6 := by
  simp only [val_is_undefined, beq_iff_eq]
  exact and_TAG_MASK_eq_iff v 0xFFF6
theorem val_is_nan_iff (v : Nat) : val_is_nan v = true ↔ val_top16 v = 0xFFF8 := by
  simp only [val_is_nan, beq_iff_eq]
  exact and_TAG_MASK_eq_iff v 0xFFF8
theorem val_is_boolean_iff (v : Nat) : val_is_boolean v = true ↔ val_top16 v = 0xFFF7 := by
  simp only [val_is_boolean, beq_iff_eq]
  exact and_TAG_MASK_eq_iff v 0xFFF7
theorem val_is_script_iff (v : Nat) : val_is_script v = true ↔ val_top16 v = 0xFFF1 := by
  simp only [val_is_script, beq_iff_eq]
  exact and_TAG_MASK_eq_iff v 0xFFF1
theorem val_is_native_iff (v : Nat) : val_is_native v = true ↔ val_top16 v = 0xFFF2 := by
  simp only [val_is_native, beq_iff_eq]
  exact and_TAG_MASK_eq_iff v 0xFFF2
theorem val_is_static_string_iff (v : Nat) :
    val_is_static_string v = true ↔ val_top16 v = 0xFFF3 := by
  simp only [val_is_static_string, beq_iff_eq]
  exact and_TAG_MASK_eq_iff v 0xFFF3
theorem val_is_inline_string_iff (v : Nat) :
    val_is_inline_string v = true ↔ val_top16 v = 0xFFF4 := by
  simp only [val_is_inline_string, beq_iff_eq]
  exact and_TAG_MASK_eq_iff v 0xFFF4
theorem val_is_owned_string_iff (v : Nat) :
    val_is_owned_string v = true ↔ val_top16 v = 0xFFF5 := by
  simp only [val_is_owned_string, beq_iff_eq]
  exact and_TAG_MASK_eq_iff v 0xFFF5
theorem val_is_object_iff (v : Nat) : val_is_object v = true ↔ val_top16 v = 0xFFF9 := by
  simp only [val_is_object, beq_iff_eq]
  exact and_TAG_MASK_eq_iff v 0xFFF9
theorem val_is_array_iff (v : Nat) : val_is_array v = true ↔ val_top16 v = 0xFFFA := by
  simp only [val_is_array, beq_iff_eq]
  exact and_TAG_MASK_eq_iff v 0xFFFA
theorem val_is_dictionary_iff (v : Nat) :
    val_is_dictionary v = true ↔ val_top16 v = 0xFFFB := by
  simp only [val_is_dictionary, beq_iff_eq]
  exact and_TAG_MASK_eq_iff v 0xFFFB
theorem val_is_buffer_iff (v : Nat) : val_is_buffer v = true ↔ val_top16 v = 0xFFFC := by
  simp only [val_is_buffer, beq_iff_eq]
  exact and_TAG_MASK_eq_iff v 0xFFFC
theorem val_is_reference_iff (v : Nat) : val_is_reference v = true ↔ val_top16 v = 0xFFFE := by
  simp only [val_is_reference, beq_iff_eq]
  exact and_TAG_MASK_eq_iff v 0xFFFE

/-- A tag and a 48-bit payload put together: bits 63..48 are the tag's, bits 47..0
the payload's. -/
theorem tag_or_payload (k p : Nat) (hk : k < 2 ^ 16) (hp : p < 2 ^ 48) :
    val_top16 (k * 2 ^ 48 ||| p) = k ∧ (k * 2 ^ 48 ||| p) % 2 ^ 48 = p := by
  have e : k * 2 ^ 48 ||| p = 2 ^ 48 * k + p := by
    rw [Nat.mul_comm]
    exact (Nat.mul_add_lt_is_or hp k).symm
  rw [e]
  simp only [val_top16, Nat.shiftRight_eq_div_pow]
  omega

/-! ### The predicates as tests of bits 63..48 -/

theorem val_is_number_eq (v : Nat) :
    val_is_number v = decide ((val_top16 v / 16) % 2 ^ 11 ≠ 0x7FF) := by
  rw [Bool.eq_iff_iff, val_is_number_iff]; simp
theorem val_is_undefined_eq (v : Nat) : val_is_undefined v = decide (val_top16 v = 0xFFF6) := by
  rw [Bool.eq_iff_iff, val_is_undefined_iff]; simp
theorem val_is_nan_eq (v : Nat) : val_is_nan v = decide (val_top16 v = 0xFFF8) := by
  rw [Bool.eq_iff_iff, val_is_nan_iff]; simp
theorem val_is_boolean_eq (v : Nat) : val_is_boolean v = decide (val_top16 v = 0xFFF7) := by
  rw [Bool.eq_iff_iff, val_is_boolean_iff]; simp
theorem val_is_script_eq (v : Nat) : val_is_script v = decide (val_top16 v = 0xFFF1) := by
  rw [Bool.eq_iff_iff, val_is_script_iff]; simp
theorem val_is_native_eq (v : Nat) : val_is_native v = decide (val_top16 v = 0xFFF2) := by
  rw [Bool.eq_iff_iff, val_is_native_iff]; simp
theorem val_is_static_string_eq (v : Nat) :
    val_is_static_string v = decide (val_top16 v = 0xFFF3) := by
  rw [Bool.eq_iff_iff, val_is_static_string_iff]; simp
theorem val_is_inline_string_eq (v : Nat) :
    val_is_inline_string v = decide (val_top16 v = 0xFFF4) := by
  rw [Bool.eq_iff_iff, val_is_inline_string_iff]; simp
theorem val_is_owned_string_eq (v : Nat) :
    val_is_owned_string v = decide (val_top16 v = 0xFFF5) := by
  rw [Bool.eq_iff_iff, val_is_owned_string_iff]; simp
theorem val_is_object_eq (v : Nat) : val_is_object v = decide (val_top16 v = 0xFFF9) := by
  rw [Bool.eq_iff_iff, val_is_object_iff]; simp
theorem val_is_array_eq (v : Nat) : val_is_array v = decide (val_top16 v = 0xFFFA) := by
  rw [Bool.eq_iff_iff, val_is_array_iff]; simp
theorem val_is_dictionary_eq (v : Nat) :
    val_is_dictionary v = decide (val_top16 v = 0xFFFB) := by
  rw [Bool.eq_iff_iff, val_is_dictionary_iff]; simp
theorem val_is_buffer_eq (v : Nat) : val_is_buffer v = decide (val_top16 v = 0xFFFC) := by
  rw [Bool.eq_iff_iff, val_is_buffer_iff]; simp
theorem val_is_reference_eq (v : Nat) : val_is_reference v = decide (val_top16 v = 0xFFFE) := by
  rw [Bool.eq_iff_iff, val_is_reference_iff]; simp

theorem exponent_all_ones_eq (v : Nat) :
    exponent_all_ones v = decide ((val_top16 v / 16) % 2 ^ 11 = 0x7FF) := by
  rw [Bool.eq_iff_iff]
  simp only [exponent_all_ones, beq_iff_eq, decide_eq_true_eq, exponent_of_top16]

theorem val_leaf_predicates_eq (v : Nat) :
    val_leaf_predicates v = leaf_predicates_of_top16 (val_top16 v) := by
  simp only [val_leaf_predicates, leaf_predicates_of_top16, val_is_number_eq,
    val_is_undefined_eq, val_is_nan_eq, val_is_boolean_eq, val_is_script_eq, val_is_native_eq,
    val_is_static_string_eq, val_is_inline_string_eq, val_is_owned_string_eq, val_is_object_eq,
    val_is_array_eq, val_is_dictionary_eq, val_is_reference_eq]

theorem val_predicates_eq (v : Nat) :
    val_predicates v
      = leaf_predicates_of_top16 (val_top16 v) ++ [decide (val_top16 v = 0xFFFC)] := by
  rw [val_predicates, val_leaf_predicates_eq, val_is_buffer_eq]

/-- On a pattern of bits 63..48 that no tagged predicate accepts, only the number
test can hold. -/
theorem leaf_predicates_unassigned (t : Nat) (h : t ∉ assigned_tags) :
    leaf_predicates_of_top16 t
      = [decide ((t / 16) % 2 ^ 11 ≠ 0x7FF), false, false, false, false, false, false, false,
         false, false, false, false, false] ∧ decide (t = 0xFFFC) = false := by
  simp only [assigned_tags, List.mem_cons, List.mem_singleton, List.mem_nil_iff, not_or,
    or_false] at h
  simp [leaf_predicates_of_top16, h]

theorem count_predicates_of_top16 (t : Nat) :
    (leaf_predicates_of_top16 t ++ [decide (t = 0xFFFC)]).count true
      = if (t / 16) % 2 ^ 11 ≠ 0x7FF ∨ t ∈ assigned_tags then 1 else 0 := by
  by_cases hm : t ∈ assigned_tags
  · have hm' := hm
    simp only [assigned_tags, List.mem_cons, List.mem_singleton, List.mem_nil_iff,
      or_false] at hm'
    rcases hm' with h | h | h | h | h | h | h | h | h | h | h | h | h <;> subst h <;> decide
  · obtain ⟨h1, h2⟩ := leaf_predicates_unassigned t hm
    rw [h1, h2]
    by_cases he : (t / 16) % 2048 = 2047 <;> simp [he, hm]

theorem count_leaf_predicates_of_top16 (t : Nat) :
    (leaf_predicates_of_top16 t).count true ≤ 1 := by
  have h := count_predicates_of_top16 t
  rw [List.count_append] at h
  have : (leaf_predicates_of_top16 t).count true
      ≤ if (t / 16) % 2 ^ 11 ≠ 0x7FF ∨ t ∈ assigned_tags then 1 else 0 := by
    rw [← h]; exact Nat.le_add_right _ _
  split_ifs at this <;> omega

/-! ### Constructors -/

theorem of_intptr_payload (p : Int) (h0 : 0 ≤ p) (h1 : p < 2 ^ 48) :
    of_intptr p < 2 ^ 48 ∧ (of_intptr p : Int) = p := by
  unfold of_intptr
  have e : p % 2 ^ 64 = p := Int.emod_eq_of_lt h0 (by omega)
  rw [e]
  omega

theorem to_intptr_payload (x : Nat) (h : x < 2 ^ 48) : to_intptr x = x := by
  unfold to_intptr
  have e : x % 2 ^ 64 = x := Nat.mod_eq_of_lt (by omega)
  rw [e, if_pos (by omega)]

/-- A tagged value made of a tag pattern `k` of bits 63..48 and a 48-bit payload. -/
theorem tagged_value (k p : Nat) (hk : k < 2 ^ 16) (hp : p < 2 ^ 48) :
    val_leaf_predicates (k * 2 ^ 48 ||| p) = leaf_predicates_of_top16 k ∧
    high12_all_ones (k * 2 ^ 48 ||| p) = decide (k / 16 = 0xFFF) ∧
    val_2_intptr (k * 2 ^ 48 ||| p) = p ∧ val_2_reference (k * 2 ^ 48 ||| p) = p := by
  obtain ⟨h1, h2⟩ := tag_or_payload k p hk hp
  refine ⟨by rw [val_leaf_predicates_eq, h1], ?_, ?_, ?_⟩
  · rw [Bool.eq_iff_iff]
    simp only [high12_all_ones, beq_iff_eq, decide_eq_true_eq, Nat.shiftRight_eq_div_pow]
    have e : k * 2 ^ 48 ||| p = 2 ^ 48 * k + p := by
      rw [Nat.mul_comm]
      exact (Nat.mul_add_lt_is_or hp k).symm
    rw [e]
    omega
  · rw [val_2_intptr, and_VAR_MASK, h2, to_intptr_payload p hp]
  · rw [val_2_reference, and_VAR_MASK, h2]

theorem leaf_predicates_of_number (t : Nat) (h : (t / 16) % 2 ^ 11 ≠ 0x7FF) :
    leaf_predicates_of_top16 t
      = [true, false, false, false, false, false, false, false, false, false, false, false,
         false] := by
  have h6 : t ≠ 0xFFF6 := by rintro rfl; exact h (by decide)
  have h8 : t ≠ 0xFFF8 := by rintro rfl; exact h (by decide)
  have h7 : t ≠ 0xFFF7 := by rintro rfl; exact h (by decide)
  have h1 : t ≠ 0xFFF1 := by rintro rfl; exact h (by decide)
  have h2 : t ≠ 0xFFF2 := by rintro rfl; exact h (by decide)
  have h3 : t ≠ 0xFFF3 := by rintro rfl; exact h (by decide)
  have h4 : t ≠ 0xFFF4 := by rintro rfl; exact h (by decide)
  have h5 : t ≠ 0xFFF5 := by rintro rfl; exact h (by decide)
  have h9 : t ≠ 0xFFF9 := by rintro rfl; exact h (by decide)
  have hA : t ≠ 0xFFFA := by rintro rfl; exact h (by decide)
  have hB : t ≠ 0xFFFB := by rintro rfl; exact h (by decide)
  have hE : t ≠ 0xFFFE := by rintro rfl; exact h (by decide)
  simp only [leaf_predicates_of_top16, h, h6, h8, h7, h1, h2, h3, h4, h5, h9, hA, hB, hE,
    ne_eq, not_false_eq_true, decide_True, decide_False]

theorem val_is_true_of_number (mem : Nat → Nat) (v : Nat) (h : val_is_number v = true) :
    val_is_true mem v = if double_ne_zero v then 1 else 0 := by
  have ht := (val_is_number_iff v).1 h
  have hr : val_is_reference v = false := by
    rw [val_is_reference_eq, decide_eq_false_iff_not]
    intro e; rw [e] at ht; exact ht (by decide)
  have hb : val_is_boolean v = false := by
    rw [val_is_boolean_eq, decide_eq_false_iff_not]
    intro e; rw [e] at ht; exact ht (by decide)
  simp only [val_is_true, hr, hb, h, if_true, Bool.false_eq_true, if_false]
  split_ifs <;> rfl

theorem val_is_true_of_other (mem : Nat → Nat) (v : Nat) (hr : val_is_reference v = false)
    (hb : val_is_boolean v = false) (hn : val_is_number v = false) :
    val_is_true mem v = 0 := by
  simp only [val_is_true, hr, hb, hn, Bool.false_eq_true, if_false]
  rfl

theorem val_is_true_of_boolean (mem : Nat → Nat) (b : Int) :
    val_is_true mem (val_mk_boolean b) = if b = 0 then 0 else 1 := by
  unfold val_mk_boolean
  have r0 : val_is_reference (TAG_BOOLEAN ||| 0) = false := by decide
  have r1 : val_is_reference (TAG_BOOLEAN ||| 1) = false := by decide
  have b0 : val_is_boolean (TAG_BOOLEAN ||| 0) = true := by decide
  have b1 : val_is_boolean (TAG_BOOLEAN ||| 1) = true := by decide
  have p0 : to_int (val_2_intptr (TAG_BOOLEAN ||| 0)) = 0 := by decide
  have p1 : to_int (val_2_intptr (TAG_BOOLEAN ||| 1)) = 1 := by decide
  split_ifs <;> simp only [val_is_true, r0, r1, b0, b1, p0, p1, if_true, Bool.false_eq_true,
    if_false]

/-! ## Termination: the calculus of `Tot` -/

theorem Tot_some {α : Type} {x : α × pstate} {Q : α → pstate → Prop} (h : Q x.1 x.2) :
    Tot (some x) Q := ⟨x.1, x.2, rfl, h⟩

theorem Tot_bind {α β : Type} {m : Option (α × pstate)} {f : α × pstate → Option (β × pstate)}
    {Q : β → pstate → Prop} (h : Tot m (fun a s => Tot (f (a, s)) Q)) : Tot (m >>= f) Q := by
  obtain ⟨a, s, hm, hq⟩ := h
  rw [hm]
  exact hq

theorem Tot_ite {α : Type} {c : Prop} [Decidable c] {a b : Option (α × pstate)}
    {Q : α → pstate → Prop} (h1 : c → Tot a Q) (h2 : ¬ c → Tot b Q) :
    Tot (if c then a else b) Q := by
  by_cases h : c
  · simp only [h, if_true]; exact h1 h
  · simp only [h, if_false]; exact h2 h

theorem Tot_call {α : Type} {m : Option (α × pstate)} {Q Q' : α → pstate → Prop}
    (hq : ∀ a s', Q a s' → Q' a s') (h : Tot m Q) : Tot m Q' := by
  obtain ⟨a, s, hm, h⟩ := h
  exact ⟨a, s, hm, hq a s h⟩

/-! ## Termination: what the helpers leave of the stream -/

theorem remaining_lex_match (s : pstate) (t : Int) :
    remaining (lex_match s t).2 = remaining s - advance s t := by
  have h : remaining (lex_match s t).2 ≤ remaining s := by
    unfold lex_match remaining
    split_ifs
    · simp
    · exact Nat.le_refl _
  unfold advance
  omega

theorem advance_self (s : pstate) (h : lex_token s ≠ 0) :
    advance s (lex_token s) = 1 ∧ 1 ≤ remaining s := by
  unfold advance lex_match remaining
  rw [if_pos rfl]
  unfold lex_token at h
  cases ht : s.toks with
  | nil => rw [ht] at h; exact absurd rfl h
  | cons a l => simp

theorem advance_of_match (s : pstate) (t : Int) (h : (lex_match s t).1 = true) (ht : t ≠ 0) :
    advance s t = 1 ∧ 1 ≤ remaining s := by
  have e : lex_token s = t := by
    unfold lex_match at h
    split_ifs at h with hc
    exact hc
  subst e
  exact advance_self s ht

@[simp] theorem toks_parse_fail (err : ERR_CODE) (s : pstate) : (parse_fail s err).toks = s.toks := by
  unfold parse_fail; split_ifs <;> rfl

@[simp] theorem toks_parse_eof (s : pstate) : (parse_eof s).toks = s.toks := by
  unfold parse_eof; split_ifs <;> rfl

@[simp] theorem toks_ast_expr_release (e : expr_t) (s : pstate) : (ast_expr_release e s).toks = s.toks := by
  rfl

@[simp] theorem toks_ast_stmt_release (st : stmt_t) (s : pstate) : (ast_stmt_release st s).toks = s.toks := by
  rfl

@[simp] theorem toks_heap_alloc (s : pstate) : (heap_alloc s).2.toks = s.toks := by
  unfold heap_alloc; split <;> rfl

@[simp] theorem toks_ast_expr_alloc_type (ty : EXPR_TYPE) (s : pstate) : (ast_expr_alloc_type ty s).2.toks = s.toks := by
  unfold ast_expr_alloc_type; split_ifs <;> exact toks_heap_alloc s

@[simp] theorem toks_ast_expr_alloc_str (ty : EXPR_TYPE) (tx : String) (s : pstate) : (ast_expr_alloc_str ty tx s).2.toks = s.toks := by
  unfold ast_expr_alloc_str; split_ifs <;> exact toks_heap_alloc s

@[simp] theorem toks_ast_expr_alloc_num (ty : EXPR_TYPE) (tx : String) (s : pstate) : (ast_expr_alloc_num ty tx s).2.toks = s.toks := by
  unfold ast_expr_alloc_num; split_ifs <;> exact toks_heap_alloc s

@[simp] theorem toks_ast_expr_alloc_proc (b : stmt_t) (s : pstate) : (ast_expr_alloc_proc b s).2.toks = s.toks := by
  unfold ast_expr_alloc_proc; split_ifs <;> exact toks_heap_alloc s

@[simp] theorem toks_ast_stmt_alloc_0 (ty : STMT_TYPE) (s : pstate) : (ast_stmt_alloc_0 ty s).2.toks = s.toks := by
  unfold ast_stmt_alloc_0; split_ifs <;> exact toks_heap_alloc s

@[simp] theorem toks_ast_stmt_alloc_1 (ty : STMT_TYPE) (e : expr_t) (s : pstate) : (ast_stmt_alloc_1 ty e s).2.toks = s.toks := by
  unfold ast_stmt_alloc_1; split_ifs <;> exact toks_heap_alloc s

@[simp] theorem toks_ast_stmt_alloc_2 (ty : STMT_TYPE) (e : expr_t) (b : stmt_t) (s : pstate) : (ast_stmt_alloc_2 ty e b s).2.toks = s.toks := by
  unfold ast_stmt_alloc_2; split_ifs <;> exact toks_heap_alloc s

@[simp] theorem toks_ast_stmt_alloc_3 (ty : STMT_TYPE) (e : expr_t) (b o : stmt_t) (s : pstate) : (ast_stmt_alloc_3 ty e b o s).2.toks = s.toks := by
  unfold ast_stmt_alloc_3; split_ifs <;> exact toks_heap_alloc s

@[simp] theorem toks_parse_expr_form_unary (ty : EXPR_TYPE) (l : expr_t) (s : pstate) : (parse_expr_form_unary ty l s).2.toks = s.toks := by
  by_cases h1 : l.is_null = true <;>
    by_cases h2 : (ast_expr_alloc_type ty s).1.is_null = true <;>
    simp [parse_expr_form_unary, h1, h2]

@[simp] theorem toks_parse_expr_form_binary (ty : EXPR_TYPE) (l r : expr_t) (s : pstate) : (parse_expr_form_binary ty l r s).2.toks = s.toks := by
  by_cases h1 : r.is_null = true <;>
    by_cases h2 : (ast_expr_alloc_type ty s).1.is_null = true <;>
    simp [parse_expr_form_binary, h1, h2]

@[simp] theorem toks_parse_expr_funcdef_error (nm pm hd : expr_t) (b : stmt_t) (s : pstate) : (parse_expr_funcdef_error nm pm hd b s).2.toks = s.toks := by
  unfold parse_expr_funcdef_error; split_ifs <;> simp

@[simp] theorem toks_parse_expr_funcdef_proc (nm pm hd : expr_t) (b : stmt_t) (s : pstate) : (parse_expr_funcdef_proc nm pm hd b s).2.toks = s.toks := by
  by_cases h1 : (ast_expr_alloc_proc b s).1.is_null = true <;>
    simp [parse_expr_funcdef_proc, h1]

/-- The lexer calls see only the tokens of a state. -/
theorem lexer_congr (s s' : pstate) (h : s'.toks = s.toks) :
    remaining s' = remaining s ∧ lex_token s' = lex_token s ∧
    ∀ t, advance s' t = advance s t := by
  have h1 : remaining s' = remaining s := by unfold remaining; rw [h]
  have h2 : lex_token s' = lex_token s := by unfold lex_token; rw [h]
  refine ⟨h1, h2, fun t => ?_⟩
  have h3 : remaining (lex_match s' t).2 = remaining (lex_match s t).2 := by
    unfold lex_match
    rw [h2]
    split_ifs <;> simp only [remaining, h]
  unfold advance
  rw [h1, h3]

@[simp] theorem remaining_parse_fail (err : ERR_CODE) (s : pstate) :
    remaining (parse_fail s err) = remaining s :=
  (lexer_congr s _ (toks_parse_fail ..)).1
@[simp] theorem lex_token_parse_fail (err : ERR_CODE) (s : pstate) :
    lex_token (parse_fail s err) = lex_token s :=
  (lexer_congr s _ (toks_parse_fail ..)).2.1
@[simp] theorem advance_parse_fail (err : ERR_CODE) (s : pstate) (t : Int) :
    advance (parse_fail s err) t = advance s t :=
  (lexer_congr s _ (toks_parse_fail ..)).2.2 t

@[simp] theorem remaining_parse_eof (s : pstate) :
    remaining (parse_eof s) = remaining s :=
  (lexer_congr s _ (toks_parse_eof ..)).1
@[simp] theorem lex_token_parse_eof (s : pstate) :
    lex_token (parse_eof s) = lex_token s :=
  (lexer_congr s _ (toks_parse_eof ..)).2.1
@[simp] theorem advance_parse_eof (s : pstate) (t : Int) :
    advance (parse_eof s) t = advance s t :=
  (lexer_congr s _ (toks_parse_eof ..)).2.2 t

@[simp] theorem remaining_ast_expr_release (e : expr_t) (s : pstate) :
    remaining (ast_expr_release e s) = remaining s :=
  (lexer_congr s _ (toks_ast_expr_release ..)).1
@[simp] theorem lex_token_ast_expr_release (e : expr_t) (s : pstate) :
    lex_token (ast_expr_release e s) = lex_token s :=
  (lexer_congr s _ (toks_ast_expr_release ..)).2.1
@[simp] theorem advance_ast_expr_release (e : expr_t) (s : pstate) (t : Int) :
    advance (ast_expr_release e s) t = advance s t :=
  (lexer_congr s _ (toks_ast_expr_release ..)).2.2 t

@[simp] theorem remaining_ast_stmt_release (st : stmt_t) (s : pstate) :
    remaining (ast_stmt_release st s) = remaining s :=
  (lexer_congr s _ (toks_ast_stmt_release ..)).1
@[simp] theorem lex_token_ast_stmt_release (st : stmt_t) (s : pstate) :
    lex_token (ast_stmt_release st s) = lex_token s :=
  (lexer_congr s _ (toks_ast_stmt_release ..)).2.1
@[simp] theorem advance_ast_stmt_release (st : stmt_t) (s : pstate) (t : Int) :
    advance (ast_stmt_release st s) t = advance s t :=
  (lexer_congr s _ (toks_ast_stmt_release ..)).2.2 t

@[simp] theorem remaining_ast_expr_alloc_type (ty : EXPR_TYPE) (s : pstate) :
    remaining (ast_expr_alloc_type ty s).2 = remaining s :=
  (lexer_congr s _ (toks_ast_expr_alloc_type ..)).1
@[simp] theorem lex_token_ast_expr_alloc_type (ty : EXPR_TYPE) (s : pstate) :
    lex_token (ast_expr_alloc_type ty s).2 = lex_token s :=
  (lexer_congr s _ (toks_ast_expr_alloc_type ..)).2.1
@[simp] theorem advance_ast_expr_alloc_type (ty : EXPR_TYPE) (s : pstate) (t : Int) :
    advance (ast_expr_alloc_type ty s).2 t = advance s t :=
  (lexer_congr s _ (toks_ast_expr_alloc_type ..)).2.2 t

@[simp] theorem remaining_ast_expr_alloc_str (ty : EXPR_TYPE) (tx : String) (s : pstate) :
    remaining (ast_expr_alloc_str ty tx s).2 = remaining s :=
  (lexer_congr s _ (toks_ast_expr_alloc_str ..)).1
@[simp] theorem lex_token_ast_expr_alloc_str (ty : EXPR_TYPE) (tx : String) (s : pstate) :
    lex_token (ast_expr_alloc_str ty tx s).2 = lex_token s :=
  (lexer_congr s _ (toks_ast_expr_alloc_str ..)).2.1
@[simp] theorem advance_ast_expr_alloc_str (ty : EXPR_TYPE) (tx : String) (s : pstate) (t : Int) :
    advance (ast_expr_alloc_str ty tx s).2 t = advance s t :=
  (lexer_congr s _ (toks_ast_expr_alloc_str ..)).2.2 t

@[simp] theorem remaining_ast_expr_alloc_num (ty : EXPR_TYPE) (tx : String) (s : pstate) :
    remaining (ast_expr_alloc_num ty tx s).2 = remaining s :=
  (lexer_congr s _ (toks_ast_expr_alloc_num ..)).1
@[simp] theorem lex_token_ast_expr_alloc_num (ty : EXPR_TYPE) (tx : String) (s : pstate) :
    lex_token (ast_expr_alloc_num ty tx s).2 = lex_token s :=
  (lexer_congr s _ (toks_ast_expr_alloc_num ..)).2.1
@[simp] theorem advance_ast_expr_alloc_num (ty : EXPR_TYPE) (tx : String) (s : pstate) (t : Int) :
    advance (ast_expr_alloc_num ty tx s).2 t = advance s t :=
  (lexer_congr s _ (toks_ast_expr_alloc_num ..)).2.2 t

@[simp] theorem remaining_ast_expr_alloc_proc (b : stmt_t) (s : pstate) :
    remaining (ast_expr_alloc_proc b s).2 = remaining s :=
  (lexer_congr s _ (toks_ast_expr_alloc_proc ..)).1
@[simp] theorem lex_token_ast_expr_alloc_proc (b : stmt_t) (s : pstate) :
    lex_token (ast_expr_alloc_proc b s).2 = lex_token s :=
  (lexer_congr s _ (toks_ast_expr_alloc_proc ..)).2.1
@[simp] theorem advance_ast_expr_alloc_proc (b : stmt_t) (s : pstate) (t : Int) :
    advance (ast_expr_alloc_proc b s).2 t = advance s t :=
  (lexer_congr s _ (toks_ast_expr_alloc_proc ..)).2.2 t

@[simp] theorem remaining_ast_stmt_alloc_0 (ty : STMT_TYPE) (s : pstate) :
    remaining (ast_stmt_alloc_0 ty s).2 = remaining s :=
  (lexer_congr s _ (toks_ast_stmt_alloc_0 ..)).1
@[simp] theorem lex_token_ast_stmt_alloc_0 (ty : STMT_TYPE) (s : pstate) :
    lex_token (ast_stmt_alloc_0 ty s).2 = lex_token s :=
  (lexer_congr s _ (toks_ast_stmt_alloc_0 ..)).2.1
@[simp] theorem advance_ast_stmt_alloc_0 (ty : STMT_TYPE) (s : pstate) (t : Int) :
    advance (ast_stmt_alloc_0 ty s).2 t = advance s t :=
  (lexer_congr s _ (toks_ast_stmt_alloc_0 ..)).2.2 t

@[simp] theorem remaining_ast_stmt_alloc_1 (ty : STMT_TYPE) (e : expr_t) (s : pstate) :
    remaining (ast_stmt_alloc_1 ty e s).2 = remaining s :=
  (lexer_congr s _ (toks_ast_stmt_alloc_1 ..)).1
@[simp] theorem lex_token_ast_stmt_alloc_1 (ty : STMT_TYPE) (e : expr_t) (s : pstate) :
    lex_token (ast_stmt_alloc_1 ty e s).2 = lex_token s :=
  (lexer_congr s _ (toks_ast_stmt_alloc_1 ..)).2.1
@[simp] theorem advance_ast_stmt_alloc_1 (ty : STMT_TYPE) (e : expr_t) (s : pstate) (t : Int) :
    advance (ast_stmt_alloc_1 ty e s).2 t = advance s t :=
  (lexer_congr s _ (toks_ast_stmt_alloc_1 ..)).2.2 t

@[simp] theorem remaining_ast_stmt_alloc_2 (ty : STMT_TYPE) (e : expr_t) (b : stmt_t) (s : pstate) :
    remaining (ast_stmt_alloc_2 ty e b s).2 = remaining s :=
  (lexer_congr s _ (toks_ast_stmt_alloc_2 ..)).1
@[simp] theorem lex_token_ast_stmt_alloc_2 (ty : STMT_TYPE) (e : expr_t) (b : stmt_t) (s : pstate) :
    lex_token (ast_stmt_alloc_2 ty e b s).2 = lex_token s :=
  (lexer_congr s _ (toks_ast_stmt_alloc_2 ..)).2.1
@[simp] theorem advance_ast_stmt_alloc_2 (ty : STMT_TYPE) (e : expr_t) (b : stmt_t) (s : pstate) (t : Int) :
    advance (ast_stmt_alloc_2 ty e b s).2 t = advance s t :=
  (lexer_congr s _ (toks_ast_stmt_alloc_2 ..)).2.2 t

@[simp] theorem remaining_ast_stmt_alloc_3 (ty : STMT_TYPE) (e : expr_t) (b o : stmt_t) (s : pstate) :
    remaining (ast_stmt_alloc_3 ty e b o s).2 = remaining s :=
  (lexer_congr s _ (toks_ast_stmt_alloc_3 ..)).1
@[simp] theorem lex_token_ast_stmt_alloc_3 (ty : STMT_TYPE) (e : expr_t) (b o : stmt_t) (s : pstate) :
    lex_token (ast_stmt_alloc_3 ty e b o s).2 = lex_token s :=
  (lexer_congr s _ (toks_ast_stmt_alloc_3 ..)).2.1
@[simp] theorem advance_ast_stmt_alloc_3 (ty : STMT_TYPE) (e : expr_t) (b o : stmt_t) (s : pstate) (t : Int) :
    advance (ast_stmt_alloc_3 ty e b o s).2 t = advance s t :=
  (lexer_congr s _ (toks_ast_stmt_alloc_3 ..)).2.2 t

@[simp] theorem remaining_parse_expr_form_unary (ty : EXPR_TYPE) (l : expr_t) (s : pstate) :
    remaining (parse_expr_form_unary ty l s).2 = remaining s :=
  (lexer_congr s _ (toks_parse_expr_form_unary ..)).1
@[simp] theorem lex_token_parse_expr_form_unary (ty : EXPR_TYPE) (l : expr_t) (s : pstate) :
    lex_token (parse_expr_form_unary ty l s).2 = lex_token s :=
  (lexer_congr s _ (toks_parse_expr_form_unary ..)).2.1
@[simp] theorem advance_parse_expr_form_unary (ty : EXPR_TYPE) (l : expr_t) (s : pstate) (t : Int) :
    advance (parse_expr_form_unary ty l s).2 t = advance s t :=
  (lexer_congr s _ (toks_parse_expr_form_unary ..)).2.2 t

@[simp] theorem remaining_parse_expr_form_binary (ty : EXPR_TYPE) (l r : expr_t) (s : pstate) :
    remaining (parse_expr_form_binary ty l r s).2 = remaining s :=
  (lexer_congr s _ (toks_parse_expr_form_binary ..)).1
@[simp] theorem lex_token_parse_expr_form_binary (ty : EXPR_TYPE) (l r : expr_t) (s : pstate) :
    lex_token (parse_expr_form_binary ty l r s).2 = lex_token s :=
  (lexer_congr s _ (toks_parse_expr_form_binary ..)).2.1
@[simp] theorem advance_parse_expr_form_binary (ty : EXPR_TYPE) (l r : expr_t) (s : pstate) (t : Int) :
    advance (parse_expr_form_binary ty l r s).2 t = advance s t :=
  (lexer_congr s _ (toks_parse_expr_form_binary ..)).2.2 t

@[simp] theorem remaining_parse_expr_funcdef_error (nm pm hd : expr_t) (b : stmt_t) (s : pstate) :
    remaining (parse_expr_funcdef_error nm pm hd b s).2 = remaining s :=
  (lexer_congr s _ (toks_parse_expr_funcdef_error ..)).1
@[simp] theorem lex_token_parse_expr_funcdef_error (nm pm hd : expr_t) (b : stmt_t) (s : pstate) :
    lex_token (parse_expr_funcdef_error nm pm hd b s).2 = lex_token s :=
  (lexer_congr s _ (toks_parse_expr_funcdef_error ..)).2.1
@[simp] theorem advance_parse_expr_funcdef_error (nm pm hd : expr_t) (b : stmt_t) (s : pstate) (t : Int) :
    advance (parse_expr_funcdef_error nm pm hd b s).2 t = advance s t :=
  (lexer_congr s _ (toks_parse_expr_funcdef_error ..)).2.2 t

@[simp] theorem remaining_parse_expr_funcdef_proc (nm pm hd : expr_t) (b : stmt_t) (s : pstate) :
    remaining (parse_expr_funcdef_proc nm pm hd b s).2 = remaining s :=
  (lexer_congr s _ (toks_parse_expr_funcdef_proc ..)).1
@[simp] theorem lex_token_parse_expr_funcdef_proc (nm pm hd : expr_t) (b : stmt_t) (s : pstate) :
    lex_token (parse_expr_funcdef_proc nm pm hd b s).2 = lex_token s :=
  (lexer_congr s _ (toks_parse_expr_funcdef_proc ..)).2.1
@[simp] theorem advance_parse_expr_funcdef_proc (nm pm hd : expr_t) (b : stmt_t) (s : pstate) (t : Int) :
    advance (parse_expr_funcdef_proc nm pm hd b s).2 t = advance s t :=
  (lexer_congr s _ (toks_parse_expr_funcdef_proc ..)).2.2 t
@[simp] theorem remaining_parse_expr_factor_leaf (tok : Int) (r : expr_t × pstate) :
    remaining (parse_expr_factor_leaf tok r).2 = remaining r.2 - advance r.2 tok := by
  unfold parse_expr_factor_leaf
  rw [remaining_lex_match]
  split_ifs <;> simp

@[simp] theorem remaining_parse_stmt_break (s : pstate) :
    remaining (parse_stmt_break s).2
      = remaining s - advance s TOK_BREAK - advance (lex_match s TOK_BREAK).2 CH_SEMI := by
  unfold parse_stmt_break
  simp only
  split_ifs <;> simp [remaining_lex_match]

@[simp] theorem remaining_parse_stmt_continue (s : pstate) :
    remaining (parse_stmt_continue s).2
      = remaining s - advance s TOK_CONTINUE - advance (lex_match s TOK_CONTINUE).2 CH_SEMI := by
  unfold parse_stmt_continue
  simp only
  split_ifs <;> simp [remaining_lex_match]

theorem remaining_lex_match_semicolons (s : pstate) :
    remaining { s with toks := lex_match_semicolons s.toks } ≤ remaining s := by
  unfold remaining
  show (lex_match_semicolons s.toks).length ≤ s.toks.length
  generalize s.toks = l
  induction l with
  | nil => simp [lex_match_semicolons]
  | cons a l ih =>
    unfold lex_match_semicolons
    split_ifs
    · exact Nat.le_trans ih (Nat.le_succ _)
    · exact Nat.le_refl _

/-! ## Termination: every function, by induction on the fuel -/

theorem parse_expr_form_parenth_tot_step (n : Nat) (ih : AllTot n) :
    ∀ (s : pstate), lex_token s = CH_LPAREN → 50 * remaining s + 0 < (n + 1) →
      Tot (parse_expr_form_parenth (n + 1) s) (fun _ s' => remaining s' < remaining s) := by
  intro s hpre hfuel
  have hu := advance_self s
  rw [hpre] at hu
  have hu := hu (by decide)
  rw [parse_expr_form_parenth]
  all_goals repeat' first
    | (with_reducible refine Tot_bind ?_)
    | (with_reducible refine Tot_ite ?_ ?_ <;> intro hc)
    | (with_reducible refine Tot_call ?_ (ih.parse_expr_comma _ ?_); intro e1 s1 i1; beta_reduce; cases hn : e1.is_null)
    | (with_reducible refine Tot_some ?_)
  all_goals simp only [EProg, SProg, WProg, remaining_lex_match] at *
  all_goals simp_all [remaining_lex_match]
  all_goals (try omega)

theorem parse_expr_form_array_tot_step (n : Nat) (ih : AllTot n) :
    ∀ (s : pstate), lex_token s = CH_LBRACKET → 50 * remaining s + 1 < (n + 1) →
      Tot (parse_expr_form_array (n + 1) s) (fun _ s' => remaining s' < remaining s) := by
  intro s hpre hfuel
  have hu := advance_self s
  rw [hpre] at hu
  have hu := hu (by decide)
  rw [parse_expr_form_array]
  all_goals repeat' first
    | (with_reducible refine Tot_bind ?_)
    | (with_reducible refine Tot_ite ?_ ?_ <;> intro hc)
    | (with_reducible refine Tot_call ?_ (ih.parse_expr_comma _ ?_); intro e1 s1 i1; beta_reduce; cases hn : e1.is_null)
    | (with_reducible refine Tot_some ?_)
  all_goals simp only [EProg, SProg, WProg, remaining_lex_match] at *
  all_goals simp_all [remaining_lex_match]
  all_goals (try omega)

theorem parse_expr_form_dict_tot_step (n : Nat) (ih : AllTot n) :
    ∀ (s : pstate), lex_token s = CH_LBRACE → 50 * remaining s + 2 < (n + 1) →
      Tot (parse_expr_form_dict (n + 1) s) (fun _ s' => remaining s' < remaining s) := by
  intro s hpre hfuel
  have hu := advance_self s
  rw [hpre] at hu
  have hu := hu (by decide)
  rw [parse_expr_form_dict]
  all_goals repeat' first
    | (with_reducible refine Tot_bind ?_)
    | (with_reducible refine Tot_ite ?_ ?_ <;> intro hc)
    | (with_reducible refine Tot_call ?_ (ih.parse_expr_kvlist _ ?_); intro e1 s1 i1; beta_reduce; cases hn : e1.is_null)
    | (with_reducible refine Tot_some ?_)
  all_goals simp only [EProg, SProg, WProg, remaining_lex_match] at *
  all_goals simp_all [remaining_lex_match]
  all_goals (try omega)

theorem parse_expr_funcdef_tot_step (n : Nat) (ih : AllTot n) :
    ∀ (s : pstate), lex_token s = TOK_DEF → 50 * remaining s + 3 < (n + 1) →
      Tot (parse_expr_funcdef (n + 1) s) (fun _ s' => remaining s' < remaining s) := by
  intro s hpre hfuel
  have hu := advance_self s
  rw [hpre] at hu
  have hu := hu (by decide)
  rw [parse_expr_funcdef]
  all_goals repeat' first
    | (with_reducible refine Tot_bind ?_)
    | (with_reducible refine Tot_ite ?_ ?_ <;> intro hc)
    | (with_reducible refine Tot_call ?_ (ih.parse_expr_factor _ ?_); intro e1 s1 i1; beta_reduce; cases hn : e1.is_null)
    | (with_reducible refine Tot_call ?_ (ih.parse_expr_vardef_list _ ?_); intro e1 s1 i1; beta_reduce; cases hn : e1.is_null)
    | (with_reducible refine Tot_call ?_ (ih.parse_expr_funcdef_block _ _ _ ?_); intro e1 s1 i1; beta_reduce; cases hn : e1.is_null)
    | (with_reducible refine Tot_some ?_)
  all_goals simp only [EProg, SProg, WProg, remaining_lex_match] at *
  all_goals simp_all [remaining_lex_match]
  all_goals (try omega)

theorem parse_expr_form_attr_tot_step (n : Nat) (ih : AllTot n) :
    ∀ (lft : expr_t) (s : pstate), lex_token s = CH_DOT → 50 * remaining s + 4 < (n + 1) →
      Tot (parse_expr_form_attr (n + 1) lft s) (fun _ s' => remaining s' < remaining s) := by
  intro lft s hpre hfuel
  have hu := advance_self s
  rw [hpre] at hu
  have hu := hu (by decide)
  rw [parse_expr_form_attr]
  all_goals repeat' first
    | (with_reducible refine Tot_bind ?_)
    | (with_reducible refine Tot_ite ?_ ?_ <;> intro hc)
    | (with_reducible refine Tot_call ?_ (ih.parse_expr_factor _ ?_); intro e1 s1 i1; beta_reduce; cases hn : e1.is_null)
    | (with_reducible refine Tot_some ?_)
  all_goals simp only [EProg, SProg, WProg, remaining_lex_match] at *
  all_goals simp_all [remaining_lex_match]
  all_goals (try omega)

theorem parse_expr_form_elem_tot_step (n : Nat) (ih : AllTot n) :
    ∀ (lft : expr_t) (s : pstate), lex_token s = CH_LBRACKET → 50 * remaining s + 5 < (n + 1) →
      Tot (parse_expr_form_elem (n + 1) lft s) (fun _ s' => remaining s' < remaining s) := by
  intro lft s hpre hfuel
  have hu := advance_self s
  rw [hpre] at hu
  have hu := hu (by decide)
  rw [parse_expr_form_elem]
  all_goals repeat' first
    | (with_reducible refine Tot_bind ?_)
    | (with_reducible refine Tot_ite ?_ ?_ <;> intro hc)
    | (with_reducible refine Tot_call ?_ (ih.parse_expr_ternary _ ?_); intro e1 s1 i1; beta_reduce; cases hn : e1.is_null)
    | (with_reducible refine Tot_some ?_)
  all_goals simp only [EProg, SProg, WProg, remaining_lex_match] at *
  all_goals simp_all [remaining_lex_match]
  all_goals (try omega)

theorem parse_expr_form_call_tot_step (n : Nat) (ih : AllTot n) :
    ∀ (lft : expr_t) (s : pstate), lex_token s = CH_LPAREN → 50 * remaining s + 6 < (n + 1) →
      Tot (parse_expr_form_call (n + 1) lft s) (fun _ s' => remaining s' < remaining s) := by
  intro lft s hpre hfuel
  have hu := advance_self s
  rw [hpre] at hu
  have hu := hu (by decide)
  rw [parse_expr_form_call]
  all_goals repeat' first
    | (with_reducible refine Tot_bind ?_)
    | (with_reducible refine Tot_ite ?_ ?_ <;> intro hc)
    | (with_reducible refine Tot_call ?_ (ih.parse_expr_comma _ ?_); intro e1 s1 i1; beta_reduce; cases hn : e1.is_null)
    | (with_reducible refine Tot_some ?_)
  all_goals simp only [EProg, SProg, WProg, remaining_lex_match] at *
  all_goals simp_all [remaining_lex_match]
  all_goals (try omega)

theorem parse_expr_factor_tot_step (n : Nat) (ih : AllTot n) :
    ∀ (s : pstate), 50 * remaining s + 7 < (n + 1) →
      Tot (parse_expr_factor (n + 1) s) (EProg s) := by
  intro s hfuel
  have hu := advance_self s
  rw [parse_expr_factor]
  all_goals repeat' first
    | (with_reducible refine Tot_bind ?_)
    | (with_reducible refine Tot_ite ?_ ?_ <;> intro hc)
    | (with_reducible refine Tot_call ?_ (ih.parse_expr_form_parenth _ ?_ ?_); intro e1 s1 i1; beta_reduce; cases hn : e1.is_null)
    | (with_reducible refine Tot_call ?_ (ih.parse_expr_form_array _ ?_ ?_); intro e1 s1 i1; beta_reduce; cases hn : e1.is_null)
    | (with_reducible refine Tot_call ?_ (ih.parse_expr_form_dict _ ?_ ?_); intro e1 s1 i1; beta_reduce; cases hn : e1.is_null)
    | (with_reducible refine Tot_call ?_ (ih.parse_expr_funcdef _ ?_ ?_); intro e1 s1 i1; beta_reduce; cases hn : e1.is_null)
    | (with_reducible refine Tot_some ?_)
  all_goals simp only [EProg, SProg, WProg, remaining_lex_match] at *
  all_goals simp_all [remaining_lex_match]
  all_goals (try omega)

theorem parse_expr_primary_while_tot_step (n : Nat) (ih : AllTot n) :
    ∀ (expr : expr_t) (tok : Int) (s : pstate), tok = lex_token s → 50 * remaining s + 8 < (n + 1) →
      Tot (parse_expr_primary_while (n + 1) expr tok s) (WProg expr s) := by
  intro expr tok s hpre hfuel
  subst hpre
  have hu := advance_self s
  rw [parse_expr_primary_while]
  all_goals repeat' first
    | (with_reducible refine Tot_bind ?_)
    | (with_reducible refine Tot_ite ?_ ?_ <;> intro hc)
    | (with_reducible refine Tot_call ?_ (ih.parse_expr_form_attr _ _ ?_ ?_); intro e1 s1 i1; beta_reduce; cases hn : e1.is_null)
    | (with_reducible refine Tot_call ?_ (ih.parse_expr_form_elem _ _ ?_ ?_); intro e1 s1 i1; beta_reduce; cases hn : e1.is_null)
    | (with_reducible refine Tot_call ?_ (ih.parse_expr_form_call _ _ ?_ ?_); intro e1 s1 i1; beta_reduce; cases hn : e1.is_null)
    | (with_reducible refine Tot_call ?_ (ih.parse_expr_primary_while _ _ _ ?_ ?_); intro e1 s1 i1; beta_reduce; cases hn : e1.is_null)
    | (with_reducible refine Tot_some ?_)
  all_goals simp only [EProg, SProg, WProg, remaining_lex_match] at *
  all_goals simp_all [remaining_lex_match]
  all_goals (try omega)

theorem parse_expr_primary_tot_step (n : Nat) (ih : AllTot n) :
    ∀ (s : pstate), 50 * remaining s + 9 < (n + 1) →
      Tot (parse_expr_primary (n + 1) s) (EProg s) := by
  intro s hfuel
  have hu := advance_self s
  rw [parse_expr_primary]
  all_goals repeat' first
    | (with_reducible refine Tot_bind ?_)
    | (with_reducible refine Tot_ite ?_ ?_ <;> intro hc)
    | (with_reducible refine Tot_call ?_ (ih.parse_expr_factor _ ?_); intro e1 s1 i1; beta_reduce; cases hn : e1.is_null)
    | (with_reducible refine Tot_call ?_ (ih.parse_expr_primary_while _ _ _ ?_ ?_); intro e1 s1 i1; beta_reduce; cases hn : e1.is_null)
    | (with_reducible refine Tot_some ?_)
  all_goals simp only [EProg, SProg, WProg, remaining_lex_match] at *
  all_goals simp_all [remaining_lex_match]
  all_goals (try omega)

theorem parse_expr_unary_tot_step (n : Nat) (ih : AllTot n) :
    ∀ (s : pstate), 50 * remaining s + 10 < (n + 1) →
      Tot (parse_expr_unary (n + 1) s) (EProg s) := by
  intro s hfuel
  have hu := advance_self s
  rw [parse_expr_unary]
  all_goals repeat' first
    | (with_reducible refine Tot_bind ?_)
    | (with_reducible refine Tot_ite ?_ ?_ <;> intro hc)
    | (with_reducible refine Tot_call ?_ (ih.parse_expr_primary _ ?_); intro e1 s1 i1; beta_reduce; cases hn : e1.is_null)
    | (with_reducible refine Tot_call ?_ (ih.parse_expr_unary _ ?_); intro e1 s1 i1; beta_reduce; cases hn : e1.is_null)
    | (with_reducible refine Tot_some ?_)
  all_goals simp only [EProg, SProg, WProg, remaining_lex_match] at *
  all_goals simp_all [remaining_lex_match]
  all_goals (try omega)

theorem parse_expr_mul_while_tot_step (n : Nat) (ih : AllTot n) :
    ∀ (expr : expr_t) (tok : Int) (s : pstate), tok = lex_token s → 50 * remaining s + 11 < (n + 1) →
      Tot (parse_expr_mul_while (n + 1) expr tok s) (WProg expr s) := by
  intro expr tok s hpre hfuel
  subst hpre
  have hu := advance_self s
  rw [parse_expr_mul_while]
  all_goals repeat' first
    | (with_reducible refine Tot_bind ?_)
    | (with_reducible refine Tot_ite ?_ ?_ <;> intro hc)
    | (with_reducible refine Tot_call ?_ (ih.parse_expr_unary _ ?_); intro e1 s1 i1; beta_reduce; cases hn : e1.is_null)
    | (with_reducible refine Tot_call ?_ (ih.parse_expr_mul_while _ _ _ ?_ ?_); intro e1 s1 i1; beta_reduce; cases hn : e1.is_null)
    | (with_reducible refine Tot_some ?_)
  all_goals simp only [EProg, SProg, WProg, remaining_lex_match] at *
  all_goals simp_all [remaining_lex_match]
  all_goals (try omega)

theorem parse_expr_mul_tot_step (n : Nat) (ih : AllTot n) :
    ∀ (s : pstate), 50 * remaining s + 12 < (n + 1) →
      Tot (parse_expr_mul (n + 1) s) (EProg s) := by
  intro s hfuel
  have hu := advance_self s
  rw [parse_expr_mul]
  all_goals repeat' first
    | (with_reducible refine Tot_bind ?_)
    | (with_reducible refine Tot_ite ?_ ?_ <;> intro hc)
    | (with_reducible refine Tot_call ?_ (ih.parse_expr_unary _ ?_); intro e1 s1 i1; beta_reduce; cases hn : e1.is_null)
    | (with_reducible refine Tot_call ?_ (ih.parse_expr_mul_while _ _ _ ?_ ?_); intro e1 s1 i1; beta_reduce; cases hn : e1.is_null)
    | (with_reducible refine Tot_some ?_)
  all_goals simp only [EProg, SProg, WProg, remaining_lex_match] at *
  all_goals simp_all [remaining_lex_match]
  all_goals (try omega)

theorem parse_expr_add_while_tot_step (n : Nat) (ih : AllTot n) :
    ∀ (expr : expr_t) (tok : Int) (s : pstate), tok = lex_token s → 50 * remaining s + 13 < (n + 1) →
      Tot (parse_expr_add_while (n + 1) expr tok s) (WProg expr s) := by
  intro expr tok s hpre hfuel
  subst hpre
  have hu := advance_self s
  rw [parse_expr_add_while]
  all_goals repeat' first
    | (with_reducible refine Tot_bind ?_)
    | (with_reducible refine Tot_ite ?_ ?_ <;> intro hc)
    | (with_reducible refine Tot_call ?_ (ih.parse_expr_mul _ ?_); intro e1 s1 i1; beta_reduce; cases hn : e1.is_null)
    | (with_reducible refine Tot_call ?_ (ih.parse_expr_add_while _ _ _ ?_ ?_); intro e1 s1 i1; beta_reduce; cases hn : e1.is_null)
    | (with_reducible refine Tot_some ?_)
  all_goals simp only [EProg, SProg, WProg, remaining_lex_match] at *
  all_goals simp_all [remaining_lex_match]
  all_goals (try omega)

theorem parse_expr_add_tot_step (n : Nat) (ih : AllTot n) :
    ∀ (s : pstate), 50 * remaining s + 14 < (n + 1) →
      Tot (parse_expr_add (n + 1) s) (EProg s) := by
  intro s hfuel
  have hu := advance_self s
  rw [parse_expr_add]
  all_goals repeat' first
    | (with_reducible refine Tot_bind ?_)
    | (with_reducible refine Tot_ite ?_ ?_ <;> intro hc)
    | (with_reducible refine Tot_call ?_ (ih.parse_expr_mul _ ?_); intro e1 s1 i1; beta_reduce; cases hn : e1.is_null)
    | (with_reducible refine Tot_call ?_ (ih.parse_expr_add_while _ _ _ ?_ ?_); intro e1 s1 i1; beta_reduce; cases hn : e1.is_null)
    | (with_reducible refine Tot_some ?_)
  all_goals simp only [EProg, SProg, WProg, remaining_lex_match] at *
  all_goals simp_all [remaining_lex_match]
  all_goals (try omega)

theorem parse_expr_shift_while_tot_step (n : Nat) (ih : AllTot n) :
    ∀ (expr : expr_t) (tok : Int) (s : pstate), tok = lex_token s → 50 * remaining s + 15 < (n + 1) →
      Tot (parse_expr_shift_while (n + 1) expr tok s) (WProg expr s) := by
  intro expr tok s hpre hfuel
  subst hpre
  have hu := advance_self s
  rw [parse_expr_shift_while]
  all_goals repeat' first
    | (with_reducible refine Tot_bind ?_)
    | (with_reducible refine Tot_ite ?_ ?_ <;> intro hc)
    | (with_reducible refine Tot_call ?_ (ih.parse_expr_add _ ?_); intro e1 s1 i1; beta_reduce; cases hn : e1.is_null)
    | (with_reducible refine Tot_call ?_ (ih.parse_expr_shift_while _ _ _ ?_ ?_); intro e1 s1 i1; beta_reduce; cases hn : e1.is_null)
    | (with_reducible refine Tot_some ?_)
  all_goals simp only [EProg, SProg, WProg, remaining_lex_match] at *
  all_goals simp_all [remaining_lex_match]
  all_goals (try omega)

theorem parse_expr_shift_tot_step (n : Nat) (ih : AllTot n) :
    ∀ (s : pstate), 50 * remaining s + 16 < (n + 1) →
      Tot (parse_expr_shift (n + 1) s) (EProg s) := by
  intro s hfuel
  have hu := advance_self s
  rw [parse_expr_shift]
  all_goals repeat' first
    | (with_reducible refine Tot_bind ?_)
    | (with_reducible refine Tot_ite ?_ ?_ <;> intro hc)
    | (with_reducible refine Tot_call ?_ (ih.parse_expr_add _ ?_); intro e1 s1 i1; beta_reduce; cases hn : e1.is_null)
    | (with_reducible refine Tot_call ?_ (ih.parse_expr_shift_while _ _ _ ?_ ?_); intro e1 s1 i1; beta_reduce; cases hn : e1.is_null)
    | (with_reducible refine Tot_some ?_)
  all_goals simp only [EProg, SProg, WProg, remaining_lex_match] at *
  all_goals simp_all [remaining_lex_match]
  all_goals (try omega)

theorem parse_expr_aand_while_tot_step (n : Nat) (ih : AllTot n) :
    ∀ (expr : expr_t) (tok : Int) (s : pstate), tok = lex_token s → 50 * remaining s + 17 < (n + 1) →
      Tot (parse_expr_aand_while (n + 1) expr tok s) (WProg expr s) := by
  intro expr tok s hpre hfuel
  subst hpre
  have hu := advance_self s
  rw [parse_expr_aand_while]
  all_goals repeat' first
    | (with_reducible refine Tot_bind ?_)
    | (with_reducible refine Tot_ite ?_ ?_ <;> intro hc)
    | (with_reducible refine Tot_call ?_ (ih.parse_expr_shift _ ?_); intro e1 s1 i1; beta_reduce; cases hn : e1.is_null)
    | (with_reducible refine Tot_call ?_ (ih.parse_expr_aand_while _ _ _ ?_ ?_); intro e1 s1 i1; beta_reduce; cases hn : e1.is_null)
    | (with_reducible refine Tot_some ?_)
  all_goals simp only [EProg, SProg, WProg, remaining_lex_match] at *
  all_goals simp_all [remaining_lex_match]
  all_goals (try omega)

theorem parse_expr_aand_tot_step (n : Nat) (ih : AllTot n) :
    ∀ (s : pstate), 50 * remaining s + 18 < (n + 1) →
      Tot (parse_expr_aand (n + 1) s) (EProg s) := by
  intro s hfuel
  have hu := advance_self s
  rw [parse_expr_aand]
  all_goals repeat' first
    | (with_reducible refine Tot_bind ?_)
    | (with_reducible refine Tot_ite ?_ ?_ <;> intro hc)
    | (with_reducible refine Tot_call ?_ (ih.parse_expr_shift _ ?_); intro e1 s1 i1; beta_reduce; cases hn : e1.is_null)
    | (with_reducible refine Tot_call ?_ (ih.parse_expr_aand_while _ _ _ ?_ ?_); intro e1 s1 i1; beta_reduce; cases hn : e1.is_null)
    | (with_reducible refine Tot_some ?_)
  all_goals simp only [EProg, SProg, WProg, remaining_lex_match] at *
  all_goals simp_all [remaining_lex_match]
  all_goals (try omega)

theorem parse_expr_test_while_tot_step (n : Nat) (ih : AllTot n) :
    ∀ (expr : expr_t) (tok : Int) (s : pstate), tok = lex_token s → 50 * remaining s + 19 < (n + 1) →
      Tot (parse_expr_test_while (n + 1) expr tok s) (WProg expr s) := by
  intro expr tok s hpre hfuel
  subst hpre
  have hu := advance_self s
  rw [parse_expr_test_while]
  all_goals repeat' first
    | (with_reducible refine Tot_bind ?_)
    | (with_reducible refine Tot_ite ?_ ?_ <;> intro hc)
    | (with_reducible refine Tot_call ?_ (ih.parse_expr_aand _ ?_); intro e1 s1 i1; beta_reduce; cases hn : e1.is_null)
    | (with_reducible refine Tot_call ?_ (ih.parse_expr_test_while _ _ _ ?_ ?_); intro e1 s1 i1; beta_reduce; cases hn : e1.is_null)
    | (with_reducible refine Tot_some ?_)
  all_goals simp only [EProg, SProg, WProg, remaining_lex_match] at *
  all_goals simp_all [remaining_lex_match]
  all_goals (try omega)

theorem parse_expr_test_tot_step (n : Nat) (ih : AllTot n) :
    ∀ (s : pstate), 50 * remaining s + 20 < (n + 1) →
      Tot (parse_expr_test (n + 1) s) (EProg s) := by
  intro s hfuel
  have hu := advance_self s
  rw [parse_expr_test]
  all_goals repeat' first
    | (with_reducible refine Tot_bind ?_)
    | (with_reducible refine Tot_ite ?_ ?_ <;> intro hc)
    | (with_reducible refine Tot_call ?_ (ih.parse_expr_aand _ ?_); intro e1 s1 i1; beta_reduce; cases hn : e1.is_null)
    | (with_reducible refine Tot_call ?_ (ih.parse_expr_test_while _ _ _ ?_ ?_); intro e1 s1 i1; beta_reduce; cases hn : e1.is_null)
    | (with_reducible refine Tot_some ?_)
  all_goals simp only [EProg, SProg, WProg, remaining_lex_match] at *
  all_goals simp_all [remaining_lex_match]
  all_goals (try omega)

theorem parse_expr_logic_and_tot_step (n : Nat) (ih : AllTot n) :
    ∀ (s : pstate), 50 * remaining s + 21 < (n + 1) →
      Tot (parse_expr_logic_and (n + 1) s) (EProg s) := by
  intro s hfuel
  have hu := advance_self s
  rw [parse_expr_logic_and]
  all_goals repeat' first
    | (with_reducible refine Tot_bind ?_)
    | (with_reducible refine Tot_ite ?_ ?_ <;> intro hc)
    | (with_reducible refine Tot_call ?_ (ih.parse_expr_test _ ?_); intro e1 s1 i1; beta_reduce; cases hn : e1.is_null)
    | (with_reducible refine Tot_call ?_ (ih.parse_expr_logic_and _ ?_); intro e1 s1 i1; beta_reduce; cases hn : e1.is_null)
    | (with_reducible refine Tot_some ?_)
  all_goals simp only [EProg, SProg, WProg, remaining_lex_match] at *
  all_goals simp_all [remaining_lex_match]
  all_goals (try omega)

theorem parse_expr_logic_or_tot_step (n : Nat) (ih : AllTot n) :
    ∀ (s : pstate), 50 * remaining s + 22 < (n + 1) →
      Tot (parse_expr_logic_or (n + 1) s) (EProg s) := by
  intro s hfuel
  have hu := advance_self s
  rw [parse_expr_logic_or]
  all_goals repeat' first
    | (with_reducible refine Tot_bind ?_)
    | (with_reducible refine Tot_ite ?_ ?_ <;> intro hc)
    | (with_reducible refine Tot_call ?_ (ih.parse_expr_logic_and _ ?_); intro e1 s1 i1; beta_reduce; cases hn : e1.is_null)
    | (with_reducible refine Tot_call ?_ (ih.parse_expr_logic_or _ ?_); intro e1 s1 i1; beta_reduce; cases hn : e1.is_null)
    | (with_reducible refine Tot_some ?_)
  all_goals simp only [EProg, SProg, WProg, remaining_lex_match] at *
  all_goals simp_all [remaining_lex_match]
  all_goals (try omega)

theorem parse_expr_ternary_tot_step (n : Nat) (ih : AllTot n) :
    ∀ (s : pstate), 50 * remaining s + 23 < (n + 1) →
      Tot (parse_expr_ternary (n + 1) s) (EProg s) := by
  intro s hfuel
  have hu := advance_self s
  rw [parse_expr_ternary]
  all_goals repeat' first
    | (with_reducible refine Tot_bind ?_)
    | (with_reducible refine Tot_ite ?_ ?_ <;> intro hc)
    | (with_reducible refine Tot_call ?_ (ih.parse_expr_logic_or _ ?_); intro e1 s1 i1; beta_reduce; cases hn : e1.is_null)
    | (with_reducible refine Tot_call ?_ (ih.parse_expr_form_pair _ ?_); intro e1 s1 i1; beta_reduce; cases hn : e1.is_null)
    | (with_reducible refine Tot_some ?_)
  all_goals simp only [EProg, SProg, WProg, remaining_lex_match] at *
  all_goals simp_all [remaining_lex_match]
  all_goals (try omega)

theorem parse_expr_form_pair_tot_step (n : Nat) (ih : AllTot n) :
    ∀ (s : pstate), 50 * remaining s + 24 < (n + 1) →
      Tot (parse_expr_form_pair (n + 1) s) (EProg s) := by
  intro s hfuel
  have hu := advance_self s
  rw [parse_expr_form_pair]
  all_goals repeat' first
    | (with_reducible refine Tot_bind ?_)
    | (with_reducible refine Tot_ite ?_ ?_ <;> intro hc)
    | (with_reducible refine Tot_call ?_ (ih.parse_expr_ternary _ ?_); intro e1 s1 i1; beta_reduce; cases hn : e1.is_null)
    | (with_reducible refine Tot_some ?_)
  all_goals simp only [EProg, SProg, WProg, remaining_lex_match] at *
  all_goals simp_all [remaining_lex_match]
  all_goals (try omega)

theorem parse_expr_assign_tot_step (n : Nat) (ih : AllTot n) :
    ∀ (s : pstate), 50 * remaining s + 25 < (n + 1) →
      Tot (parse_expr_assign (n + 1) s) (EProg s) := by
  intro s hfuel
  have hu := advance_self s
  rw [parse_expr_assign]
  all_goals repeat' first
    | (with_reducible refine Tot_bind ?_)
    | (with_reducible refine Tot_ite ?_ ?_ <;> intro hc)
    | (with_reducible refine Tot_call ?_ (ih.parse_expr_ternary _ ?_); intro e1 s1 i1; beta_reduce; cases hn : e1.is_null)
    | (with_reducible refine Tot_call ?_ (ih.parse_expr_assign _ ?_); intro e1 s1 i1; beta_reduce; cases hn : e1.is_null)
    | (with_reducible refine Tot_some ?_)
  all_goals simp only [EProg, SProg, WProg, remaining_lex_match] at *
  all_goals simp_all [remaining_lex_match]
  all_goals (try omega)

theorem parse_expr_kv_tot_step (n : Nat) (ih : AllTot n) :
    ∀ (s : pstate), 50 * remaining s + 26 < (n + 1) →
      Tot (parse_expr_kv (n + 1) s) (EProg s) := by
  intro s hfuel
  have hu := advance_self s
  rw [parse_expr_kv]
  all_goals repeat' first
    | (with_reducible refine Tot_bind ?_)
    | (with_reducible refine Tot_ite ?_ ?_ <;> intro hc)
    | (with_reducible refine Tot_call ?_ (ih.parse_expr_factor _ ?_); intro e1 s1 i1; beta_reduce; cases hn : e1.is_null)
    | (with_reducible refine Tot_call ?_ (ih.parse_expr_assign _ ?_); intro e1 s1 i1; beta_reduce; cases hn : e1.is_null)
    | (with_reducible refine Tot_some ?_)
  all_goals simp only [EProg, SProg, WProg, remaining_lex_match] at *
  all_goals simp_all [remaining_lex_match]
  all_goals (try omega)

theorem parse_expr_vardef_tot_step (n : Nat) (ih : AllTot n) :
    ∀ (s : pstate), 50 * remaining s + 27 < (n + 1) →
      Tot (parse_expr_vardef (n + 1) s) (EProg s) := by
  intro s hfuel
  have hu := advance_self s
  rw [parse_expr_vardef]
  all_goals repeat' first
    | (with_reducible refine Tot_bind ?_)
    | (with_reducible refine Tot_ite ?_ ?_ <;> intro hc)
    | (with_reducible refine Tot_call ?_ (ih.parse_expr_factor _ ?_); intro e1 s1 i1; beta_reduce; cases hn : e1.is_null)
    | (with_reducible refine Tot_call ?_ (ih.parse_expr_assign _ ?_); intro e1 s1 i1; beta_reduce; cases hn : e1.is_null)
    | (with_reducible refine Tot_some ?_)
  all_goals simp only [EProg, SProg, WProg, remaining_lex_match] at *
  all_goals simp_all [remaining_lex_match]
  all_goals (try omega)

theorem parse_expr_kvlist_tot_step (n : Nat) (ih : AllTot n) :
    ∀ (s : pstate), 50 * remaining s + 28 < (n + 1) →
      Tot (parse_expr_kvlist (n + 1) s) (EProg s) := by
  intro s hfuel
  have hu := advance_self s
  rw [parse_expr_kvlist]
  all_goals repeat' first
    | (with_reducible refine Tot_bind ?_)
    | (with_reducible refine Tot_ite ?_ ?_ <;> intro hc)
    | (with_reducible refine Tot_call ?_ (ih.parse_expr_kv _ ?_); intro e1 s1 i1; beta_reduce; cases hn : e1.is_null)
    | (with_reducible refine Tot_call ?_ (ih.parse_expr_kvlist _ ?_); intro e1 s1 i1; beta_reduce; cases hn : e1.is_null)
    | (with_reducible refine Tot_some ?_)
  all_goals simp only [EProg, SProg, WProg, remaining_lex_match] at *
  all_goals simp_all [remaining_lex_match]
  all_goals (try omega)

theorem parse_expr_vardef_list_tot_step (n : Nat) (ih : AllTot n) :
    ∀ (s : pstate), 50 * remaining s + 29 < (n + 1) →
      Tot (parse_expr_vardef_list (n + 1) s) (EProg s) := by
  intro s hfuel
  have hu := advance_self s
  rw [parse_expr_vardef_list]
  all_goals repeat' first
    | (with_reducible refine Tot_bind ?_)
    | (with_reducible refine Tot_ite ?_ ?_ <;> intro hc)
    | (with_reducible refine Tot_call ?_ (ih.parse_expr_vardef _ ?_); intro e1 s1 i1; beta_reduce; cases hn : e1.is_null)
    | (with_reducible refine Tot_call ?_ (ih.parse_expr_vardef_list _ ?_); intro e1 s1 i1; beta_reduce; cases hn : e1.is_null)
    | (with_reducible refine Tot_some ?_)
  all_goals simp only [EProg, SProg, WProg, remaining_lex_match] at *
  all_goals simp_all [remaining_lex_match]
  all_goals (try omega)

theorem parse_expr_comma_tot_step (n : Nat) (ih : AllTot n) :
    ∀ (s : pstate), 50 * remaining s + 30 < (n + 1) →
      Tot (parse_expr_comma (n + 1) s) (EProg s) := by
  intro s hfuel
  have hu := advance_self s
  rw [parse_expr_comma]
  all_goals repeat' first
    | (with_reducible refine Tot_bind ?_)
    | (with_reducible refine Tot_ite ?_ ?_ <;> intro hc)
    | (with_reducible refine Tot_call ?_ (ih.parse_expr_assign _ ?_); intro e1 s1 i1; beta_reduce; cases hn : e1.is_null)
    | (with_reducible refine Tot_call ?_ (ih.parse_expr_comma _ ?_); intro e1 s1 i1; beta_reduce; cases hn : e1.is_null)
    | (with_reducible refine Tot_some ?_)
  all_goals simp only [EProg, SProg, WProg, remaining_lex_match] at *
  all_goals simp_all [remaining_lex_match]
  all_goals (try omega)

theorem parse_expr_tot_step (n : Nat) (ih : AllTot n) :
    ∀ (s : pstate), 50 * remaining s + 31 < (n + 1) →
      Tot (parse_expr (n + 1) s) (EProg s) := by
  intro s hfuel
  have hu := advance_self s
  rw [parse_expr]
  all_goals repeat' first
    | (with_reducible refine Tot_bind ?_)
    | (with_reducible refine Tot_ite ?_ ?_ <;> intro hc)
    | (with_reducible refine Tot_call ?_ (ih.parse_expr_comma _ ?_); intro e1 s1 i1; beta_reduce; cases hn : e1.is_null)
    | (with_reducible refine Tot_some ?_)
  all_goals simp only [EProg, SProg, WProg, remaining_lex_match] at *
  all_goals simp_all [remaining_lex_match]
  all_goals (try omega)

theorem parse_stmt_expr_tot_step (n : Nat) (ih : AllTot n) :
    ∀ (s : pstate), 50 * remaining s + 32 < (n + 1) →
      Tot (parse_stmt_expr (n + 1) s) (SProg s) := by
  intro s hfuel
  have hu := advance_self s
  rw [parse_stmt_expr]
  all_goals repeat' first
    | (with_reducible refine Tot_bind ?_)
    | (with_reducible refine Tot_ite ?_ ?_ <;> intro hc)
    | (with_reducible refine Tot_call ?_ (ih.parse_expr _ ?_); intro e1 s1 i1; beta_reduce; cases hn : e1.is_null)
    | (with_reducible refine Tot_some ?_)
  all_goals simp only [EProg, SProg, WProg, remaining_lex_match] at *
  all_goals simp_all [remaining_lex_match]
  all_goals (try omega)

theorem parse_stmt_ret_tot_step (n : Nat) (ih : AllTot n) :
    ∀ (s : pstate), lex_token s = TOK_RET → 50 * remaining s + 33 < (n + 1) →
      Tot (parse_stmt_ret (n + 1) s) (fun _ s' => remaining s' < remaining s) := by
  intro s hpre hfuel
  have hu := advance_self s
  rw [hpre] at hu
  have hu := hu (by decide)
  rw [parse_stmt_ret]
  all_goals repeat' first
    | (with_reducible refine Tot_bind ?_)
    | (with_reducible refine Tot_ite ?_ ?_ <;> intro hc)
    | (with_reducible refine Tot_call ?_ (ih.parse_expr _ ?_); intro e1 s1 i1; beta_reduce; cases hn : e1.is_null)
    | (with_reducible refine Tot_some ?_)
  all_goals simp only [EProg, SProg, WProg, remaining_lex_match] at *
  all_goals simp_all [remaining_lex_match]
  all_goals (try omega)

theorem parse_stmt_var_tot_step (n : Nat) (ih : AllTot n) :
    ∀ (s : pstate), lex_token s = TOK_VAR → 50 * remaining s + 34 < (n + 1) →
      Tot (parse_stmt_var (n + 1) s) (fun _ s' => remaining s' < remaining s) := by
  intro s hpre hfuel
  have hu := advance_self s
  rw [hpre] at hu
  have hu := hu (by decide)
  rw [parse_stmt_var]
  all_goals repeat' first
    | (with_reducible refine Tot_bind ?_)
    | (with_reducible refine Tot_ite ?_ ?_ <;> intro hc)
    | (with_reducible refine Tot_call ?_ (ih.parse_expr_vardef_list _ ?_); intro e1 s1 i1; beta_reduce; cases hn : e1.is_null)
    | (with_reducible refine Tot_some ?_)
  all_goals simp only [EProg, SProg, WProg, remaining_lex_match] at *
  all_goals simp_all [remaining_lex_match]
  all_goals (try omega)

theorem parse_stmt_if_tot_step (n : Nat) (ih : AllTot n) :
    ∀ (s : pstate), lex_token s = TOK_IF → 50 * remaining s + 35 < (n + 1) →
      Tot (parse_stmt_if (n + 1) s) (fun _ s' => remaining s' < remaining s) := by
  intro s hpre hfuel
  have hu := advance_self s
  rw [hpre] at hu
  have hu := hu (by decide)
  rw [parse_stmt_if]
  all_goals repeat' first
    | (with_reducible refine Tot_bind ?_)
    | (with_reducible refine Tot_ite ?_ ?_ <;> intro hc)
    | (with_reducible refine Tot_call ?_ (ih.parse_expr _ ?_); intro e1 s1 i1; beta_reduce; cases hn : e1.is_null)
    | (with_reducible refine Tot_call ?_ (ih.parse_stmt_block _ ?_); intro e1 s1 i1; beta_reduce; cases hn : e1.is_null)
    | (with_reducible refine Tot_some ?_)
  all_goals simp only [EProg, SProg, WProg, remaining_lex_match] at *
  all_goals simp_all [remaining_lex_match]
  all_goals (try omega)

theorem parse_stmt_while_tot_step (n : Nat) (ih : AllTot n) :
    ∀ (s : pstate), lex_token s = TOK_WHILE → 50 * remaining s + 36 < (n + 1) →
      Tot (parse_stmt_while (n + 1) s) (fun _ s' => remaining s' < remaining s) := by
  intro s hpre hfuel
  have hu := advance_self s
  rw [hpre] at hu
  have hu := hu (by decide)
  rw [parse_stmt_while]
  all_goals repeat' first
    | (with_reducible refine Tot_bind ?_)
    | (with_reducible refine Tot_ite ?_ ?_ <;> intro hc)
    | (with_reducible refine Tot_call ?_ (ih.parse_expr _ ?_); intro e1 s1 i1; beta_reduce; cases hn : e1.is_null)
    | (with_reducible refine Tot_call ?_ (ih.parse_stmt_block _ ?_); intro e1 s1 i1; beta_reduce; cases hn : e1.is_null)
    | (with_reducible refine Tot_some ?_)
  all_goals simp only [EProg, SProg, WProg, remaining_lex_match] at *
  all_goals simp_all [remaining_lex_match]
  all_goals (try omega)

theorem parse_stmt_tot_step (n : Nat) (ih : AllTot n) :
    ∀ (s : pstate), 50 * remaining s + 37 < (n + 1) →
      Tot (parse_stmt (n + 1) s) (SProg s) := by
  intro s hfuel
  have hu := advance_self s
  rw [parse_stmt]
  all_goals repeat' first
    | (with_reducible refine Tot_bind ?_)
    | (with_reducible refine Tot_ite ?_ ?_ <;> intro hc)
    | (with_reducible refine Tot_call ?_ (ih.parse_stmt_expr _ ?_); intro e1 s1 i1; beta_reduce; cases hn : e1.is_null)
    | (with_reducible refine Tot_call ?_ (ih.parse_stmt_ret _ ?_ ?_); intro e1 s1 i1; beta_reduce; cases hn : e1.is_null)
    | (with_reducible refine Tot_call ?_ (ih.parse_stmt_var _ ?_ ?_); intro e1 s1 i1; beta_reduce; cases hn : e1.is_null)
    | (with_reducible refine Tot_call ?_ (ih.parse_stmt_if _ ?_ ?_); intro e1 s1 i1; beta_reduce; cases hn : e1.is_null)
    | (with_reducible refine Tot_call ?_ (ih.parse_stmt_while _ ?_ ?_); intro e1 s1 i1; beta_reduce; cases hn : e1.is_null)
    | (with_reducible refine Tot_some ?_)
  all_goals simp only [EProg, SProg, WProg, remaining_lex_match] at *
  all_goals simp_all [remaining_lex_match]
  all_goals (try omega)

theorem parse_stmt_list_while_tot_step (n : Nat) (ih : AllTot n) :
    ∀ (head : stmt_t) (tok : Int) (s : pstate), tok = lex_token s → 50 * remaining s + 38 < (n + 1) →
      Tot (parse_stmt_list_while (n + 1) head tok s) (fun _ s' => remaining s' ≤ remaining s) := by
  intro head tok s hpre hfuel
  subst hpre
  have hu := advance_self s
  have hs := remaining_lex_match_semicolons s
  rw [parse_stmt_list_while]
  all_goals repeat' first
    | (with_reducible refine Tot_bind ?_)
    | (with_reducible refine Tot_ite ?_ ?_ <;> intro hc)
    | (with_reducible refine Tot_call ?_ (ih.parse_stmt _ ?_); intro e1 s1 i1; beta_reduce; cases hn : e1.is_null)
    | (with_reducible refine Tot_call ?_ (ih.parse_stmt_list_while _ _ _ ?_ ?_); intro e1 s1 i1; beta_reduce; cases hn : e1.is_null)
    | (with_reducible refine Tot_some ?_)
  all_goals simp only [EProg, SProg, WProg, remaining_lex_match] at *
  all_goals simp_all [remaining_lex_match]
  all_goals (try omega)
  all_goals (split_ifs <;> simp_all <;> omega)

theorem parse_stmt_list_tot_step (n : Nat) (ih : AllTot n) :
    ∀ (s : pstate), 50 * remaining s + 39 < (n + 1) →
      Tot (parse_stmt_list (n + 1) s) (fun _ s' => remaining s' ≤ remaining s) := by
  intro s hfuel
  have hu := advance_self s
  rw [parse_stmt_list]
  all_goals repeat' first
    | (with_reducible refine Tot_bind ?_)
    | (with_reducible refine Tot_ite ?_ ?_ <;> intro hc)
    | (with_reducible refine Tot_call ?_ (ih.parse_stmt_list_while _ _ _ ?_ ?_); intro e1 s1 i1; beta_reduce; cases hn : e1.is_null)
    | (with_reducible refine Tot_some ?_)
  all_goals simp only [EProg, SProg, WProg, remaining_lex_match] at *
  all_goals simp_all [remaining_lex_match]
  all_goals (try omega)

theorem parse_stmt_block_tot_step (n : Nat) (ih : AllTot n) :
    ∀ (s : pstate), 50 * remaining s + 40 < (n + 1) →
      Tot (parse_stmt_block (n + 1) s) (fun _ s' => remaining s' ≤ remaining s) := by
  intro s hfuel
  have hu := advance_self s
  rw [parse_stmt_block]
  all_goals repeat' first
    | (with_reducible refine Tot_bind ?_)
    | (with_reducible refine Tot_ite ?_ ?_ <;> intro hc)
    | (with_reducible refine Tot_call ?_ (ih.parse_stmt _ ?_); intro e1 s1 i1; beta_reduce; cases hn : e1.is_null)
    | (with_reducible refine Tot_call ?_ (ih.parse_stmt_list _ ?_); intro e1 s1 i1; beta_reduce; cases hn : e1.is_null)
    | (with_reducible refine Tot_some ?_)
  all_goals simp only [EProg, SProg, WProg, remaining_lex_match] at *
  all_goals simp_all [remaining_lex_match]
  all_goals (try omega)

theorem parse_expr_funcdef_block_tot_step (n : Nat) (ih : AllTot n) :
    ∀ (name : expr_t) (param : expr_t) (s : pstate), 50 * remaining s + 41 < (n + 1) →
      Tot (parse_expr_funcdef_block (n + 1) name param s) (fun _ s' => remaining s' ≤ remaining s) := by
  intro name param s hfuel
  have hu := advance_self s
  rw [parse_expr_funcdef_block]
  all_goals repeat' first
    | (with_reducible refine Tot_bind ?_)
    | (with_reducible refine Tot_ite ?_ ?_ <;> intro hc)
    | (with_reducible refine Tot_call ?_ (ih.parse_stmt_block _ ?_); intro e1 s1 i1; beta_reduce; cases hn : e1.is_null)
    | (with_reducible refine Tot_some ?_)
  all_goals simp only [EProg, SProg, WProg, remaining_lex_match] at *
  all_goals simp_all [remaining_lex_match]
  all_goals (try omega)

/-- Every parser function finishes, at every fuel level above its bound. -/
theorem all_tot : ∀ n : Nat, AllTot n
  | 0 => by
    constructor <;> intros <;> omega
  | n + 1 => by
    have ih := all_tot n
    exact {
      parse_expr_form_parenth := parse_expr_form_parenth_tot_step n ih
      parse_expr_form_array := parse_expr_form_array_tot_step n ih
      parse_expr_form_dict := parse_expr_form_dict_tot_step n ih
      parse_expr_funcdef := parse_expr_funcdef_tot_step n ih
      parse_expr_form_attr := parse_expr_form_attr_tot_step n ih
      parse_expr_form_elem := parse_expr_form_elem_tot_step n ih
      parse_expr_form_call := parse_expr_form_call_tot_step n ih
      parse_expr_factor := parse_expr_factor_tot_step n ih
      parse_expr_primary_while := parse_expr_primary_while_tot_step n ih
      parse_expr_primary := parse_expr_primary_tot_step n ih
      parse_expr_unary := parse_expr_unary_tot_step n ih
      parse_expr_mul_while := parse_expr_mul_while_tot_step n ih
      parse_expr_mul := parse_expr_mul_tot_step n ih
      parse_expr_add_while := parse_expr_add_while_tot_step n ih
      parse_expr_add := parse_expr_add_tot_step n ih
      parse_expr_shift_while := parse_expr_shift_while_tot_step n ih
      parse_expr_shift := parse_expr_shift_tot_step n ih
      parse_expr_aand_while := parse_expr_aand_while_tot_step n ih
      parse_expr_aand := parse_expr_aand_tot_step n ih
      parse_expr_test_while := parse_expr_test_while_tot_step n ih
      parse_expr_test := parse_expr_test_tot_step n ih
      parse_expr_logic_and := parse_expr_logic_and_tot_step n ih
      parse_expr_logic_or := parse_expr_logic_or_tot_step n ih
      parse_expr_ternary := parse_expr_ternary_tot_step n ih
      parse_expr_form_pair := parse_expr_form_pair_tot_step n ih
      parse_expr_assign := parse_expr_assign_tot_step n ih
      parse_expr_kv := parse_expr_kv_tot_step n ih
      parse_expr_vardef := parse_expr_vardef_tot_step n ih
      parse_expr_kvlist := parse_expr_kvlist_tot_step n ih
      parse_expr_vardef_list := parse_expr_vardef_list_tot_step n ih
      parse_expr_comma := parse_expr_comma_tot_step n ih
      parse_expr := parse_expr_tot_step n ih
      parse_stmt_expr := parse_stmt_expr_tot_step n ih
      parse_stmt_ret := parse_stmt_ret_tot_step n ih
      parse_stmt_var := parse_stmt_var_tot_step n ih
      parse_stmt_if := parse_stmt_if_tot_step n ih
      parse_stmt_while := parse_stmt_while_tot_step n ih
      parse_stmt := parse_stmt_tot_step n ih
      parse_stmt_list_while := parse_stmt_list_while_tot_step n ih
      parse_stmt_list := parse_stmt_list_tot_step n ih
      parse_stmt_block := parse_stmt_block_tot_step n ih
      parse_expr_funcdef_block := parse_expr_funcdef_block_tot_step n ih
    }


/-! ## Claims about the parser -/

/-- C1. Assignment well-formedness: whatever `parse_expr`, `parse_stmt` or
`parse_stmt_list` returns, on any token stream and with any allocator behaviour,
every `ASSIGN` node anywhere in the returned tree has an `ID`, `ATTR` or `ELEM`
node as its left child. -/
theorem assignment_well_formed (n : Nat) (s : pstate) :
    (∀ e s', parse_expr n s = some (e, s') → expr_wf e) ∧
    (∀ st s', parse_stmt n s = some (st, s') → stmt_wf st) ∧
    (∀ st s', parse_stmt_list n s = some (st, s') → stmt_wf st) :=
  ⟨fun e s' h => ((all_inv n).parse_expr s e s' h).2,
   fun st s' h => ((all_inv n).parse_stmt s st s' h).2,
   fun st s' h => ((all_inv n).parse_stmt_list s st s' h).2⟩

/-- Witness for C1: the program `a.b = c = 1;` parses to
`EXPR(ASSIGN(ATTR(a, b), ASSIGN(c, 1)))`, which is well-formed. -/
theorem assignment_well_formed_witness :
    parse_stmt_list 40 (parse_session tokens_assign_chain [])
      = some
        (stmt_1 STMT_EXPR
          (expr_binary EXPR_ASSIGN
            (expr_binary EXPR_ATTR (expr_leaf EXPR_ID "a") (expr_leaf EXPR_ID "b"))
            (expr_binary EXPR_ASSIGN (expr_leaf EXPR_ID "c") (expr_leaf EXPR_NUM "1"))),
         (parse_session [] []).allocs 8)
    ∧ stmt_wf
        (stmt_1 STMT_EXPR
          (expr_binary EXPR_ASSIGN
            (expr_binary EXPR_ATTR (expr_leaf EXPR_ID "a") (expr_leaf EXPR_ID "b"))
            (expr_binary EXPR_ASSIGN (expr_leaf EXPR_ID "c") (expr_leaf EXPR_NUM "1")))) :=
  ⟨rfl, (assignment_well_formed 40 (parse_session tokens_assign_chain [])).2.2 _
    ((parse_session [] []).allocs 8) rfl⟩

/-- C3 fails on the code: three aborted parses after which the sink has received
no `FAIL` event, only `EOF`.  `parse_stmt_list` on `a; ;` returns `NULL`,
`parse_stmt` on a stream that ends after `if x` returns `NULL`, and `parse_expr`
on a stream that ends after `def f()` returns `NULL`. -/
theorem aborted_parse_without_fail :
    parse_stmt_list 40 (parse_session tokens_a_semi_semi [])
      = some (stmt_t.NULL,
          { toks := [], eof_line := 1, eof_col := 1, cb := true, events := [PARSE_EOF],
            heap := [], allocated := 2, released := 2 })
    ∧ parse_stmt 40 (parse_session tokens_if_x [])
      = some (stmt_t.NULL,
          { toks := [], eof_line := 1, eof_col := 1, cb := true, events := [PARSE_EOF],
            heap := [], allocated := 1, released := 1 })
    ∧ parse_expr 40 (parse_session tokens_def_f [])
      = some (expr_t.NULL,
          { toks := [], eof_line := 1, eof_col := 1, cb := true, events := [PARSE_EOF],
            heap := [], allocated := 1, released := 1 }) :=
  ⟨rfl, rfl, rfl⟩

/-- C4. No cascades: a call of `parse_expr`, `parse_stmt` or `parse_stmt_list`
that finishes has added at most one `FAIL` event to what the sink had received,
and none at all when it returned a non-null tree. -/
theorem no_cascades (n : Nat) (s : pstate) :
    (∀ e s', parse_expr n s = some (e, s') →
      nfail s ≤ nfail s' ∧ nfail s' ≤ nfail s + 1 ∧ (e ≠ expr_t.NULL → nfail s' = nfail s)) ∧
    (∀ st s', parse_stmt n s = some (st, s') →
      nfail s ≤ nfail s' ∧ nfail s' ≤ nfail s + 1 ∧ (st ≠ stmt_t.NULL → nfail s' = nfail s)) ∧
    (∀ st s', parse_stmt_list n s = some (st, s') →
      nfail s ≤ nfail s' ∧ nfail s' ≤ nfail s + 1 ∧ (st ≠ stmt_t.NULL → nfail s' = nfail s)) := by
  refine ⟨fun e s' h => ?_, fun st s' h => ?_, fun st s' h => ?_⟩
  · have i := ((all_inv n).parse_expr s e s' h).1
    exact ⟨i.ge, i.le, fun hn => i.ok (by cases e <;> simp_all)⟩
  · have i := ((all_inv n).parse_stmt s st s' h).1
    exact ⟨i.ge, i.le, fun hn => i.ok (by cases st <;> simp_all)⟩
  · have i := ((all_inv n).parse_stmt_list s st s' h).1
    exact ⟨i.ge, i.le, fun hn => i.ok (by cases st <;> simp_all)⟩

/-- Witness for C4: `1 = 2;` as a program is rejected with exactly one `FAIL` event. -/
theorem no_cascades_witness :
    parse_stmt_list 40 (parse_session tokens_one_eq_two [])
      = some (stmt_t.NULL,
          { toks := [token_at CH_ASSIGN 1 3 "", token_at TOK_NUM 1 5 "2", token_at CH_SEMI 1 6 ""],
            eof_line := 1, eof_col := 1, cb := true,
            events := [PARSE_FAIL ERR_InvalidLeftValue 1 3],
            heap := [], allocated := 1, released := 1 })
    ∧ nfail
          { toks := [token_at CH_ASSIGN 1 3 "", token_at TOK_NUM 1 5 "2", token_at CH_SEMI 1 6 ""],
            eof_line := 1, eof_col := 1, cb := true,
            events := [PARSE_FAIL ERR_InvalidLeftValue 1 3],
            heap := [], allocated := 1, released := 1 }
        ≤ nfail (parse_session tokens_one_eq_two []) + 1 :=
  ⟨rfl, ((no_cascades 40 (parse_session tokens_one_eq_two [])).2.2 stmt_t.NULL _ rfl).2.1⟩

/-- C5 fails on the code: when the allocation of the statement node fails,
`parse_stmt` on `var a;` and on `return a;` reports `NotEnoughMemory` and
returns `NULL` while the expression node allocated before stays live (one node
allocated, none released). -/
theorem leak_on_statement_allocation_failure :
    parse_stmt 40 (parse_session tokens_var_a [true, false])
      = some (stmt_t.NULL,
          { toks := [], eof_line := 1, eof_col := 1, cb := true,
            events := [PARSE_FAIL ERR_NotEnoughMemory 1 1],
            heap := [], allocated := 1, released := 0 })
    ∧ parse_stmt 40 (parse_session tokens_return_a [true, false])
      = some (stmt_t.NULL,
          { toks := [], eof_line := 1, eof_col := 1, cb := true,
            events := [PARSE_FAIL ERR_NotEnoughMemory 1 1],
            heap := [], allocated := 1, released := 0 }) :=
  ⟨rfl, rfl⟩

/-- C6. Multiplicative operators bind tighter than additive ones.  For literal or
identifier tokens `x`, `y`, `z` (leaf variants `vx`, `vy`, `vz`), an additive
operator token `p` (variant `ta`), a multiplicative operator token `q` (variant
`tm`) and a `;` token `sc`, with all allocations succeeding: with enough fuel
`parse_stmt` on `x p y q z ;` returns `EXPR(ta(x, tm(y, z)))` and on `x q y p z ;`
returns `EXPR(ta(tm(x, y), z))`, having read the six tokens and reported nothing. -/
theorem mul_binds_tighter_than_add (s : pstate) (x y z p q sc : token_t) (rest : List token_t)
    (vx vy vz ta tm : EXPR_TYPE)
    (hx : operand_variant x.type = some vx) (hy : operand_variant y.type = some vy)
    (hz : operand_variant z.type = some vz)
    (hp : tier.variant tier.add p.type = some ta) (hq : tier.variant tier.mul q.type = some tm)
    (hsc : sc.type = CH_SEMI) (hh : s.heap = []) :
    (s.toks = x :: p :: y :: q :: z :: sc :: rest →
      ∃ N, ∀ m, N ≤ m → parse_stmt m s = some
        (stmt_1 STMT_EXPR (expr_binary ta (operand_leaf x vx)
          (expr_binary tm (operand_leaf y vy) (operand_leaf z vz))), s.seek rest 6)) ∧
    (s.toks = x :: q :: y :: p :: z :: sc :: rest →
      ∃ N, ∀ m, N ≤ m → parse_stmt m s = some
        (stmt_1 STMT_EXPR (expr_binary ta
          (expr_binary tm (operand_leaf x vx) (operand_leaf y vy)) (operand_leaf z vz)),
          s.seek rest 6)) := by
  obtain ⟨cp, rfl⟩ := tier_variant_add hp
  have cq := (tier_variant_mul hq).1
  have hkw := operand_not_keyword hx
  simp at hsc cp cq hkw
  constructor
  · intro hs
    have mx := parse_expr_mul_operand_seek s x (p :: y :: q :: z :: sc :: rest) 0 vx hx hh
      (by simp; omega) (by simp; omega)
    have myz := parse_expr_mul_pair_seek s y q z (sc :: rest) 1 vy vz tm hy hz hq hh
      (by simp; omega) (by simp; omega)
    have ha : Ev (fun m => parse_expr_add m (s.seek (x :: p :: y :: q :: z :: sc :: rest) 0))
        (expr_binary (if p.type = CH_PLUS then EXPR_ADD else EXPR_SUB) (operand_leaf x vx)
          (expr_binary tm (operand_leaf y vy) (operand_leaf z vz)), s.seek (sc :: rest) 5) := by
      refine parse_expr_add_of_mul _ _ _ _ mx ?_
      refine parse_expr_add_while_step _
        (expr_binary tm (operand_leaf y vy) (operand_leaf z vz)) _ _ (s.seek (sc :: rest) 4) _ rfl
        (by simp; omega) rfl hh (by simpa using myz) ?_
      have := parse_expr_add_while_stop
        (expr_binary (if p.type = CH_PLUS then EXPR_ADD else EXPR_SUB) (operand_leaf x vx)
          (expr_binary tm (operand_leaf y vy) (operand_leaf z vz)))
        (lex_token (s.seek (sc :: rest) 5)) (s.seek (sc :: rest) 5) (by simp; omega)
      simpa using this
    have he := parse_expr_of_add_end _ _ _
      (by simp [ends_expr, expr_continuation_tokens]; omega) ha
    have hst := parse_stmt_of_expr _ _ (by simp; omega) (parse_stmt_expr_ok _ (s.seek (sc :: rest) 5) (expr_binary _ _ _) rfl hh he)
    rw [lex_match_seek_of_eq _ _ _ _ _ (by simp; omega), seek_allocs] at hst
    have hs0 : s = s.seek (x :: p :: y :: q :: z :: sc :: rest) 0 := by
      rw [← hs]; rfl
    rw [← hs0] at hst
    exact hst
  · intro hs
    have mxy := parse_expr_mul_pair_seek s x q y (p :: z :: sc :: rest) 0 vx vy tm hx hy hq hh
      (by simp; omega) (by simp; omega)
    have mz := parse_expr_mul_operand_seek s z (sc :: rest) 3 vz hz hh
      (by simp; omega) (by simp; omega)
    have ha : Ev (fun m => parse_expr_add m (s.seek (x :: q :: y :: p :: z :: sc :: rest) 0))
        (expr_binary (if p.type = CH_PLUS then EXPR_ADD else EXPR_SUB)
          (expr_binary tm (operand_leaf x vx) (operand_leaf y vy))
          (operand_leaf z vz), s.seek (sc :: rest) 5) := by
      refine parse_expr_add_of_mul _ _ _ _ mxy ?_
      refine parse_expr_add_while_step _ (operand_leaf z vz) _ _ (s.seek (sc :: rest) 4) _ rfl
        (by simp; omega) rfl hh (by simpa using mz) ?_
      have := parse_expr_add_while_stop
        (expr_binary (if p.type = CH_PLUS then EXPR_ADD else EXPR_SUB)
          (expr_binary tm (operand_leaf x vx) (operand_leaf y vy)) (operand_leaf z vz))
        (lex_token (s.seek (sc :: rest) 5)) (s.seek (sc :: rest) 5) (by simp; omega)
      simpa using this
    have he := parse_expr_of_add_end _ _ _
      (by simp [ends_expr, expr_continuation_tokens]; omega) ha
    have hst := parse_stmt_of_expr _ _ (by simp; omega) (parse_stmt_expr_ok _ (s.seek (sc :: rest) 5) (expr_binary _ _ _) rfl hh he)
    rw [lex_match_seek_of_eq _ _ _ _ _ (by simp; omega), seek_allocs] at hst
    have hs0 : s = s.seek (x :: q :: y :: p :: z :: sc :: rest) 0 := by
      rw [← hs]; rfl
    rw [← hs0] at hst
    exact hst

/-- Witness for C6: `1 + 2 * 3;` yields the single statement
`EXPR(ADD(NUM 1, MUL(NUM 2, NUM 3)))`. -/
theorem mul_binds_tighter_than_add_witness :
    ∃ N, ∀ m, N ≤ m → parse_stmt m (parse_session tokens_add_mul []) = some
      (stmt_1 STMT_EXPR (expr_binary EXPR_ADD (expr_leaf EXPR_NUM "1")
        (expr_binary EXPR_MUL (expr_leaf EXPR_NUM "2") (expr_leaf EXPR_NUM "3"))),
        (parse_session [] []).allocs 6) :=
  (mul_binds_tighter_than_add (parse_session tokens_add_mul [])
    (token_at TOK_NUM 1 1 "1") (token_at TOK_NUM 1 5 "2") (token_at TOK_NUM 1 9 "3")
    (token_at CH_PLUS 1 3 "") (token_at CH_STAR 1 7 "") (token_at CH_SEMI 1 10 "") []
    EXPR_NUM EXPR_NUM EXPR_NUM EXPR_ADD EXPR_MUL rfl rfl rfl rfl rfl rfl rfl).1 rfl

/-- C7. Left-associative tiers nest to the left.  For each tier `t` of `mul`, `add`,
`shift`, `aand`, `test`, operators `op1` and `op2` of that tier with variants `ty1`
and `ty2`, and operands `a`, `b`, `c` that the next-tighter tier reads (from the
start, after `op1`, and after `op2`, all allocations succeeding) with nothing left
after `c`: with enough fuel `parse_expr` on `a op1 b op2 c` returns
`op2'(op1'(a, b), c)`. -/
theorem left_assoc_tiers_nest_left (t : tier) (op1 op2 : Int) (ty1 ty2 : EXPR_TYPE)
    (a b c : expr_t) (s0 s1 s2 s3 : pstate) (na nb nc : Nat)
    (hh : s0.heap = [])
    (hop1 : t.variant op1 = some ty1) (hop2 : t.variant op2 = some ty2)
    (ha : t.operand na s0 = some (a, s1)) (han : a ≠ expr_t.NULL)
    (h1 : lex_token s1 = op1)
    (hb : t.operand nb (lex_match s1 op1).2 = some (b, s2)) (hbn : b ≠ expr_t.NULL)
    (h2 : lex_token s2 = op2)
    (hc : t.operand nc (lex_match (s2.allocs 1) op2).2 = some (c, s3)) (hcn : c ≠ expr_t.NULL)
    (h3 : lex_token s3 = TOK_EOF) :
    ∃ N, ∀ m, N ≤ m →
      parse_expr m s0 = some (expr_binary ty2 (expr_binary ty1 a b) c, s3.allocs 1) :=
  parse_expr_of_tier_end t s0 (s3.allocs 1) _
    (by rw [lex_token_allocs, h3]; decide)
    (tier_two_ops t op1 op2 ty1 ty2 a b c s0 s1 s2 s3 hh hop1 hop2 (tier_operand_ev t ha)
      (is_null_of_ne han) h1 (tier_operand_ev t hb) (is_null_of_ne hbn) h2
      (tier_operand_ev t hc) (is_null_of_ne hcn) (by rw [h3]; decide))

/-- Witness for C7: `8 - 3 - 2` parses to `SUB(SUB(8, 3), 2)`. -/
theorem left_assoc_tiers_nest_left_witness :
    ∃ N, ∀ m, N ≤ m →
      parse_expr m (parse_session tokens_sub_sub [])
        = some (expr_binary EXPR_SUB
            (expr_binary EXPR_SUB (expr_leaf EXPR_NUM "8") (expr_leaf EXPR_NUM "3"))
            (expr_leaf EXPR_NUM "2"), (parse_session [] []).allocs 5) :=
  left_assoc_tiers_nest_left tier.add CH_MINUS CH_MINUS EXPR_SUB EXPR_SUB
    (expr_leaf EXPR_NUM "8") (expr_leaf EXPR_NUM "3") (expr_leaf EXPR_NUM "2")
    (parse_session tokens_sub_sub [])
    ((parse_session (tokens_sub_sub.drop 1) []).allocs 1)
    ((parse_session (tokens_sub_sub.drop 3) []).allocs 2)
    ((parse_session [] []).allocs 4)
    5 5 5 rfl rfl rfl rfl (by simp) rfl rfl (by simp) rfl rfl (by simp) rfl

/-- C8. Right-associative tiers nest to the right.  For each of the tiers `,`, `=`,
`||`, `&&` and every input `e1 op e2 op ... op en` of that tier with nothing after
it (the items read by the next-tighter tier, all allocations succeeding): with
enough fuel `parse_expr` returns the right-leaning chain
`op'(e1, op'(e2, ... en))`; for three items that is `op'(e1, op'(e2, e3))`. -/
theorem right_assoc_tiers_nest_right (t : rtier) (s s1 : pstate) (es : List expr_t)
    (hh : s.heap = []) (h : reads_items t s es s1) (hend : lex_token s1 = TOK_EOF) :
    (∃ N, ∀ m, N ≤ m → parse_expr m s = some (right_chain t.variant es, s1)) ∧
    (∀ a b c, es = [a, b, c] →
      right_chain t.variant es = expr_binary t.variant a (expr_binary t.variant b c)) :=
  ⟨parse_expr_of_rtier_end t s s1 _ (by rw [hend]; decide) (reads_items_chain t h hh).2,
   fun a b c h3 => by rw [h3]; rfl⟩

/-- Witness for C8: `a, b, c` parses to `COMMA(a, COMMA(b, c))`. -/
theorem right_assoc_tiers_nest_right_witness :
    ∃ N, ∀ m, N ≤ m → parse_expr m (parse_session tokens_a_b_c []) = some
      (expr_binary EXPR_COMMA (expr_leaf EXPR_ID "a")
        (expr_binary EXPR_COMMA (expr_leaf EXPR_ID "b") (expr_leaf EXPR_ID "c")),
        (parse_session [] []).allocs 5) :=
  (right_assoc_tiers_nest_right rtier.comma (parse_session tokens_a_b_c [])
    ((parse_session [] []).allocs 5)
    [expr_leaf EXPR_ID "a", expr_leaf EXPR_ID "b", expr_leaf EXPR_ID "c"] rfl
    (reads_items.more 20 _ ((parse_session (tokens_a_b_c.drop 1) []).allocs 1)
      ((parse_session [] []).allocs 4) _ _ rfl (by simp) (fun h => by cases h) rfl
      (reads_items.more 20 _ ((parse_session (tokens_a_b_c.drop 3) []).allocs 2)
        ((parse_session [] []).allocs 3) _ _ rfl (by simp) (fun h => by cases h) rfl
        (reads_items.last 20 _ _ _ rfl (by simp) (by decide))))
    rfl).1

/-- C9. Operator-to-variant mapping.  For identifier tokens `a`, `b`, `c`, with all
allocations succeeding and enough fuel: for every operator token `o` of the binary
table, `parse_expr` on `a o b` returns the mapped variant with children
`(ID a, ID b)`; for every prefix operator `u` of the table, `parse_expr` on `u a`
returns the mapped variant over `ID a` (`!` gives `LOGIC_NOT`, `-` gives `NEG`, `~`
gives `NOT`); and `c ? a : b` gives `TERNARY(c, PAIR(a, b))`. -/
theorem operator_variant_mapping (s : pstate) (a b c o u q col : token_t) (ty tu : EXPR_TYPE)
    (hh : s.heap = []) (ha : a.type = TOK_ID) (hb : b.type = TOK_ID) (hc : c.type = TOK_ID)
    (ho : binop_variant o.type = some ty) (hu : unop_variant u.type = some tu)
    (hq : q.type = CH_QUEST) (hcol : col.type = CH_COLON) :
    (s.toks = [a, o, b] → ∃ N, ∀ m, N ≤ m → parse_expr m s = some
      (expr_binary ty (expr_leaf EXPR_ID a.text) (expr_leaf EXPR_ID b.text), s.seek [] 3)) ∧
    (s.toks = [u, a] → ∃ N, ∀ m, N ≤ m → parse_expr m s = some
      (expr_unary tu (expr_leaf EXPR_ID a.text), s.seek [] 2)) ∧
    (s.toks = [c, q, a, col, b] → ∃ N, ∀ m, N ≤ m → parse_expr m s = some
      (expr_binary EXPR_TERNARY (expr_leaf EXPR_ID c.text)
        (expr_binary EXPR_PAIR (expr_leaf EXPR_ID a.text) (expr_leaf EXPR_ID b.text)),
        s.seek [] 5)) := by
  rw [token_eta a _ ha, token_eta b _ hb, token_eta c _ hc, token_eta q _ hq,
    token_eta col _ hcol]
  refine ⟨fun hs => ⟨20, fun m hm => parse_expr_fuel_le hm s _ ?_⟩,
    fun hs => ⟨20, fun m hm => parse_expr_fuel_le hm s _ ?_⟩,
    fun hs => ⟨20, fun m hm => parse_expr_fuel_le hm s _ ?_⟩⟩
  · rw [pstate_eta_heap_nil s _ hh hs]
    rcases binop_variant_cases ho with h | h | h | h | h | h | h | h | h | h | h | h | h | h | h
      | h | h | h | h | h <;>
    obtain ⟨h1, rfl⟩ := h <;> rw [token_eta o _ h1] <;> rfl
  · rw [pstate_eta_heap_nil s _ hh hs]
    rcases unop_variant_cases hu with h | h | h <;>
    obtain ⟨h1, rfl⟩ := h <;> rw [token_eta u _ h1] <;> rfl
  · rw [pstate_eta_heap_nil s _ hh hs]
    rfl

/-- Witness for C9: `a + b` parses to `ADD(ID a, ID b)`. -/
theorem operator_variant_mapping_witness :
    ∃ N, ∀ m, N ≤ m → parse_expr m (parse_session tokens_a_plus_b []) = some
      (expr_binary EXPR_ADD (expr_leaf EXPR_ID "a") (expr_leaf EXPR_ID "b"),
        (parse_session [] []).allocs 3) :=
  (operator_variant_mapping (parse_session tokens_a_plus_b [])
    (token_at TOK_ID 1 1 "a") (token_at TOK_ID 1 5 "b") (token_at TOK_ID 1 1 "c")
    (token_at CH_PLUS 1 3 "") (token_at CH_BANG 1 1 "") (token_at CH_QUEST 1 3 "")
    (token_at CH_COLON 1 7 "") EXPR_ADD EXPR_LOGIC_NOT rfl rfl rfl rfl rfl rfl rfl rfl).1 rfl

/-- C10. Suffix chains on an identifier nest to the left in source order.  For an
identifier token `h` followed by any sequence of suffixes `.x`, `[e]`, `(args)` or
`()` and then the end of the input, with all allocations succeeding and enough
fuel, `parse_expr` returns `sn'(...s2'(s1'(ID h))...)`, where `.x` gives
`ATTR(prev, ID x)`, `[e]` gives `ELEM(prev, e)`, `(args)` gives `CALL(prev, args)`
and `()` gives `CALL(prev)` with no right child. -/
theorem suffix_chains_nest_left (s s1 : pstate) (h : token_t) (rest : List token_t)
    (l : List suffix) (hs : s.toks = h :: rest) (hid : h.type = TOK_ID) (hh : s.heap = [])
    (hl : reads_suffixes (s.seek rest 1) l s1) (hend : lex_token s1 = TOK_EOF) :
    ∃ N, ∀ m, N ≤ m →
      parse_expr m s = some (apply_suffixes (expr_leaf EXPR_ID h.text) l, s1) := by
  have hf := parse_expr_factor_operand s h rest EXPR_ID hs (by rw [hid]; rfl) hh
  have e1 : operand_leaf h EXPR_ID = expr_leaf EXPR_ID h.text := by simp [operand_leaf, hid]
  rw [e1] at hf
  have hw := reads_suffixes_chain hl (expr_leaf EXPR_ID h.text) hh rfl (by rw [hend]; decide)
  have hp := parse_expr_primary_of_factor_id s _ (expr_leaf EXPR_ID h.text) _ rfl hf hw
  have hu := parse_expr_unary_of_primary s _ (by simp [lex_token, hs, hid]) hp
  exact parse_expr_of_unary_end s s1 _ (by rw [hend]; decide) hu

/-- Witness for C10: `a.b[0](1,2)` gives
`CALL(ELEM(ATTR(ID a, ID b), NUM 0), COMMA(NUM 1, NUM 2))`. -/
theorem suffix_chains_nest_left_witness :
    ∃ N, ∀ m, N ≤ m → parse_expr m (parse_session tokens_suffix_chain []) = some
      (expr_binary EXPR_CALL
        (expr_binary EXPR_ELEM
          (expr_binary EXPR_ATTR (expr_leaf EXPR_ID "a") (expr_leaf EXPR_ID "b"))
          (expr_leaf EXPR_NUM "0"))
        (expr_binary EXPR_COMMA (expr_leaf EXPR_NUM "1") (expr_leaf EXPR_NUM "2")),
        (parse_session [] []).allocs 9) :=
  suffix_chains_nest_left (parse_session tokens_suffix_chain []) ((parse_session [] []).allocs 9)
    (token_at TOK_ID 1 1 "a") (tokens_suffix_chain.drop 1)
    [suffix.attr "b", suffix.elem (expr_leaf EXPR_NUM "0"),
     suffix.call (expr_binary EXPR_COMMA (expr_leaf EXPR_NUM "1") (expr_leaf EXPR_NUM "2"))]
    rfl rfl rfl
    (reads_suffixes.cons _ ((parse_session (tokens_suffix_chain.drop 3) []).allocs 3) _ _ _
      (reads_suffix.attr _ rfl rfl)
      (reads_suffixes.cons _ ((parse_session (tokens_suffix_chain.drop 6) []).allocs 5) _ _ _
        (reads_suffix.elem 20 _ ((parse_session (tokens_suffix_chain.drop 5) []).allocs 4) _
          rfl rfl (by simp) rfl)
        (reads_suffixes.cons _ ((parse_session [] []).allocs 9) _ _ _
          (reads_suffix.call 20 _ ((parse_session (tokens_suffix_chain.drop 10) []).allocs 8) _
            rfl (by decide) rfl (by simp) rfl)
          (reads_suffixes.nil _))))
    rfl

/-- C11 fails on the code as stated: `1(x)` is not rejected.  `parse_stmt_list`
returns the two statements `EXPR(NUM 1)` and `EXPR(ID x)` and the sink receives
nothing. -/
theorem number_then_call_accepted :
    parse_stmt_list 40 (parse_session tokens_one_call_x [])
      = some (stmt_t.node STMT_EXPR (expr_leaf EXPR_NUM "1") stmt_t.NULL stmt_t.NULL
          (stmt_1 STMT_EXPR (expr_leaf EXPR_ID "x")), (parse_session [] []).allocs 4)
    ∧ ((parse_session [] []).allocs 4).events = [] :=
  ⟨rfl, rfl⟩

/-- C11, amended.  When `parse_expr_factor` returns a non-null node that is not an
`ID` and the next token is `.`, `[` or `(` (a sink attached, all allocations
succeeding, enough fuel): `parse_expr` returns the factor unchanged and leaves the
suffix token unconsumed; `parse_stmt` makes the factor an expression statement of
its own; and when the token is `.`, `parse_stmt_list` fails on the statement that
would start there: it returns `NULL` and the sink receives one more event,
`FAIL(InvalidToken)` at the position of the `.`. -/
theorem non_identifier_factor_suffix (n : Nat) (s s1 : pstate) (e : expr_t)
    (hh : s.heap = []) (hcb : s.cb = true)
    (hf : parse_expr_factor n s = some (e, s1)) (hne : e ≠ expr_t.NULL)
    (hid : e.is_type EXPR_ID = false)
    (hsuf : lex_token s1 = CH_DOT ∨ lex_token s1 = CH_LBRACKET ∨ lex_token s1 = CH_LPAREN) :
    (∃ N, ∀ m, N ≤ m → parse_expr m s = some (e, s1)) ∧
    (∃ N, ∀ m, N ≤ m → parse_stmt m s = some (stmt_1 STMT_EXPR e, s1.allocs 1)) ∧
    (lex_token s1 = CH_DOT → ∃ N, ∀ m, N ≤ m → ∃ s',
      parse_stmt_list m s = some (stmt_t.NULL, s') ∧
      s'.events = s1.events ++
        [PARSE_FAIL ERR_InvalidToken (lex_position s1).1 (lex_position s1).2]) := by
  have hn := is_null_of_ne hne
  have hst := parse_expr_factor_start hf hn
  have i1 := ((all_inv n).parse_expr_factor s e s1 hf).1
  have hh1 : s1.heap = [] := heap_nil_of_eff i1 hh
  have hcb1 : s1.cb = true := by rw [i1.cb]; exact hcb
  simp at hst hsuf
  have hp := parse_expr_primary_of_factor_other s s1 e hn hid (parse_expr_factor_ev hf)
  have hu := parse_expr_unary_of_primary s _ (by simp; omega) hp
  have he := parse_expr_of_unary_end s s1 e
    (by simp [ends_expr, expr_continuation_tokens]; omega) hu
  have hse := parse_stmt_expr_ok s s1 e hn hh1 he
  rw [lex_match_snd_of_ne (by simp; omega)] at hse
  have hs := parse_stmt_of_expr s _ (by simp; omega) hse
  refine ⟨he, hs, fun hdot => ?_⟩
  have hbad := parse_stmt_at_dot (s1.allocs 1) hcb1 (by simpa using hdot)
  have hw := parse_stmt_list_while_step stmt_t.NULL (stmt_1 STMT_EXPR e) (lex_token s) s
    (s1.allocs 1) _ (by simp; omega) rfl
    (by rw [lex_match_semicolons_of_ne s (by simp; omega)]; exact hs)
    (parse_stmt_list_while_fail _ (lex_token (s1.allocs 1)) (s1.allocs 1) _
      (by simp [hdot])
      (by rw [lex_match_semicolons_of_ne _ (by simp [hdot])]; exact hbad))
  obtain ⟨N, hN⟩ := parse_stmt_list_of_while s _ hw
  refine ⟨N, fun m hm => ⟨_, hN m hm, ?_⟩⟩
  simp [ast_stmt_release, parse_fail, hcb1, lex_position]

/-- Witness for C11, amended: `"s".x` is rejected with `FAIL(InvalidToken)` at the
`.`. -/
theorem non_identifier_factor_suffix_witness :
    ∃ N, ∀ m, N ≤ m → ∃ s',
      parse_stmt_list m (parse_session tokens_str_dot_x []) = some (stmt_t.NULL, s') ∧
      s'.events = [] ++ [PARSE_FAIL ERR_InvalidToken 1 4] :=
  (non_identifier_factor_suffix 5 (parse_session tokens_str_dot_x [])
    ((parse_session (tokens_str_dot_x.drop 1) []).allocs 1) (expr_leaf EXPR_STRING "s")
    rfl rfl rfl (by simp) rfl (Or.inl rfl)).2.2 rfl

/-- C12. Function literal shape.  On `def name? ( params? ) block` followed by the
end of the input, where `params` is a list of declarators and `parse_stmt_block`
reads the non-null `block`, with all allocations succeeding and enough fuel,
`parse_expr` returns a `FUNCDEF` node whose right child is `PROC(block)` and whose
left child is `FUNCHEAD(name, params)` when a name or a parameter list is present
(the absent one being `NULL`) and is `NULL` when both are absent; `params` is the
right-leaning `COMMA` chain of the declarators, each `ID` or `ASSIGN(ID, default)`. -/
theorem function_literal_shape (s s2 s4 s5 : pstate) (name param : expr_t)
    (block : stmt_t) (nb : Nat) (hh : s.heap = []) (hd : lex_token s = TOK_DEF)
    (hname : reads_name (lex_match s TOK_DEF).2 name s2) (hl : lex_token s2 = CH_LPAREN)
    (hparam : reads_params (lex_match s2 CH_LPAREN).2 param s4)
    (hb : parse_stmt_block nb s4 = some (block, s5)) (hbn : block ≠ stmt_t.NULL)
    (hend : lex_token s5 = TOK_EOF) :
    ∃ N, ∀ m, N ≤ m → parse_expr m s
      = some (funcdef_tree name param block,
          s5.allocs (if name.is_null && param.is_null then 2 else 3)) := by
  have hf := parse_expr_factor_of_funcdef s _ hd
    (parse_expr_funcdef_of_parts s s2 s4 s5 name param block nb hh hname hl hparam hb hbn)
  have hp := parse_expr_primary_of_factor_other s _ (funcdef_tree name param block) rfl rfl hf
  have hu := parse_expr_unary_of_primary s _ (by rw [hd]; decide) hp
  exact parse_expr_of_unary_end s _ _ (by rw [lex_token_allocs, hend]; decide) hu

/-- Witness for C12: `def f(x, y=1) { return x + y; }` gives
`FUNCDEF(FUNCHEAD(ID f, COMMA(ID x, ASSIGN(ID y, NUM 1))), PROC(RET(ADD(ID x, ID y))))`. -/
theorem function_literal_shape_witness :
    ∃ N, ∀ m, N ≤ m → parse_expr m (parse_session tokens_def_f_x_y [])
      = some (expr_binary EXPR_FUNCDEF
          (expr_binary EXPR_FUNCHEAD (expr_leaf EXPR_ID "f")
            (expr_binary EXPR_COMMA (expr_leaf EXPR_ID "x")
              (expr_binary EXPR_ASSIGN (expr_leaf EXPR_ID "y") (expr_leaf EXPR_NUM "1"))))
          (expr_proc (stmt_1 STMT_RET
            (expr_binary EXPR_ADD (expr_leaf EXPR_ID "x") (expr_leaf EXPR_ID "y")))),
          (parse_session [] []).allocs 13) :=
  function_literal_shape (parse_session tokens_def_f_x_y [])
    ((parse_session (tokens_def_f_x_y.drop 2) []).allocs 1)
    ((parse_session (tokens_def_f_x_y.drop 9) []).allocs 6)
    ((parse_session [] []).allocs 10)
    (expr_leaf EXPR_ID "f")
    (expr_binary EXPR_COMMA (expr_leaf EXPR_ID "x")
      (expr_binary EXPR_ASSIGN (expr_leaf EXPR_ID "y") (expr_leaf EXPR_NUM "1")))
    (stmt_1 STMT_RET (expr_binary EXPR_ADD (expr_leaf EXPR_ID "x") (expr_leaf EXPR_ID "y")))
    20 rfl rfl (reads_name.named _ rfl) rfl
    (reads_params.some _ ((parse_session (tokens_def_f_x_y.drop 8) []).allocs 6)
      [expr_leaf EXPR_ID "x",
       expr_binary EXPR_ASSIGN (expr_leaf EXPR_ID "y") (expr_leaf EXPR_NUM "1")]
      (by decide)
      (reads_vardefs.more _ ((parse_session (tokens_def_f_x_y.drop 4) []).allocs 2)
        ((parse_session (tokens_def_f_x_y.drop 8) []).allocs 5) _ _
        (reads_vardef.plain _ rfl (by decide)) rfl
        (reads_vardefs.last _ _ _
          (reads_vardef.init 20 _ ((parse_session (tokens_def_f_x_y.drop 8) []).allocs 4) _
            rfl rfl rfl (by simp))
          (by decide)))
      rfl)
    rfl (by simp) rfl

/-- C13. The `var` statement.  On `var d1 , ... , dn` (`n ≥ 1`, each `di` an
identifier or an identifier, `=` and an assign-level expression), with a sink
attached, all allocations succeeding and enough fuel, `parse_stmt` returns
`VAR(DL)` where `DL` is the right-leaning `COMMA` chain of the declarators in
source order, a `;` after the list being consumed when there is one.  When instead
a declarator (the first, or one after a `,`) does not start with an identifier,
`parse_stmt` returns `NULL` and the last event of the sink is `FAIL(InvalidToken)`
at that token. -/
theorem var_statement (s s1 sb : pstate) (ds : List expr_t)
    (hh : s.heap = []) (hcb : s.cb = true) (hv : lex_token s = TOK_VAR) :
    (reads_vardefs (lex_match s TOK_VAR).2 ds s1 →
      ∃ N, ∀ m, N ≤ m → parse_stmt m s
        = some (stmt_1 STMT_VAR (right_chain EXPR_COMMA ds), (lex_match s1 CH_SEMI).2.allocs 1)) ∧
    (reads_vardefs_bad (lex_match s TOK_VAR).2 sb →
      ∃ N, ∀ m, N ≤ m → ∃ s', parse_stmt m s = some (stmt_t.NULL, s') ∧
        s'.events = sb.events ++
          [PARSE_FAIL ERR_InvalidToken (lex_position sb).1 (lex_position sb).2]) := by
  constructor
  · intro h
    obtain ⟨hn, hh1, hev⟩ := reads_vardefs_ev h (by simpa using hh)
    exact parse_stmt_of_var s _ hv (parse_stmt_var_ok s s1 _ hn hh1 hev)
  · intro h
    obtain ⟨s2, hev, hevents⟩ := reads_vardefs_bad_ev h (by simpa using hh) (by simpa using hcb)
    obtain ⟨N, hN⟩ := parse_stmt_of_var s _ hv (parse_stmt_var_null s s2 hev)
    exact ⟨N, fun m hm => ⟨s2, hN m hm, hevents⟩⟩

/-- Witness for C13: `var a = 1, b;` gives `VAR(COMMA(ASSIGN(ID a, NUM 1), ID b))`. -/
theorem var_statement_witness :
    ∃ N, ∀ m, N ≤ m → parse_stmt m (parse_session tokens_var_a_1_b [])
      = some (stmt_1 STMT_VAR (expr_binary EXPR_COMMA
          (expr_binary EXPR_ASSIGN (expr_leaf EXPR_ID "a") (expr_leaf EXPR_NUM "1"))
          (expr_leaf EXPR_ID "b")), (parse_session [] []).allocs 6) :=
  (var_statement (parse_session tokens_var_a_1_b [])
    ((parse_session (tokens_var_a_1_b.drop 6) []).allocs 5) (parse_session [] [])
    [expr_binary EXPR_ASSIGN (expr_leaf EXPR_ID "a") (expr_leaf EXPR_NUM "1"),
     expr_leaf EXPR_ID "b"] rfl rfl rfl).1
    (reads_vardefs.more _ ((parse_session (tokens_var_a_1_b.drop 4) []).allocs 3)
      ((parse_session (tokens_var_a_1_b.drop 6) []).allocs 4) _ _
      (reads_vardef.init 20 _ ((parse_session (tokens_var_a_1_b.drop 4) []).allocs 2) _
        rfl rfl rfl (by simp))
      rfl
      (reads_vardefs.last _ _ _ (reads_vardef.plain _ rfl (by decide)) (by decide)))

/-- C15. Empty statement list: when the current token is EOF or `}` and the node
allocation succeeds, `parse_stmt_list` (with any fuel from 2 on) returns a single
`PASS` statement without children or sibling; no token is consumed and the sink
receives nothing. -/
theorem empty_statement_list (m : Nat) (s : pstate) (hm : 2 ≤ m)
    (h : lex_token s = TOK_EOF ∨ lex_token s = CH_RBRACE)
    (ha : (heap_alloc s).1 = true) :
    ∃ s', parse_stmt_list m s
        = some (stmt_t.node STMT_PASS expr_t.NULL stmt_t.NULL stmt_t.NULL stmt_t.NULL, s') ∧
      s'.toks = s.toks ∧ s'.events = s.events := by
  obtain ⟨k, rfl⟩ : ∃ k, m = k + 2 := ⟨m - 2, by omega⟩
  refine ⟨(heap_alloc s).2, ?_, ?_, ?_⟩
  · rw [parse_stmt_list, parse_stmt_list_while]
    rcases h with h | h <;> simp [h, ast_stmt_alloc_0, ha]
  · unfold heap_alloc; split <;> rfl
  · unfold heap_alloc; split <;> rfl

/-- Witness for C15: on the stream `}` the list is a single `PASS` and the `}` is
still there. -/
theorem empty_statement_list_witness :
    ∃ s', parse_stmt_list 2 (parse_session [token_at CH_RBRACE 1 1 ""] [])
        = some (stmt_t.node STMT_PASS expr_t.NULL stmt_t.NULL stmt_t.NULL stmt_t.NULL, s') ∧
      s'.toks = [token_at CH_RBRACE 1 1 ""] ∧ s'.events = [] :=
  empty_statement_list 2 (parse_session [token_at CH_RBRACE 1 1 ""] []) (by decide)
    (Or.inr rfl) rfl

/-- C16 fails on the code: a list made only of `;` is not the empty list, and a `;`
directly before `}` is not skipped.  On `;` then the end of input `parse_stmt_list`
returns `NULL` after an `EOF` event, while on the empty input it returns `PASS`; on
`; }` it returns `NULL` after `FAIL(InvalidToken)` at the `}`, while on `}` it
returns `PASS`. -/
theorem semicolons_before_end_abort :
    parse_stmt_list 40 (parse_session tokens_semi [])
      = some (stmt_t.NULL,
          { toks := [], eof_line := 1, eof_col := 1, cb := true, events := [PARSE_EOF],
            heap := [], allocated := 0, released := 0 })
    ∧ parse_stmt_list 40 (parse_session [] [])
      = some (stmt_t.node STMT_PASS expr_t.NULL stmt_t.NULL stmt_t.NULL stmt_t.NULL,
          (parse_session [] []).allocs 1)
    ∧ parse_stmt_list 40 (parse_session tokens_semi_rbrace [])
      = some (stmt_t.NULL,
          { toks := [token_at CH_RBRACE 1 3 ""], eof_line := 1, eof_col := 1, cb := true,
            events := [PARSE_FAIL ERR_InvalidToken 1 3],
            heap := [], allocated := 0, released := 0 })
    ∧ parse_stmt_list 40 (parse_session [token_at CH_RBRACE 1 3 ""] [])
      = some (stmt_t.node STMT_PASS expr_t.NULL stmt_t.NULL stmt_t.NULL stmt_t.NULL,
          (parse_session [token_at CH_RBRACE 1 3 ""] []).allocs 1) :=
  ⟨rfl, rfl, rfl, rfl⟩

/-- C17. End of stream: when the current token is EOF and a sink is attached,
`parse_stmt` (with any fuel from 1 on) returns `NULL`, the sink receives exactly
one more event, `EOF`, and no token is consumed. -/
theorem end_of_stream (m : Nat) (s : pstate) (hm : 1 ≤ m)
    (h : lex_token s = TOK_EOF) (hcb : s.cb = true) :
    ∃ s', parse_stmt m s = some (stmt_t.NULL, s') ∧
      s'.events = s.events ++ [PARSE_EOF] ∧ s'.toks = s.toks ∧ nfail s' = nfail s := by
  obtain ⟨k, rfl⟩ : ∃ k, m = k + 1 := ⟨m - 1, by omega⟩
  refine ⟨parse_eof s, ?_, ?_, ?_, ?_⟩
  · rw [parse_stmt]
    simp [h]
  · simp [parse_eof, hcb]
  · simp [parse_eof, hcb]
  · simp

/-- Witness for C17: on the empty stream `parse_stmt` returns `NULL` after one
`EOF` event. -/
theorem end_of_stream_witness :
    ∃ s', parse_stmt 1 (parse_session [] []) = some (stmt_t.NULL, s') ∧
      s'.events = [] ++ [PARSE_EOF] ∧ s'.toks = [] ∧ nfail s' = nfail (parse_session [] []) :=
  end_of_stream 1 (parse_session [] []) (by decide) rfl rfl
/-- C18 fails on the code as stated: on `x += 1;` `parse_stmt` accepts `x` as a
statement of its own and leaves `+=` as the current token, and `parse_stmt_list`
returns `NULL` after a `FAIL` whose code is `InvalidToken`, not `InvalidLeftValue`. -/
theorem compound_assignment_not_invalid_left_value :
    parse_stmt 40 (parse_session tokens_x_addassign_1 [])
      = some (stmt_1 STMT_EXPR (expr_leaf EXPR_ID "x"),
          (parse_session (tokens_x_addassign_1.drop 1) []).allocs 2)
    ∧ parse_stmt_list 40 (parse_session tokens_x_addassign_1 [])
      = some (stmt_t.NULL,
          { toks := tokens_x_addassign_1.drop 1, eof_line := 1, eof_col := 1, cb := true,
            events := [PARSE_FAIL ERR_InvalidToken 1 3],
            heap := [], allocated := 2, released := 2 })
    ∧ [PARSE_FAIL ERR_InvalidToken 1 3] ≠ [PARSE_FAIL ERR_InvalidLeftValue 1 3] :=
  ⟨rfl, rfl, by decide⟩

/-- C18, amended.  For an identifier token `x` followed by a compound-assignment
token `op` (a sink attached, all allocations succeeding, enough fuel): `parse_stmt`
returns the statement `EXPR(ID x)` on its own, leaving `op` as the current token and
reporting nothing; `parse_stmt_list` then fails on the statement that would start at
`op`: it returns `NULL` and the sink receives one more event, `FAIL` with code
`InvalidToken` at the position of `op`. -/
theorem compound_assignment_invalid_token (s : pstate) (x op : token_t) (rest : List token_t)
    (hs : s.toks = x :: op :: rest) (hx : x.type = TOK_ID)
    (hop : op.type ∈ compound_assign_tokens) (hh : s.heap = []) (hcb : s.cb = true) :
    (∃ N, ∀ m, N ≤ m → parse_stmt m s
      = some (stmt_1 STMT_EXPR (expr_leaf EXPR_ID x.text), s.seek (op :: rest) 2)) ∧
    (∃ N, ∀ m, N ≤ m → ∃ s', parse_stmt_list m s = some (stmt_t.NULL, s') ∧
      s'.events = s.events ++ [PARSE_FAIL ERR_InvalidToken op.line op.col] ∧
      s'.toks = op :: rest) := by
  rw [pstate_eta_session s _ hh hcb hs, token_eta x _ hx]
  simp only [compound_assign_tokens, List.mem_cons, List.mem_singleton, List.mem_nil_iff,
    or_false] at hop
  rcases hop with h | h | h | h | h | h | h | h | h | h | h <;> rw [token_eta op _ h] <;>
  exact ⟨⟨20, fun m hm => parse_stmt_fuel_le hm _ _ rfl⟩,
    ⟨20, fun m hm => ⟨_, parse_stmt_list_fuel_le hm _ _ rfl, rfl, rfl⟩⟩⟩

/-- Witness for C18, amended: `x += 1;`. -/
theorem compound_assignment_invalid_token_witness :
    (∃ N, ∀ m, N ≤ m → parse_stmt m (parse_session tokens_x_addassign_1 [])
      = some (stmt_1 STMT_EXPR (expr_leaf EXPR_ID "x"),
          (parse_session tokens_x_addassign_1 []).seek (tokens_x_addassign_1.drop 1) 2)) ∧
    (∃ N, ∀ m, N ≤ m → ∃ s',
      parse_stmt_list m (parse_session tokens_x_addassign_1 []) = some (stmt_t.NULL, s') ∧
      s'.events = [] ++ [PARSE_FAIL ERR_InvalidToken 1 3] ∧
      s'.toks = tokens_x_addassign_1.drop 1) :=
  compound_assignment_invalid_token (parse_session tokens_x_addassign_1 [])
    (token_at TOK_ID 1 1 "x") (token_at TOK_ADDASSIGN 1 3 "") (tokens_x_addassign_1.drop 2)
    rfl rfl (by decide) rfl rfl

/-- C19 fails on the code as stated: for `1 = 2;` with `1` at column 1 and `=` at
column 3, the `FAIL(InvalidLeftValue)` event carries column 3, not column 1. -/
theorem invalid_assignment_not_at_column_one :
    parse_stmt_list 40 (parse_session tokens_one_eq_two [])
      = some (stmt_t.NULL,
          { toks := tokens_one_eq_two.drop 1, eof_line := 1, eof_col := 1, cb := true,
            events := [PARSE_FAIL ERR_InvalidLeftValue 1 3],
            heap := [], allocated := 1, released := 1 })
    ∧ [PARSE_FAIL ERR_InvalidLeftValue 1 3] ≠ [PARSE_FAIL ERR_InvalidLeftValue 1 1] :=
  ⟨rfl, by decide⟩

/-- C19, amended.  For a number token followed by `=` (a sink attached, all
allocations succeeding, enough fuel), `parse_stmt_list` returns `NULL` and the one
event the sink receives is `FAIL(InvalidLeftValue)` carrying the line and column of
the `=` token, the current token when the failure is detected. -/
theorem invalid_assignment_position (s : pstate) (a e : token_t) (rest : List token_t)
    (hs : s.toks = a :: e :: rest) (ha : a.type = TOK_NUM) (he : e.type = CH_ASSIGN)
    (hh : s.heap = []) (hcb : s.cb = true) :
    ∃ N, ∀ m, N ≤ m → ∃ s', parse_stmt_list m s = some (stmt_t.NULL, s') ∧
      s'.events = s.events ++ [PARSE_FAIL ERR_InvalidLeftValue e.line e.col] := by
  rw [pstate_eta_session s _ hh hcb hs, token_eta a _ ha, token_eta e _ he]
  exact ⟨20, fun m hm => ⟨_, parse_stmt_list_fuel_le hm _ _ rfl, rfl⟩⟩

/-- Witness for C19, amended: `1 = 2;` reports line 1, column 3. -/
theorem invalid_assignment_position_witness :
    ∃ N, ∀ m, N ≤ m → ∃ s',
      parse_stmt_list m (parse_session tokens_one_eq_two []) = some (stmt_t.NULL, s') ∧
      s'.events = [] ++ [PARSE_FAIL ERR_InvalidLeftValue 1 3] :=
  invalid_assignment_position (parse_session tokens_one_eq_two [])
    (token_at TOK_NUM 1 1 "1") (token_at CH_ASSIGN 1 3 "") (tokens_one_eq_two.drop 2)
    rfl rfl rfl rfl rfl

/-- C20 fails on the code as stated: the pattern of `+∞`, `0x7FF0000000000000`, has
bits 63..52 not all 1 (the sign bit is 0), and `val_is_number` is false on it. -/
theorem val_is_number_not_high12 :
    ¬ (val_is_number 0x7FF0000000000000 = true ↔
        ¬ high12_all_ones 0x7FF0000000000000 = true) := by
  decide

/-- C20, amended.  For every value `x`, `val_is_number x` is true if and only if
the 11 exponent bits of `x` (bits 62..52) are not all 1, whatever the sign bit; so
every 64-bit pattern of a finite double is a number, and the patterns of `+∞`
(`0x7FF0000000000000`) and `-∞` (`0xFFF0000000000000`) are not. -/
theorem val_is_number_iff_exponent (x : Nat) :
    (val_is_number x = true ↔ exponent_all_ones x = false) ∧
    val_is_number 0x7FF0000000000000 = false ∧ val_is_number 0xFFF0000000000000 = false := by
  refine ⟨?_, by decide, by decide⟩
  have h := and_TAG_INFINITE_iff x
  simp only [val_is_number, exponent_all_ones, bne_iff_ne, ne_eq, beq_eq_false_iff_ne]
  exact not_congr h

/-- C21 fails on the code as stated: on the pattern of `+∞`, `0x7FF0000000000000`, not
one of the fourteen predicates returns true. -/
theorem no_predicate_at_infinity :
    (val_predicates 0x7FF0000000000000).count true = 0 ∧
    ¬ ((val_predicates 0x7FF0000000000000).count true = 1) := by
  decide

/-- C21, amended.  For every value `v`, at most one of the fourteen predicates
returns true, and exactly one does unless the exponent bits of `v` are all 1 and
bits 63..48 of `v` are not one of the thirteen patterns `0xFFF1` to `0xFFFC`,
`0xFFFE` that a tagged predicate accepts; then none does (the patterns `0x7FF0` to
`0x7FFF`, `0xFFF0`, `0xFFFD`, `0xFFFF`: the infinities, the remaining NaN patterns
and the unused tags). -/
theorem value_tag_classification (v : Nat) :
    (val_predicates v).count true
      = if exponent_all_ones v = false ∨ val_top16 v ∈ assigned_tags then 1 else 0 := by
  rw [val_predicates_eq, count_predicates_of_top16, exponent_all_ones_eq]
  simp

/-- C22 fails on the code as stated: `0xFFF8000000000000` is a NaN bit pattern, the
number made of it is not a number for `val_is_number`, it is a NaN for `val_is_nan`,
and it is the very value `val_mk_nan()`. -/
theorem numeric_nan_is_tagged_nan :
    is_nan_pattern 0xFFF8000000000000 = true ∧
    val_is_number (val_mk_number 0xFFF8000000000000) = false ∧
    val_is_nan (val_mk_number 0xFFF8000000000000) = true ∧
    val_mk_number 0xFFF8000000000000 = val_mk_nan := by
  decide

/-- C22, amended.  For every IEEE-754 NaN bit pattern `d`, `val_mk_number d` is not a
number for `val_is_number`; it is a NaN for `val_is_nan` exactly when bits 63..48 of
`d` are `0xFFF8`; `val_mk_nan()` is not a number and is a NaN; and among 64-bit
patterns `val_mk_number d` is `val_mk_nan()` exactly for `d = 0xFFF8000000000000`. -/
theorem numeric_nan_versus_tagged_nan (d : Nat) (hd : is_nan_pattern d = true) :
    val_is_number (val_mk_number d) = false ∧
    (val_is_nan (val_mk_number d) = true ↔ val_top16 d = 0xFFF8) ∧
    val_is_number val_mk_nan = false ∧ val_is_nan val_mk_nan = true ∧
    (val_mk_number d = val_mk_nan ↔ d = 0xFFF8000000000000) := by
  refine ⟨?_, val_is_nan_iff d, by decide, by decide, ?_⟩
  · simp only [is_nan_pattern, Bool.and_eq_true] at hd
    have h := hd.1
    rw [exponent_all_ones_eq] at h
    rw [val_mk_number, val_is_number_eq]
    simpa using h
  · simp only [val_mk_number, val_mk_nan]
    have : TAG_NAN = 0xFFF8000000000000 := by decide
    rw [this]

/-- Witness for C22, amended: the positive quiet NaN `0x7FF8000000000000` is neither a
number nor a NaN for the predicates. -/
theorem numeric_nan_versus_tagged_nan_witness :
    is_nan_pattern 0x7FF8000000000000 = true ∧
    val_is_number (val_mk_number 0x7FF8000000000000) = false ∧
    ¬ (val_is_nan (val_mk_number 0x7FF8000000000000) = true) :=
  ⟨by decide, (numeric_nan_versus_tagged_nan 0x7FF8000000000000 (by decide)).1,
    fun h => absurd ((numeric_nan_versus_tagged_nan 0x7FF8000000000000 (by decide)).2.1.1 h)
      (by decide)⟩

/-- C23. Constructor and predicate round trip.  For every payload `p` with
`0 ≤ p < 2^48`, each of `val_mk_script`, `val_mk_native`, `val_mk_static_string`,
`val_mk_owned_string`, `val_mk_reference`, `val_mk_array`, `val_mk_dictionary` gives
a value whose top 12 bits are all 1, which satisfies its own predicate and no other
leaf predicate (the list is in the order number, undefined, nan, boolean, script,
native, static string, inline string, owned string, object, array, dictionary,
reference), and from which `val_2_intptr` reads `p` back.  `val_mk_undefined()`
satisfies only `val_is_undefined`, `val_mk_nan()` only `val_is_nan`, and
`val_mk_boolean b` only `val_is_boolean`, with payload 1 if `b ≠ 0` and 0 otherwise. -/
theorem constructor_round_trip (p : Int) (b : Int) (h0 : 0 ≤ p) (h1 : p < 2 ^ 48) :
    (val_leaf_predicates (val_mk_script p)
        = [false, false, false, false, true, false, false, false, false, false, false, false,
           false] ∧
      high12_all_ones (val_mk_script p) = true ∧ val_2_intptr (val_mk_script p) = p) ∧
    (val_leaf_predicates (val_mk_native p)
        = [false, false, false, false, false, true, false, false, false, false, false, false,
           false] ∧
      high12_all_ones (val_mk_native p) = true ∧ val_2_intptr (val_mk_native p) = p) ∧
    (val_leaf_predicates (val_mk_static_string p)
        = [false, false, false, false, false, false, true, false, false, false, false, false,
           false] ∧
      high12_all_ones (val_mk_static_string p) = true ∧
      val_2_intptr (val_mk_static_string p) = p) ∧
    (val_leaf_predicates (val_mk_owned_string p)
        = [false, false, false, false, false, false, false, false, true, false, false, false,
           false] ∧
      high12_all_ones (val_mk_owned_string p) = true ∧
      val_2_intptr (val_mk_owned_string p) = p) ∧
    (val_leaf_predicates (val_mk_reference p.toNat)
        = [false, false, false, false, false, false, false, false, false, false, false, false,
           true] ∧
      high12_all_ones (val_mk_reference p.toNat) = true ∧
      val_2_intptr (val_mk_reference p.toNat) = p) ∧
    (val_leaf_predicates (val_mk_array p.toNat)
        = [false, false, false, false, false, false, false, false, false, false, true, false,
           false] ∧
      high12_all_ones (val_mk_array p.toNat) = true ∧
      val_2_intptr (val_mk_array p.toNat) = p) ∧
    (val_leaf_predicates (val_mk_dictionary p.toNat)
        = [false, false, false, false, false, false, false, false, false, false, false, true,
           false] ∧
      high12_all_ones (val_mk_dictionary p.toNat) = true ∧
      val_2_intptr (val_mk_dictionary p.toNat) = p) ∧
    val_leaf_predicates val_mk_undefined
        = [false, true, false, false, false, false, false, false, false, false, false, false,
           false] ∧
    val_leaf_predicates val_mk_nan
        = [false, false, true, false, false, false, false, false, false, false, false, false,
           false] ∧
    (val_leaf_predicates (val_mk_boolean b)
        = [false, false, false, true, false, false, false, false, false, false, false, false,
           false] ∧
      val_2_intptr (val_mk_boolean b) = if b = 0 then 0 else 1) := by
  obtain ⟨hq, hqe⟩ := of_intptr_payload p h0 h1
  have hn : p.toNat < 2 ^ 48 ∧ (p.toNat : Int) = p := by omega
  have hm : p.toNat % 2 ^ 64 = p.toNat := Nat.mod_eq_of_lt (by omega)
  have t1 := tagged_value 0xFFF1 (of_intptr p) (by decide) hq
  have t2 := tagged_value 0xFFF2 (of_intptr p) (by decide) hq
  have t3 := tagged_value 0xFFF3 (of_intptr p) (by decide) hq
  have t5 := tagged_value 0xFFF5 (of_intptr p) (by decide) hq
  have tE := tagged_value 0xFFFE p.toNat (by decide) hn.1
  have tA := tagged_value 0xFFFA p.toNat (by decide) hn.1
  have tB := tagged_value 0xFFFB p.toNat (by decide) hn.1
  have tb := tagged_value 0xFFF7 (if b = 0 then 0 else 1) (by decide)
    (by split_ifs <;> decide)
  have e1 : TAG_FUNC_SCRIPT = 0xFFF1 * 2 ^ 48 := by decide
  have e2 : TAG_FUNC_NATIVE = 0xFFF2 * 2 ^ 48 := by decide
  have e3 : TAG_STRING_S = 0xFFF3 * 2 ^ 48 := by decide
  have e5 : TAG_STRING_O = 0xFFF5 * 2 ^ 48 := by decide
  have eE : TAG_REFERENCE = 0xFFFE * 2 ^ 48 := by decide
  have eA : TAG_ARRAY = 0xFFFA * 2 ^ 48 := by decide
  have eB : TAG_DICTIONARY = 0xFFFB * 2 ^ 48 := by decide
  have eb : TAG_BOOLEAN = 0xFFF7 * 2 ^ 48 := by decide
  simp only [val_mk_script, val_mk_native, val_mk_static_string, val_mk_owned_string,
    val_mk_reference, val_mk_array, val_mk_dictionary, val_mk_boolean, hm, e1, e2, e3, e5, eE,
    eA, eB, eb]
  refine ⟨⟨t1.1.trans (by decide), t1.2.1.trans (by decide), t1.2.2.1.trans hqe⟩,
    ⟨t2.1.trans (by decide), t2.2.1.trans (by decide), t2.2.2.1.trans hqe⟩,
    ⟨t3.1.trans (by decide), t3.2.1.trans (by decide), t3.2.2.1.trans hqe⟩,
    ⟨t5.1.trans (by decide), t5.2.1.trans (by decide), t5.2.2.1.trans hqe⟩,
    ⟨tE.1.trans (by decide), tE.2.1.trans (by decide), tE.2.2.1.trans hn.2⟩,
    ⟨tA.1.trans (by decide), tA.2.1.trans (by decide), tA.2.2.1.trans hn.2⟩,
    ⟨tB.1.trans (by decide), tB.2.1.trans (by decide), tB.2.2.1.trans hn.2⟩,
    by decide, by decide, tb.1.trans (by decide), ?_⟩
  rw [tb.2.2.1]
  split_ifs <;> rfl

/-- Witness for C23: the script value of payload `0x1234`. -/
theorem constructor_round_trip_witness :
    val_leaf_predicates (val_mk_script 0x1234)
        = [false, false, false, false, true, false, false, false, false, false, false, false,
           false] ∧
      high12_all_ones (val_mk_script 0x1234) = true ∧ val_2_intptr (val_mk_script 0x1234) = 0x1234 :=
  (constructor_round_trip 0x1234 1 (by decide) (by decide)).1

/-- C24 fails on the code as stated: `+∞` and `−∞` are doubles different from zero,
which the specification counts among the numbers, and `val_is_true` is 0 on both,
because `val_is_number` rejects every pattern whose exponent bits are all 1. -/
theorem infinity_is_not_true :
    (val_is_reference 0x7FF0000000000000 = false ∧
      double_ne_zero 0x7FF0000000000000 = true ∧
      val_is_number 0x7FF0000000000000 = false ∧
      val_is_true (fun _ => 0) 0x7FF0000000000000 = 0) ∧
    (val_is_reference 0xFFF0000000000000 = false ∧
      double_ne_zero 0xFFF0000000000000 = true ∧
      val_is_number 0xFFF0000000000000 = false ∧
      val_is_true (fun _ => 0) 0xFFF0000000000000 = 0) := by
  decide

/-- C24, amended.  Truthiness.  `val_is_true` of the boolean built by
`val_mk_boolean b` is its payload, 1 if `b ≠ 0` and 0 otherwise.  For every 64-bit
value `v` that is not a reference: if `v` passes `val_is_number`, that is if its
exponent bits are not all 1 and it is the pattern of a finite double, `val_is_true v`
is non-zero exactly when `v` is neither the bit pattern of `+0.0` nor that of `-0.0`;
if `v` neither passes `val_is_number` nor is a boolean, `val_is_true v` is 0.  In
particular it is 0 on `val_mk_undefined()`, on the tagged NaN `val_mk_nan()`, and on
the patterns of `+∞` and `−∞`. -/
theorem truthiness (mem : Nat → Nat) (v : Nat) (b : Int) (hv : v < 2 ^ 64)
    (hr : val_is_reference v = false) :
    val_is_true mem (val_mk_boolean b) = (if b = 0 then 0 else 1) ∧
    (val_is_number v = true →
      (val_is_true mem v ≠ 0 ↔ v ≠ 0 ∧ v ≠ 0x8000000000000000)) ∧
    (val_is_number v = true ↔ exponent_all_ones v = false) ∧
    (val_is_number v = false → val_is_boolean v = false → val_is_true mem v = 0) ∧
    val_is_true mem val_mk_undefined = 0 ∧
    val_is_true mem val_mk_nan = 0 ∧
    val_is_true mem 0x7FF0000000000000 = 0 ∧
    val_is_true mem 0xFFF0000000000000 = 0 := by
  refine ⟨val_is_true_of_boolean mem b, ?_, ?_,
    fun hn hb => val_is_true_of_other mem v hr hb hn,
    val_is_true_of_other mem _ (by decide) (by decide) (by decide),
    val_is_true_of_other mem _ (by decide) (by decide) (by decide),
    val_is_true_of_other mem _ (by decide) (by decide) (by decide),
    val_is_true_of_other mem _ (by decide) (by decide) (by decide)⟩
  · intro hn
    rw [val_is_true_of_number mem v hn]
    unfold double_ne_zero
    by_cases h : v % 2 ^ 63 = 0
    · simp only [h, bne_self_eq_false, Bool.false_eq_true, if_false, ne_eq, not_true_eq_false,
        false_iff, not_and_or, not_not]
      omega
    · have h' : (v % 2 ^ 63 != 0) = true := by simpa using h
      simp only [h', if_true, ne_eq, one_ne_zero, not_false_eq_true, true_iff]
      omega
  · rw [val_is_number_iff, exponent_all_ones_eq]
    simp

/-- Witness for C24, amended: the number `1.0`, of bit pattern `0x3FF0000000000000`,
is true. -/
theorem truthiness_witness :
    0x3FF0000000000000 < 2 ^ 64 ∧ val_is_reference 0x3FF0000000000000 = false ∧
    val_is_number 0x3FF0000000000000 = true ∧
    val_is_true (fun _ => 0) 0x3FF0000000000000 ≠ 0 :=
  ⟨by decide, by decide, by decide,
    ((truthiness (fun _ => 0) 0x3FF0000000000000 5 (by decide) (by decide)).2.1
      (by decide)).2 ⟨by decide, by decide⟩⟩

/-- C25 fails on the code.  `val_2_intptr` and `val_2_reference` mask the value with
`VAR_MASK` and nothing else, so they give bits 47..0 of the value zero-extended, for
every value `v`.  On the reference `0xFFFE800000000000`, whose payload has bit 47
set, they give `2^47`, while the payload sign-extended from bit 47 is `-2^47`, the
pattern `0xFFFF800000000000`. -/
theorem pointer_payload_zero_extended :
    (∀ v : Nat, val_2_intptr v = ((v % 2 ^ 48 : Nat) : Int) ∧ val_2_reference v = v % 2 ^ 48) ∧
    val_is_reference 0xFFFE800000000000 = true ∧
    val_2_intptr 0xFFFE800000000000 = 2 ^ 47 ∧
    val_2_reference 0xFFFE800000000000 = 0x800000000000 ∧
    payload_sign_extended 0xFFFE800000000000 = -2 ^ 47 ∧
    of_intptr (payload_sign_extended 0xFFFE800000000000) = 0xFFFF800000000000 ∧
    val_2_intptr 0xFFFE800000000000 ≠ payload_sign_extended 0xFFFE800000000000 := by
  refine ⟨fun v => ⟨?_, and_VAR_MASK v⟩, by decide, by decide, by decide, by decide, by decide,
    by decide⟩
  rw [val_2_intptr, and_VAR_MASK]
  exact to_intptr_payload _ (Nat.mod_lt _ (by decide))

/-- C26. Predicates never overlap.  For every value `v`, at most one of the thirteen
leaf predicates (number, undefined, nan, boolean, script, native, static string,
inline string, owned string, object, array, dictionary, reference) is true; if
`val_is_number v` then every tagged predicate is false; `val_is_string` is the
disjunction of the owned, static and inline string predicates and `val_is_function`
that of the script and native predicates. -/
theorem predicates_never_overlap (v : Nat) :
    (val_leaf_predicates v).count true ≤ 1 ∧
    (val_is_number v = true →
      val_leaf_predicates v
        = [true, false, false, false, false, false, false, false, false, false, false, false,
           false]) ∧
    (val_is_string v = true ↔
      val_is_owned_string v = true ∨ val_is_static_string v = true ∨
        val_is_inline_string v = true) ∧
    (val_is_function v = true ↔ val_is_script v = true ∨ val_is_native v = true) := by
  refine ⟨?_, ?_, ?_, ?_⟩
  · rw [val_leaf_predicates_eq]
    exact count_leaf_predicates_of_top16 _
  · intro h
    rw [val_leaf_predicates_eq]
    exact leaf_predicates_of_number _ ((val_is_number_iff v).1 h)
  · simp only [val_is_string, Bool.or_eq_true, or_assoc]
  · simp only [val_is_function, Bool.or_eq_true]

/-- Witness for C26: the number `1.0`, of bit pattern `0x3FF0000000000000`, satisfies
`val_is_number` and no tagged predicate. -/
theorem predicates_never_overlap_witness :
    val_is_number 0x3FF0000000000000 = true ∧
    val_leaf_predicates 0x3FF0000000000000
      = [true, false, false, false, false, false, false, false, false, false, false, false,
         false] :=
  ⟨by decide, (predicates_never_overlap 0x3FF0000000000000).2.1 (by decide)⟩

/-- C27. Termination and progress.  On every token stream `s.toks` (after which the
lexer yields `TOK_EOF` forever) and with any fuel of at least fifty times the number
of remaining tokens plus fifty, so a recursion depth linear in the number of
remaining tokens, `parse_expr`, `parse_stmt` and `parse_stmt_list` return; none of
them gives a token back to the stream; every non-null result of `parse_expr` or
`parse_stmt` has consumed at least one token; and the statement that an iteration of
the `parse_stmt_list` loop parses after the semicolons, if it is not null, leaves the
stream strictly shorter than it was at the start of the iteration. -/
theorem termination_and_progress (s : pstate) (k : Nat) :
    (∃ e s', parse_expr (50 * (s.toks.length + 1) + k) s = some (e, s') ∧
      s'.toks.length ≤ s.toks.length ∧
      (e.is_null = false → s'.toks.length < s.toks.length)) ∧
    (∃ st s', parse_stmt (50 * (s.toks.length + 1) + k) s = some (st, s') ∧
      s'.toks.length ≤ s.toks.length ∧
      (st.is_null = false → s'.toks.length < s.toks.length)) ∧
    (∃ st s', parse_stmt_list (50 * (s.toks.length + 1) + k) s = some (st, s') ∧
      s'.toks.length ≤ s.toks.length) ∧
    (∃ st s', parse_stmt (50 * (s.toks.length + 1) + k)
        { s with toks := lex_match_semicolons s.toks } = some (st, s') ∧
      (st.is_null = false → s'.toks.length < s.toks.length)) := by
  have h := all_tot (50 * (s.toks.length + 1) + k)
  have hs := remaining_lex_match_semicolons s
  have h1 := h.parse_expr s (by unfold remaining; omega)
  have h2 := h.parse_stmt s (by unfold remaining; omega)
  have h3 := h.parse_stmt_list s (by unfold remaining; omega)
  have h4 := h.parse_stmt { s with toks := lex_match_semicolons s.toks }
    (by unfold remaining at *; omega)
  obtain ⟨e1, s1, q1, p1⟩ := h1
  obtain ⟨e2, s2, q2, p2⟩ := h2
  obtain ⟨e3, s3, q3, p3⟩ := h3
  obtain ⟨e4, s4, q4, p4⟩ := h4
  unfold EProg remaining at p1
  unfold SProg remaining at p2 p4
  unfold remaining at p3 hs
  exact ⟨⟨e1, s1, q1, p1⟩, ⟨e2, s2, q2, p2⟩, ⟨e3, s3, q3, p3⟩,
    ⟨e4, s4, q4, fun hn => Nat.lt_of_lt_of_le (p4.2 hn) hs⟩⟩

/-- Witness for C27: on `a + b`, with fuel 200, `parse_expr` returns the node
`ADD(ID a, ID b)`, which is not null, and has consumed the three tokens. -/
theorem termination_and_progress_witness :
    ∃ e s', parse_expr 200 (parse_session tokens_a_plus_b []) = some (e, s') ∧
      e = expr_binary EXPR_ADD (expr_leaf EXPR_ID "a") (expr_leaf EXPR_ID "b") ∧
      e.is_null = false ∧ s'.toks.length < tokens_a_plus_b.length := by
  obtain ⟨e, s', h, _, h2⟩ :=
    (termination_and_progress (parse_session tokens_a_plus_b []) 0).1
  have h0 : parse_expr 200 (parse_session tokens_a_plus_b [])
      = some (expr_binary EXPR_ADD (expr_leaf EXPR_ID "a") (expr_leaf EXPR_ID "b"),
          (parse_session [] []).allocs 3) := rfl
  have h' : parse_expr 200 (parse_session tokens_a_plus_b []) = some (e, s') := h
  have he : e = expr_binary EXPR_ADD (expr_leaf EXPR_ID "a") (expr_leaf EXPR_ID "b") :=
    (congrArg Prod.fst (Option.some.inj (h'.symm.trans h0)))
  have hn : e.is_null = false := by rw [he]; rfl
  exact ⟨e, s', h', he, hn, h2 hn⟩
